import Mathlib

/-!
# WT1231 forward solver: Stehfest inversion and Laplace-space composite model

Shallow embedding of `modelsolver01_06.cpp` (with the helpers of `modelmanager.cpp` and
`wt_modelwidget.cpp` that feed it) and of the fit-parameter list of
`fittingparameterchart.cpp`.

Conventions of the embedding.

* A C++ `double` is an element of an arbitrary linearly ordered field `α` (exact arithmetic:
  rounding, overflow and underflow of the floating-point format are not modelled).  All
  definitions are computable and can be run at `α = ℚ`; theorems hold for every `α`, in
  particular for `ℝ`.
* A C++ `int` is an `Int` (the range of `int` is not modelled: signed overflow is undefined
  in the source).  Integer `/` and `%` are the truncating `Int.tdiv` and `Int.tmod`.
* Functions of the C/C++ maths libraries (`pow`, `log`, `exp`, `sqrt`, the Boost Bessel
  functions, the Eigen solver) and the derivative collaborator are parameters.
* `QString::toDouble` is a parameter `String → Option α` (`none` when `ok` is false); the
  widgets of the user interface are not modelled, only the values read from and written to
  them.
* A division whose divisor is not protected by a guard in the source returns `none` when the
  divisor is zero (`fdiv`): `none` stands for the non-finite values (NaN, ±Inf) that the
  source itself tests for with `std::isnan`/`std::isinf`.
* Traces (`laplaceCalls`, `adaptiveGaussCalls`, `PWD_divisors`, `flaplace_divisors`) record
  what the code does on the way (the calls it makes, the denominators it divides by); they
  follow the same tests as the functions they accompany and do not enter any result.
-/

namespace WT

variable {α : Type} [LinearOrderedField α]

/-! ## Basic vocabulary -/

/-- The enumeration `ModelType` of `modelenums.h`. -/
inductive ModelType where
  | Model_1
  | Model_2
  | Model_3
  | Model_4
  | Model_5
  | Model_6
  deriving DecidableEq, Repr

/-- A `QMap<QString, double>`: association list from parameter name to value. -/
abbrev Params (α : Type) := List (String × α)

/-- The call `params.value(key, dflt)` of `QMap`. -/
def value (p : Params α) (key : String) (dflt : α) : α :=
  (p.lookup key).getD dflt

/-- The cast `(int)x` of a `double`: truncation toward zero. -/
def toInt [FloorRing α] (x : α) : Int :=
  if 0 ≤ x then Int.floor x else Int.ceil x

/-- The loop `for (int k = lo; k <= hi; ++k) s = body(k, s);` started in state `s`. -/
def forLoop {σ : Type} (lo hi : Int) (body : Int → σ → σ) (s : σ) : σ :=
  (List.range (hi + 1 - lo).toNat).foldl (fun acc (n : ℕ) => body (lo + (n : Int)) acc) s

/-- Division by a divisor the source does not guard: a zero divisor gives a non-finite
value, written `none`. -/
def fdiv (x y : α) : Option α :=
  if y = 0 then none else some (x / y)

/-! ## Stehfest coefficients (`modelsolver01_06.cpp`, lines 316-335) -/

/-- The function `ModelSolver01_06::factorial`. -/
def factorial (n : Int) : α :=
  if n ≤ 1 then 1 else forLoop 2 n (fun i r => r * (i : α)) 1

/-- The function `ModelSolver01_06::stefestCoefficient`; `pow` is `std::pow`. -/
def stefestCoefficient (pow : α → α → α) (i N : Int) : α :=
  let k1 := Int.tdiv (i + 1) 2
  let k2 := min i (Int.tdiv N 2)
  let s := forLoop k1 k2 (fun k s =>
    let num := pow (k : α) ((N : α) / 2) * factorial (2 * k)
    let den := factorial (Int.tdiv N 2 - k) * factorial k * factorial (k - 1)
      * factorial (i - k) * factorial (2 * k - i)
    if den ≠ 0 then s + num / den else s) 0
  (if Int.tmod (i + Int.tdiv N 2) 2 = 0 then 1 else -1) * s

/-- One term of the Stehfest combinatorial formula, as the specification writes it:
`k^(N/2)·(2k)! / [(N/2−k)!·k!·(k−1)!·(m−k)!·(2k−m)!]`. -/
def stehfestTerm (m N k : ℕ) : α :=
  ((k : α) ^ (N / 2) * ((2 * k).factorial : α)) /
    (((N / 2 - k).factorial : α) * (k.factorial : α) * ((k - 1).factorial : α)
      * ((m - k).factorial : α) * ((2 * k - m).factorial : α))

/-- The coefficient as the specification words it: sign `(−1)^(m+N/2)` times the sum of the
terms for `k` from `⌈(m+1)/2⌉` to `min(m, N/2)`. -/
def stehfestSpec (m N : ℕ) : α :=
  (-1) ^ (m + N / 2) *
    ∑ k in Finset.Icc (Nat.ceil (((m : ℚ) + 1) / 2)) (min m (N / 2)), stehfestTerm m N k

/-! ## Numerical Laplace inversion (`calculatePDandDeriv`, lines 77-129) -/

/-- Lines 89-92 of `calculatePDandDeriv`: the Stehfest term count `N`. -/
def stehfestN [FloorRing α] (params : Params α) (highPrecision : Bool) : Int :=
  let N_param := toInt (value params "N" 4)
  let N := if highPrecision then N_param else 4
  if Int.tmod N 2 ≠ 0 then 4 else N

/-- Line 278 of `WT_ModelWidget::runCalculation`: `baseParams["N"] = m_highPrecision ? 8.0 : 4.0`
(assignment into the `QMap`, replacing any earlier entry). -/
def setN (baseParams : Params α) (m_highPrecision : Bool) : Params α :=
  ("N", if m_highPrecision then 8 else 4) :: baseParams.filter (fun kv => kv.1 != "N")

/-- Lines 102-111: the inner loop over `m = 1..N`.  The first component is `pd_val`; the
second records, in order, the arguments at which `laplaceFunc` was called.  A result of
`laplaceFunc` that is NaN or infinite (`none`) is replaced by `0`. -/
def stehfestSum (pow : α → α → α) (laplaceFunc : α → Params α → Option α) (params : Params α)
    (N : Int) (ln2 t : α) : α × List α :=
  forLoop 1 N (fun m st =>
    let z := (m : α) * ln2 / t
    let pf := match laplaceFunc z params with
      | none => 0
      | some v => v
    (st.1 + stefestCoefficient pow m N * pf, st.2 ++ [z])) (0, [])

/-- Lines 114-120: the stress-sensitivity correction of one raw inverted pressure. -/
def pressureSensitivity (log : α → α) (gamaD p : α) : α :=
  if |gamaD| > 1e-9 then
    let arg := 1 - gamaD * p
    if arg > 1e-12 then -1 / gamaD * log arg else p
  else p

/-- Lines 99-120: the body of the loop over the time points, for one time `t`.  The second
component records the arguments at which `laplaceFunc` was called for this point. -/
def inversionPoint (pow : α → α → α) (log : α → α) (laplaceFunc : α → Params α → Option α)
    (params : Params α) (N : Int) (gamaD t : α) : α × List α :=
  if t ≤ 1e-12 then (0, [])
  else
    let ln2 := log 2
    let r := stehfestSum pow laplaceFunc params N ln2 t
    (pressureSensitivity log gamaD (r.1 * ln2 / t), r.2)

/-- The function `ModelSolver01_06::calculatePDandDeriv`: returns `(outPD, outDeriv)`;
`bourdet` is `PressureDerivativeCalculator::calculateBourdetDerivative`. -/
def calculatePDandDeriv [FloorRing α] (pow : α → α → α) (log : α → α)
    (bourdet : List α → List α → α → List α) (tD : List α) (params : Params α)
    (laplaceFunc : α → Params α → Option α) (highPrecision : Bool) : List α × List α :=
  let numPoints := tD.length
  let N := stehfestN params highPrecision
  let gamaD := value params "gamaD" 0
  let outPD := tD.map (fun t => (inversionPoint pow log laplaceFunc params N gamaD t).1)
  let outDeriv := if numPoints > 2 then bourdet tD outPD 0.1 else List.replicate numPoints 0
  (outPD, outDeriv)

/-- The arguments at which `calculatePDandDeriv` calls `laplaceFunc`, one list per time
point. -/
def laplaceCalls [FloorRing α] (pow : α → α → α) (log : α → α) (tD : List α)
    (params : Params α) (laplaceFunc : α → Params α → Option α) (highPrecision : Bool) :
    List (List α) :=
  let N := stehfestN params highPrecision
  let gamaD := value params "gamaD" 0
  tD.map (fun t => (inversionPoint pow log laplaceFunc params N gamaD t).2)

/-! ## External numerical functions -/

/-- The functions of the C++ maths library, of Boost and of Eigen, and the derivative
collaborator, that the solver calls. -/
structure MathEnv (α : Type) where
  /-- The function `std::pow`. -/
  pow : α → α → α
  /-- The function `std::log`. -/
  log : α → α
  /-- The function `std::exp`. -/
  exp : α → α
  /-- The function `std::sqrt`. -/
  sqrt : α → α
  /-- The function `boost::math::cyl_bessel_k(v, x)`. -/
  cyl_bessel_k : Int → α → α
  /-- The function `boost::math::cyl_bessel_i(v, x)`. -/
  cyl_bessel_i : Int → α → α
  /-- The call `A.fullPivLu().solve(b)` of Eigen on an `n × n` matrix. -/
  fullPivLuSolve : (n : ℕ) → Matrix (Fin n) (Fin n) α → (Fin n → α) → (Fin n → α)
  /-- The function `PressureDerivativeCalculator::calculateBourdetDerivative`. -/
  calculateBourdetDerivative : List α → List α → α → List α

/-! ## Special functions and quadrature (`modelsolver01_06.cpp`, lines 286-314) -/

/-- The constant `M_PI` defined at line 22. -/
def M_PI : α := 3.14159265358979323846

/-- The function `ModelSolver01_06::scaled_besseli`. -/
def scaled_besseli (E : MathEnv α) (v : Int) (x : α) : α :=
  let x := if x < 0 then -x else x
  if x > 600.0 then 1.0 / E.sqrt (2.0 * M_PI * x)
  else E.cyl_bessel_i v x * E.exp (-x)

/-- The table `X` of `gauss15`. -/
def gaussX : List α :=
  [0.0, 0.201194, 0.394151, 0.570972, 0.724418, 0.848207, 0.937299, 0.987993]

/-- The table `W` of `gauss15`. -/
def gaussW : List α :=
  [0.202578, 0.198431, 0.186161, 0.166269, 0.139571, 0.107159, 0.070366, 0.030753]

/-- The function `ModelSolver01_06::gauss15`. -/
def gauss15 (f : α → α) (a b : α) : α :=
  let h := 0.5 * (b - a)
  let c := 0.5 * (a + b)
  let s := gaussW.getD 0 0 * f c
  let s := forLoop 1 7 (fun i s =>
    let dx := h * gaussX.getD i.toNat 0
    s + gaussW.getD i.toNat 0 * (f (c - dx) + f (c + dx))) s
  s * h

/-- The function `ModelSolver01_06::adaptiveGauss`. -/
def adaptiveGauss (f : α → α) (a b eps : α) (depth maxDepth : Int) : α :=
  let c := (a + b) / 2.0
  let v1 := gauss15 f a b
  let v2 := gauss15 f a c + gauss15 f c b
  if depth ≥ maxDepth ∨ |v1 - v2| < 1e-10 * |v2| + eps then v2
  else adaptiveGauss f a c (eps / 2) (depth + 1) maxDepth
    + adaptiveGauss f c b (eps / 2) (depth + 1) maxDepth
termination_by (maxDepth - depth).toNat
decreasing_by
  all_goals simp_wf
  all_goals omega

/-! ## Laplace-space composite model (`modelsolver01_06.cpp`, lines 131-284) -/

/-- Lines 202-232 of `PWD_composite`: the outer-boundary terms
`(term_mAB_i0, term_mAB_i1)`. -/
def outerBoundaryTerms (E : MathEnv α) (gama2 arg_g2_rm reD : α) (type : ModelType) : α × α :=
  let isInfinite := (type = ModelType.Model_1 ∨ type = ModelType.Model_2)
  let isClosed := (type = ModelType.Model_3 ∨ type = ModelType.Model_4)
  let isConstP := (type = ModelType.Model_5 ∨ type = ModelType.Model_6)
  if ¬ isInfinite then
    let arg_re := gama2 * reD
    let i1_re_s := scaled_besseli E 1 arg_re
    let i0_re_s := scaled_besseli E 0 arg_re
    let k1_re := E.cyl_bessel_k 1 arg_re
    let k0_re := E.cyl_bessel_k 0 arg_re
    let i0_g2_s := scaled_besseli E 0 arg_g2_rm
    let i1_g2_s := scaled_besseli E 1 arg_g2_rm
    if isClosed then
      if i1_re_s > 1e-100 then
        ((k1_re / i1_re_s) * i0_g2_s * E.exp (arg_g2_rm - arg_re),
         (k1_re / i1_re_s) * i1_g2_s * E.exp (arg_g2_rm - arg_re))
      else (0.0, 0.0)
    else if isConstP then
      if i0_re_s > 1e-100 then
        (-(k0_re / i0_re_s) * i0_g2_s * E.exp (arg_g2_rm - arg_re),
         -(k0_re / i0_re_s) * i1_g2_s * E.exp (arg_g2_rm - arg_re))
      else (0.0, 0.0)
    else (0.0, 0.0)
  else (0.0, 0.0)

/-- Lines 258-269 of `PWD_composite`: the kernel `integrand` for the fracture pair `(i, j)`. -/
def integrand (E : MathEnv α) (gama1 arg_g1_rm Ac_prefactor : α) (xwD ywD : List α)
    (i j : ℕ) (a : α) : α :=
  let dist := E.sqrt (E.pow (xwD.getD i 0 - xwD.getD j 0 - a) 2
    + E.pow (ywD.getD i 0 - ywD.getD j 0) 2)
  let arg_dist := gama1 * dist
  let arg_dist := if arg_dist < 1e-10 then 1e-10 else arg_dist
  let exponent := arg_dist - arg_g1_rm
  let term2_val :=
    if exponent > -700.0 then Ac_prefactor * scaled_besseli E 0 arg_dist * E.exp exponent
    else 0.0
  E.cyl_bessel_k 0 arg_dist + term2_val

/-- Lines 271-272 of `PWD_composite`: the matrix entry `A_mat(i, j)` for `i, j < nf`; the
divisor `M12 * z * 2 * LfD` is not guarded. -/
def fractureEntry (E : MathEnv α) (z M12 LfD gama1 arg_g1_rm Ac_prefactor : α)
    (xwD ywD : List α) (i j : ℕ) : Option α :=
  let val := adaptiveGauss (integrand E gama1 arg_g1_rm Ac_prefactor xwD ywD i j)
    (-LfD) LfD 1e-5 0 10
  fdiv (z * val) (M12 * z * 2 * LfD)

/-- Lines 249-250 and 255-280 of `PWD_composite`: the matrix `A_mat` of size `nf + 1`, from
the values `entry i j` of the fracture block: the last column of a fracture row is `-1`, the
last row is `z` on the fracture columns and `0` in the corner. -/
def systemMatrix (z : α) (n : ℕ) (entry : ℕ → ℕ → α) : Matrix (Fin (n + 1)) (Fin (n + 1)) α :=
  fun r c =>
    if r.val < n then (if c.val < n then entry r.val c.val else -1.0)
    else (if c.val < n then z else 0.0)

/-- Lines 251-253 of `PWD_composite`: the right-hand side `b_vec`, zero except
`b_vec(nf) = 1`. -/
def systemRhs (n : ℕ) : Fin (n + 1) → α :=
  fun r => if r.val = n then 1.0 else 0

/-- Lines 198-200 and 234-237 of `PWD_composite`: the numerator `Acup` of the coupling
coefficient. -/
def couplingNumerator (E : MathEnv α) (M12 gama1 gama2 arg_g2_rm arg_g1_rm : α)
    (terms : α × α) : α :=
  let k0_g2 := E.cyl_bessel_k 0 arg_g2_rm
  let k1_g2 := E.cyl_bessel_k 1 arg_g2_rm
  let k1_g1 := E.cyl_bessel_k 1 arg_g1_rm
  let term1 := terms.1 + k0_g2
  let term2 := terms.2 - k1_g2
  M12 * gama1 * k1_g1 * term1 + gama2 * E.cyl_bessel_k 0 arg_g1_rm * term2

/-- Lines 234-235 and 239-244 of `PWD_composite`: the denominator `Acdown_scaled` of the
coupling coefficient, floored at `1e-100`. -/
def couplingDenominator (E : MathEnv α) (M12 gama1 gama2 arg_g2_rm arg_g1_rm : α)
    (terms : α × α) : α :=
  let k0_g2 := E.cyl_bessel_k 0 arg_g2_rm
  let k1_g2 := E.cyl_bessel_k 1 arg_g2_rm
  let term1 := terms.1 + k0_g2
  let term2 := terms.2 - k1_g2
  let i1_g1_s := scaled_besseli E 1 arg_g1_rm
  let i0_g1_s := scaled_besseli E 0 arg_g1_rm
  let Acdown_scaled := M12 * gama1 * i1_g1_s * term1 - gama2 * i0_g1_s * term2
  if |Acdown_scaled| < 1e-100 then 1e-100 else Acdown_scaled

/-- Line 246 of `PWD_composite`: the coupling coefficient `Ac_prefactor`. -/
def couplingPrefactor (E : MathEnv α) (M12 gama1 gama2 arg_g2_rm arg_g1_rm : α)
    (terms : α × α) : α :=
  couplingNumerator E M12 gama1 gama2 arg_g2_rm arg_g1_rm terms
    / couplingDenominator E M12 gama1 gama2 arg_g2_rm arg_g1_rm terms

/-- Lines 190 and 255-273 of `PWD_composite`: the entry `A_mat(i, j)` of the fracture block,
from the outer-boundary terms. -/
def PWD_entries (E : MathEnv α) (z M12 LfD gama1 gama2 arg_g2_rm arg_g1_rm : α) (nf : Int)
    (xwD : List α) (terms : α × α) (i j : ℕ) : Option α :=
  let ywD : List α := List.replicate nf.toNat 0.0
  let Ac_prefactor := couplingPrefactor E M12 gama1 gama2 arg_g2_rm arg_g1_rm terms
  fractureEntry E z M12 LfD gama1 arg_g1_rm Ac_prefactor xwD ywD i j

/-- Lines 234-283 of `PWD_composite`: from the outer-boundary terms to the returned
pressure. -/
def PWD_solve (E : MathEnv α) (z M12 LfD gama1 gama2 arg_g2_rm arg_g1_rm : α) (nf : Int)
    (xwD : List α) (terms : α × α) : Option α :=
  let n := nf.toNat
  let entry := PWD_entries E z M12 LfD gama1 gama2 arg_g2_rm arg_g1_rm nf xwD terms
  if (List.range n).all (fun i => (List.range n).all (fun j => (entry i j).isSome)) then
    let A_mat := systemMatrix z n (fun i j => (entry i j).getD 0)
    let b_vec : Fin (n + 1) → α := systemRhs n
    some (E.fullPivLuSolve (n + 1) A_mat b_vec (Fin.last n))
  else none

/-- The matrix `A_mat` that `PWD_composite` assembles for its arguments (a non-finite entry
read as `0`). -/
def PWD_matrix (E : MathEnv α) (z fs1 fs2 M12 LfD rmD reD : α) (nf : Int)
    (xwD : List α) (type : ModelType) : Matrix (Fin (nf.toNat + 1)) (Fin (nf.toNat + 1)) α :=
  let gama1 := E.sqrt (z * fs1)
  let gama2 := E.sqrt (z * fs2)
  let arg_g2_rm := gama2 * rmD
  let arg_g1_rm := gama1 * rmD
  systemMatrix z nf.toNat (fun i j =>
    (PWD_entries E z M12 LfD gama1 gama2 arg_g2_rm arg_g1_rm nf xwD
      (outerBoundaryTerms E gama2 arg_g2_rm reD type) i j).getD 0)

/-- The function `ModelSolver01_06::PWD_composite`.  The result is `none` when an entry of the
matrix is not finite (zero divisor). -/
def PWD_composite (E : MathEnv α) (z fs1 fs2 M12 LfD rmD reD : α) (nf : Int)
    (xwD : List α) (type : ModelType) : Option α :=
  let gama1 := E.sqrt (z * fs1)
  let gama2 := E.sqrt (z * fs2)
  let arg_g2_rm := gama2 * rmD
  let arg_g1_rm := gama1 * rmD
  PWD_solve E z M12 LfD gama1 gama2 arg_g2_rm arg_g1_rm nf xwD
    (outerBoundaryTerms E gama2 arg_g2_rm reD type)

/-- Lines 142-143 of `flaplace_composite`: the fracture count `nf`. -/
def fractureCount [FloorRing α] (p : Params α) : Int :=
  let nf := toInt (value p "nf" 4)
  if nf < 1 then 1 else nf

/-- Lines 147-156 of `flaplace_composite`: the fracture positions `xwD` for the count `nf`. -/
def fracturePositions (nf : Int) : List α :=
  if nf = 1 then [0.0]
  else
    let start : α := -0.9
    let endV : α := 0.9
    let step := (endV - start) / ((nf - 1 : Int) : α)
    forLoop 0 (nf - 1) (fun i xwD => xwD ++ [start + (i : α) * step]) []

/-- Lines 133-164 of `flaplace_composite`: the pressure before the storage and skin
correction.  The divisions `kf / km` and `remda1 * temp / (remda1 + z * temp)` are not
guarded. -/
def flaplace_pre [FloorRing α] (E : MathEnv α) (z : α) (p : Params α) (type : ModelType) :
    Option α :=
  let kf := value p "kf" 0
  let km := value p "km" 0
  let LfD := value p "LfD" 0
  let rmD := value p "rmD" 0
  let reD := value p "reD" 0.0
  let omga1 := value p "omega1" 0
  let omga2 := value p "omega2" 0
  let remda1 := value p "lambda1" 0
  let nf := fractureCount p
  (fdiv kf km).bind fun M12 =>
  let xwD : List α := fracturePositions nf
  let temp := omga2
  (fdiv (remda1 * temp) (remda1 + z * temp)).bind fun q =>
  let fs1 := omga1 + q
  let fs2 := M12 * temp
  PWD_composite E z fs1 fs2 M12 LfD rmD reD nf xwD type

/-- Lines 166-182 of `flaplace_composite`: the storage and skin (Duhamel) correction of the
pressure `pf`.  The divisor of the correction is not guarded. -/
def storageSkin (z : α) (p : Params α) (type : ModelType) (pf : α) : Option α :=
  let hasStorage := (type = ModelType.Model_1 ∨ type = ModelType.Model_3
    ∨ type = ModelType.Model_5)
  if hasStorage then
    let CD := value p "cD" 0.0
    let S := value p "S" 0.0
    if CD > 1e-12 ∨ |S| > 1e-12 then fdiv (z * pf + S) (z + CD * z * z * (z * pf + S))
    else some pf
  else some pf

/-- The function `ModelSolver01_06::flaplace_composite`. -/
def flaplace_composite [FloorRing α] (E : MathEnv α) (z : α) (p : Params α)
    (type : ModelType) : Option α :=
  (flaplace_pre E z p type).bind (storageSkin z p type)

/-! ## Forward-curve orchestrator (`modelsolver01_06.cpp`, lines 25-75) -/

/-- The function `ModelManager::generateLogTimeSteps` (`modelmanager.cpp`, lines 102-112). -/
def generateLogTimeSteps (pow : α → α → α) (nPoints : Int) (logStart logEnd : α) : List α :=
  if nPoints < 2 then []
  else
    let step := (logEnd - logStart) / ((nPoints - 1 : Int) : α)
    forLoop 0 (nPoints - 1) (fun i t => t ++ [pow 10.0 (logStart + (i : α) * step)]) []

/-- The function `ModelSolver01_06::calculateTheoreticalCurve`: returns
`(tPoints, finalP, finalDP)`, three vectors of the length of `tPoints` whatever the
parameters are.  The divisions of the time conversion and of the pressure factor are not
guarded.  An entry of `finalP` or `finalDP` is `none` when the source computes it from the
result of a division by zero: the factor is not finite when `kf * h = 0` (each of its
products is then an infinity or a NaN), and the dimensionless times are not finite when
`phi * mu * Ct * L^2 = 0` (what `calculatePDandDeriv` and the derivative collaborator make of
such times is not modelled).  An entry is also `none` when the loop of lines 69-72 reads
`PD_vec[i]` or `Deriv_vec[i]` beyond the end of the vector.  For at most two points line 127
fills the derivative with zeros whatever the times are. -/
def calculateTheoreticalCurve [FloorRing α] (E : MathEnv α) (type : ModelType)
    (params : Params α) (providedTime : List α) (highPrecision : Bool) :
    List α × List (Option α) × List (Option α) :=
  let tPoints :=
    if providedTime.isEmpty then generateLogTimeSteps E.pow 100 (-3.0) 3.0 else providedTime
  let phi := value params "phi" 0.05
  let mu := value params "mu" 0.5
  let B := value params "B" 1.05
  let Ct := value params "Ct" 5e-4
  let q := value params "q" 5.0
  let h := value params "h" 20.0
  let kf := value params "kf" 1e-3
  let L := value params "L" 1000.0
  let tD_vec : Option (List α) :=
    tPoints.mapM (fun t => fdiv (14.4 * kf * t) (phi * mu * Ct * E.pow L 2))
  let func := fun z p => flaplace_composite E z p type
  let out : Option (List α × List α) := tD_vec.map fun tD =>
    calculatePDandDeriv E.pow E.log E.calculateBourdetDerivative tD params func highPrecision
  let PD_vec : Option (List α) := out.map Prod.fst
  let Deriv_vec : Option (List α) :=
    match out with
    | some o => some o.2
    | none => if tPoints.length > 2 then none else some (List.replicate tPoints.length 0.0)
  let factor : Option α := fdiv (1.842e-3 * q * mu * B) (kf * h)
  let finalP : List (Option α) := (List.range tPoints.length).map fun i =>
    factor.bind fun f => PD_vec.bind fun v => v[i]?.map fun pd => f * pd
  let finalDP : List (Option α) := (List.range tPoints.length).map fun i =>
    factor.bind fun f => Deriv_vec.bind fun v => v[i]?.map fun dv => f * dv
  (tPoints, finalP, finalDP)

/-! ## Divisions of the Laplace-space model -/

/-- The denominators of the divisions that `PWD_composite` performs on lines 219-273, in the
order of the source: the two boundary ratios when their guard holds, the coupling
coefficient, and the division of each entry of the fracture block.  (The divisions by the
constant `2` of the quadrature and the division inside `scaled_besseli` are not listed.) -/
def PWD_divisors (E : MathEnv α) (z fs1 fs2 M12 LfD rmD reD : α) (nf : Int)
    (type : ModelType) : List α :=
  let gama1 := E.sqrt (z * fs1)
  let gama2 := E.sqrt (z * fs2)
  let arg_g2_rm := gama2 * rmD
  let arg_g1_rm := gama1 * rmD
  let isInfinite := (type = ModelType.Model_1 ∨ type = ModelType.Model_2)
  let isClosed := (type = ModelType.Model_3 ∨ type = ModelType.Model_4)
  let isConstP := (type = ModelType.Model_5 ∨ type = ModelType.Model_6)
  let boundary : List α :=
    if ¬ isInfinite then
      let arg_re := gama2 * reD
      let i1_re_s := scaled_besseli E 1 arg_re
      let i0_re_s := scaled_besseli E 0 arg_re
      if isClosed then
        if i1_re_s > 1e-100 then [i1_re_s, i1_re_s] else []
      else if isConstP then
        if i0_re_s > 1e-100 then [i0_re_s, i0_re_s] else []
      else []
    else []
  boundary
    ++ [couplingDenominator E M12 gama1 gama2 arg_g2_rm arg_g1_rm
          (outerBoundaryTerms E gama2 arg_g2_rm reD type)]
    ++ List.replicate (nf.toNat * nf.toNat) (M12 * z * 2 * LfD)

/-- The denominators of the divisions that `flaplace_composite` performs before the storage
and skin correction (lines 133-164), in the order of the source: the permeability ratio, the
fracture spacing (when there is more than one fracture), `fs1`, then those of
`PWD_composite`. -/
def flaplace_divisors [FloorRing α] (E : MathEnv α) (z : α) (p : Params α)
    (type : ModelType) : List α :=
  let kf := value p "kf" 0
  let km := value p "km" 0
  let LfD := value p "LfD" 0
  let rmD := value p "rmD" 0
  let reD := value p "reD" 0.0
  let omga1 := value p "omega1" 0
  let omga2 := value p "omega2" 0
  let remda1 := value p "lambda1" 0
  let nf := fractureCount p
  let M12 := kf / km
  let spacing : List α := if nf = 1 then [] else [((nf - 1 : Int) : α)]
  let temp := omga2
  let fs1 := omga1 + remda1 * temp / (remda1 + z * temp)
  let fs2 := M12 * temp
  [km] ++ spacing ++ [remda1 + z * temp]
    ++ PWD_divisors E z fs1 fs2 M12 LfD rmD reD nf type

/-! ## Call tree of the adaptive quadrature -/

/-- The calls that `adaptiveGauss` makes, in call order: every call is recorded as
`(a, b, depth, accepted)`, where `accepted` tells whether the call returned the estimate `v2`
of its own interval (`true`) or bisected (`false`).  Same tests as `adaptiveGauss`. -/
def adaptiveGaussCalls (f : α → α) (a b eps : α) (depth maxDepth : Int) :
    List (α × α × Int × Bool) :=
  let c := (a + b) / 2.0
  let v1 := gauss15 f a b
  let v2 := gauss15 f a c + gauss15 f c b
  if depth ≥ maxDepth ∨ |v1 - v2| < 1e-10 * |v2| + eps then [(a, b, depth, true)]
  else (a, b, depth, false) :: (adaptiveGaussCalls f a c (eps / 2) (depth + 1) maxDepth
    ++ adaptiveGaussCalls f c b (eps / 2) (depth + 1) maxDepth)
termination_by (maxDepth - depth).toNat
decreasing_by
  all_goals simp_wf
  all_goals omega

/-! ## Fit parameters (`fittingparameterchart.h`, `fittingparameterchart.cpp`) -/

/-- The structure `FitParameter` of `fittingparameterchart.h`. -/
structure FitParameter (α : Type) where
  name : String
  displayName : String
  value : α
  min : α
  max : α
  isFit : Bool
  isVisible : Bool

/-- The function `FittingParameterChart::resetParams`: the new content of `m_params`; `mpL` is
the value `mp->getL()` of the default-parameter collaborator. -/
def resetParams (mpL : α) (type : ModelType) : List (FitParameter α) :=
  let hasBoundary : Bool := (type = ModelType.Model_3 ∨ type = ModelType.Model_4
    ∨ type = ModelType.Model_5 ∨ type = ModelType.Model_6)
  let hasStorage : Bool := (type = ModelType.Model_1 ∨ type = ModelType.Model_3
    ∨ type = ModelType.Model_5)
  [ ⟨"kf", "内区渗透率", 1.0, 0.001, 1000.0, true, true⟩,
    ⟨"km", "外区渗透率", 0.1, 0.0001, 100.0, true, true⟩,
    ⟨"L", "水平井长", mpL, 100.0, 5000.0, false, true⟩,
    ⟨"Lf", "裂缝半长", 100.0, 10.0, 1000.0, true, true⟩,
    ⟨"nf", "裂缝条数", 4.0, 1.0, 50.0, false, true⟩,
    ⟨"omega1", "内区储容比", 0.1, 0.001, 1.0, true, true⟩,
    ⟨"omega2", "外区储容比", 0.01, 0.001, 1.0, true, true⟩,
    ⟨"lambda1", "窜流系数", 1e-6, 1e-9, 1.0, true, true⟩,
    ⟨"rmD", "复合半径", 5.0, 1.1, 100.0, true, true⟩,
    ⟨"reD", "外边界半径", 20.0, 5.0, 5000.0, true, hasBoundary⟩,
    ⟨"cD", "无因次井储", 0.01, 1e-5, 1000.0, true, hasStorage⟩,
    ⟨"S", "表皮系数", 0.0, -5.0, 50.0, true, hasStorage⟩,
    ⟨"gamaD", "压敏系数", 0.0, 0.0, 0.5, true, true⟩ ]

/-- The function `FittingParameterChart::switchModel`: the new content of `m_params`. -/
def switchModel (newType : ModelType) (m_params : List (FitParameter α)) :
    List (FitParameter α) :=
  let hasBoundary : Bool := (newType = ModelType.Model_3 ∨ newType = ModelType.Model_4
    ∨ newType = ModelType.Model_5 ∨ newType = ModelType.Model_6)
  let hasStorage : Bool := (newType = ModelType.Model_1 ∨ newType = ModelType.Model_3
    ∨ newType = ModelType.Model_5)
  m_params.map (fun p =>
    if p.name = "reD" then { p with isVisible := hasBoundary }
    else if p.name = "cD" ∨ p.name = "S" then { p with isVisible := hasStorage }
    else p)

/-- One row of the parameter table as `updateParamsFromTable` reads it: the check state and
the stored parameter index of column 0, the texts of columns 2, 3 and 4. -/
structure TableRow where
  checked : Bool
  paramIndex : Int
  valueText : String
  minText : String
  maxText : String

/-- Lines 163-174 of `updateParamsFromTable`: what one row writes into the parameter `p` it
refers to; `toDouble` is `QString::toDouble`, `none` when the text is not a number (`ok`
false). -/
def applyRow (toDouble : String → Option α) (row : TableRow) (p : FitParameter α) :
    FitParameter α :=
  let p := { p with isFit := row.checked }
  let p := match toDouble row.valueText with
    | some v => { p with value := v }
    | none => p
  let p := match toDouble row.minText with
    | some minV => { p with min := minV }
    | none => p
  match toDouble row.maxText with
    | some maxV => { p with max := maxV }
    | none => p

/-- Lines 158-175: the body of the loop of `updateParamsFromTable` for one row. -/
def updateRow (toDouble : String → Option α) (m_params : List (FitParameter α))
    (row : TableRow) : List (FitParameter α) :=
  if 0 ≤ row.paramIndex ∧ row.paramIndex < (m_params.length : Int) then
    m_params.modify (applyRow toDouble row) row.paramIndex.toNat
  else m_params

/-- The function `FittingParameterChart::updateParamsFromTable`: the new content of
`m_params` after the rows of the table have been read in order. -/
def updateParamsFromTable (toDouble : String → Option α) (rows : List TableRow)
    (m_params : List (FitParameter α)) : List (FitParameter α) :=
  rows.foldl (updateRow toDouble) m_params

/-! ## Text input of the model widget (`wt_modelwidget.cpp`, lines 142-154 and 276) -/

/-- The call `part.trimmed()` of `QString`, on the characters of the text. -/
def trimmed (part : List Char) : List Char :=
  (part.dropWhile Char.isWhitespace).rdropWhile Char.isWhitespace

/-- The function `WT_ModelWidget::parseInput`; `toDouble` is `QString::toDouble`, `none` when
the text is not a number (`ok` false). -/
def parseInput (toDouble : String → Option α) (text : String) : List α :=
  let cleanText := text.toList.map (fun c => if c = '，' then ',' else c)
  let parts := (cleanText.splitOn ',').filter (fun part => !part.isEmpty)
  let values := parts.foldl (fun values part =>
    match toDouble (String.mk (trimmed part)) with
    | some v => values ++ [v]
    | none => values) []
  if values.isEmpty then [0.0] else values

/-- Line 276 of `WT_ModelWidget::runCalculation`: the value stored in `baseParams` for a
parameter whose field holds `text`, which is what the solver receives. -/
def baseParamValue (toDouble : String → Option α) (text : String) : α :=
  match parseInput toDouble text with
  | [] => 0.0
  | v :: _ => v

/-! ## Lemmas on loops and factorials -/

section Lemmas

variable {α : Type} [LinearOrderedField α]

theorem forLoop_sum (lo hi : Int) (f : Int → α) :
    forLoop lo hi (fun k s => s + f k) 0
      = ∑ n in Finset.range (hi + 1 - lo).toNat, f (lo + (n : Int)) := by
  unfold forLoop
  generalize (hi + 1 - lo).toNat = n
  induction n with
  | zero => simp
  | succ n ih => rw [List.range_succ, List.foldl_append, ih, Finset.sum_range_succ]; simp

theorem foldl_factorial (n : ℕ) :
    (List.range n).foldl (fun acc (j : ℕ) => acc * (((2 + (j : Int) : Int)) : α)) (1 : α)
      = ((n + 1).factorial : α) := by
  induction n with
  | zero => simp
  | succ n ih =>
    rw [List.range_succ, List.foldl_append, ih, Nat.factorial_succ (n + 1)]
    simp only [List.foldl_cons, List.foldl_nil]
    push_cast
    ring

theorem factorial_natCast (n : ℕ) : (factorial ((n : ℕ) : Int) : α) = (n.factorial : α) := by
  unfold factorial
  split_ifs with h
  · have : n ≤ 1 := by exact_mod_cast h
    interval_cases n <;> simp
  · have h2 : 2 ≤ n := by
      have : ¬ n ≤ 1 := by exact_mod_cast h
      omega
    obtain ⟨j, rfl⟩ : ∃ j, n = j + 2 := ⟨n - 2, by omega⟩
    unfold forLoop
    have : (((j + 2 : ℕ) : Int) + 1 - 2).toNat = j + 1 := by omega
    rw [this, foldl_factorial]

theorem factorial_pos (n : Int) : (0 : α) < factorial n := by
  by_cases h : 0 ≤ n
  · obtain ⟨m, rfl⟩ := Int.eq_ofNat_of_zero_le h
    rw [factorial_natCast]
    exact_mod_cast Nat.factorial_pos m
  · unfold factorial
    rw [if_pos (by omega)]
    exact one_pos

end Lemmas

/-! ## Stehfest coefficients -/

section Stehfest

variable {α : Type} [LinearOrderedField α]

theorem stefest_term_eq (pow : α → α → α) (hpow : ∀ (b : α) (n : ℕ), pow b (n : α) = b ^ n)
    (m N k : ℕ) (hev : Even N) (hk1 : 1 ≤ k) (hkm : k ≤ m) (hmk : m ≤ 2 * k) (hkN : k ≤ N / 2) :
    pow ((k : Int) : α) (((N : Int) : α) / 2) * factorial (2 * (k : Int))
      / (factorial (((N / 2 : ℕ) : Int) - k) * factorial (k : Int) * factorial ((k : Int) - 1)
          * factorial ((m : Int) - k) * factorial (2 * (k : Int) - m))
      = (stehfestTerm m N k : α) := by
  obtain ⟨h, rfl⟩ := hev
  have e1 : ((((h + h : ℕ) : Int) : α)) / 2 = ((h : ℕ) : α) := by push_cast; ring
  have e2 : (h + h) / 2 = h := by omega
  have f1 : (2 * (k : Int)) = ((2 * k : ℕ) : Int) := by push_cast; ring
  have f2 : (((h : ℕ) : Int) - k) = ((h - k : ℕ) : Int) := by
    rw [e2] at hkN; omega
  have f3 : ((k : Int) - 1) = ((k - 1 : ℕ) : Int) := by omega
  have f4 : ((m : Int) - k) = ((m - k : ℕ) : Int) := by omega
  have f5 : (2 * (k : Int) - m) = ((2 * k - m : ℕ) : Int) := by omega
  unfold stehfestTerm
  rw [e1, e2, hpow, f5, f1, f2, f3, f4]
  simp only [factorial_natCast, Int.cast_natCast]

theorem stefestCoefficient_eq_sum (pow : α → α → α)
    (hpow : ∀ (b : α) (n : ℕ), pow b (n : α) = b ^ n)
    (m N : ℕ) (hev : Even N) (hm1 : 1 ≤ m) :
    stefestCoefficient pow (m : Int) (N : Int)
      = (-1) ^ (m + N / 2)
          * ∑ k in Finset.Icc ((m + 1) / 2) (min m (N / 2)), (stehfestTerm m N k : α) := by
  have hk1 : Int.tdiv ((m : Int) + 1) 2 = (((m + 1) / 2 : ℕ) : Int) := by
    rw [Int.tdiv_eq_ediv (by omega) (by omega)]; push_cast; rfl
  have hN2 : Int.tdiv (N : Int) 2 = ((N / 2 : ℕ) : Int) := by
    rw [Int.tdiv_eq_ediv (by omega) (by omega)]; push_cast; rfl
  have hk2 : min (m : Int) ((N / 2 : ℕ) : Int) = ((min m (N / 2) : ℕ) : Int) := by
    push_cast; rfl
  unfold stefestCoefficient
  simp only [hk1, hN2, hk2]
  have hbody : (fun (k : Int) (s : α) =>
      if factorial (((N / 2 : ℕ) : Int) - k) * factorial k * factorial (k - 1)
          * factorial ((m : Int) - k) * factorial (2 * k - (m : Int)) ≠ (0 : α)
      then s + pow (k : α) (((N : Int) : α) / 2) * factorial (2 * k)
          / (factorial (((N / 2 : ℕ) : Int) - k) * factorial k * factorial (k - 1)
              * factorial ((m : Int) - k) * factorial (2 * k - (m : Int)))
      else s)
      = fun (k : Int) (s : α) => s + pow (k : α) (((N : Int) : α) / 2) * factorial (2 * k)
          / (factorial (((N / 2 : ℕ) : Int) - k) * factorial k * factorial (k - 1)
              * factorial ((m : Int) - k) * factorial (2 * k - (m : Int))) := by
    funext k s
    rw [if_pos]
    have := factorial_pos (α := α) (((N / 2 : ℕ) : Int) - k)
    have := factorial_pos (α := α) k
    have := factorial_pos (α := α) (k - 1)
    have := factorial_pos (α := α) ((m : Int) - k)
    have := factorial_pos (α := α) (2 * k - (m : Int))
    positivity
  rw [hbody, forLoop_sum]
  have hlen : ((((min m (N / 2) : ℕ) : Int)) + 1 - (((m + 1) / 2 : ℕ) : Int)).toNat
      = (min m (N / 2) + 1) - (m + 1) / 2 := by omega
  rw [hlen, ← Nat.Ico_succ_right, Finset.sum_Ico_eq_sum_range]
  have hsign : (if Int.tmod ((m : Int) + ((N / 2 : ℕ) : Int)) 2 = 0 then (1 : α) else -1)
      = (-1) ^ (m + N / 2) := by
    have hcast : ((m : Int) + ((N / 2 : ℕ) : Int)) = ((m + N / 2 : ℕ) : Int) := by push_cast; rfl
    rw [hcast, Int.tmod_eq_emod (by omega) (by omega)]
    rcases Nat.even_or_odd (m + N / 2) with he | ho
    · rw [he.neg_one_pow, if_pos]
      obtain ⟨r, hr⟩ := he
      omega
    · rw [ho.neg_one_pow, if_neg]
      obtain ⟨r, hr⟩ := ho
      omega
  rw [hsign]
  congr 1
  apply Finset.sum_congr rfl
  intro n hn
  rw [Finset.mem_range] at hn
  have hcast : ((((m + 1) / 2 : ℕ) : Int) + (n : Int)) = (((m + 1) / 2 + n : ℕ) : Int) := by
    push_cast; rfl
  rw [hcast]
  exact stefest_term_eq pow hpow m N ((m + 1) / 2 + n) hev (by omega) (by omega) (by omega)
    (by omega)

theorem stefestCoefficient_four (pow : α → α → α)
    (hpow : ∀ (b : α) (n : ℕ), pow b (n : α) = b ^ n) :
    stefestCoefficient pow 1 4 = -2 ∧ stefestCoefficient pow 2 4 = 26
      ∧ stefestCoefficient pow 3 4 = -48 ∧ stefestCoefficient pow 4 4 = 24 := by
  have h1 := stefestCoefficient_eq_sum pow hpow 1 4 (by decide) (by decide)
  have h2 := stefestCoefficient_eq_sum pow hpow 2 4 (by decide) (by decide)
  have h3 := stefestCoefficient_eq_sum pow hpow 3 4 (by decide) (by decide)
  have h4 := stefestCoefficient_eq_sum pow hpow 4 4 (by decide) (by decide)
  have i1 : Finset.Icc ((1 + 1) / 2) (min 1 (4 / 2)) = {1} := by decide
  have i2 : Finset.Icc ((2 + 1) / 2) (min 2 (4 / 2)) = {1, 2} := by decide
  have i3 : Finset.Icc ((3 + 1) / 2) (min 3 (4 / 2)) = {2} := by decide
  have i4 : Finset.Icc ((4 + 1) / 2) (min 4 (4 / 2)) = {2} := by decide
  simp only [Nat.cast_ofNat, Nat.cast_one] at h1 h2 h3 h4
  rw [i1] at h1
  rw [i2] at h2
  rw [i3] at h3
  rw [i4] at h4
  rw [h1, h2, h3, h4]
  refine ⟨?_, ?_, ?_, ?_⟩ <;> simp [stehfestTerm, Nat.factorial] <;> norm_num

theorem stefestCoefficient_two (pow : α → α → α)
    (hpow : ∀ (b : α) (n : ℕ), pow b (n : α) = b ^ n) :
    stefestCoefficient pow 1 2 = 2
      ∧ stefestCoefficient pow 2 2 = -2 := by
  refine ⟨?_, ?_⟩
  · have h := stefestCoefficient_eq_sum pow hpow 1 2 (by decide) (by decide)
    have hI : Finset.Icc ((1 + 1) / 2) (min 1 (2 / 2)) = {1} := by decide
    simp only [Nat.cast_ofNat, Nat.cast_one] at h
    rw [h, hI]
    norm_num [stehfestTerm, Nat.factorial]
  · have h := stefestCoefficient_eq_sum pow hpow 2 2 (by decide) (by decide)
    have hI : Finset.Icc ((2 + 1) / 2) (min 2 (2 / 2)) = {1} := by decide
    simp only [Nat.cast_ofNat, Nat.cast_one] at h
    rw [h, hI]
    norm_num [stehfestTerm, Nat.factorial]

theorem stefestCoefficient_six (pow : α → α → α)
    (hpow : ∀ (b : α) (n : ℕ), pow b (n : α) = b ^ n) :
    stefestCoefficient pow 1 6 = 1
      ∧ stefestCoefficient pow 2 6 = -49
      ∧ stefestCoefficient pow 3 6 = 366
      ∧ stefestCoefficient pow 4 6 = -858
      ∧ stefestCoefficient pow 5 6 = 810
      ∧ stefestCoefficient pow 6 6 = -270 := by
  refine ⟨?_, ?_, ?_, ?_, ?_, ?_⟩
  · have h := stefestCoefficient_eq_sum pow hpow 1 6 (by decide) (by decide)
    have hI : Finset.Icc ((1 + 1) / 2) (min 1 (6 / 2)) = {1} := by decide
    simp only [Nat.cast_ofNat, Nat.cast_one] at h
    rw [h, hI]
    norm_num [stehfestTerm, Nat.factorial]
  · have h := stefestCoefficient_eq_sum pow hpow 2 6 (by decide) (by decide)
    have hI : Finset.Icc ((2 + 1) / 2) (min 2 (6 / 2)) = {1, 2} := by decide
    simp only [Nat.cast_ofNat, Nat.cast_one] at h
    rw [h, hI]
    norm_num [stehfestTerm, Nat.factorial]
  · have h := stefestCoefficient_eq_sum pow hpow 3 6 (by decide) (by decide)
    have hI : Finset.Icc ((3 + 1) / 2) (min 3 (6 / 2)) = {2, 3} := by decide
    simp only [Nat.cast_ofNat, Nat.cast_one] at h
    rw [h, hI]
    norm_num [stehfestTerm, Nat.factorial]
  · have h := stefestCoefficient_eq_sum pow hpow 4 6 (by decide) (by decide)
    have hI : Finset.Icc ((4 + 1) / 2) (min 4 (6 / 2)) = {2, 3} := by decide
    simp only [Nat.cast_ofNat, Nat.cast_one] at h
    rw [h, hI]
    norm_num [stehfestTerm, Nat.factorial]
  · have h := stefestCoefficient_eq_sum pow hpow 5 6 (by decide) (by decide)
    have hI : Finset.Icc ((5 + 1) / 2) (min 5 (6 / 2)) = {3} := by decide
    simp only [Nat.cast_ofNat, Nat.cast_one] at h
    rw [h, hI]
    norm_num [stehfestTerm, Nat.factorial]
  · have h := stefestCoefficient_eq_sum pow hpow 6 6 (by decide) (by decide)
    have hI : Finset.Icc ((6 + 1) / 2) (min 6 (6 / 2)) = {3} := by decide
    simp only [Nat.cast_ofNat, Nat.cast_one] at h
    rw [h, hI]
    norm_num [stehfestTerm, Nat.factorial]

theorem stefestCoefficient_eight (pow : α → α → α)
    (hpow : ∀ (b : α) (n : ℕ), pow b (n : α) = b ^ n) :
    stefestCoefficient pow 1 8 = -(1 / 3)
      ∧ stefestCoefficient pow 2 8 = 145 / 3
      ∧ stefestCoefficient pow 3 8 = -906
      ∧ stefestCoefficient pow 4 8 = 16394 / 3
      ∧ stefestCoefficient pow 5 8 = -(43130 / 3)
      ∧ stefestCoefficient pow 6 8 = 18730
      ∧ stefestCoefficient pow 7 8 = -(35840 / 3)
      ∧ stefestCoefficient pow 8 8 = 8960 / 3 := by
  refine ⟨?_, ?_, ?_, ?_, ?_, ?_, ?_, ?_⟩
  · have h := stefestCoefficient_eq_sum pow hpow 1 8 (by decide) (by decide)
    have hI : Finset.Icc ((1 + 1) / 2) (min 1 (8 / 2)) = {1} := by decide
    simp only [Nat.cast_ofNat, Nat.cast_one] at h
    rw [h, hI]
    norm_num [stehfestTerm, Nat.factorial]
  · have h := stefestCoefficient_eq_sum pow hpow 2 8 (by decide) (by decide)
    have hI : Finset.Icc ((2 + 1) / 2) (min 2 (8 / 2)) = {1, 2} := by decide
    simp only [Nat.cast_ofNat, Nat.cast_one] at h
    rw [h, hI]
    norm_num [stehfestTerm, Nat.factorial]
  · have h := stefestCoefficient_eq_sum pow hpow 3 8 (by decide) (by decide)
    have hI : Finset.Icc ((3 + 1) / 2) (min 3 (8 / 2)) = {2, 3} := by decide
    simp only [Nat.cast_ofNat, Nat.cast_one] at h
    rw [h, hI]
    norm_num [stehfestTerm, Nat.factorial]
  · have h := stefestCoefficient_eq_sum pow hpow 4 8 (by decide) (by decide)
    have hI : Finset.Icc ((4 + 1) / 2) (min 4 (8 / 2)) = {2, 3, 4} := by decide
    simp only [Nat.cast_ofNat, Nat.cast_one] at h
    rw [h, hI]
    norm_num [stehfestTerm, Nat.factorial]
  · have h := stefestCoefficient_eq_sum pow hpow 5 8 (by decide) (by decide)
    have hI : Finset.Icc ((5 + 1) / 2) (min 5 (8 / 2)) = {3, 4} := by decide
    simp only [Nat.cast_ofNat, Nat.cast_one] at h
    rw [h, hI]
    norm_num [stehfestTerm, Nat.factorial]
  · have h := stefestCoefficient_eq_sum pow hpow 6 8 (by decide) (by decide)
    have hI : Finset.Icc ((6 + 1) / 2) (min 6 (8 / 2)) = {3, 4} := by decide
    simp only [Nat.cast_ofNat, Nat.cast_one] at h
    rw [h, hI]
    norm_num [stehfestTerm, Nat.factorial]
  · have h := stefestCoefficient_eq_sum pow hpow 7 8 (by decide) (by decide)
    have hI : Finset.Icc ((7 + 1) / 2) (min 7 (8 / 2)) = {4} := by decide
    simp only [Nat.cast_ofNat, Nat.cast_one] at h
    rw [h, hI]
    norm_num [stehfestTerm, Nat.factorial]
  · have h := stefestCoefficient_eq_sum pow hpow 8 8 (by decide) (by decide)
    have hI : Finset.Icc ((8 + 1) / 2) (min 8 (8 / 2)) = {4} := by decide
    simp only [Nat.cast_ofNat, Nat.cast_one] at h
    rw [h, hI]
    norm_num [stehfestTerm, Nat.factorial]

theorem stefestCoefficient_ten (pow : α → α → α)
    (hpow : ∀ (b : α) (n : ℕ), pow b (n : α) = b ^ n) :
    stefestCoefficient pow 1 10 = 1 / 12
      ∧ stefestCoefficient pow 2 10 = -(385 / 12)
      ∧ stefestCoefficient pow 3 10 = 1279
      ∧ stefestCoefficient pow 4 10 = -(46871 / 3)
      ∧ stefestCoefficient pow 5 10 = 505465 / 6
      ∧ stefestCoefficient pow 6 10 = -(473915 / 2)
      ∧ stefestCoefficient pow 7 10 = 1127735 / 3
      ∧ stefestCoefficient pow 8 10 = -(1020215 / 3)
      ∧ stefestCoefficient pow 9 10 = 328125 / 2
      ∧ stefestCoefficient pow 10 10 = -(65625 / 2) := by
  refine ⟨?_, ?_, ?_, ?_, ?_, ?_, ?_, ?_, ?_, ?_⟩
  · have h := stefestCoefficient_eq_sum pow hpow 1 10 (by decide) (by decide)
    have hI : Finset.Icc ((1 + 1) / 2) (min 1 (10 / 2)) = {1} := by decide
    simp only [Nat.cast_ofNat, Nat.cast_one] at h
    rw [h, hI]
    norm_num [stehfestTerm, Nat.factorial]
  · have h := stefestCoefficient_eq_sum pow hpow 2 10 (by decide) (by decide)
    have hI : Finset.Icc ((2 + 1) / 2) (min 2 (10 / 2)) = {1, 2} := by decide
    simp only [Nat.cast_ofNat, Nat.cast_one] at h
    rw [h, hI]
    norm_num [stehfestTerm, Nat.factorial]
  · have h := stefestCoefficient_eq_sum pow hpow 3 10 (by decide) (by decide)
    have hI : Finset.Icc ((3 + 1) / 2) (min 3 (10 / 2)) = {2, 3} := by decide
    simp only [Nat.cast_ofNat, Nat.cast_one] at h
    rw [h, hI]
    norm_num [stehfestTerm, Nat.factorial]
  · have h := stefestCoefficient_eq_sum pow hpow 4 10 (by decide) (by decide)
    have hI : Finset.Icc ((4 + 1) / 2) (min 4 (10 / 2)) = {2, 3, 4} := by decide
    simp only [Nat.cast_ofNat, Nat.cast_one] at h
    rw [h, hI]
    norm_num [stehfestTerm, Nat.factorial]
  · have h := stefestCoefficient_eq_sum pow hpow 5 10 (by decide) (by decide)
    have hI : Finset.Icc ((5 + 1) / 2) (min 5 (10 / 2)) = {3, 4, 5} := by decide
    simp only [Nat.cast_ofNat, Nat.cast_one] at h
    rw [h, hI]
    norm_num [stehfestTerm, Nat.factorial]
  · have h := stefestCoefficient_eq_sum pow hpow 6 10 (by decide) (by decide)
    have hI : Finset.Icc ((6 + 1) / 2) (min 6 (10 / 2)) = {3, 4, 5} := by decide
    simp only [Nat.cast_ofNat, Nat.cast_one] at h
    rw [h, hI]
    norm_num [stehfestTerm, Nat.factorial]
  · have h := stefestCoefficient_eq_sum pow hpow 7 10 (by decide) (by decide)
    have hI : Finset.Icc ((7 + 1) / 2) (min 7 (10 / 2)) = {4, 5} := by decide
    simp only [Nat.cast_ofNat, Nat.cast_one] at h
    rw [h, hI]
    norm_num [stehfestTerm, Nat.factorial]
  · have h := stefestCoefficient_eq_sum pow hpow 8 10 (by decide) (by decide)
    have hI : Finset.Icc ((8 + 1) / 2) (min 8 (10 / 2)) = {4, 5} := by decide
    simp only [Nat.cast_ofNat, Nat.cast_one] at h
    rw [h, hI]
    norm_num [stehfestTerm, Nat.factorial]
  · have h := stefestCoefficient_eq_sum pow hpow 9 10 (by decide) (by decide)
    have hI : Finset.Icc ((9 + 1) / 2) (min 9 (10 / 2)) = {5} := by decide
    simp only [Nat.cast_ofNat, Nat.cast_one] at h
    rw [h, hI]
    norm_num [stehfestTerm, Nat.factorial]
  · have h := stefestCoefficient_eq_sum pow hpow 10 10 (by decide) (by decide)
    have hI : Finset.Icc ((10 + 1) / 2) (min 10 (10 / 2)) = {5} := by decide
    simp only [Nat.cast_ofNat, Nat.cast_one] at h
    rw [h, hI]
    norm_num [stehfestTerm, Nat.factorial]

theorem stehfest_four_inverse (pow : α → α → α)
    (hpow : ∀ (b : α) (n : ℕ), pow b (n : α) = b ^ n) (c L t : α) (hL : L ≠ 0) (ht : t ≠ 0) :
    (∑ m in Finset.Icc (1 : Int) 4, stefestCoefficient pow m 4 * (c / ((m : α) * L / t)))
      * L / t = c := by
  obtain ⟨h1, h2, h3, h4⟩ := stefestCoefficient_four pow hpow
  have hI : Finset.Icc (1 : Int) 4 = {1, 2, 3, 4} := by decide
  rw [hI, Finset.sum_insert (by decide), Finset.sum_insert (by decide),
    Finset.sum_insert (by decide), Finset.sum_singleton, h1, h2, h3, h4]
  push_cast
  field_simp
  ring

end Stehfest

/-! ## Numerical inversion -/

section Inversion

variable {α : Type} [LinearOrderedField α]

theorem sum_Icc_int (a b : Int) (f : Int → α) :
    ∑ m in Finset.Icc a b, f m = ∑ n in Finset.range (b + 1 - a).toNat, f (a + (n : Int)) := by
  rw [Int.Icc_eq_finset_map, Finset.sum_map]
  rfl

theorem forLoop_pair (lo hi : Int) (f : Int → α) (g : Int → α) :
    forLoop lo hi (fun m (st : α × List α) => (st.1 + f m, st.2 ++ [g m])) (0, [])
      = (∑ m in Finset.Icc lo hi, f m,
          (List.range (hi + 1 - lo).toNat).map (fun (n : ℕ) => g (lo + (n : Int)))) := by
  rw [sum_Icc_int]
  unfold forLoop
  generalize (hi + 1 - lo).toNat = n
  induction n with
  | zero => simp
  | succ n ih =>
    rw [List.range_succ, List.foldl_append, ih, Finset.sum_range_succ]
    simp

theorem stehfestSum_eq (pow : α → α → α) (laplaceFunc : α → Params α → Option α)
    (params : Params α) (N : Int) (ln2 t : α) :
    stehfestSum pow laplaceFunc params N ln2 t
      = (∑ m in Finset.Icc 1 N,
            stefestCoefficient pow m N * ((laplaceFunc ((m : α) * ln2 / t) params).getD 0),
          (List.range (N + 1 - 1).toNat).map (fun (n : ℕ) => (((1 + (n : Int) : Int)) : α) * ln2 / t)) := by
  unfold stehfestSum
  rw [← forLoop_pair 1 N
    (fun m => stefestCoefficient pow m N * ((laplaceFunc ((m : α) * ln2 / t) params).getD 0))
    (fun m => (m : α) * ln2 / t)]
  congr 1
  funext m st
  dsimp only
  cases laplaceFunc ((m : α) * ln2 / t) params <;> rfl

theorem pressureSensitivity_negligible (log : α → α) (gamaD p : α) (h : |gamaD| ≤ 1e-9) :
    pressureSensitivity log gamaD p = p := by
  unfold pressureSensitivity
  rw [if_neg (not_lt.mpr h)]

theorem toInt_intCast [FloorRing α] (n : Int) : toInt ((n : Int) : α) = n := by
  unfold toInt
  split_ifs <;> simp

theorem tmod_two_eq_zero_iff (n : Int) : Int.tmod n 2 = 0 ↔ Even n := by
  rw [even_iff_two_dvd]
  exact Int.dvd_iff_tmod_eq_zero.symm

theorem stehfestN_even [FloorRing α] (params : Params α) (highPrecision : Bool) :
    Even (stehfestN params highPrecision) := by
  unfold stehfestN
  dsimp only
  split_ifs with h1 h2
  · decide
  · exact (tmod_two_eq_zero_iff _).mp (not_not.mp h2)
  · decide
  · decide

theorem value_cons_self {β : Type} (p : Params β) (key : String) (v dflt : β) :
    value ((key, v) :: p) key dflt = v := by
  simp [value, List.lookup]

theorem stefestCoefficient_succ (pow : α → α → α)
    (hpow : ∀ (b : α) (n : ℕ), pow b (n : α) = b ^ n) (N n : ℕ) (hev : Even N) :
    stefestCoefficient pow (1 + (n : Int)) (N : Int)
      = (-1) ^ (n + 1 + N / 2)
          * ∑ k in Finset.Icc ((n + 1 + 1) / 2) (min (n + 1) (N / 2)),
              (stehfestTerm (n + 1) N k : α) := by
  have h := stefestCoefficient_eq_sum pow hpow (n + 1) N hev (by omega)
  have e : (((n + 1 : ℕ)) : Int) = 1 + (n : Int) := by push_cast; ring
  rw [e] at h
  exact h

theorem stehfest_weights_sum (pow : α → α → α)
    (hpow : ∀ (b : α) (n : ℕ), pow b (n : α) = b ^ n) (N : Int)
    (hN : N = 2 ∨ N = 4 ∨ N = 6 ∨ N = 8 ∨ N = 10) :
    ∑ m in Finset.Icc (1 : Int) N, stefestCoefficient pow m N / (m : α) = 1 := by
  rcases hN with h | h | h | h | h <;> subst h
  · obtain ⟨h1, h2⟩ := stefestCoefficient_two pow hpow
    have hI : Finset.Icc (1 : Int) 2 = {1, 2} := by decide
    rw [hI, Finset.sum_insert (by decide), Finset.sum_singleton, h1, h2]
    norm_num
  · obtain ⟨h1, h2, h3, h4⟩ := stefestCoefficient_four pow hpow
    have hI : Finset.Icc (1 : Int) 4 = {1, 2, 3, 4} := by decide
    rw [hI, Finset.sum_insert (by decide), Finset.sum_insert (by decide),
      Finset.sum_insert (by decide), Finset.sum_singleton, h1, h2, h3, h4]
    norm_num
  · obtain ⟨h1, h2, h3, h4, h5, h6⟩ := stefestCoefficient_six pow hpow
    have hI : Finset.Icc (1 : Int) 6 = {1, 2, 3, 4, 5, 6} := by decide
    rw [hI, Finset.sum_insert (by decide), Finset.sum_insert (by decide),
      Finset.sum_insert (by decide), Finset.sum_insert (by decide),
      Finset.sum_insert (by decide), Finset.sum_singleton, h1, h2, h3, h4, h5, h6]
    norm_num
  · obtain ⟨h1, h2, h3, h4, h5, h6, h7, h8⟩ := stefestCoefficient_eight pow hpow
    have hI : Finset.Icc (1 : Int) 8 = {1, 2, 3, 4, 5, 6, 7, 8} := by decide
    rw [hI, Finset.sum_insert (by decide), Finset.sum_insert (by decide),
      Finset.sum_insert (by decide), Finset.sum_insert (by decide),
      Finset.sum_insert (by decide), Finset.sum_insert (by decide),
      Finset.sum_insert (by decide), Finset.sum_singleton, h1, h2, h3, h4, h5, h6, h7, h8]
    norm_num
  · obtain ⟨h1, h2, h3, h4, h5, h6, h7, h8, h9, h10⟩ := stefestCoefficient_ten pow hpow
    have hI : Finset.Icc (1 : Int) 10 = {1, 2, 3, 4, 5, 6, 7, 8, 9, 10} := by decide
    rw [hI, Finset.sum_insert (by decide), Finset.sum_insert (by decide),
      Finset.sum_insert (by decide), Finset.sum_insert (by decide),
      Finset.sum_insert (by decide), Finset.sum_insert (by decide),
      Finset.sum_insert (by decide), Finset.sum_insert (by decide),
      Finset.sum_insert (by decide), Finset.sum_singleton,
      h1, h2, h3, h4, h5, h6, h7, h8, h9, h10]
    norm_num

theorem stehfest_shift (pow : α → α → α)
    (hpow : ∀ (b : α) (n : ℕ), pow b (n : α) = b ^ n) (N : Int)
    (hN : N = 2 ∨ N = 4 ∨ N = 6 ∨ N = 8 ∨ N = 10) (a : Int → α) (S L t : α)
    (hL : L ≠ 0) (ht : t ≠ 0) :
    (∑ m in Finset.Icc (1 : Int) N,
        stefestCoefficient pow m N * (a m + S / ((m : α) * L / t))) * L / t
      = (∑ m in Finset.Icc (1 : Int) N, stefestCoefficient pow m N * a m) * L / t + S := by
  have hw := stehfest_weights_sum pow hpow N hN
  have hterm : ∀ m ∈ Finset.Icc (1 : Int) N,
      stefestCoefficient pow m N * (a m + S / ((m : α) * L / t))
        = stefestCoefficient pow m N * a m
          + (S * t / L) * (stefestCoefficient pow m N / (m : α)) := by
    intro m hm
    have hm0 : (m : α) ≠ 0 := by
      have : 1 ≤ m := (Finset.mem_Icc.mp hm).1
      have : (0 : α) < (m : α) := by exact_mod_cast (by omega : 0 < m)
      exact ne_of_gt this
    field_simp
    ring
  rw [Finset.sum_congr rfl hterm, Finset.sum_add_distrib, ← Finset.mul_sum, hw]
  field_simp

end Inversion

/-! ## Storage and skin correction -/

section Storage

variable {α : Type} [LinearOrderedField α]

theorem storageSkin_applied (z : α) (p : Params α) (type : ModelType) (pf : α)
    (htype : type = ModelType.Model_1 ∨ type = ModelType.Model_3 ∨ type = ModelType.Model_5)
    (hth : value p "cD" 0 > 1e-12 ∨ |value p "S" 0| > 1e-12) :
    storageSkin z p type pf
      = fdiv (z * pf + value p "S" 0)
          (z + value p "cD" 0 * z ^ 2 * (z * pf + value p "S" 0)) := by
  unfold storageSkin
  have e0 : (0.0 : α) = 0 := by norm_num
  simp only [e0]
  rw [if_pos htype, if_pos hth]
  congr 1
  ring

theorem storageSkin_skipped (z : α) (p : Params α) (type : ModelType) (pf : α)
    (hth : ¬ (value p "cD" 0 > 1e-12 ∨ |value p "S" 0| > 1e-12)) :
    storageSkin z p type pf = some pf := by
  unfold storageSkin
  have e0 : (0.0 : α) = 0 := by norm_num
  simp only [e0]
  split_ifs <;> rfl

theorem storageSkin_constant (z : α) (p : Params α) (type : ModelType) (pf : α)
    (htype : type = ModelType.Model_2 ∨ type = ModelType.Model_4 ∨ type = ModelType.Model_6) :
    storageSkin z p type pf = some pf := by
  unfold storageSkin
  rw [if_neg]
  rcases htype with h | h | h <;> subst h <;> decide

end Storage

/-! ## Skin effect -/

section Skin

variable {α : Type} [LinearOrderedField α]

theorem value_congr {β : Type} (p1 p2 : Params β) (key : String) (d : β)
    (h : p1.lookup key = p2.lookup key) : value p1 key d = value p2 key d := by
  unfold value
  rw [h]

theorem flaplace_pre_congr [FloorRing α] (E : MathEnv α) (z : α) (p1 p2 : Params α)
    (type : ModelType)
    (h : ∀ key, key ≠ "S" → key ≠ "cD" → p1.lookup key = p2.lookup key) :
    flaplace_pre E z p1 type = flaplace_pre E z p2 type := by
  unfold flaplace_pre fractureCount
  rw [value_congr p1 p2 "kf" 0 (h _ (by decide) (by decide)),
    value_congr p1 p2 "km" 0 (h _ (by decide) (by decide)),
    value_congr p1 p2 "LfD" 0 (h _ (by decide) (by decide)),
    value_congr p1 p2 "rmD" 0 (h _ (by decide) (by decide)),
    value_congr p1 p2 "reD" 0.0 (h _ (by decide) (by decide)),
    value_congr p1 p2 "omega1" 0 (h _ (by decide) (by decide)),
    value_congr p1 p2 "omega2" 0 (h _ (by decide) (by decide)),
    value_congr p1 p2 "lambda1" 0 (h _ (by decide) (by decide)),
    value_congr p1 p2 "nf" 4 (h _ (by decide) (by decide))]

theorem stehfestN_congr [FloorRing α] (p1 p2 : Params α) (hp : Bool)
    (h : p1.lookup "N" = p2.lookup "N") : stehfestN p1 hp = stehfestN p2 hp := by
  unfold stehfestN
  rw [value_congr p1 p2 "N" 4 h]

theorem stehfestSum_congr (pow : α → α → α) (f g : α → Params α → Option α)
    (p1 p2 : Params α) (N : Int) (ln2 t : α) (h : ∀ z, f z p1 = g z p2) :
    stehfestSum pow f p1 N ln2 t = stehfestSum pow g p2 N ln2 t := by
  rw [stehfestSum_eq, stehfestSum_eq]
  simp only [h]

theorem calculatePDandDeriv_congr [FloorRing α] (pow : α → α → α) (log : α → α)
    (bourdet : List α → List α → α → List α) (tD : List α) (p1 p2 : Params α)
    (f : α → Params α → Option α) (hp : Bool)
    (hN : p1.lookup "N" = p2.lookup "N") (hg : p1.lookup "gamaD" = p2.lookup "gamaD")
    (h : ∀ z, f z p1 = f z p2) :
    calculatePDandDeriv pow log bourdet tD p1 f hp
      = calculatePDandDeriv pow log bourdet tD p2 f hp := by
  unfold calculatePDandDeriv inversionPoint
  rw [stehfestN_congr p1 p2 hp hN, value_congr p1 p2 "gamaD" 0 hg]
  simp only [stehfestSum_congr pow f f p1 p2 _ _ _ h]

theorem PWD_composite_isSome (E : MathEnv α) (z fs1 fs2 M12 LfD rmD reD : α) (nf : Int)
    (xwD : List α) (type : ModelType) (hden : M12 * z * 2 * LfD ≠ 0) :
    (PWD_composite E z fs1 fs2 M12 LfD rmD reD nf xwD type).isSome = true := by
  unfold PWD_composite PWD_solve
  simp only []
  rw [if_pos]
  · rfl
  · simp only [List.all_eq_true]
    intro i _ j _
    unfold PWD_entries fractureEntry fdiv
    simp only []
    rw [if_neg hden]
    rfl

theorem flaplace_pre_isSome [FloorRing α] (E : MathEnv α) (z : α) (p : Params α)
    (type : ModelType) (hkm : value p "km" 0 ≠ 0)
    (hfs : value p "lambda1" 0 + z * value p "omega2" 0 ≠ 0)
    (hden : value p "kf" 0 / value p "km" 0 * z * 2 * value p "LfD" 0 ≠ 0) :
    (flaplace_pre E z p type).isSome = true := by
  unfold flaplace_pre
  simp only [fdiv, if_neg hkm, if_neg hfs, Option.some_bind]
  exact PWD_composite_isSome E z _ _ _ _ _ _ _ _ type hden

theorem lookup_cons_ne {β : Type} (key k : String) (v : β) (p : Params β) (h : key ≠ k) :
    List.lookup key ((k, v) :: p) = List.lookup key p := by
  have hb : (key == k) = false := by simpa using h
  simp [List.lookup, hb]

theorem value_cons {β : Type} (key k : String) (v d : β) (p : Params β) :
    value ((k, v) :: p) key d = if key = k then v else value p key d := by
  by_cases h : key = k
  · subst h
    rw [if_pos rfl, value_cons_self]
  · rw [if_neg h]
    unfold value
    rw [lookup_cons_ne _ _ _ _ h]

theorem value_nil {β : Type} (key : String) (d : β) : value ([] : Params β) key d = d := rfl

end Skin

/-! ## Outer boundary -/

section Boundary

variable {α : Type} [LinearOrderedField α]

theorem M_PI_ge_one : (1 : α) ≤ 2.0 * M_PI := by
  unfold M_PI
  norm_num

theorem scaled_besseli_large (E : MathEnv α) (hsqrt : ∀ x : α, 1e200 ≤ x → 1e100 ≤ E.sqrt x)
    (v : Int) (x : α) (hx : 1e200 ≤ x) : ¬ (scaled_besseli E v x > 1e-100) := by
  have hx0 : (0 : α) < x := lt_of_lt_of_le (by norm_num) hx
  have h600 : x > 600.0 := lt_of_lt_of_le (by norm_num) hx
  have hbig : (1e200 : α) ≤ 2.0 * M_PI * x := by
    have := mul_le_mul (M_PI_ge_one (α := α)) hx (by norm_num) (by unfold M_PI; norm_num)
    simpa using this
  have hs := hsqrt _ hbig
  unfold scaled_besseli
  simp only [if_neg (not_lt.mpr (le_of_lt hx0)), if_pos h600]
  rw [not_lt]
  have hpos : (0 : α) < E.sqrt (2.0 * M_PI * x) := lt_of_lt_of_le (by norm_num) hs
  rw [div_le_iff₀ hpos]
  calc (1.0 : α) = 1e-100 * 1e100 := by norm_num
    _ ≤ 1e-100 * E.sqrt (2.0 * M_PI * x) := mul_le_mul_of_nonneg_left hs (by norm_num)

theorem outerBoundaryTerms_infinite (E : MathEnv α) (gama2 arg_g2_rm reD : α)
    (type : ModelType) (h : type = ModelType.Model_1 ∨ type = ModelType.Model_2) :
    outerBoundaryTerms E gama2 arg_g2_rm reD type = (0.0, 0.0) := by
  unfold outerBoundaryTerms
  simp only []
  rw [if_neg (not_not.mpr h)]

theorem outerBoundaryTerms_large (E : MathEnv α)
    (hsqrt : ∀ x : α, 1e200 ≤ x → 1e100 ≤ E.sqrt x) (gama2 arg_g2_rm reD : α)
    (type : ModelType) (hx : 1e200 ≤ gama2 * reD) :
    outerBoundaryTerms E gama2 arg_g2_rm reD type = (0.0, 0.0) := by
  unfold outerBoundaryTerms
  simp only [if_neg (scaled_besseli_large E hsqrt 1 _ hx),
    if_neg (scaled_besseli_large E hsqrt 0 _ hx)]
  split_ifs <;> rfl

end Boundary

/-! ## Forward curve -/

section Curve

variable {α : Type} [LinearOrderedField α]

theorem mapM_some {β γ : Type} (f : β → Option γ) (g : β → γ) (l : List β)
    (h : ∀ x ∈ l, f x = some (g x)) : l.mapM f = some (l.map g) := by
  induction l with
  | nil => rfl
  | cons a t ih =>
    rw [List.mapM_cons, h a (List.mem_cons_self a t), ih (fun x hx => h x (List.mem_cons_of_mem a hx))]
    rfl

theorem calculatePDandDeriv_fst_length [FloorRing α] (pow : α → α → α) (log : α → α)
    (bourdet : List α → List α → α → List α) (tD : List α) (params : Params α)
    (laplaceFunc : α → Params α → Option α) (highPrecision : Bool) :
    (calculatePDandDeriv pow log bourdet tD params laplaceFunc highPrecision).1.length
      = tD.length := by
  simp [calculatePDandDeriv]

theorem calculatePDandDeriv_snd_length [FloorRing α] (pow : α → α → α) (log : α → α)
    (bourdet : List α → List α → α → List α) (tD : List α) (params : Params α)
    (laplaceFunc : α → Params α → Option α) (highPrecision : Bool)
    (hlen : 2 < tD.length →
      (bourdet tD (calculatePDandDeriv pow log bourdet tD params laplaceFunc highPrecision).1
        0.1).length = tD.length) :
    (calculatePDandDeriv pow log bourdet tD params laplaceFunc highPrecision).2.length
      = tD.length := by
  by_cases h : 2 < tD.length
  · have := hlen h
    simp only [calculatePDandDeriv] at this ⊢
    rw [if_pos h]
    exact this
  · simp only [calculatePDandDeriv]
    rw [if_neg h]
    simp

theorem scale_entries (f : α) (P : List α) (n : ℕ) (hP : P.length = n) :
    (List.range n).map (fun i => (some f).bind fun f =>
        (some P).bind fun v => v[i]?.map fun pd => f * pd)
      = P.map (fun pd => some (f * pd)) := by
  apply List.ext_getElem
  · simp [hP]
  · intro i h1 h2
    have hi : i < P.length := by simpa using h2
    simp [List.getElem?_eq_getElem hi]

theorem calculateTheoreticalCurve_fst [FloorRing α] (E : MathEnv α) (type : ModelType)
    (params : Params α) (providedTime : List α) (highPrecision : Bool) :
    (calculateTheoreticalCurve E type params providedTime highPrecision).1
      = if providedTime.isEmpty then generateLogTimeSteps E.pow 100 (-3.0) 3.0
        else providedTime := rfl

theorem calculateTheoreticalCurve_lengths [FloorRing α] (E : MathEnv α) (type : ModelType)
    (params : Params α) (providedTime : List α) (highPrecision : Bool) :
    (calculateTheoreticalCurve E type params providedTime highPrecision).2.1.length
        = (calculateTheoreticalCurve E type params providedTime highPrecision).1.length
    ∧ (calculateTheoreticalCurve E type params providedTime highPrecision).2.2.length
        = (calculateTheoreticalCurve E type params providedTime highPrecision).1.length := by
  simp [calculateTheoreticalCurve]

theorem calculateTheoreticalCurve_finite [FloorRing α] (E : MathEnv α)
    (type : ModelType) (params : Params α) (providedTime : List α) (highPrecision : Bool)
    (phi mu B Ct q h kf L : α)
    (hphi : phi = value params "phi" 0.05) (hmu : mu = value params "mu" 0.5)
    (hB : B = value params "B" 1.05) (hCt : Ct = value params "Ct" 5e-4)
    (hq : q = value params "q" 5.0) (hh : h = value params "h" 20.0)
    (hkf : kf = value params "kf" 1e-3) (hL : L = value params "L" 1000.0)
    (tPoints tD : List α)
    (htPoints : tPoints = if providedTime.isEmpty
      then generateLogTimeSteps E.pow 100 (-3.0) 3.0 else providedTime)
    (htD : tD = tPoints.map (fun t => 14.4 * kf * t / (phi * mu * Ct * E.pow L 2)))
    (hden1 : phi * mu * Ct * E.pow L 2 ≠ 0) (hden2 : kf * h ≠ 0)
    (hlen : 2 < tD.length →
      (E.calculateBourdetDerivative tD
        (calculatePDandDeriv E.pow E.log E.calculateBourdetDerivative tD params
          (fun z p => flaplace_composite E z p type) highPrecision).1 0.1).length
        = tD.length) :
    calculateTheoreticalCurve E type params providedTime highPrecision
      = (tPoints,
          (calculatePDandDeriv E.pow E.log E.calculateBourdetDerivative tD params
            (fun z p => flaplace_composite E z p type) highPrecision).1.map
              (fun pd => some (1.842e-3 * q * mu * B / (kf * h) * pd)),
          (calculatePDandDeriv E.pow E.log E.calculateBourdetDerivative tD params
            (fun z p => flaplace_composite E z p type) highPrecision).2.map
              (fun dv => some (1.842e-3 * q * mu * B / (kf * h) * dv))) := by
  have hlenT : tD.length = tPoints.length := by rw [htD, List.length_map]
  unfold calculateTheoreticalCurve
  simp only [← hphi, ← hmu, ← hB, ← hCt, ← hq, ← hh, ← hkf, ← hL, ← htPoints]
  rw [mapM_some _ (fun t => 14.4 * kf * t / (phi * mu * Ct * E.pow L 2)) tPoints
    (fun t _ => by unfold fdiv; rw [if_neg hden1])]
  simp only [Option.map_some', ← htD, fdiv, if_neg hden2]
  rw [scale_entries _ _ tPoints.length (by rw [calculatePDandDeriv_fst_length, hlenT]),
    scale_entries _ _ tPoints.length
      (by rw [calculatePDandDeriv_snd_length _ _ _ _ _ _ _ hlen, hlenT])]

theorem calculateTheoreticalCurve_eq [FloorRing α] (E : MathEnv α)
    (hpow : ∀ (b : α) (n : ℕ), E.pow b (n : α) = b ^ n)
    (type : ModelType) (params : Params α) (providedTime : List α) (highPrecision : Bool)
    (phi mu B Ct q h kf L : α)
    (hphi : phi = value params "phi" 0.05) (hmu : mu = value params "mu" 0.5)
    (hB : B = value params "B" 1.05) (hCt : Ct = value params "Ct" 5e-4)
    (hq : q = value params "q" 5.0) (hh : h = value params "h" 20.0)
    (hkf : kf = value params "kf" 1e-3) (hL : L = value params "L" 1000.0)
    (tPoints tD : List α)
    (htPoints : tPoints = if providedTime.isEmpty
      then generateLogTimeSteps E.pow 100 (-3.0) 3.0 else providedTime)
    (htD : tD = tPoints.map (fun t => 14.4 * kf * t / (phi * mu * Ct * L ^ 2)))
    (hden1 : phi * mu * Ct * L ^ 2 ≠ 0) (hden2 : kf * h ≠ 0)
    (hlen : 2 < tD.length →
      (E.calculateBourdetDerivative tD
        (calculatePDandDeriv E.pow E.log E.calculateBourdetDerivative tD params
          (fun z p => flaplace_composite E z p type) highPrecision).1 0.1).length
        = tD.length) :
    calculateTheoreticalCurve E type params providedTime highPrecision
      = (tPoints,
          (calculatePDandDeriv E.pow E.log E.calculateBourdetDerivative tD params
            (fun z p => flaplace_composite E z p type) highPrecision).1.map
              (fun pd => some (1.842e-3 * q * mu * B / (kf * h) * pd)),
          (calculatePDandDeriv E.pow E.log E.calculateBourdetDerivative tD params
            (fun z p => flaplace_composite E z p type) highPrecision).2.map
              (fun dv => some (1.842e-3 * q * mu * B / (kf * h) * dv))) := by
  have hp2 : E.pow L 2 = L ^ 2 := by
    have := hpow L 2
    simpa using this
  exact calculateTheoreticalCurve_finite E type params providedTime highPrecision
    phi mu B Ct q h kf L hphi hmu hB hCt hq hh hkf hL tPoints tD htPoints
    (by rw [htD, hp2]) (by rw [hp2]; exact hden1) hden2 hlen

theorem mapM_length {β γ : Type} (f : β → Option γ) (l : List β) (r : List γ)
    (h : l.mapM f = some r) : r.length = l.length := by
  induction l generalizing r with
  | nil =>
    rw [List.mapM_nil] at h
    cases h
    rfl
  | cons a t ih =>
    rw [List.mapM_cons] at h
    cases ha : f a with
    | none => rw [ha] at h; cases h
    | some b =>
      rw [ha] at h
      cases ht : t.mapM f with
      | none => rw [ht] at h; cases h
      | some r2 =>
        rw [ht] at h
        cases h
        simp [ih r2 ht]

theorem zero_entries (f : α) (n : ℕ) :
    (List.range n).map (fun i => (some f).bind fun f =>
        (some (List.replicate n (0 : α))).bind fun v => v[i]?.map fun dv => f * dv)
      = List.replicate n (some 0) := by
  apply List.ext_getElem
  · simp
  · intro i h1 h2
    have hi : i < n := by simpa using h2
    simp [hi]

theorem none_entries (n : ℕ) (V : Option (List α)) :
    (List.range n).map (fun i => (none : Option α).bind fun f =>
        V.bind fun v => v[i]?.map fun dv => f * dv)
      = List.replicate n none := by
  apply List.ext_getElem
  · simp
  · intro i h1 h2
    simp

theorem curve_zeros [FloorRing α] (E : MathEnv α) (type : ModelType)
    (params : Params α) (providedTime : List α) (highPrecision : Bool)
    (h2 : (calculateTheoreticalCurve E type params providedTime highPrecision).1.length ≤ 2)
    (hden2 : value params "kf" 1e-3 * value params "h" 20.0 ≠ 0) :
    (calculateTheoreticalCurve E type params providedTime highPrecision).2.2
      = List.replicate
          (calculateTheoreticalCurve E type params providedTime highPrecision).1.length
          (some 0) := by
  rw [calculateTheoreticalCurve_fst] at h2 ⊢
  have e0 : (0.0 : α) = 0 := by norm_num
  unfold calculateTheoreticalCurve
  simp only [fdiv, if_neg hden2]
  cases hm : List.mapM (fun t => if value params "phi" 0.05 * value params "mu" 0.5
      * value params "Ct" 5e-4 * E.pow (value params "L" 1000.0) 2 = 0 then none
      else some (14.4 * value params "kf" 1e-3 * t / (value params "phi" 0.05
        * value params "mu" 0.5 * value params "Ct" 5e-4 * E.pow (value params "L" 1000.0) 2)))
      (if providedTime.isEmpty then generateLogTimeSteps E.pow 100 (-3.0) 3.0
        else providedTime) with
  | none =>
    simp only [Option.map_none', if_neg (not_lt.mpr h2), e0]
    exact zero_entries _ _
  | some tD =>
    have hl := mapM_length _ _ _ hm
    simp only [Option.map_some', calculatePDandDeriv, hl, if_neg (not_lt.mpr h2)]
    exact zero_entries _ _

theorem curve_factor [FloorRing α] (E : MathEnv α) (type : ModelType)
    (params : Params α) (providedTime : List α) (highPrecision : Bool)
    (hden2 : value params "kf" 1e-3 * value params "h" 20.0 = 0) :
    (calculateTheoreticalCurve E type params providedTime highPrecision).2.1
      = List.replicate
          (calculateTheoreticalCurve E type params providedTime highPrecision).1.length none
    ∧ (calculateTheoreticalCurve E type params providedTime highPrecision).2.2
      = List.replicate
          (calculateTheoreticalCurve E type params providedTime highPrecision).1.length
          none := by
  rw [calculateTheoreticalCurve_fst]
  unfold calculateTheoreticalCurve
  simp only [fdiv, if_pos hden2]
  exact ⟨none_entries _ _, none_entries _ _⟩

theorem exists_map_some {β γ : Type} (T : List γ) (P D : List β) (f g : β → γ) :
    ∃ finalP finalDP : List γ,
      (T, P.map (fun x => some (f x)), D.map (fun x => some (g x)))
        = (T, finalP.map some, finalDP.map some) :=
  ⟨P.map f, D.map g, by rw [List.map_map, List.map_map]; rfl⟩

theorem curve_shape [FloorRing α] (E : MathEnv α) (type : ModelType)
    (params : Params α) (providedTime : List α) (highPrecision : Bool)
    (hne : providedTime ≠ []) :
    (calculateTheoreticalCurve E type params providedTime highPrecision).1 = providedTime
    ∧ (calculateTheoreticalCurve E type params providedTime highPrecision).2.1.length
        = providedTime.length
    ∧ (calculateTheoreticalCurve E type params providedTime highPrecision).2.2.length
        = providedTime.length
    ∧ (providedTime.length ≤ 2 → value params "kf" 1e-3 * value params "h" 20.0 ≠ 0 →
        (calculateTheoreticalCurve E type params providedTime highPrecision).2.2
          = List.replicate providedTime.length (some 0))
    ∧ (value params "kf" 1e-3 * value params "h" 20.0 = 0 →
        (calculateTheoreticalCurve E type params providedTime highPrecision).2.1
            = List.replicate providedTime.length none
        ∧ (calculateTheoreticalCurve E type params providedTime highPrecision).2.2
            = List.replicate providedTime.length none)
    ∧ ((∀ (t p : List α) (w : α), p.length = t.length →
          (E.calculateBourdetDerivative t p w).length = t.length) →
        value params "phi" 0.05 * value params "mu" 0.5 * value params "Ct" 5e-4
          * E.pow (value params "L" 1000.0) 2 ≠ 0 →
        value params "kf" 1e-3 * value params "h" 20.0 ≠ 0 →
        ∃ finalP finalDP : List α,
          calculateTheoreticalCurve E type params providedTime highPrecision
            = (providedTime, finalP.map some, finalDP.map some)) := by
  have hemp : providedTime.isEmpty = false := by
    cases providedTime with
    | nil => exact absurd rfl hne
    | cons a t => rfl
  have h1 : (calculateTheoreticalCurve E type params providedTime highPrecision).1
      = providedTime := by
    rw [calculateTheoreticalCurve_fst, hemp]
    rfl
  have hL := calculateTheoreticalCurve_lengths E type params providedTime highPrecision
  rw [h1] at hL
  refine ⟨h1, hL.1, hL.2, ?_, ?_, ?_⟩
  · intro h2 hden2
    have := curve_zeros E type params providedTime highPrecision (by rw [h1]; exact h2) hden2
    rw [h1] at this
    exact this
  · intro hden2
    have := curve_factor E type params providedTime highPrecision hden2
    rw [h1] at this
    exact this
  · intro hlen hden1 hden2
    have key := calculateTheoreticalCurve_finite E type params providedTime highPrecision
      _ _ _ _ _ _ _ _ rfl rfl rfl rfl rfl rfl rfl rfl providedTime _
      (by rw [hemp]; rfl) rfl hden1 hden2
      (fun _ => hlen _ _ _ (by rw [calculatePDandDeriv_fst_length]))
    rw [key]
    exact exists_map_some _ _ _ _ _

end Curve

/-! ## Inversion of a known transform -/

section Known

theorem stehfestN_supplied {α : Type} [LinearOrderedField α] [FloorRing α] (N : Int)
    (hev : Even N) (p : Params α) :
    stehfestN (("N", (N : α)) :: p) true = N := by
  unfold stehfestN
  rw [value_cons_self, toInt_intCast]
  simp only [if_true]
  rw [if_neg]
  rw [not_not]
  exact (tmod_two_eq_zero_iff N).mpr hev

theorem inversion_exp_point (pow : ℝ → ℝ → ℝ) (bourdet : List ℝ → List ℝ → ℝ → List ℝ)
    (N : Int) (hev : Even N) (a t : ℝ) (ha : 0 < a) (ht : 1e-12 < t) :
    (calculatePDandDeriv pow Real.log bourdet [t] [("N", (N : ℝ))]
        (fun z _ => some (1 / (z + a))) true).1[0]?
      = some (∑ m in Finset.Icc (1 : Int) N,
          stefestCoefficient pow m N * (Real.log 2 / ((m : ℝ) * Real.log 2 + a * t))) := by
  have ht0 : (0 : ℝ) < t := lt_trans (by norm_num) ht
  have hL : (0 : ℝ) < Real.log 2 := Real.log_pos (by norm_num)
  have hg : |value ([("N", (N : ℝ))] : Params ℝ) "gamaD" 0| ≤ 1e-9 := by
    rw [value_cons, if_neg (by decide), value_nil]
    norm_num
  simp only [calculatePDandDeriv, List.map_cons, List.map_nil, List.getElem?_cons_zero,
    inversionPoint, if_neg (not_le.mpr ht), stehfestSum_eq, stehfestN_supplied N hev,
    pressureSensitivity_negligible Real.log _ _ hg, Option.getD_some]
  congr 1
  rw [Finset.sum_mul, Finset.sum_div]
  apply Finset.sum_congr rfl
  intro m hm
  have hm0 : (0 : ℝ) < (m : ℝ) := by
    have : 1 ≤ m := (Finset.mem_Icc.mp hm).1
    exact_mod_cast (by omega : 0 < m)
  have h1 : (m : ℝ) * Real.log 2 / t + a ≠ 0 := by positivity
  have h2 : (m : ℝ) * Real.log 2 + a * t ≠ 0 := by positivity
  field_simp
  ring

theorem exp_sum_four (pow : ℝ → ℝ → ℝ)
    (hpow : ∀ (b : ℝ) (n : ℕ), pow b (n : ℝ) = b ^ n) (L x : ℝ) :
    ∑ m in Finset.Icc (1 : Int) 4, stefestCoefficient pow m 4 * (L / ((m : ℝ) * L + x))
      = -2 * (L / (1 * L + x)) + 26 * (L / (2 * L + x)) + -48 * (L / (3 * L + x)) + 24 * (L / (4 * L + x)) := by
  obtain ⟨h1, h2, h3, h4⟩ := stefestCoefficient_four pow hpow
  have hI : Finset.Icc (1 : Int) 4 = {1, 2, 3, 4} := by decide
  rw [hI, Finset.sum_insert (by decide),
    Finset.sum_insert (by decide),
    Finset.sum_insert (by decide),
    Finset.sum_singleton, h1, h2, h3, h4]
  push_cast
  ring

theorem exp_sum_six (pow : ℝ → ℝ → ℝ)
    (hpow : ∀ (b : ℝ) (n : ℕ), pow b (n : ℝ) = b ^ n) (L x : ℝ) :
    ∑ m in Finset.Icc (1 : Int) 6, stefestCoefficient pow m 6 * (L / ((m : ℝ) * L + x))
      = 1 * (L / (1 * L + x)) + -49 * (L / (2 * L + x)) + 366 * (L / (3 * L + x)) + -858 * (L / (4 * L + x)) + 810 * (L / (5 * L + x)) + -270 * (L / (6 * L + x)) := by
  obtain ⟨h1, h2, h3, h4, h5, h6⟩ := stefestCoefficient_six pow hpow
  have hI : Finset.Icc (1 : Int) 6 = {1, 2, 3, 4, 5, 6} := by decide
  rw [hI, Finset.sum_insert (by decide),
    Finset.sum_insert (by decide),
    Finset.sum_insert (by decide),
    Finset.sum_insert (by decide),
    Finset.sum_insert (by decide),
    Finset.sum_singleton, h1, h2, h3, h4, h5, h6]
  push_cast
  ring

theorem exp_sum_eight (pow : ℝ → ℝ → ℝ)
    (hpow : ∀ (b : ℝ) (n : ℕ), pow b (n : ℝ) = b ^ n) (L x : ℝ) :
    ∑ m in Finset.Icc (1 : Int) 8, stefestCoefficient pow m 8 * (L / ((m : ℝ) * L + x))
      = (-1 / 3) * (L / (1 * L + x)) + (145 / 3) * (L / (2 * L + x)) + -906 * (L / (3 * L + x)) + (16394 / 3) * (L / (4 * L + x)) + (-43130 / 3) * (L / (5 * L + x)) + 18730 * (L / (6 * L + x)) + (-35840 / 3) * (L / (7 * L + x)) + (8960 / 3) * (L / (8 * L + x)) := by
  obtain ⟨h1, h2, h3, h4, h5, h6, h7, h8⟩ := stefestCoefficient_eight pow hpow
  have hI : Finset.Icc (1 : Int) 8 = {1, 2, 3, 4, 5, 6, 7, 8} := by decide
  rw [hI, Finset.sum_insert (by decide),
    Finset.sum_insert (by decide),
    Finset.sum_insert (by decide),
    Finset.sum_insert (by decide),
    Finset.sum_insert (by decide),
    Finset.sum_insert (by decide),
    Finset.sum_insert (by decide),
    Finset.sum_singleton, h1, h2, h3, h4, h5, h6, h7, h8]
  push_cast
  ring

theorem exp_sum_ten (pow : ℝ → ℝ → ℝ)
    (hpow : ∀ (b : ℝ) (n : ℕ), pow b (n : ℝ) = b ^ n) (L x : ℝ) :
    ∑ m in Finset.Icc (1 : Int) 10, stefestCoefficient pow m 10 * (L / ((m : ℝ) * L + x))
      = (1 / 12) * (L / (1 * L + x)) + (-385 / 12) * (L / (2 * L + x)) + 1279 * (L / (3 * L + x)) + (-46871 / 3) * (L / (4 * L + x)) + (505465 / 6) * (L / (5 * L + x)) + (-473915 / 2) * (L / (6 * L + x)) + (1127735 / 3) * (L / (7 * L + x)) + (-1020215 / 3) * (L / (8 * L + x)) + (328125 / 2) * (L / (9 * L + x)) + (-65625 / 2) * (L / (10 * L + x)) := by
  obtain ⟨h1, h2, h3, h4, h5, h6, h7, h8, h9, h10⟩ := stefestCoefficient_ten pow hpow
  have hI : Finset.Icc (1 : Int) 10 = {1, 2, 3, 4, 5, 6, 7, 8, 9, 10} := by decide
  rw [hI, Finset.sum_insert (by decide),
    Finset.sum_insert (by decide),
    Finset.sum_insert (by decide),
    Finset.sum_insert (by decide),
    Finset.sum_insert (by decide),
    Finset.sum_insert (by decide),
    Finset.sum_insert (by decide),
    Finset.sum_insert (by decide),
    Finset.sum_insert (by decide),
    Finset.sum_singleton, h1, h2, h3, h4, h5, h6, h7, h8, h9, h10]
  push_cast
  ring

theorem kernel_bounds_one (L : ℝ) (h1 : 0.6931471803 < L) (h2 : L < 0.6931471808) :
    (0.4093838907596 ≤ L / (1 * L + 1) ∧ L / (1 * L + 1) ≤ 0.4093838909341)
      ∧ (0.2904701078561 ≤ L / (2 * L + 1) ∧ L / (2 * L + 1) ≤ 0.2904701079440)
      ∧ (0.2250885984013 ≤ L / (3 * L + 1) ∧ L / (3 * L + 1) ≤ 0.2250885984541)
      ∧ (0.1837325061183 ≤ L / (4 * L + 1) ∧ L / (4 * L + 1) ≤ 0.1837325061536)
      ∧ (0.1552145481928 ≤ L / (5 * L + 1) ∧ L / (5 * L + 1) ≤ 0.1552145482180)
      ∧ (0.1343599320452 ≤ L / (6 * L + 1) ∧ L / (6 * L + 1) ≤ 0.1343599320641)
      ∧ (0.1184455905481 ≤ L / (7 * L + 1) ∧ L / (7 * L + 1) ≤ 0.1184455905628)
      ∧ (0.1059019692590 ≤ L / (8 * L + 1) ∧ L / (8 * L + 1) ≤ 0.1059019692708)
      ∧ (0.0957607203918 ≤ L / (9 * L + 1) ∧ L / (9 * L + 1) ≤ 0.0957607204015)
      ∧ (0.0873919995577 ≤ L / (10 * L + 1) ∧ L / (10 * L + 1) ≤ 0.0873919995657) := by
  have hL : (0 : ℝ) < L := lt_trans (by norm_num) h1
  refine ⟨?_, ?_, ?_, ?_, ?_, ?_, ?_, ?_, ?_, ?_⟩
  · exact ⟨by rw [le_div_iff₀ (by positivity)]; linarith,
      by rw [div_le_iff₀ (by positivity)]; linarith⟩
  · exact ⟨by rw [le_div_iff₀ (by positivity)]; linarith,
      by rw [div_le_iff₀ (by positivity)]; linarith⟩
  · exact ⟨by rw [le_div_iff₀ (by positivity)]; linarith,
      by rw [div_le_iff₀ (by positivity)]; linarith⟩
  · exact ⟨by rw [le_div_iff₀ (by positivity)]; linarith,
      by rw [div_le_iff₀ (by positivity)]; linarith⟩
  · exact ⟨by rw [le_div_iff₀ (by positivity)]; linarith,
      by rw [div_le_iff₀ (by positivity)]; linarith⟩
  · exact ⟨by rw [le_div_iff₀ (by positivity)]; linarith,
      by rw [div_le_iff₀ (by positivity)]; linarith⟩
  · exact ⟨by rw [le_div_iff₀ (by positivity)]; linarith,
      by rw [div_le_iff₀ (by positivity)]; linarith⟩
  · exact ⟨by rw [le_div_iff₀ (by positivity)]; linarith,
      by rw [div_le_iff₀ (by positivity)]; linarith⟩
  · exact ⟨by rw [le_div_iff₀ (by positivity)]; linarith,
      by rw [div_le_iff₀ (by positivity)]; linarith⟩
  · exact ⟨by rw [le_div_iff₀ (by positivity)]; linarith,
      by rw [div_le_iff₀ (by positivity)]; linarith⟩

theorem kernel_bounds_two (L : ℝ) (h1 : 0.6931471803 < L) (h2 : L < 0.6931471808) :
    (0.2573744150970 ≤ L / (1 * L + 2) ∧ L / (1 * L + 2) ≤ 0.2573744152350)
      ∧ (0.2046919453798 ≤ L / (2 * L + 2) ∧ L / (2 * L + 2) ≤ 0.2046919454671)
      ∧ (0.1699122719005 ≤ L / (3 * L + 2) ∧ L / (3 * L + 2) ≤ 0.1699122719607)
      ∧ (0.1452350539280 ≤ L / (4 * L + 2) ∧ L / (4 * L + 2) ≤ 0.1452350539720)
      ∧ (0.1268168079818 ≤ L / (5 * L + 2) ∧ L / (5 * L + 2) ≤ 0.1268168080154)
      ∧ (0.1125442992006 ≤ L / (6 * L + 2) ∧ L / (6 * L + 2) ≤ 0.1125442992271) := by
  have hL : (0 : ℝ) < L := lt_trans (by norm_num) h1
  refine ⟨?_, ?_, ?_, ?_, ?_, ?_⟩
  · exact ⟨by rw [le_div_iff₀ (by positivity)]; linarith,
      by rw [div_le_iff₀ (by positivity)]; linarith⟩
  · exact ⟨by rw [le_div_iff₀ (by positivity)]; linarith,
      by rw [div_le_iff₀ (by positivity)]; linarith⟩
  · exact ⟨by rw [le_div_iff₀ (by positivity)]; linarith,
      by rw [div_le_iff₀ (by positivity)]; linarith⟩
  · exact ⟨by rw [le_div_iff₀ (by positivity)]; linarith,
      by rw [div_le_iff₀ (by positivity)]; linarith⟩
  · exact ⟨by rw [le_div_iff₀ (by positivity)]; linarith,
      by rw [div_le_iff₀ (by positivity)]; linarith⟩
  · exact ⟨by rw [le_div_iff₀ (by positivity)]; linarith,
      by rw [div_le_iff₀ (by positivity)]; linarith⟩

theorem exp_neg_one_bounds : (0.36787944 : ℝ) < Real.exp (-1) ∧ Real.exp (-1) < 0.36787945 := by
  have h1 := Real.exp_one_gt_d9
  have h2 := Real.exp_one_lt_d9
  have hpos : (0 : ℝ) < Real.exp 1 := Real.exp_pos 1
  rw [Real.exp_neg]
  constructor
  · rw [lt_inv_comm₀ (by norm_num) hpos]
    exact lt_trans h2 (by norm_num)
  · rw [inv_lt_comm₀ hpos (by norm_num)]
    exact lt_trans (by norm_num) h1

theorem exp_neg_two_bounds : (0.13533528 : ℝ) < Real.exp (-2) ∧ Real.exp (-2) < 0.13533529 := by
  obtain ⟨h1, h2⟩ := exp_neg_one_bounds
  have e : Real.exp (-2) = Real.exp (-1) * Real.exp (-1) := by
    rw [← Real.exp_add]; norm_num
  rw [e]
  constructor
  · nlinarith
  · nlinarith

theorem stehfest_exp_four_at_one (L : ℝ) (h1 : 0.6931471803 < L)
    (h2 : L < 0.6931471808) :
    0.3387824 ≤ -2 * (L / (1 * L + 1)) + 26 * (L / (2 * L + 1)) + -48 * (L / (3 * L + 1)) + 24 * (L / (4 * L + 1))
    ∧ -2 * (L / (1 * L + 1)) + 26 * (L / (2 * L + 1)) + -48 * (L / (3 * L + 1)) + 24 * (L / (4 * L + 1)) ≤ 0.3387825 := by
  obtain ⟨⟨l1, u1⟩, ⟨l2, u2⟩, ⟨l3, u3⟩, ⟨l4, u4⟩, ⟨l5, u5⟩, ⟨l6, u6⟩, ⟨l7, u7⟩, ⟨l8, u8⟩, ⟨l9, u9⟩, ⟨l10, u10⟩⟩ := kernel_bounds_one L h1 h2
  generalize L / (1 * L + 1) = k1 at *
  generalize L / (2 * L + 1) = k2 at *
  generalize L / (3 * L + 1) = k3 at *
  generalize L / (4 * L + 1) = k4 at *
  generalize L / (5 * L + 1) = k5 at *
  generalize L / (6 * L + 1) = k6 at *
  generalize L / (7 * L + 1) = k7 at *
  generalize L / (8 * L + 1) = k8 at *
  generalize L / (9 * L + 1) = k9 at *
  generalize L / (10 * L + 1) = k10 at *
  constructor <;> linarith

theorem stehfest_exp_six_at_one (L : ℝ) (h1 : 0.6931471803 < L)
    (h2 : L < 0.6931471808) :
    0.3628877 ≤ 1 * (L / (1 * L + 1)) + -49 * (L / (2 * L + 1)) + 366 * (L / (3 * L + 1)) + -858 * (L / (4 * L + 1)) + 810 * (L / (5 * L + 1)) + -270 * (L / (6 * L + 1))
    ∧ 1 * (L / (1 * L + 1)) + -49 * (L / (2 * L + 1)) + 366 * (L / (3 * L + 1)) + -858 * (L / (4 * L + 1)) + 810 * (L / (5 * L + 1)) + -270 * (L / (6 * L + 1)) ≤ 0.3628878 := by
  obtain ⟨⟨l1, u1⟩, ⟨l2, u2⟩, ⟨l3, u3⟩, ⟨l4, u4⟩, ⟨l5, u5⟩, ⟨l6, u6⟩, ⟨l7, u7⟩, ⟨l8, u8⟩, ⟨l9, u9⟩, ⟨l10, u10⟩⟩ := kernel_bounds_one L h1 h2
  generalize L / (1 * L + 1) = k1 at *
  generalize L / (2 * L + 1) = k2 at *
  generalize L / (3 * L + 1) = k3 at *
  generalize L / (4 * L + 1) = k4 at *
  generalize L / (5 * L + 1) = k5 at *
  generalize L / (6 * L + 1) = k6 at *
  generalize L / (7 * L + 1) = k7 at *
  generalize L / (8 * L + 1) = k8 at *
  generalize L / (9 * L + 1) = k9 at *
  generalize L / (10 * L + 1) = k10 at *
  constructor <;> linarith

theorem stehfest_exp_eight_at_one (L : ℝ) (h1 : 0.6931471803 < L)
    (h2 : L < 0.6931471808) :
    0.3671574 ≤ (-1 / 3) * (L / (1 * L + 1)) + (145 / 3) * (L / (2 * L + 1)) + -906 * (L / (3 * L + 1)) + (16394 / 3) * (L / (4 * L + 1)) + (-43130 / 3) * (L / (5 * L + 1)) + 18730 * (L / (6 * L + 1)) + (-35840 / 3) * (L / (7 * L + 1)) + (8960 / 3) * (L / (8 * L + 1))
    ∧ (-1 / 3) * (L / (1 * L + 1)) + (145 / 3) * (L / (2 * L + 1)) + -906 * (L / (3 * L + 1)) + (16394 / 3) * (L / (4 * L + 1)) + (-43130 / 3) * (L / (5 * L + 1)) + 18730 * (L / (6 * L + 1)) + (-35840 / 3) * (L / (7 * L + 1)) + (8960 / 3) * (L / (8 * L + 1)) ≤ 0.3671586 := by
  obtain ⟨⟨l1, u1⟩, ⟨l2, u2⟩, ⟨l3, u3⟩, ⟨l4, u4⟩, ⟨l5, u5⟩, ⟨l6, u6⟩, ⟨l7, u7⟩, ⟨l8, u8⟩, ⟨l9, u9⟩, ⟨l10, u10⟩⟩ := kernel_bounds_one L h1 h2
  generalize L / (1 * L + 1) = k1 at *
  generalize L / (2 * L + 1) = k2 at *
  generalize L / (3 * L + 1) = k3 at *
  generalize L / (4 * L + 1) = k4 at *
  generalize L / (5 * L + 1) = k5 at *
  generalize L / (6 * L + 1) = k6 at *
  generalize L / (7 * L + 1) = k7 at *
  generalize L / (8 * L + 1) = k8 at *
  generalize L / (9 * L + 1) = k9 at *
  generalize L / (10 * L + 1) = k10 at *
  constructor <;> linarith

theorem stehfest_exp_ten_at_one (L : ℝ) (h1 : 0.6931471803 < L)
    (h2 : L < 0.6931471808) :
    0.3677789 ≤ (1 / 12) * (L / (1 * L + 1)) + (-385 / 12) * (L / (2 * L + 1)) + 1279 * (L / (3 * L + 1)) + (-46871 / 3) * (L / (4 * L + 1)) + (505465 / 6) * (L / (5 * L + 1)) + (-473915 / 2) * (L / (6 * L + 1)) + (1127735 / 3) * (L / (7 * L + 1)) + (-1020215 / 3) * (L / (8 * L + 1)) + (328125 / 2) * (L / (9 * L + 1)) + (-65625 / 2) * (L / (10 * L + 1))
    ∧ (1 / 12) * (L / (1 * L + 1)) + (-385 / 12) * (L / (2 * L + 1)) + 1279 * (L / (3 * L + 1)) + (-46871 / 3) * (L / (4 * L + 1)) + (505465 / 6) * (L / (5 * L + 1)) + (-473915 / 2) * (L / (6 * L + 1)) + (1127735 / 3) * (L / (7 * L + 1)) + (-1020215 / 3) * (L / (8 * L + 1)) + (328125 / 2) * (L / (9 * L + 1)) + (-65625 / 2) * (L / (10 * L + 1)) ≤ 0.3677976 := by
  obtain ⟨⟨l1, u1⟩, ⟨l2, u2⟩, ⟨l3, u3⟩, ⟨l4, u4⟩, ⟨l5, u5⟩, ⟨l6, u6⟩, ⟨l7, u7⟩, ⟨l8, u8⟩, ⟨l9, u9⟩, ⟨l10, u10⟩⟩ := kernel_bounds_one L h1 h2
  generalize L / (1 * L + 1) = k1 at *
  generalize L / (2 * L + 1) = k2 at *
  generalize L / (3 * L + 1) = k3 at *
  generalize L / (4 * L + 1) = k4 at *
  generalize L / (5 * L + 1) = k5 at *
  generalize L / (6 * L + 1) = k6 at *
  generalize L / (7 * L + 1) = k7 at *
  generalize L / (8 * L + 1) = k8 at *
  generalize L / (9 * L + 1) = k9 at *
  generalize L / (10 * L + 1) = k10 at *
  constructor <;> linarith

theorem stehfest_exp_four_at_two (L : ℝ) (h1 : 0.6931471803 < L)
    (h2 : L < 0.6931471808) :
    0.1370939 ≤ -2 * (L / (1 * L + 2)) + 26 * (L / (2 * L + 2)) + -48 * (L / (3 * L + 2)) + 24 * (L / (4 * L + 2))
    ∧ -2 * (L / (1 * L + 2)) + 26 * (L / (2 * L + 2)) + -48 * (L / (3 * L + 2)) + 24 * (L / (4 * L + 2)) ≤ 0.137094 := by
  obtain ⟨⟨l1, u1⟩, ⟨l2, u2⟩, ⟨l3, u3⟩, ⟨l4, u4⟩, ⟨l5, u5⟩, ⟨l6, u6⟩⟩ := kernel_bounds_two L h1 h2
  generalize L / (1 * L + 2) = k1 at *
  generalize L / (2 * L + 2) = k2 at *
  generalize L / (3 * L + 2) = k3 at *
  generalize L / (4 * L + 2) = k4 at *
  generalize L / (5 * L + 2) = k5 at *
  generalize L / (6 * L + 2) = k6 at *
  constructor <;> linarith

theorem stehfest_exp_six_at_two (L : ℝ) (h1 : 0.6931471803 < L)
    (h2 : L < 0.6931471808) :
    0.1383379 ≤ 1 * (L / (1 * L + 2)) + -49 * (L / (2 * L + 2)) + 366 * (L / (3 * L + 2)) + -858 * (L / (4 * L + 2)) + 810 * (L / (5 * L + 2)) + -270 * (L / (6 * L + 2))
    ∧ 1 * (L / (1 * L + 2)) + -49 * (L / (2 * L + 2)) + 366 * (L / (3 * L + 2)) + -858 * (L / (4 * L + 2)) + 810 * (L / (5 * L + 2)) + -270 * (L / (6 * L + 2)) ≤ 0.1383381 := by
  obtain ⟨⟨l1, u1⟩, ⟨l2, u2⟩, ⟨l3, u3⟩, ⟨l4, u4⟩, ⟨l5, u5⟩, ⟨l6, u6⟩⟩ := kernel_bounds_two L h1 h2
  generalize L / (1 * L + 2) = k1 at *
  generalize L / (2 * L + 2) = k2 at *
  generalize L / (3 * L + 2) = k3 at *
  generalize L / (4 * L + 2) = k4 at *
  generalize L / (5 * L + 2) = k5 at *
  generalize L / (6 * L + 2) = k6 at *
  constructor <;> linarith

theorem known_transform_value (pow : ℝ → ℝ → ℝ) (bourdet : List ℝ → List ℝ → ℝ → List ℝ)
    (N : Int) (hev : Even N) (a t x : ℝ) (ha : 0 < a) (ht : 1e-12 < t) (hx : a * t = x) :
    (calculatePDandDeriv pow Real.log bourdet [t] [("N", (N : ℝ))]
        (fun z _ => some (1 / (z + a))) true).1[0]?
      = some (∑ m in Finset.Icc (1 : Int) N,
          stefestCoefficient pow m N * (Real.log 2 / ((m : ℝ) * Real.log 2 + x))) := by
  rw [← hx]
  exact inversion_exp_point pow bourdet N hev a t ha ht

end Known

/-! ## Time grid, fracture placement and outer-boundary terms -/

section Grid

variable {α : Type} [LinearOrderedField α]

theorem forLoop_append {β : Type} (n : Int) (g : Int → β) :
    forLoop 0 (n - 1) (fun i (t : List β) => t ++ [g i]) []
      = (List.range n.toNat).map (fun (k : ℕ) => g (k : Int)) := by
  unfold forLoop
  have e : (n - 1 + 1 - 0).toNat = n.toNat := by congr 1; ring
  rw [e]
  generalize n.toNat = m
  induction m with
  | zero => rfl
  | succ m ih =>
    rw [List.range_succ, List.foldl_append, ih, List.map_append]
    simp

theorem generateLogTimeSteps_eq (pow : α → α → α) (n : Int) (a b : α) (hn : 2 ≤ n) :
    generateLogTimeSteps pow n a b
      = (List.range n.toNat).map
          (fun (k : ℕ) => pow 10 (a + (k : α) * ((b - a) / ((n : α) - 1)))) := by
  unfold generateLogTimeSteps
  rw [if_neg (by omega)]
  simp only []
  rw [forLoop_append]
  have e10 : (10.0 : α) = 10 := by norm_num
  simp only [e10, Int.cast_natCast, Int.cast_sub, Int.cast_one]

theorem logGrid_props (pow : α → α → α) (hmono : StrictMono (pow 10)) (n : Int) (a b : α)
    (hn : 2 ≤ n) (hab : a < b) :
    (generateLogTimeSteps pow n a b).length = n.toNat
    ∧ (∀ i : ℕ, i < n.toNat → (generateLogTimeSteps pow n a b)[i]?
        = some (pow 10 (a + (i : α) * ((b - a) / ((n : α) - 1)))))
    ∧ List.Pairwise (fun s t => s < t) (generateLogTimeSteps pow n a b)
    ∧ (generateLogTimeSteps pow n a b).head? = some (pow 10 a)
    ∧ (generateLogTimeSteps pow n a b).getLast? = some (pow 10 b) := by
  have hn1 : (0 : α) < (n : α) - 1 := by
    have : (2 : α) ≤ (n : α) := by exact_mod_cast hn
    linarith
  have hstep : 0 < (b - a) / ((n : α) - 1) := div_pos (sub_pos.mpr hab) hn1
  obtain ⟨m, hm⟩ : ∃ m : ℕ, n.toNat = m + 2 := ⟨n.toNat - 2, by omega⟩
  rw [generateLogTimeSteps_eq pow n a b hn]
  refine ⟨by simp, ?_, ?_, ?_, ?_⟩
  · intro i hi
    rw [List.getElem?_map, List.getElem?_range hi]
    rfl
  · rw [List.pairwise_map]
    refine List.Pairwise.imp ?_ (List.pairwise_lt_range n.toNat)
    intro i j hij
    apply hmono
    have : (i : α) < (j : α) := by exact_mod_cast hij
    nlinarith
  · rw [hm, List.range_succ_eq_map]
    simp
  · rw [hm, List.range_succ, List.map_append, List.map_singleton, List.getLast?_append,
      List.getLast?_singleton]
    show some _ = some _
    congr 2
    have hcast : ((m + 1 : ℕ) : α) = (n : α) - 1 := by
      have h1 : (n : Int) = ((m + 2 : ℕ) : Int) := by omega
      rw [h1]
      push_cast
      ring
    rw [hcast]
    field_simp

theorem logGrid_small (pow : α → α → α) (n : Int) (a b : α) (hn : n < 2) :
    generateLogTimeSteps pow n a b = [] := by
  unfold generateLogTimeSteps
  rw [if_pos hn]

theorem default_grid_used [FloorRing α] (E : MathEnv α) (type : ModelType) (params : Params α)
    (highPrecision : Bool) :
    calculateTheoreticalCurve E type params [] highPrecision
      = calculateTheoreticalCurve E type params (generateLogTimeSteps E.pow 100 (-3.0) 3.0)
          highPrecision := by
  unfold calculateTheoreticalCurve
  simp only [List.isEmpty_nil, if_true, ite_self]

theorem fracturePositions_eq (nf : Int) (hn : 2 ≤ nf) :
    (fracturePositions nf : List α)
      = (List.range nf.toNat).map (fun (k : ℕ) => -0.9 + (k : α) * (1.8 / ((nf : α) - 1))) := by
  unfold fracturePositions
  rw [if_neg (by omega)]
  simp only []
  rw [forLoop_append]
  have e : (0.9 - -0.9 : α) = 1.8 := by norm_num
  simp only [e, Int.cast_natCast, Int.cast_sub, Int.cast_one]

theorem fracturePositions_props (nf : Int) (hn : 2 ≤ nf) :
    (fracturePositions nf : List α).length = nf.toNat
    ∧ (∀ i : ℕ, i < nf.toNat →
        (fracturePositions nf : List α)[i]? = some (-0.9 + (i : α) * 1.8 / ((nf : α) - 1)))
    ∧ (∀ i : ℕ, i + 1 < nf.toNat → ∃ x y : α,
        (fracturePositions nf : List α)[i]? = some x
        ∧ (fracturePositions nf : List α)[i + 1]? = some y ∧ y - x = 1.8 / ((nf : α) - 1))
    ∧ (fracturePositions nf : List α).head? = some (-0.9)
    ∧ (fracturePositions nf : List α).getLast? = some 0.9 := by
  have hn1 : (0 : α) < (nf : α) - 1 := by
    have : (2 : α) ≤ (nf : α) := by exact_mod_cast hn
    linarith
  obtain ⟨m, hm⟩ : ∃ m : ℕ, nf.toNat = m + 2 := ⟨nf.toNat - 2, by omega⟩
  have hget : ∀ i : ℕ, i < nf.toNat →
      ((List.range nf.toNat).map
        (fun (k : ℕ) => -0.9 + (k : α) * (1.8 / ((nf : α) - 1))))[i]?
        = some (-0.9 + (i : α) * 1.8 / ((nf : α) - 1)) := by
    intro i hi
    rw [List.getElem?_map, List.getElem?_range hi, mul_div_assoc]
    rfl
  rw [fracturePositions_eq nf hn]
  refine ⟨by simp, hget, ?_, ?_, ?_⟩
  · intro i hi
    refine ⟨_, _, hget i (by omega), hget (i + 1) hi, ?_⟩
    push_cast
    ring
  · rw [hm, List.range_succ_eq_map]
    simp
  · rw [hm, List.range_succ, List.map_append, List.map_singleton, List.getLast?_append,
      List.getLast?_singleton]
    show some _ = some _
    have hcast : ((m + 1 : ℕ) : α) = (nf : α) - 1 := by
      have h1 : (nf : Int) = ((m + 2 : ℕ) : Int) := by omega
      rw [h1]
      push_cast
      ring
    rw [hcast]
    congr 1
    field_simp
    norm_num

theorem toInt_lt_one [FloorRing α] (x : α) (h : x < 1) : toInt x < 1 := by
  unfold toInt
  split_ifs with h0
  · exact Int.floor_lt.mpr (by exact_mod_cast h)
  · have hx : x ≤ ((0 : Int) : α) := by
      push_neg at h0
      exact_mod_cast h0.le
    have := Int.ceil_le.mpr hx
    omega

theorem fractureCount_props [FloorRing α] (p : Params α) :
    1 ≤ fractureCount p
    ∧ (value p "nf" 4 < 1 → fractureCount p = 1)
    ∧ (toInt (value p "nf" 4) < 1 → fractureCount p = 1)
    ∧ (1 ≤ toInt (value p "nf" 4) → fractureCount p = toInt (value p "nf" 4)) := by
  have key : 1 ≤ fractureCount p
      ∧ (toInt (value p "nf" 4) < 1 → fractureCount p = 1)
      ∧ (1 ≤ toInt (value p "nf" 4) → fractureCount p = toInt (value p "nf" 4)) := by
    unfold fractureCount
    simp only []
    split_ifs with h
    · exact ⟨le_refl 1, fun _ => rfl, fun h' => by omega⟩
    · exact ⟨by omega, fun h' => by omega, fun _ => rfl⟩
  exact ⟨key.1, fun h => key.2.1 (toInt_lt_one _ h), key.2.1, key.2.2⟩

theorem outerBoundaryTerms_closed (E : MathEnv α) (gama2 arg_g2_rm reD : α) (type : ModelType)
    (h : type = ModelType.Model_3 ∨ type = ModelType.Model_4) :
    outerBoundaryTerms E gama2 arg_g2_rm reD type
      = if scaled_besseli E 1 (gama2 * reD) > 1e-100 then
          (E.cyl_bessel_k 1 (gama2 * reD) / scaled_besseli E 1 (gama2 * reD)
              * scaled_besseli E 0 arg_g2_rm * E.exp (arg_g2_rm - gama2 * reD),
            E.cyl_bessel_k 1 (gama2 * reD) / scaled_besseli E 1 (gama2 * reD)
              * scaled_besseli E 1 arg_g2_rm * E.exp (arg_g2_rm - gama2 * reD))
        else (0, 0) := by
  have e0 : ((0.0 : α), (0.0 : α)) = (0, 0) := by norm_num
  unfold outerBoundaryTerms
  simp only [e0]
  rcases h with h | h <;> subst h <;> simp

theorem outerBoundaryTerms_constP (E : MathEnv α) (gama2 arg_g2_rm reD : α) (type : ModelType)
    (h : type = ModelType.Model_5 ∨ type = ModelType.Model_6) :
    outerBoundaryTerms E gama2 arg_g2_rm reD type
      = if scaled_besseli E 0 (gama2 * reD) > 1e-100 then
          (-(E.cyl_bessel_k 0 (gama2 * reD) / scaled_besseli E 0 (gama2 * reD))
              * scaled_besseli E 0 arg_g2_rm * E.exp (arg_g2_rm - gama2 * reD),
            -(E.cyl_bessel_k 0 (gama2 * reD) / scaled_besseli E 0 (gama2 * reD))
              * scaled_besseli E 1 arg_g2_rm * E.exp (arg_g2_rm - gama2 * reD))
        else (0, 0) := by
  have e0 : ((0.0 : α), (0.0 : α)) = (0, 0) := by norm_num
  unfold outerBoundaryTerms
  simp only [e0]
  rcases h with h | h <;> subst h <;> simp

theorem PWD_composite_terms (E : MathEnv α) (z fs1 fs2 M12 LfD rmD reD : α) (nf : Int)
    (xwD : List α) (type : ModelType) :
    PWD_composite E z fs1 fs2 M12 LfD rmD reD nf xwD type
      = PWD_solve E z M12 LfD (E.sqrt (z * fs1)) (E.sqrt (z * fs2)) (E.sqrt (z * fs2) * rmD)
          (E.sqrt (z * fs1) * rmD) nf xwD
          (outerBoundaryTerms E (E.sqrt (z * fs2)) (E.sqrt (z * fs2) * rmD) reD type) := rfl

theorem scaled_besseli_eq (E : MathEnv α) (v : Int) (x : α) :
    scaled_besseli E v x
      = if |x| > 600 then 1 / E.sqrt (2 * M_PI * |x|)
        else E.cyl_bessel_i v |x| * E.exp (-|x|) := by
  have e : (if x < 0 then -x else x) = |x| := by
    split_ifs with h
    · exact (abs_of_neg h).symm
    · exact (abs_of_nonneg (not_lt.mp h)).symm
  have e600 : (600.0 : α) = 600 := by norm_num
  have e1 : (1.0 : α) = 1 := by norm_num
  have e2 : (2.0 : α) = 2 := by norm_num
  unfold scaled_besseli
  simp only [e, e600, e1, e2]

end Grid

/-! ## Linear system of the fracture fluxes -/

section System

variable {α : Type} [LinearOrderedField α]

theorem PWD_composite_eq_solve (E : MathEnv α) (z fs1 fs2 M12 LfD rmD reD : α) (nf : Int)
    (xwD : List α) (type : ModelType) (hden : M12 * z * 2 * LfD ≠ 0) :
    PWD_composite E z fs1 fs2 M12 LfD rmD reD nf xwD type
      = some (E.fullPivLuSolve (nf.toNat + 1)
          (PWD_matrix E z fs1 fs2 M12 LfD rmD reD nf xwD type) (systemRhs nf.toNat)
          (Fin.last nf.toNat)) := by
  unfold PWD_composite PWD_solve PWD_matrix
  simp only []
  rw [if_pos]
  simp only [List.all_eq_true]
  intro i _ j _
  unfold PWD_entries fractureEntry fdiv
  simp only []
  rw [if_neg hden]
  rfl

theorem systemMatrix_last_row (z : α) (n : ℕ) (entry : ℕ → ℕ → α) (x : Fin (n + 1) → α) :
    (systemMatrix z n entry).mulVec x (Fin.last n) = z * ∑ j : Fin n, x j.castSucc := by
  unfold Matrix.mulVec Matrix.dotProduct
  have e0 : (0.0 : α) = 0 := by norm_num
  rw [Fin.sum_univ_castSucc, Finset.mul_sum]
  simp [systemMatrix, e0]

theorem systemMatrix_fracture_row (z : α) (n : ℕ) (entry : ℕ → ℕ → α) (x : Fin (n + 1) → α)
    (i : Fin n) :
    (systemMatrix z n entry).mulVec x i.castSucc
      = (∑ j : Fin n, systemMatrix z n entry i.castSucc j.castSucc * x j.castSucc)
        - x (Fin.last n) := by
  unfold Matrix.mulVec Matrix.dotProduct
  rw [Fin.sum_univ_castSucc]
  simp [systemMatrix]
  ring

theorem systemRhs_last (n : ℕ) : (systemRhs n : Fin (n + 1) → α) (Fin.last n) = 1 := by
  simp only [systemRhs, Fin.val_last, if_true]
  norm_num

theorem systemRhs_castSucc (n : ℕ) (i : Fin n) :
    (systemRhs n : Fin (n + 1) → α) i.castSucc = 0 := by
  have : (i : ℕ) ≠ n := Nat.ne_of_lt i.isLt
  simp [systemRhs, this]

theorem systemMatrix_det_one (z : α) (entry : ℕ → ℕ → α) :
    (systemMatrix z 1 entry).det = z := by
  rw [Matrix.det_fin_two]
  simp [systemMatrix]
  norm_num

theorem PWD_matrix_det_one (E : MathEnv α) (z fs1 fs2 M12 LfD rmD reD : α) (xwD : List α)
    (type : ModelType) :
    (PWD_matrix E z fs1 fs2 M12 LfD rmD reD 1 xwD type).det = z := by
  unfold PWD_matrix
  exact systemMatrix_det_one z _

theorem system_solution (E : MathEnv α)
    (hsolve : ∀ (n : ℕ) (A : Matrix (Fin n) (Fin n) α) (b : Fin n → α), A.det ≠ 0 →
      A.mulVec (E.fullPivLuSolve n A b) = b)
    (z fs1 fs2 M12 LfD rmD reD : α) (nf : Int) (xwD : List α) (type : ModelType)
    (hz : 0 < z) (hden : M12 * z * 2 * LfD ≠ 0)
    (hdet : (PWD_matrix E z fs1 fs2 M12 LfD rmD reD nf xwD type).det ≠ 0) :
    ∃ x : Fin (nf.toNat + 1) → α,
      (PWD_matrix E z fs1 fs2 M12 LfD rmD reD nf xwD type).mulVec x = systemRhs nf.toNat
      ∧ (∀ y : Fin (nf.toNat + 1) → α,
          (PWD_matrix E z fs1 fs2 M12 LfD rmD reD nf xwD type).mulVec y = systemRhs nf.toNat
            → y = x)
      ∧ z * ∑ j : Fin nf.toNat, x j.castSucc = 1
      ∧ ∑ j : Fin nf.toNat, x j.castSucc = 1 / z
      ∧ (∀ i : Fin nf.toNat,
          ∑ j : Fin nf.toNat,
            PWD_matrix E z fs1 fs2 M12 LfD rmD reD nf xwD type i.castSucc j.castSucc
              * x j.castSucc = x (Fin.last nf.toNat))
      ∧ PWD_composite E z fs1 fs2 M12 LfD rmD reD nf xwD type
          = some (x (Fin.last nf.toNat)) := by
  have hx := hsolve (nf.toNat + 1) (PWD_matrix E z fs1 fs2 M12 LfD rmD reD nf xwD type)
    (systemRhs nf.toNat) hdet
  have hlast : z * ∑ j : Fin nf.toNat,
      E.fullPivLuSolve (nf.toNat + 1) (PWD_matrix E z fs1 fs2 M12 LfD rmD reD nf xwD type)
        (systemRhs nf.toNat) j.castSucc = 1 := by
    have h := congrFun hx (Fin.last nf.toNat)
    rw [systemRhs_last] at h
    rw [← h]
    unfold PWD_matrix
    rw [systemMatrix_last_row]
  refine ⟨_, hx, ?_, hlast, ?_, ?_, PWD_composite_eq_solve E z fs1 fs2 M12 LfD rmD reD nf xwD
    type hden⟩
  · intro y hy
    have hu : IsUnit (PWD_matrix E z fs1 fs2 M12 LfD rmD reD nf xwD type).det :=
      isUnit_iff_ne_zero.mpr hdet
    have h1 := congrArg
      (fun v => (PWD_matrix E z fs1 fs2 M12 LfD rmD reD nf xwD type)⁻¹.mulVec v) hy
    have h2 := congrArg
      (fun v => (PWD_matrix E z fs1 fs2 M12 LfD rmD reD nf xwD type)⁻¹.mulVec v) hx
    simp only [Matrix.mulVec_mulVec, Matrix.nonsing_inv_mul _ hu, Matrix.one_mulVec] at h1 h2
    rw [h1, h2]
  · rw [eq_div_iff hz.ne', mul_comm]
    exact hlast
  · intro i
    have h := congrFun hx i.castSucc
    rw [systemRhs_castSucc] at h
    unfold PWD_matrix at h ⊢
    rw [systemMatrix_fracture_row] at h
    exact sub_eq_zero.mp h

end System

/-! ## Adaptive quadrature -/

section Quadrature

variable {α : Type} [LinearOrderedField α]

theorem adaptiveGauss_eq (f : α → α) (a b eps : α) (depth maxDepth : Int) :
    adaptiveGauss f a b eps depth maxDepth
      = if depth ≥ maxDepth
            ∨ |gauss15 f a b - (gauss15 f a ((a + b) / 2) + gauss15 f ((a + b) / 2) b)|
              < 1e-10 * |gauss15 f a ((a + b) / 2) + gauss15 f ((a + b) / 2) b| + eps
        then gauss15 f a ((a + b) / 2) + gauss15 f ((a + b) / 2) b
        else adaptiveGauss f a ((a + b) / 2) (eps / 2) (depth + 1) maxDepth
          + adaptiveGauss f ((a + b) / 2) b (eps / 2) (depth + 1) maxDepth := by
  have e2 : (2.0 : α) = 2 := by norm_num
  rw [adaptiveGauss]
  simp only [e2]

theorem adaptiveGaussCalls_eq (f : α → α) (a b eps : α) (depth maxDepth : Int) :
    adaptiveGaussCalls f a b eps depth maxDepth
      = if depth ≥ maxDepth
            ∨ |gauss15 f a b - (gauss15 f a ((a + b) / 2) + gauss15 f ((a + b) / 2) b)|
              < 1e-10 * |gauss15 f a ((a + b) / 2) + gauss15 f ((a + b) / 2) b| + eps
        then [(a, b, depth, true)]
        else (a, b, depth, false)
          :: (adaptiveGaussCalls f a ((a + b) / 2) (eps / 2) (depth + 1) maxDepth
            ++ adaptiveGaussCalls f ((a + b) / 2) b (eps / 2) (depth + 1) maxDepth) := by
  have e2 : (2.0 : α) = 2 := by norm_num
  rw [adaptiveGaussCalls]
  simp only [e2]

theorem adaptiveGaussCalls_props (f : α → α) (maxDepth : Int) (n : ℕ) :
    ∀ (a b eps : α) (depth : Int), (maxDepth - depth).toNat ≤ n →
      (∀ call ∈ adaptiveGaussCalls f a b eps depth maxDepth,
        depth ≤ call.2.2.1 ∧ call.2.2.1 ≤ max depth maxDepth
        ∧ call.2.1 - call.1 = (b - a) / 2 ^ (call.2.2.1 - depth).toNat)
      ∧ ((adaptiveGaussCalls f a b eps depth maxDepth).filter
          (fun call => call.2.2.2)).length ≤ 2 ^ (maxDepth - depth).toNat
      ∧ (adaptiveGaussCalls f a b eps depth maxDepth).length + 1
          ≤ 2 ^ ((maxDepth - depth).toNat + 1)
      ∧ adaptiveGauss f a b eps depth maxDepth
          = (((adaptiveGaussCalls f a b eps depth maxDepth).filter
              (fun call => call.2.2.2)).map
              (fun call => gauss15 f call.1 ((call.1 + call.2.1) / 2)
                + gauss15 f ((call.1 + call.2.1) / 2) call.2.1)).sum := by
  induction n with
  | zero =>
    intro a b eps depth hn
    have hd : depth ≥ maxDepth := by omega
    rw [adaptiveGaussCalls_eq, adaptiveGauss_eq, if_pos (Or.inl hd), if_pos (Or.inl hd)]
    refine ⟨?_, ?_, ?_, ?_⟩
    · intro call hc
      rw [List.mem_singleton] at hc
      subst hc
      simp
    · simp
      exact Nat.one_le_two_pow
    · rw [pow_succ]
      have := @Nat.one_le_two_pow (maxDepth - depth).toNat
      simp
      omega
    · simp
  | succ n ih =>
    intro a b eps depth hn
    rw [adaptiveGaussCalls_eq, adaptiveGauss_eq]
    split_ifs with hacc
    · refine ⟨?_, ?_, ?_, ?_⟩
      · intro call hc
        rw [List.mem_singleton] at hc
        subst hc
        simp
      · simp
        exact Nat.one_le_two_pow
      · rw [pow_succ]
        have := @Nat.one_le_two_pow (maxDepth - depth).toNat
        simp
        omega
      · simp
    · have hd : depth < maxDepth := by
        by_contra hge
        exact hacc (Or.inl (not_lt.mp hge))
      have hn' : (maxDepth - (depth + 1)).toNat ≤ n := by omega
      have hpow : (maxDepth - depth).toNat = (maxDepth - (depth + 1)).toNat + 1 := by omega
      obtain ⟨l1, l2, l3, l4⟩ := ih a ((a + b) / 2) (eps / 2) (depth + 1) hn'
      obtain ⟨r1, r2, r3, r4⟩ := ih ((a + b) / 2) b (eps / 2) (depth + 1) hn'
      refine ⟨?_, ?_, ?_, ?_⟩
      · intro call hc
        rw [List.mem_cons, List.mem_append] at hc
        rcases hc with hc | hc | hc
        · subst hc
          simp
        · obtain ⟨h1, h2, h3⟩ := l1 call hc
          refine ⟨by omega, ?_, ?_⟩
          · rw [max_eq_right (by omega : depth + 1 ≤ maxDepth)] at h2
            rw [max_eq_right hd.le]
            exact h2
          · rw [h3]
            have e : (call.2.2.1 - depth).toNat = (call.2.2.1 - (depth + 1)).toNat + 1 := by
              omega
            rw [e, pow_succ]
            field_simp
            ring
        · obtain ⟨h1, h2, h3⟩ := r1 call hc
          refine ⟨by omega, ?_, ?_⟩
          · rw [max_eq_right (by omega : depth + 1 ≤ maxDepth)] at h2
            rw [max_eq_right hd.le]
            exact h2
          · rw [h3]
            have e : (call.2.2.1 - depth).toNat = (call.2.2.1 - (depth + 1)).toNat + 1 := by
              omega
            rw [e, pow_succ]
            field_simp
            ring
      · rw [List.filter_cons_of_neg (by simp), List.filter_append, List.length_append, hpow,
          pow_succ]
        omega
      · rw [List.length_cons, List.length_append, hpow, pow_succ]
        rw [pow_succ] at l3 r3
        omega
      · rw [List.filter_cons_of_neg (by simp), List.filter_append, List.map_append,
          List.sum_append, l4, r4]

end Quadrature

/-! ## Fit parameters -/

section Fit

variable {α : Type} [LinearOrderedField α]

theorem resetParams_visibility (mpL : α) (type : ModelType) :
    (∀ p ∈ resetParams mpL type,
      (p.name = "reD" → (p.isVisible = true ↔
        (type = ModelType.Model_3 ∨ type = ModelType.Model_4 ∨ type = ModelType.Model_5
          ∨ type = ModelType.Model_6)))
      ∧ (p.name = "cD" ∨ p.name = "S" → (p.isVisible = true ↔
        (type = ModelType.Model_1 ∨ type = ModelType.Model_3 ∨ type = ModelType.Model_5))))
    ∧ (resetParams mpL type).map (fun p => p.name)
        = ["kf", "km", "L", "Lf", "nf", "omega1", "omega2", "lambda1", "rmD", "reD", "cD", "S",
            "gamaD"] := by
  refine ⟨?_, rfl⟩
  intro p hp
  simp only [resetParams, List.mem_cons, List.mem_singleton, List.not_mem_nil, or_false] at hp
  rcases hp with h | h | h | h | h | h | h | h | h | h | h | h | h <;> subst h <;> simp

theorem switchModel_visibility {β : Type} (newType : ModelType)
    (m_params : List (FitParameter β)) :
    ∀ p ∈ switchModel newType m_params,
      (p.name = "reD" → (p.isVisible = true ↔
        (newType = ModelType.Model_3 ∨ newType = ModelType.Model_4
          ∨ newType = ModelType.Model_5 ∨ newType = ModelType.Model_6)))
      ∧ (p.name = "cD" ∨ p.name = "S" → (p.isVisible = true ↔
        (newType = ModelType.Model_1 ∨ newType = ModelType.Model_3
          ∨ newType = ModelType.Model_5))) := by
  intro p hp
  simp only [switchModel, List.mem_map] at hp
  obtain ⟨q, _, hq⟩ := hp
  by_cases h1 : q.name = "reD"
  · rw [if_pos h1] at hq
    subst hq
    simp [h1]
  · rw [if_neg h1] at hq
    by_cases h2 : q.name = "cD" ∨ q.name = "S"
    · rw [if_pos h2] at hq
      subst hq
      refine ⟨fun h => absurd h h1, fun _ => ?_⟩
      simp
    · rw [if_neg h2] at hq
      subst hq
      exact ⟨fun h => absurd h h1, fun h => absurd h h2⟩

theorem switchModel_frame {β : Type} (newType : ModelType)
    (m_params : List (FitParameter β)) :
    List.Forall₂ (fun p q => q.name = p.name ∧ q.displayName = p.displayName
        ∧ q.value = p.value ∧ q.min = p.min ∧ q.max = p.max ∧ q.isFit = p.isFit
        ∧ (p.name ≠ "reD" → p.name ≠ "cD" → p.name ≠ "S" → q.isVisible = p.isVisible))
      m_params (switchModel newType m_params) := by
  unfold switchModel
  rw [List.forall₂_map_right_iff, List.forall₂_same]
  intro p _
  by_cases h1 : p.name = "reD"
  · simp [h1]
  · by_cases h2 : p.name = "cD" ∨ p.name = "S"
    · rw [if_neg h1, if_pos h2]
      refine ⟨rfl, rfl, rfl, rfl, rfl, rfl, ?_⟩
      intro _ hc hs
      rcases h2 with h2 | h2
      · exact absurd h2 hc
      · exact absurd h2 hs
    · rw [if_neg h1, if_neg h2]
      exact ⟨rfl, rfl, rfl, rfl, rfl, rfl, fun _ _ _ => rfl⟩

end Fit

/-! ## Parameter table and text input -/

section Table

theorem applyRow_fields {β : Type} (toDouble : String → Option β) (row : TableRow)
    (p : FitParameter β) :
    (applyRow toDouble row p).value = (toDouble row.valueText).getD p.value
    ∧ (applyRow toDouble row p).min = (toDouble row.minText).getD p.min
    ∧ (applyRow toDouble row p).max = (toDouble row.maxText).getD p.max
    ∧ (applyRow toDouble row p).isFit = row.checked
    ∧ (applyRow toDouble row p).name = p.name
    ∧ (applyRow toDouble row p).displayName = p.displayName
    ∧ (applyRow toDouble row p).isVisible = p.isVisible := by
  unfold applyRow
  cases toDouble row.valueText <;> cases toDouble row.minText <;> cases toDouble row.maxText
    <;> simp

theorem updateRow_getElem_opt {β : Type} (toDouble : String → Option β)
    (m_params : List (FitParameter β)) (row : TableRow) (i : ℕ) :
    (updateRow toDouble m_params row)[i]?
      = (m_params[i]?).map (fun p => if row.paramIndex = (i : Int) then applyRow toDouble row p
          else p) := by
  unfold updateRow
  by_cases h : 0 ≤ row.paramIndex ∧ row.paramIndex < (m_params.length : Int)
  · rw [if_pos h, List.getElem?_modify]
    by_cases hi : row.paramIndex = (i : Int)
    · have : row.paramIndex.toNat = i := by omega
      simp [hi, this]
    · have : row.paramIndex.toNat ≠ i := by omega
      simp [hi, this]
  · rw [if_neg h]
    by_cases hi : row.paramIndex = (i : Int)
    · have hlen : m_params.length ≤ i := by
        by_contra hc
        exact h ⟨by omega, by omega⟩
      rw [List.getElem?_eq_none hlen]
      rfl
    · simp [hi]

theorem updateRow_length {β : Type} (toDouble : String → Option β)
    (m_params : List (FitParameter β)) (row : TableRow) :
    (updateRow toDouble m_params row).length = m_params.length := by
  unfold updateRow
  split_ifs
  · rw [List.length_modify]
  · rfl

theorem table_update {β : Type} (toDouble : String → Option β) (rows : List TableRow)
    (hnd : (rows.map (fun r => r.paramIndex)).Nodup) :
    ∀ m_params : List (FitParameter β),
      (updateParamsFromTable toDouble rows m_params).length = m_params.length
      ∧ (∀ r ∈ rows, ∀ p, 0 ≤ r.paramIndex → m_params[r.paramIndex.toNat]? = some p →
          (updateParamsFromTable toDouble rows m_params)[r.paramIndex.toNat]?
            = some (applyRow toDouble r p))
      ∧ (∀ (i : ℕ) (p : FitParameter β), (∀ r ∈ rows, r.paramIndex ≠ (i : Int)) →
          m_params[i]? = some p →
          (updateParamsFromTable toDouble rows m_params)[i]? = some p) := by
  induction rows with
  | nil =>
    intro m_params
    exact ⟨rfl, fun r hr => absurd hr (List.not_mem_nil r), fun i p _ h => h⟩
  | cons r rs ih =>
    intro m_params
    rw [List.map_cons, List.nodup_cons] at hnd
    obtain ⟨hr, hrs⟩ := hnd
    obtain ⟨i1, i2, i3⟩ := ih hrs (updateRow toDouble m_params r)
    have hfold : updateParamsFromTable toDouble (r :: rs) m_params
        = updateParamsFromTable toDouble rs (updateRow toDouble m_params r) := rfl
    rw [hfold]
    refine ⟨by rw [i1, updateRow_length], ?_, ?_⟩
    · intro r' hr' p h0 hp
      rw [List.mem_cons] at hr'
      rcases hr' with hr' | hr'
      · subst hr'
        apply i3
        · intro s hs hc
          apply hr
          rw [List.mem_map]
          exact ⟨s, hs, by omega⟩
        · rw [updateRow_getElem_opt, hp]
          have : r'.paramIndex = ((r'.paramIndex.toNat : ℕ) : Int) := by omega
          simp [← this]
      · apply i2 r' hr' p h0
        rw [updateRow_getElem_opt, hp]
        have hne : r.paramIndex ≠ ((r'.paramIndex.toNat : ℕ) : Int) := by
          intro hc
          apply hr
          rw [List.mem_map]
          exact ⟨r', hr', by omega⟩
        simp only [Option.map_some', if_neg hne]
    · intro i p hall hp
      apply i3 i p (fun s hs => hall s (List.mem_cons_of_mem r hs))
      rw [updateRow_getElem_opt, hp]
      have hne : r.paramIndex ≠ (i : Int) := hall r (List.mem_cons_self r rs)
      simp [hne]

theorem foldl_filterMap {β γ : Type} (f : γ → Option β) (parts : List γ) (init : List β) :
    parts.foldl (fun values part =>
        match f part with
        | some v => values ++ [v]
        | none => values) init
      = init ++ parts.filterMap f := by
  induction parts generalizing init with
  | nil => simp
  | cons a t ih =>
    rw [List.foldl_cons, ih]
    cases h : f a with
    | none => simp [List.filterMap_cons, h]
    | some v => simp [List.filterMap_cons, h]

end Table

section Input

variable {α : Type} [LinearOrderedField α]

theorem parseInput_eq (toDouble : String → Option α) (text : String) :
    parseInput toDouble text
      = if ((((text.toList.map (fun c => if c = '，' then ',' else c)).splitOn ',').filter
            (fun part => !part.isEmpty)).filterMap
            (fun part => toDouble (String.mk (trimmed part)))).isEmpty
        then [0]
        else (((text.toList.map (fun c => if c = '，' then ',' else c)).splitOn ',').filter
            (fun part => !part.isEmpty)).filterMap
            (fun part => toDouble (String.mk (trimmed part))) := by
  have e0 : (0.0 : α) = 0 := by norm_num
  have key := foldl_filterMap (fun part => toDouble (String.mk (trimmed part)))
    (((text.toList.map (fun c => if c = '，' then ',' else c)).splitOn ',').filter
      (fun part => !part.isEmpty)) []
  rw [List.nil_append] at key
  unfold parseInput
  simp only [e0]
  exact congrArg (fun X : List α => if X.isEmpty then [0] else X) key

theorem parseInput_malformed (toDouble : String → Option α) (text : String)
    (hbad : ∀ part ∈ ((text.toList.map (fun c => if c = '，' then ',' else c)).splitOn ',').filter
      (fun part => !part.isEmpty), toDouble (String.mk (trimmed part)) = none) :
    parseInput toDouble text = [0] ∧ baseParamValue toDouble text = 0 := by
  have h : parseInput toDouble text = [0] := by
    rw [parseInput_eq]
    have : (((text.toList.map (fun c => if c = '，' then ',' else c)).splitOn ',').filter
        (fun part => !part.isEmpty)).filterMap
        (fun part => toDouble (String.mk (trimmed part))) = [] := by
      rw [List.filterMap_eq_nil_iff]
      exact hbad
    rw [this]
    rfl
  refine ⟨h, ?_⟩
  unfold baseParamValue
  rw [h]

theorem parseInput_ne_nil (toDouble : String → Option α) (text : String) :
    parseInput toDouble text ≠ [] := by
  rw [parseInput_eq]
  split_ifs with h
  · simp
  · intro hc
    rw [hc] at h
    exact h rfl

end Input

/-! ## Division safety -/

section Divisions

variable {α : Type} [LinearOrderedField α]

theorem couplingDenominator_bound (E : MathEnv α) (M12 gama1 gama2 arg_g2_rm arg_g1_rm : α)
    (terms : α × α) :
    1e-100 ≤ |couplingDenominator E M12 gama1 gama2 arg_g2_rm arg_g1_rm terms| := by
  unfold couplingDenominator
  simp only []
  split_ifs with h
  · rw [abs_of_pos (by norm_num : (0 : α) < 1e-100)]
  · exact not_lt.mp h

theorem couplingDenominator_ne_zero (E : MathEnv α)
    (M12 gama1 gama2 arg_g2_rm arg_g1_rm : α) (terms : α × α) :
    couplingDenominator E M12 gama1 gama2 arg_g2_rm arg_g1_rm terms ≠ 0 := by
  intro h
  have hb := couplingDenominator_bound E M12 gama1 gama2 arg_g2_rm arg_g1_rm terms
  rw [h, abs_zero] at hb
  norm_num at hb

theorem PWD_divisors_ne_zero (E : MathEnv α) (z fs1 fs2 M12 LfD rmD reD : α) (nf : Int)
    (type : ModelType) (hden : M12 * z * 2 * LfD ≠ 0) :
    ∀ d ∈ PWD_divisors E z fs1 fs2 M12 LfD rmD reD nf type, d ≠ 0 := by
  intro d hd
  unfold PWD_divisors at hd
  simp only [List.mem_append, List.mem_singleton] at hd
  rcases hd with (hd | hd) | hd
  · have hpos : (0 : α) < 1e-100 := by norm_num
    split_ifs at hd <;>
      simp only [List.mem_cons, List.mem_singleton, List.not_mem_nil, or_false, or_self] at hd
    all_goals
      rw [hd]
      apply ne_of_gt
      apply lt_trans hpos
      assumption
  · rw [hd]
    exact couplingDenominator_ne_zero E _ _ _ _ _ _
  · rw [(List.mem_replicate.mp hd).2]
    exact hden

theorem flaplace_divisors_ne_zero [FloorRing α] (E : MathEnv α) (z : α) (p : Params α)
    (type : ModelType) (hz : 0 < z) (hkf : 0 < value p "kf" 0) (hkm : 0 < value p "km" 0)
    (hLfD : 0 < value p "LfD" 0) (ho2 : 0 < value p "omega2" 0)
    (hl1 : 0 < value p "lambda1" 0) :
    (∀ d ∈ flaplace_divisors E z p type, d ≠ 0)
    ∧ (flaplace_pre E z p type).isSome = true := by
  have hM : 0 < value p "kf" 0 / value p "km" 0 := div_pos hkf hkm
  have hden : value p "kf" 0 / value p "km" 0 * z * 2 * value p "LfD" 0 ≠ 0 :=
    (mul_pos (mul_pos (mul_pos hM hz) two_pos) hLfD).ne'
  have hfs : value p "lambda1" 0 + z * value p "omega2" 0 ≠ 0 :=
    (add_pos hl1 (mul_pos hz ho2)).ne'
  refine ⟨?_, flaplace_pre_isSome E z p type hkm.ne' hfs hden⟩
  intro d hd
  unfold flaplace_divisors at hd
  simp only [List.mem_append, List.mem_singleton] at hd
  rcases hd with ((hd | hd) | hd) | hd
  · rw [hd]
    exact hkm.ne'
  · split_ifs at hd with h1
    · exact absurd hd (List.not_mem_nil d)
    · rw [List.mem_singleton] at hd
      rw [hd]
      have h2 : (2 : Int) ≤ fractureCount p := by
        have := (fractureCount_props p).1
        omega
      have : (0 : α) < ((fractureCount p - 1 : Int) : α) := by
        exact_mod_cast (by omega : (0 : Int) < fractureCount p - 1)
      exact this.ne'
  · rw [hd]
    exact hfs
  · exact PWD_divisors_ne_zero E z _ _ _ _ _ _ _ type hden d hd

theorem scaled_besseli_divisor (E : MathEnv α) (hsqrt : ∀ x : α, 0 < x → 0 < E.sqrt x)
    (x : α) (hx : 600 < |x|) : E.sqrt (2 * M_PI * |x|) ≠ 0 := by
  have hpi : (0 : α) < 2.0 * M_PI := lt_of_lt_of_le one_pos M_PI_ge_one
  have e2 : (2.0 : α) = 2 := by norm_num
  rw [e2] at hpi
  have hx0 : (0 : α) < |x| := lt_trans (by norm_num) hx
  exact (hsqrt _ (mul_pos hpi hx0)).ne'

end Divisions

/-! ## Consistency of the scaled form -/

section Scaled

variable {α : Type} [LinearOrderedField α]

theorem scaled_besseli_small (E : MathEnv α) (v : Int) (x : α) (h0 : 0 ≤ x) (h1 : x ≤ 600) :
    scaled_besseli E v x = E.cyl_bessel_i v x * E.exp (-x) := by
  rw [scaled_besseli_eq, abs_of_nonneg h0, if_neg (not_lt.mpr h1)]

theorem exp_cancel (E : MathEnv α) (hadd : ∀ x y : α, E.exp (x + y) = E.exp x * E.exp y)
    (hne : ∀ x : α, E.exp x ≠ 0) (u v : α) :
    E.exp (-u) * E.exp (u - v) = E.exp (-v) ∧ E.exp (-v) * E.exp (v - u) / E.exp (-u) = 1 := by
  have e1 : E.exp (-u) * E.exp (u - v) = E.exp (-v) := by
    rw [← hadd]
    congr 1
    ring
  have e2 : E.exp (-v) * E.exp (v - u) = E.exp (-u) := by
    rw [← hadd]
    congr 1
    ring
  exact ⟨e1, by rw [e2, div_self (hne _)]⟩

theorem closed_term_unscaled (E : MathEnv α)
    (hadd : ∀ x y : α, E.exp (x + y) = E.exp x * E.exp y) (hne : ∀ x : α, E.exp x ≠ 0)
    (g2 rmD reD : α) (type : ModelType)
    (htype : type = ModelType.Model_3 ∨ type = ModelType.Model_4)
    (hre : 0 ≤ g2 * reD ∧ g2 * reD ≤ 600) (hrm : 0 ≤ g2 * rmD ∧ g2 * rmD ≤ 600)
    (hguard : scaled_besseli E 1 (g2 * reD) > 1e-100) :
    outerBoundaryTerms E g2 (g2 * rmD) reD type
      = (E.cyl_bessel_k 1 (g2 * reD) / E.cyl_bessel_i 1 (g2 * reD)
            * E.cyl_bessel_i 0 (g2 * rmD),
          E.cyl_bessel_k 1 (g2 * reD) / E.cyl_bessel_i 1 (g2 * reD)
            * E.cyl_bessel_i 1 (g2 * rmD)) := by
  have hc := exp_cancel E hadd hne (g2 * reD) (g2 * rmD)
  have key : ∀ K I J : α, K / (I * E.exp (-(g2 * reD))) * (J * E.exp (-(g2 * rmD)))
      * E.exp (g2 * rmD - g2 * reD) = K / I * J := by
    intro K I J
    have h : K / (I * E.exp (-(g2 * reD))) * (J * E.exp (-(g2 * rmD)))
        * E.exp (g2 * rmD - g2 * reD)
        = K / I * J * (E.exp (-(g2 * rmD)) * E.exp (g2 * rmD - g2 * reD)
            / E.exp (-(g2 * reD))) := by
      rw [div_mul_eq_div_div]
      ring
    rw [h, hc.2, mul_one]
  rw [outerBoundaryTerms_closed E g2 (g2 * rmD) reD type htype, if_pos hguard,
    scaled_besseli_small E 1 _ hre.1 hre.2, scaled_besseli_small E 0 _ hrm.1 hrm.2,
    scaled_besseli_small E 1 _ hrm.1 hrm.2, key, key]

theorem constP_term_unscaled (E : MathEnv α)
    (hadd : ∀ x y : α, E.exp (x + y) = E.exp x * E.exp y) (hne : ∀ x : α, E.exp x ≠ 0)
    (g2 rmD reD : α) (type : ModelType)
    (htype : type = ModelType.Model_5 ∨ type = ModelType.Model_6)
    (hre : 0 ≤ g2 * reD ∧ g2 * reD ≤ 600) (hrm : 0 ≤ g2 * rmD ∧ g2 * rmD ≤ 600)
    (hguard : scaled_besseli E 0 (g2 * reD) > 1e-100) :
    outerBoundaryTerms E g2 (g2 * rmD) reD type
      = (-(E.cyl_bessel_k 0 (g2 * reD) / E.cyl_bessel_i 0 (g2 * reD))
            * E.cyl_bessel_i 0 (g2 * rmD),
          -(E.cyl_bessel_k 0 (g2 * reD) / E.cyl_bessel_i 0 (g2 * reD))
            * E.cyl_bessel_i 1 (g2 * rmD)) := by
  have hc := exp_cancel E hadd hne (g2 * reD) (g2 * rmD)
  have key : ∀ K I J : α, -(K / (I * E.exp (-(g2 * reD)))) * (J * E.exp (-(g2 * rmD)))
      * E.exp (g2 * rmD - g2 * reD) = -(K / I) * J := by
    intro K I J
    have h : -(K / (I * E.exp (-(g2 * reD)))) * (J * E.exp (-(g2 * rmD)))
        * E.exp (g2 * rmD - g2 * reD)
        = -(K / I) * J * (E.exp (-(g2 * rmD)) * E.exp (g2 * rmD - g2 * reD)
            / E.exp (-(g2 * reD))) := by
      rw [div_mul_eq_div_div]
      ring
    rw [h, hc.2, mul_one]
  rw [outerBoundaryTerms_constP E g2 (g2 * rmD) reD type htype, if_pos hguard,
    scaled_besseli_small E 0 _ hre.1 hre.2, scaled_besseli_small E 0 _ hrm.1 hrm.2,
    scaled_besseli_small E 1 _ hrm.1 hrm.2, key, key]

theorem kernel_unscaled (E : MathEnv α)
    (hadd : ∀ x y : α, E.exp (x + y) = E.exp x * E.exp y) (hne : ∀ x : α, E.exp x ≠ 0)
    (M12 g1 g2 rmD : α) (terms : α × α) (xwD ywD : List α) (i j : ℕ) (a d term1 term2 Acup : α)
    (hterm1 : term1 = terms.1 + E.cyl_bessel_k 0 (g2 * rmD))
    (hterm2 : term2 = terms.2 - E.cyl_bessel_k 1 (g2 * rmD))
    (hAcup : Acup = M12 * g1 * E.cyl_bessel_k 1 (g1 * rmD) * term1
      + g2 * E.cyl_bessel_k 0 (g1 * rmD) * term2)
    (hd : d = E.sqrt (E.pow (xwD.getD i 0 - xwD.getD j 0 - a) 2
      + E.pow (ywD.getD i 0 - ywD.getD j 0) 2))
    (hg1 : 0 ≤ g1 * rmD ∧ g1 * rmD ≤ 600) (hgd : 1e-10 ≤ g1 * d ∧ g1 * d ≤ 600)
    (hexp : g1 * d - g1 * rmD > -700)
    (hfloor : ¬ |M12 * g1 * scaled_besseli E 1 (g1 * rmD) * term1
      - g2 * scaled_besseli E 0 (g1 * rmD) * term2| < 1e-100) :
    couplingPrefactor E M12 g1 g2 (g2 * rmD) (g1 * rmD) terms
        = Acup / (M12 * g1 * E.cyl_bessel_i 1 (g1 * rmD) * term1
            - g2 * E.cyl_bessel_i 0 (g1 * rmD) * term2) / E.exp (-(g1 * rmD))
    ∧ integrand E g1 (g1 * rmD) (couplingPrefactor E M12 g1 g2 (g2 * rmD) (g1 * rmD) terms)
        xwD ywD i j a
      = E.cyl_bessel_k 0 (g1 * d)
        + Acup / (M12 * g1 * E.cyl_bessel_i 1 (g1 * rmD) * term1
            - g2 * E.cyl_bessel_i 0 (g1 * rmD) * term2) * E.cyl_bessel_i 0 (g1 * d) := by
  have hgd0 : 0 ≤ g1 * d := le_trans (by norm_num) hgd.1
  have hpre : couplingPrefactor E M12 g1 g2 (g2 * rmD) (g1 * rmD) terms
      = Acup / (M12 * g1 * E.cyl_bessel_i 1 (g1 * rmD) * term1
          - g2 * E.cyl_bessel_i 0 (g1 * rmD) * term2) / E.exp (-(g1 * rmD)) := by
    unfold couplingPrefactor couplingNumerator couplingDenominator
    simp only [← hterm1, ← hterm2, ← hAcup]
    rw [if_neg hfloor, scaled_besseli_small E 1 _ hg1.1 hg1.2,
      scaled_besseli_small E 0 _ hg1.1 hg1.2, div_div]
    congr 1
    ring
  refine ⟨hpre, ?_⟩
  have e700 : (-700.0 : α) = -700 := by norm_num
  have e00 : (0.0 : α) = 0 := by norm_num
  unfold integrand
  simp only [← hd, e700, e00]
  rw [if_neg (not_lt.mpr hgd.1), if_pos hexp, hpre, scaled_besseli_small E 0 _ hgd0 hgd.2]
  congr 1
  have hc := (exp_cancel E hadd hne (g1 * d) (g1 * rmD)).1
  have h : ∀ A I : α, A / E.exp (-(g1 * rmD)) * (I * E.exp (-(g1 * d)))
      * E.exp (g1 * d - g1 * rmD)
      = A * I * (E.exp (-(g1 * d)) * E.exp (g1 * d - g1 * rmD) / E.exp (-(g1 * rmD))) := by
    intro A I
    ring
  rw [h, hc, div_self (hne _), mul_one]

end Scaled

/-! ## The base rule on constants -/

section BaseRule

variable {α : Type} [LinearOrderedField α]

theorem forLoop_one_seven {σ : Type} (body : Int → σ → σ) (s : σ) :
    forLoop 1 7 body s
      = body 7 (body 6 (body 5 (body 4 (body 3 (body 2 (body 1 s)))))) := by
  have e : ((7 : Int) + 1 - 1).toNat = 7 := by decide
  unfold forLoop
  rw [e]
  simp [List.range_succ]

theorem gaussW_sum :
    (gaussW : List α).getD 0 0
      + 2 * ((gaussW : List α).getD 1 0 + (gaussW : List α).getD 2 0
        + (gaussW : List α).getD 3 0 + (gaussW : List α).getD 4 0 + (gaussW : List α).getD 5 0
        + (gaussW : List α).getD 6 0 + (gaussW : List α).getD 7 0) = 1.999998 := by
  simp only [gaussW, List.getD_cons_zero, List.getD_cons_succ]
  norm_num

theorem gauss15_const (c a b : α) :
    gauss15 (fun _ => c) a b = 0.999999 * c * (b - a) := by
  unfold gauss15
  simp only [forLoop_one_seven, gaussW, List.getD_cons_zero, List.getD_cons_succ,
    show (1 : Int).toNat = 1 from rfl, show (2 : Int).toNat = 2 from rfl,
    show (3 : Int).toNat = 3 from rfl, show (4 : Int).toNat = 4 from rfl,
    show (5 : Int).toNat = 5 from rfl, show (6 : Int).toNat = 6 from rfl,
    show (7 : Int).toNat = 7 from rfl]
  ring

end BaseRule

/-! ## Hidden storage parameters and inversion of constants -/

section Hidden

variable {α : Type} [LinearOrderedField α]

theorem flaplace_composite_hidden [FloorRing α] (E : MathEnv α) (z : α) (p1 p2 : Params α)
    (type : ModelType)
    (htype : type = ModelType.Model_2 ∨ type = ModelType.Model_4 ∨ type = ModelType.Model_6)
    (h : ∀ key, key ≠ "S" → key ≠ "cD" → p1.lookup key = p2.lookup key) :
    flaplace_composite E z p1 type = flaplace_composite E z p2 type := by
  unfold flaplace_composite
  rw [flaplace_pre_congr E z p1 p2 type h]
  congr 1
  funext pf
  rw [storageSkin_constant z p1 type pf htype, storageSkin_constant z p2 type pf htype]

theorem curve_hidden [FloorRing α] (E : MathEnv α) (p1 p2 : Params α) (type : ModelType)
    (htype : type = ModelType.Model_2 ∨ type = ModelType.Model_4 ∨ type = ModelType.Model_6)
    (h : ∀ key, key ≠ "S" → key ≠ "cD" → p1.lookup key = p2.lookup key)
    (tD : List α) (highPrecision : Bool) :
    calculatePDandDeriv E.pow E.log E.calculateBourdetDerivative tD p1
        (fun z p => flaplace_composite E z p type) highPrecision
      = calculatePDandDeriv E.pow E.log E.calculateBourdetDerivative tD p2
        (fun z p => flaplace_composite E z p type) highPrecision :=
  calculatePDandDeriv_congr _ _ _ _ _ _ _ _ (h "N" (by decide) (by decide))
    (h "gamaD" (by decide) (by decide))
    (fun z => flaplace_composite_hidden E z p1 p2 type htype h)

theorem theoreticalCurve_hidden [FloorRing α] (E : MathEnv α) (p1 p2 : Params α)
    (type : ModelType)
    (htype : type = ModelType.Model_2 ∨ type = ModelType.Model_4 ∨ type = ModelType.Model_6)
    (h : ∀ key, key ≠ "S" → key ≠ "cD" → p1.lookup key = p2.lookup key)
    (providedTime : List α) (highPrecision : Bool) :
    calculateTheoreticalCurve E type p1 providedTime highPrecision
      = calculateTheoreticalCurve E type p2 providedTime highPrecision := by
  have hv : ∀ (key : String) (d : α), key ≠ "S" → key ≠ "cD" →
      value p1 key d = value p2 key d := by
    intro key d h1 h2
    unfold value
    rw [h key h1 h2]
  unfold calculateTheoreticalCurve
  simp only [hv "phi" _ (by decide) (by decide), hv "mu" _ (by decide) (by decide),
    hv "B" _ (by decide) (by decide), hv "Ct" _ (by decide) (by decide),
    hv "q" _ (by decide) (by decide), hv "h" _ (by decide) (by decide),
    hv "kf" _ (by decide) (by decide), hv "L" _ (by decide) (by decide),
    curve_hidden E p1 p2 type htype h]

theorem inversion_of_constant [FloorRing α] (pow : α → α → α)
    (hpow : ∀ (b : α) (n : ℕ), pow b (n : α) = b ^ n) (log : α → α) (hlog : log 2 ≠ 0)
    (params : Params α) (N : Int) (hN : N = 2 ∨ N = 4 ∨ N = 6 ∨ N = 8 ∨ N = 10)
    (gamaD : α) (hg : |gamaD| ≤ 1e-9) (c t : α) (ht : 1e-12 < t) :
    (inversionPoint pow log (fun z _ => fdiv c z) params N gamaD t).1 = c := by
  have ht0 : t ≠ 0 := by
    have : (0 : α) < t := lt_trans (by norm_num) ht
    exact this.ne'
  unfold inversionPoint
  rw [if_neg (not_le.mpr ht)]
  simp only []
  rw [pressureSensitivity_negligible log gamaD _ hg, stehfestSum_eq]
  simp only []
  have hterm : ∀ m ∈ Finset.Icc (1 : Int) N,
      stefestCoefficient pow m N * ((fdiv c ((m : α) * log 2 / t)).getD 0)
        = stefestCoefficient pow m N * (0 + c / ((m : α) * log 2 / t)) := by
    intro m hm
    have hm1 : (1 : Int) ≤ m := (Finset.mem_Icc.mp hm).1
    have hm0 : (m : α) ≠ 0 := by
      have : (0 : α) < (m : α) := by exact_mod_cast (by omega : (0 : Int) < m)
      exact this.ne'
    have hz : (m : α) * log 2 / t ≠ 0 := div_ne_zero (mul_ne_zero hm0 hlog) ht0
    unfold fdiv
    rw [if_neg hz, zero_add]
    rfl
  rw [Finset.sum_congr rfl hterm, stehfest_shift pow hpow N hN (fun _ => 0) c (log 2) t hlog ht0]
  simp

end Hidden

/-! ## Single fracture and symmetry of the fracture block -/

section Single

variable {α : Type} [LinearOrderedField α]

theorem PWD_matrix_entry_one (E : MathEnv α) (z fs1 fs2 M12 LfD rmD reD : α) (xwD : List α)
    (type : ModelType) (hden : M12 * z * 2 * LfD ≠ 0) :
    PWD_matrix E z fs1 fs2 M12 LfD rmD reD 1 xwD type (0 : Fin 2) (0 : Fin 2)
      = z * adaptiveGauss (integrand E (E.sqrt (z * fs1)) (E.sqrt (z * fs1) * rmD)
            (couplingPrefactor E M12 (E.sqrt (z * fs1)) (E.sqrt (z * fs2))
              (E.sqrt (z * fs2) * rmD) (E.sqrt (z * fs1) * rmD)
              (outerBoundaryTerms E (E.sqrt (z * fs2)) (E.sqrt (z * fs2) * rmD) reD type))
            xwD [0] 0 0) (-LfD) LfD 1e-5 0 10
        / (M12 * z * 2 * LfD) := by
  have e0 : (0.0 : α) = 0 := by norm_num
  unfold PWD_matrix systemMatrix PWD_entries fractureEntry fdiv
  simp only []
  rw [if_neg hden]
  simp [e0]

theorem single_fracture (E : MathEnv α)
    (hsolve : ∀ (n : ℕ) (A : Matrix (Fin n) (Fin n) α) (b : Fin n → α), A.det ≠ 0 →
      A.mulVec (E.fullPivLuSolve n A b) = b)
    (z fs1 fs2 M12 LfD rmD reD : α) (xwD : List α) (type : ModelType)
    (hz : 0 < z) (hM : M12 ≠ 0) (hL : LfD ≠ 0) (Q : α)
    (hQ : Q = adaptiveGauss (integrand E (E.sqrt (z * fs1)) (E.sqrt (z * fs1) * rmD)
            (couplingPrefactor E M12 (E.sqrt (z * fs1)) (E.sqrt (z * fs2))
              (E.sqrt (z * fs2) * rmD) (E.sqrt (z * fs1) * rmD)
              (outerBoundaryTerms E (E.sqrt (z * fs2)) (E.sqrt (z * fs2) * rmD) reD type))
            xwD [0] 0 0) (-LfD) LfD 1e-5 0 10) :
    (PWD_matrix E z fs1 fs2 M12 LfD rmD reD 1 xwD type).det = z
    ∧ (PWD_matrix E z fs1 fs2 M12 LfD rmD reD 1 xwD type).det ≠ 0
    ∧ PWD_composite E z fs1 fs2 M12 LfD rmD reD 1 xwD type = some (Q / (2 * M12 * LfD * z))
    ∧ ∃ x : Fin 2 → α,
        (PWD_matrix E z fs1 fs2 M12 LfD rmD reD 1 xwD type).mulVec x = systemRhs 1
        ∧ x 0 = 1 / z
        ∧ x 1 = PWD_matrix E z fs1 fs2 M12 LfD rmD reD 1 xwD type (0 : Fin 2) (0 : Fin 2) / z
        ∧ PWD_composite E z fs1 fs2 M12 LfD rmD reD 1 xwD type = some (x 1) := by
  have hden : M12 * z * 2 * LfD ≠ 0 :=
    mul_ne_zero (mul_ne_zero (mul_ne_zero hM hz.ne') two_ne_zero) hL
  have hdet := PWD_matrix_det_one E z fs1 fs2 M12 LfD rmD reD xwD type
  have hdet0 : (PWD_matrix E z fs1 fs2 M12 LfD rmD reD 1 xwD type).det ≠ 0 := by
    rw [hdet]
    exact hz.ne'
  obtain ⟨x, h1, _, _, h4, h5, h6⟩ := system_solution E hsolve z fs1 fs2 M12 LfD rmD reD 1 xwD
    type hz hden hdet0
  have hx0 : x 0 = 1 / z := by
    have h4' : ∑ j : Fin 1, x j.castSucc = 1 / z := h4
    rw [Fin.sum_univ_one] at h4'
    exact h4'
  have hx1 : x 1 = PWD_matrix E z fs1 fs2 M12 LfD rmD reD 1 xwD type (0 : Fin 2) (0 : Fin 2)
      / z := by
    have h5' : ∑ j : Fin 1,
        PWD_matrix E z fs1 fs2 M12 LfD rmD reD 1 xwD type (0 : Fin 2) (Fin.castSucc j)
          * x j.castSucc = x (Fin.last 1) := h5 (0 : Fin 1)
    have ec : Fin.castSucc (0 : Fin 1) = (0 : Fin 2) := rfl
    have e : x (Fin.last 1) = x 1 := rfl
    rw [Fin.sum_univ_one, ec, hx0, e] at h5'
    rw [← h5']
    ring
  have h6' : PWD_composite E z fs1 fs2 M12 LfD rmD reD 1 xwD type = some (x 1) := h6
  refine ⟨hdet, hdet0, ?_, x, h1, hx0, hx1, h6'⟩
  rw [h6', hx1]
  have e2 : PWD_matrix E z fs1 fs2 M12 LfD rmD reD 1 xwD type (0 : Fin 2) (0 : Fin 2)
      = PWD_matrix E z fs1 fs2 M12 LfD rmD reD 1 xwD type (0 : Fin 2)
          (0 : Fin 2) := rfl
  rw [e2, PWD_matrix_entry_one E z fs1 fs2 M12 LfD rmD reD xwD type hden, ← hQ]
  congr 1
  field_simp
  ring

end Single

section Symmetry

variable {α : Type} [LinearOrderedField α]

theorem gauss15_mirror (f : α → α) (a b : α) :
    gauss15 (fun x => f (-x)) a b = gauss15 f (-b) (-a) := by
  have eh : (0.5 : α) * (-a - -b) = 0.5 * (b - a) := by ring
  have e1 : ∀ d : α, -(0.5 * (a + b) - d) = 0.5 * (-b + -a) + d := by intro d; ring
  have e2 : ∀ d : α, -(0.5 * (a + b) + d) = 0.5 * (-b + -a) - d := by intro d; ring
  have e3 : -((0.5 : α) * (a + b)) = 0.5 * (-b + -a) := by ring
  unfold gauss15
  simp only [eh, e1, e2, e3]
  congr 2
  funext i s
  rw [add_comm (f _) (f _)]

theorem adaptiveGauss_mirror (f : α → α) (maxDepth : Int) (n : ℕ) :
    ∀ (a b eps : α) (depth : Int), (maxDepth - depth).toNat ≤ n →
      adaptiveGauss (fun x => f (-x)) a b eps depth maxDepth
        = adaptiveGauss f (-b) (-a) eps depth maxDepth := by
  have em : ∀ a b : α, (-b + -a) / 2 = -((a + b) / 2) := by intro a b; ring
  induction n with
  | zero =>
    intro a b eps depth hn
    have hd : depth ≥ maxDepth := by omega
    rw [adaptiveGauss_eq, if_pos (Or.inl hd), adaptiveGauss_eq, if_pos (Or.inl hd), em,
      gauss15_mirror, gauss15_mirror, add_comm]
  | succ n ih =>
    intro a b eps depth hn
    rw [adaptiveGauss_eq, adaptiveGauss_eq f, em, gauss15_mirror, gauss15_mirror,
      gauss15_mirror, add_comm (gauss15 f (-((a + b) / 2)) (-a))]
    by_cases hacc : depth ≥ maxDepth
        ∨ |gauss15 f (-b) (-a) - (gauss15 f (-b) (-((a + b) / 2))
            + gauss15 f (-((a + b) / 2)) (-a))|
          < 1e-10 * |gauss15 f (-b) (-((a + b) / 2)) + gauss15 f (-((a + b) / 2)) (-a)| + eps
    · rw [if_pos hacc, if_pos hacc]
    · have hd : depth < maxDepth := by
        by_contra hge
        exact hacc (Or.inl (not_lt.mp hge))
      rw [if_neg hacc, if_neg hacc, ih a ((a + b) / 2) (eps / 2) (depth + 1) (by omega),
        ih ((a + b) / 2) b (eps / 2) (depth + 1) (by omega), add_comm]

theorem integrand_swap (E : MathEnv α) (hpow : ∀ x : α, E.pow (-x) 2 = E.pow x 2)
    (gama1 arg_g1_rm Ac_prefactor : α) (xwD ywD : List α) (i j : ℕ) :
    integrand E gama1 arg_g1_rm Ac_prefactor xwD ywD j i
      = fun a => integrand E gama1 arg_g1_rm Ac_prefactor xwD ywD i j (-a) := by
  funext a
  have e1 : xwD.getD j 0 - xwD.getD i 0 - a = -(xwD.getD i 0 - xwD.getD j 0 - -a) := by ring
  have e2 : ywD.getD j 0 - ywD.getD i 0 = -(ywD.getD i 0 - ywD.getD j 0) := by ring
  unfold integrand
  rw [e1, e2, hpow, hpow]

theorem PWD_entries_symm (E : MathEnv α) (hpow : ∀ x : α, E.pow (-x) 2 = E.pow x 2)
    (z M12 LfD gama1 gama2 arg_g2_rm arg_g1_rm : α) (nf : Int) (xwD : List α) (terms : α × α)
    (i j : ℕ) :
    PWD_entries E z M12 LfD gama1 gama2 arg_g2_rm arg_g1_rm nf xwD terms i j
      = PWD_entries E z M12 LfD gama1 gama2 arg_g2_rm arg_g1_rm nf xwD terms j i := by
  unfold PWD_entries fractureEntry
  simp only []
  rw [integrand_swap E hpow _ _ _ _ _ j i,
    adaptiveGauss_mirror _ 10 ((10 : Int) - 0).toNat (-LfD) LfD 1e-5 0 (le_refl _), neg_neg]

end Symmetry

/-! ## Inversion of a known transform over a range of times

For `y = a·t / ln 2` the inverted value of `1/(s+a)` is `Σ V_m / (m + y)` and the target is
`2^(-y)`.  On each of the pieces `y = c + s`, `c = 0, 1, 2`, `0 ≤ s ≤ 1`, the factor `2^(-s)`
is enclosed between two polynomials in `s`, and the two resulting polynomial inequalities are
proved from their expansions in the Bernstein basis `s^k (1-s)^(d-k)`, whose coefficients are
all non-negative. -/

section Range

theorem nonneg_of_eq {a b : ℝ} (h : a = b) (hb : 0 ≤ b) : 0 ≤ a := h ▸ hb

theorem term_cancel (v w : ℝ) (hw : 0 < w) : v * (1 / w) * w = v := by
  field_simp

theorem kernel_shift (L : ℝ) (hL : 0 < L) (m c w s : ℝ) (hw : m + c = w) (hpos : 0 < w + s) :
    L / (m * L + (c + s) * L) = 1 / (w + s) := by
  subst hw
  have hL0 : L ≠ 0 := ne_of_gt hL
  have hw0 : m + c + s ≠ 0 := ne_of_gt hpos
  have e : m * L + (c + s) * L = (m + c + s) * L := by ring
  rw [e, div_mul_eq_div_div_swap, div_self hL0]

theorem exp_shift_zero (s : ℝ) :
    Real.exp (-((0 + s) * Real.log 2)) = 1 * Real.exp (-(s * Real.log 2)) := by
  rw [zero_add, one_mul]

theorem exp_shift_one (s : ℝ) :
    Real.exp (-((1 + s) * Real.log 2)) = (1 / 2) * Real.exp (-(s * Real.log 2)) := by
  have e : -((1 + s) * Real.log 2) = -Real.log 2 + -(s * Real.log 2) := by ring
  rw [e, Real.exp_add, Real.exp_neg, Real.exp_log (by norm_num)]
  norm_num

theorem exp_shift_two (s : ℝ) :
    Real.exp (-((2 + s) * Real.log 2)) = (1 / 4) * Real.exp (-(s * Real.log 2)) := by
  have e : -((2 + s) * Real.log 2) = -Real.log 2 + (-Real.log 2 + -(s * Real.log 2)) := by ring
  rw [e, Real.exp_add, Real.exp_add, Real.exp_neg, Real.exp_log (by norm_num)]
  norm_num
  ring

theorem range_split (x : ℝ) (hx0 : 0 ≤ x) (hx3 : x ≤ 3 * Real.log 2) :
    (∃ s : ℝ, 0 ≤ s ∧ s ≤ 1 ∧ x = (0 + s) * Real.log 2)
    ∨ (∃ s : ℝ, 0 ≤ s ∧ s ≤ 1 ∧ x = (1 + s) * Real.log 2)
    ∨ (∃ s : ℝ, 0 ≤ s ∧ s ≤ 1 ∧ x = (2 + s) * Real.log 2) := by
  have hL : 0 < Real.log 2 := Real.log_pos (by norm_num)
  have hy0 : 0 ≤ x / Real.log 2 := div_nonneg hx0 hL.le
  have hy3 : x / Real.log 2 ≤ 3 := by rw [div_le_iff₀ hL]; exact hx3
  have hxy : ∀ c : ℝ, x = (c + (x / Real.log 2 - c)) * Real.log 2 := by
    intro c
    field_simp
    ring
  by_cases h1 : x / Real.log 2 ≤ 1
  · exact Or.inl ⟨x / Real.log 2 - 0, by linarith, by linarith, hxy 0⟩
  · by_cases h2 : x / Real.log 2 ≤ 2
    · exact Or.inr (Or.inl ⟨x / Real.log 2 - 1, by linarith, by linarith, hxy 1⟩)
    · exact Or.inr (Or.inr ⟨x / Real.log 2 - 2, by linarith, by linarith, hxy 2⟩)

theorem log_two_pow_bounds :
    (0.69314718030000 * 1 ≤ Real.log 2 ^ 1 ∧ Real.log 2 ^ 1 ≤ 0.69314718080000 * 1)
    ∧ (0.24022650677892 * 2 ≤ Real.log 2 ^ 2 ∧ Real.log 2 ^ 2 ≤ 0.24022650712550 * 2)
    ∧ (0.05550410860237 * 6 ≤ Real.log 2 ^ 3 ∧ Real.log 2 ^ 3 ≤ 0.05550410872249 * 6)
    ∧ (0.00961812909320 * 24 ≤ Real.log 2 ^ 4 ∧ Real.log 2 ^ 4 ≤ 0.00961812912096 * 24)
    ∧ (0.00133335581214 * 120 ≤ Real.log 2 ^ 5 ∧ Real.log 2 ^ 5 ≤ 0.00133335581696 * 120)
    ∧ (0.00015403530358 * 720 ≤ Real.log 2 ^ 6 ∧ Real.log 2 ^ 6 ≤ 0.00015403530426 * 720)
    ∧ (0.00001525273376 * 5040 ≤ Real.log 2 ^ 7 ∧ Real.log 2 ^ 7 ≤ 0.00001525273385 * 5040)
    ∧ Real.log 2 ^ 8 * (9 / (40320 * 8)) ≤ 0.00000148674227 := by
  have h1 := Real.log_two_gt_d9
  have h2 := Real.log_two_lt_d9
  have h0 : (0 : ℝ) ≤ 0.6931471803 := by norm_num
  have hL : (0 : ℝ) ≤ Real.log 2 := le_trans h0 h1.le
  refine ⟨?_, ?_, ?_, ?_, ?_, ?_, ?_, ?_⟩
  · exact ⟨le_trans (by norm_num) (pow_le_pow_left₀ h0 h1.le 1),
      le_trans (pow_le_pow_left₀ hL h2.le 1) (by norm_num)⟩
  · exact ⟨le_trans (by norm_num) (pow_le_pow_left₀ h0 h1.le 2),
      le_trans (pow_le_pow_left₀ hL h2.le 2) (by norm_num)⟩
  · exact ⟨le_trans (by norm_num) (pow_le_pow_left₀ h0 h1.le 3),
      le_trans (pow_le_pow_left₀ hL h2.le 3) (by norm_num)⟩
  · exact ⟨le_trans (by norm_num) (pow_le_pow_left₀ h0 h1.le 4),
      le_trans (pow_le_pow_left₀ hL h2.le 4) (by norm_num)⟩
  · exact ⟨le_trans (by norm_num) (pow_le_pow_left₀ h0 h1.le 5),
      le_trans (pow_le_pow_left₀ hL h2.le 5) (by norm_num)⟩
  · exact ⟨le_trans (by norm_num) (pow_le_pow_left₀ h0 h1.le 6),
      le_trans (pow_le_pow_left₀ hL h2.le 6) (by norm_num)⟩
  · exact ⟨le_trans (by norm_num) (pow_le_pow_left₀ h0 h1.le 7),
      le_trans (pow_le_pow_left₀ hL h2.le 7) (by norm_num)⟩
  · have h := pow_le_pow_left₀ hL h2.le 8
    have h3 : (0.6931471808 : ℝ) ^ 8 * (9 / (40320 * 8)) ≤ 0.00000148674227 := by norm_num
    have h4 := mul_le_mul_of_nonneg_right h (by norm_num : (0 : ℝ) ≤ 9 / (40320 * 8))
    exact le_trans h4 h3

theorem exp_two_pow_bounds (s : ℝ) (hs0 : 0 ≤ s) (hs1 : s ≤ 1) :
    1 - 0.69314718080000 * s ^ (1 : ℕ) + 0.24022650677892 * s ^ (2 : ℕ) - 0.05550410872249 * s
      ^ (3 : ℕ) + 0.00961812909320 * s ^ (4 : ℕ) - 0.00133335581696 * s ^ (5 : ℕ) +
      0.00015403530358 * s ^ (6 : ℕ) - 0.00001525273385 * s ^ (7 : ℕ) - 0.00000148674227 * s ^ (8
      : ℕ)
        ≤ Real.exp (-(s * Real.log 2))
    ∧ Real.exp (-(s * Real.log 2))
        ≤ 1 - 0.69314718030000 * s ^ (1 : ℕ) + 0.24022650712550 * s ^ (2 : ℕ) - 0.05550410860237
          * s ^ (3 : ℕ) + 0.00961812912096 * s ^ (4 : ℕ) - 0.00133335581214 * s ^ (5 : ℕ) +
          0.00015403530426 * s ^ (6 : ℕ) - 0.00001525273376 * s ^ (7 : ℕ) + 0.00000148674227 * s
          ^ (8 : ℕ) := by
  obtain ⟨⟨l1,  u1⟩, ⟨l2,  u2⟩, ⟨l3,  u3⟩, ⟨l4,  u4⟩, ⟨l5,  u5⟩, ⟨l6,  u6⟩, ⟨l7,  u7⟩, hR⟩ := log_two_pow_bounds
  have h1 := Real.log_two_gt_d9
  have h2 := Real.log_two_lt_d9
  have hL : (0 : ℝ) ≤ Real.log 2 := le_trans (by norm_num) h1.le
  have hu0 : 0 ≤ s * Real.log 2 := mul_nonneg hs0 hL
  have hu1 : s * Real.log 2 ≤ 1 := by nlinarith
  have hx : |-(s * Real.log 2)| ≤ 1 := by rw [abs_neg, abs_of_nonneg hu0]; exact hu1
  have hb := Real.exp_bound hx (by norm_num : 0 < 8)
  rw [abs_neg, abs_of_nonneg hu0] at hb
  have hsum : ∑ m in Finset.range 8, (-(s * Real.log 2)) ^ m / (m.factorial : ℝ)
      = 1 - s ^ (1 : ℕ) * Real.log 2 ^ 1 / 1 + s ^ (2 : ℕ) * Real.log 2 ^ 2 / 2 - s ^ (3 : ℕ) *
        Real.log 2 ^ 3 / 6 + s ^ (4 : ℕ) * Real.log 2 ^ 4 / 24 - s ^ (5 : ℕ) * Real.log 2 ^ 5 /
        120 + s ^ (6 : ℕ) * Real.log 2 ^ 6 / 720 - s ^ (7 : ℕ) * Real.log 2 ^ 7 / 5040 := by
    simp only [Finset.sum_range_succ, Finset.sum_range_zero, Nat.factorial]
    push_cast
    ring
  have hrem : (s * Real.log 2) ^ 8 * (((8 : ℕ).succ : ℝ) / (((8 : ℕ).factorial : ℝ) * ((8 : ℕ) : ℝ)))
      = s ^ (8 : ℕ) * (Real.log 2 ^ 8 * (9 / (40320 * 8))) := by
    simp only [Nat.factorial]
    push_cast
    ring
  rw [hsum, hrem, abs_le] at hb
  obtain ⟨hb1, hb2⟩ := hb
  have a1 := mul_nonneg (pow_nonneg hs0 1) (sub_nonneg.mpr l1)
  have b1 := mul_nonneg (pow_nonneg hs0 1) (sub_nonneg.mpr u1)
  have a2 := mul_nonneg (pow_nonneg hs0 2) (sub_nonneg.mpr l2)
  have b2 := mul_nonneg (pow_nonneg hs0 2) (sub_nonneg.mpr u2)
  have a3 := mul_nonneg (pow_nonneg hs0 3) (sub_nonneg.mpr l3)
  have b3 := mul_nonneg (pow_nonneg hs0 3) (sub_nonneg.mpr u3)
  have a4 := mul_nonneg (pow_nonneg hs0 4) (sub_nonneg.mpr l4)
  have b4 := mul_nonneg (pow_nonneg hs0 4) (sub_nonneg.mpr u4)
  have a5 := mul_nonneg (pow_nonneg hs0 5) (sub_nonneg.mpr l5)
  have b5 := mul_nonneg (pow_nonneg hs0 5) (sub_nonneg.mpr u5)
  have a6 := mul_nonneg (pow_nonneg hs0 6) (sub_nonneg.mpr l6)
  have b6 := mul_nonneg (pow_nonneg hs0 6) (sub_nonneg.mpr u6)
  have a7 := mul_nonneg (pow_nonneg hs0 7) (sub_nonneg.mpr l7)
  have b7 := mul_nonneg (pow_nonneg hs0 7) (sub_nonneg.mpr u7)
  have aR := mul_nonneg (pow_nonneg hs0 8) (sub_nonneg.mpr hR)
  constructor
  · linarith
  · linarith

theorem stehfest_piece_four_zero (s e : ℝ) (hs0 : 0 ≤ s) (hs1 : s ≤ 1)
    (hlo : 1 - 0.69314718080000 * s ^ (1 : ℕ) + 0.24022650677892 * s ^ (2 : ℕ) - 0.05550410872249 *
        s ^ (3 : ℕ) + 0.00961812909320 * s ^ (4 : ℕ) - 0.00133335581696 * s ^ (5 : ℕ) +
        0.00015403530358 * s ^ (6 : ℕ) - 0.00001525273385 * s ^ (7 : ℕ) - 0.00000148674227 * s ^
        (8 : ℕ) ≤ e)
    (hhi : e ≤ 1 - 0.69314718030000 * s ^ (1 : ℕ) + 0.24022650712550 * s ^ (2 : ℕ) - 0.05550410860237 *
        s ^ (3 : ℕ) + 0.00961812912096 * s ^ (4 : ℕ) - 0.00133335581214 * s ^ (5 : ℕ) +
        0.00015403530426 * s ^ (6 : ℕ) - 0.00001525273376 * s ^ (7 : ℕ) + 0.00000148674227 * s ^
        (8 : ℕ)) :
    |(-2 * (1 / (1 + s)) + 26 * (1 / (2 + s)) + -48 * (1 / (3 + s)) + 24 * (1 / (4 + s)))
        - 1 * e| ≤ (2 / 25) * (1 * e) := by
  obtain ⟨r, hr0, hr⟩ : ∃ r : ℝ, 0 ≤ r ∧ r = 1 - s := ⟨1 - s, sub_nonneg.mpr hs1, rfl⟩
  have hD : 0 < (1 + s) * (2 + s) * (3 + s) * (4 + s) := by positivity
  have eu : (27 / 25) * ((1 - 0.69314718080000 * s ^ (1 : ℕ) + 0.24022650677892 * s ^ (2 : ℕ) - 0.05550410872249
          * s ^ (3 : ℕ) + 0.00961812909320 * s ^ (4 : ℕ) - 0.00133335581696 * s ^ (5 : ℕ) +
          0.00015403530358 * s ^ (6 : ℕ) - 0.00001525273385 * s ^ (7 : ℕ) - 0.00000148674227 * s
          ^ (8 : ℕ))
        * ((1 + s) * (2 + s) * (3 + s) * (4 + s)))
      - (24 + 34 * s ^ (1 : ℕ) + (-2) * s ^ (2 : ℕ))
      = (1 / 2500000000000000) * (4800000000000000 * (s ^ (0 : ℕ) * r ^ (12 : ℕ)) +
        62684062684160000 * (s ^ (1 : ℕ) * r ^ (11 : ℕ)) + 394216497757034016 * (s ^ (2 : ℕ) * r
        ^ (10 : ℕ)) + 1540873033525877008 * (s ^ (3 : ℕ) * r ^ (9 : ℕ)) + 4094801876649473502 *
        (s ^ (4 : ℕ) * r ^ (8 : ℕ)) + 7709406377326736175 * (s ^ (5 : ℕ) * r ^ (7 : ℕ)) +
        10483988234664826119 * (s ^ (6 : ℕ) * r ^ (6 : ℕ)) + 10349422459584254952 * (s ^ (7 : ℕ)
        * r ^ (5 : ℕ)) + 7354661369195376792 * (s ^ (8 : ℕ) * r ^ (4 : ℕ)) + 3669640948753178856
        * (s ^ (9 : ℕ) * r ^ (3 : ℕ)) + 1220947203701837939 * (s ^ (10 : ℕ) * r ^ (2 : ℕ)) +
        243387424889227626 * (s ^ (11 : ℕ) * r ^ (1 : ℕ)) + 21999120780682120 * (s ^ (12 : ℕ) * r
        ^ (0 : ℕ))) := by
    rw [hr]
    ring
  have hup := nonneg_of_eq eu
    (mul_nonneg (by norm_num) (add_nonneg (add_nonneg (add_nonneg (add_nonneg (add_nonneg
      (add_nonneg (add_nonneg (add_nonneg (add_nonneg (add_nonneg (add_nonneg (add_nonneg
      (mul_nonneg (by norm_num) (mul_nonneg (pow_nonneg hs0 0) (pow_nonneg hr0 12))) (mul_nonneg
      (by norm_num) (mul_nonneg (pow_nonneg hs0 1) (pow_nonneg hr0 11)))) (mul_nonneg (by
      norm_num) (mul_nonneg (pow_nonneg hs0 2) (pow_nonneg hr0 10)))) (mul_nonneg (by norm_num)
      (mul_nonneg (pow_nonneg hs0 3) (pow_nonneg hr0 9)))) (mul_nonneg (by norm_num) (mul_nonneg
      (pow_nonneg hs0 4) (pow_nonneg hr0 8)))) (mul_nonneg (by norm_num) (mul_nonneg (pow_nonneg
      hs0 5) (pow_nonneg hr0 7)))) (mul_nonneg (by norm_num) (mul_nonneg (pow_nonneg hs0 6)
      (pow_nonneg hr0 6)))) (mul_nonneg (by norm_num) (mul_nonneg (pow_nonneg hs0 7) (pow_nonneg
      hr0 5)))) (mul_nonneg (by norm_num) (mul_nonneg (pow_nonneg hs0 8) (pow_nonneg hr0 4))))
      (mul_nonneg (by norm_num) (mul_nonneg (pow_nonneg hs0 9) (pow_nonneg hr0 3)))) (mul_nonneg
      (by norm_num) (mul_nonneg (pow_nonneg hs0 10) (pow_nonneg hr0 2)))) (mul_nonneg (by
      norm_num) (mul_nonneg (pow_nonneg hs0 11) (pow_nonneg hr0 1)))) (mul_nonneg (by norm_num)
      (mul_nonneg (pow_nonneg hs0 12) (pow_nonneg hr0 0)))))
  clear eu
  have ed : (24 + 34 * s ^ (1 : ℕ) + (-2) * s ^ (2 : ℕ))
      - (23 / 25) * ((1 - 0.69314718030000 * s ^ (1 : ℕ) + 0.24022650712550 * s ^ (2 : ℕ) - 0.05550410860237
          * s ^ (3 : ℕ) + 0.00961812912096 * s ^ (4 : ℕ) - 0.00133335581214 * s ^ (5 : ℕ) +
          0.00015403530426 * s ^ (6 : ℕ) - 0.00001525273376 * s ^ (7 : ℕ) + 0.00000148674227 * s
          ^ (8 : ℕ))
        * ((1 + s) * (2 + s) * (3 + s) * (4 + s)))
      = (1 / 2500000000000000) * (4800000000000000 * (s ^ (0 : ℕ) * r ^ (12 : ℕ)) +
        65861724352560000 * (s ^ (1 : ℕ) * r ^ (11 : ℕ)) + 388630390419332400 * (s ^ (2 : ℕ) * r
        ^ (10 : ℕ)) + 1328145191292092324 * (s ^ (3 : ℕ) * r ^ (9 : ℕ)) + 2956279874016365724 *
        (s ^ (4 : ℕ) * r ^ (8 : ℕ)) + 4539394545575904141 * (s ^ (5 : ℕ) * r ^ (7 : ℕ)) +
        4944750725238589459 * (s ^ (6 : ℕ) * r ^ (6 : ℕ)) + 3854936376753236606 * (s ^ (7 : ℕ) *
        r ^ (5 : ℕ)) + 2134917887927931402 * (s ^ (8 : ℕ) * r ^ (4 : ℕ)) + 818452983098793693 *
        (s ^ (9 : ℕ) * r ^ (3 : ℕ)) + 205857529203153142 * (s ^ (10 : ℕ) * r ^ (2 : ℕ)) +
        30445517159149864 * (s ^ (11 : ℕ) * r ^ (1 : ℕ)) + 1999928006857280 * (s ^ (12 : ℕ) * r ^
        (0 : ℕ))) := by
    rw [hr]
    ring
  have hdn := nonneg_of_eq ed
    (mul_nonneg (by norm_num) (add_nonneg (add_nonneg (add_nonneg (add_nonneg (add_nonneg
      (add_nonneg (add_nonneg (add_nonneg (add_nonneg (add_nonneg (add_nonneg (add_nonneg
      (mul_nonneg (by norm_num) (mul_nonneg (pow_nonneg hs0 0) (pow_nonneg hr0 12))) (mul_nonneg
      (by norm_num) (mul_nonneg (pow_nonneg hs0 1) (pow_nonneg hr0 11)))) (mul_nonneg (by
      norm_num) (mul_nonneg (pow_nonneg hs0 2) (pow_nonneg hr0 10)))) (mul_nonneg (by norm_num)
      (mul_nonneg (pow_nonneg hs0 3) (pow_nonneg hr0 9)))) (mul_nonneg (by norm_num) (mul_nonneg
      (pow_nonneg hs0 4) (pow_nonneg hr0 8)))) (mul_nonneg (by norm_num) (mul_nonneg (pow_nonneg
      hs0 5) (pow_nonneg hr0 7)))) (mul_nonneg (by norm_num) (mul_nonneg (pow_nonneg hs0 6)
      (pow_nonneg hr0 6)))) (mul_nonneg (by norm_num) (mul_nonneg (pow_nonneg hs0 7) (pow_nonneg
      hr0 5)))) (mul_nonneg (by norm_num) (mul_nonneg (pow_nonneg hs0 8) (pow_nonneg hr0 4))))
      (mul_nonneg (by norm_num) (mul_nonneg (pow_nonneg hs0 9) (pow_nonneg hr0 3)))) (mul_nonneg
      (by norm_num) (mul_nonneg (pow_nonneg hs0 10) (pow_nonneg hr0 2)))) (mul_nonneg (by
      norm_num) (mul_nonneg (pow_nonneg hs0 11) (pow_nonneg hr0 1)))) (mul_nonneg (by norm_num)
      (mul_nonneg (pow_nonneg hs0 12) (pow_nonneg hr0 0)))))
  clear ed
  have c1 : -2 * (1 / (1 + s)) * (1 + s) = -2 :=
    term_cancel _ _ (by positivity)
  have c2 : 26 * (1 / (2 + s)) * (2 + s) = 26 :=
    term_cancel _ _ (by positivity)
  have c3 : -48 * (1 / (3 + s)) * (3 + s) = -48 :=
    term_cancel _ _ (by positivity)
  have c4 : 24 * (1 / (4 + s)) * (4 + s) = 24 :=
    term_cancel _ _ (by positivity)
  have hf : (-2 * (1 / (1 + s)) + 26 * (1 / (2 + s)) + -48 * (1 / (3 + s)) + 24 * (1 / (4 + s)))
      * ((1 + s) * (2 + s) * (3 + s) * (4 + s))
      = 24 + 34 * s ^ (1 : ℕ) + (-2) * s ^ (2 : ℕ) := by
    linear_combination (2 + s) * (3 + s) * (4 + s) * c1 + (1 + s) * (3 + s) * (4 + s) * c2 + (1 + s) * (2 + s) *
      (4 + s) * c3 + (1 + s) * (2 + s) * (3 + s) * c4
  have h1 := mul_le_mul_of_nonneg_left (mul_le_mul_of_nonneg_right hlo hD.le)
    (by norm_num : (0 : ℝ) ≤ (27 / 25))
  have h2 := mul_le_mul_of_nonneg_left (mul_le_mul_of_nonneg_right hhi hD.le)
    (by norm_num : (0 : ℝ) ≤ (23 / 25))
  refine abs_sub_le_iff.mpr ⟨sub_le_iff_le_add.mpr ?_, sub_le_comm.mpr ?_⟩
  · apply le_of_mul_le_mul_right _ hD
    rw [hf]
    exact le_trans (sub_nonneg.mp hup) (le_of_le_of_eq h1 (by ring))
  · apply le_of_mul_le_mul_right _ hD
    rw [hf]
    exact le_trans (le_of_eq_of_le (by ring) h2) (sub_nonneg.mp hdn)

theorem stehfest_piece_four_one (s e : ℝ) (hs0 : 0 ≤ s) (hs1 : s ≤ 1)
    (hlo : 1 - 0.69314718080000 * s ^ (1 : ℕ) + 0.24022650677892 * s ^ (2 : ℕ) - 0.05550410872249 *
        s ^ (3 : ℕ) + 0.00961812909320 * s ^ (4 : ℕ) - 0.00133335581696 * s ^ (5 : ℕ) +
        0.00015403530358 * s ^ (6 : ℕ) - 0.00001525273385 * s ^ (7 : ℕ) - 0.00000148674227 * s ^
        (8 : ℕ) ≤ e)
    (hhi : e ≤ 1 - 0.69314718030000 * s ^ (1 : ℕ) + 0.24022650712550 * s ^ (2 : ℕ) - 0.05550410860237 *
        s ^ (3 : ℕ) + 0.00961812912096 * s ^ (4 : ℕ) - 0.00133335581214 * s ^ (5 : ℕ) +
        0.00015403530426 * s ^ (6 : ℕ) - 0.00001525273376 * s ^ (7 : ℕ) + 0.00000148674227 * s ^
        (8 : ℕ)) :
    |(-2 * (1 / (2 + s)) + 26 * (1 / (3 + s)) + -48 * (1 / (4 + s)) + 24 * (1 / (5 + s)))
        - (1 / 2) * e| ≤ (2 / 25) * ((1 / 2) * e) := by
  obtain ⟨r, hr0, hr⟩ : ∃ r : ℝ, 0 ≤ r ∧ r = 1 - s := ⟨1 - s, sub_nonneg.mpr hs1, rfl⟩
  have hD : 0 < (2 + s) * (3 + s) * (4 + s) * (5 + s) := by positivity
  have eu : (27 / 50) * ((1 - 0.69314718080000 * s ^ (1 : ℕ) + 0.24022650677892 * s ^ (2 : ℕ) - 0.05550410872249
          * s ^ (3 : ℕ) + 0.00961812909320 * s ^ (4 : ℕ) - 0.00133335581696 * s ^ (5 : ℕ) +
          0.00015403530358 * s ^ (6 : ℕ) - 0.00001525273385 * s ^ (7 : ℕ) - 0.00000148674227 * s
          ^ (8 : ℕ))
        * ((2 + s) * (3 + s) * (4 + s) * (5 + s)))
      - (56 + 30 * s ^ (1 : ℕ) + (-2) * s ^ (2 : ℕ))
      = (1 / 5000000000000000) * (44000000000000000 * (s ^ (0 : ℕ) * r ^ (12 : ℕ)) +
        569220313420800000 * (s ^ (1 : ℕ) * r ^ (11 : ℕ)) + 3348746238048530080 * (s ^ (2 : ℕ) *
        r ^ (10 : ℕ)) + 11847171678074528976 * (s ^ (3 : ℕ) * r ^ (9 : ℕ)) + 28074904228253571606
        * (s ^ (4 : ℕ) * r ^ (8 : ℕ)) + 46956034690023378675 * (s ^ (5 : ℕ) * r ^ (7 : ℕ)) +
        56844310057237790295 * (s ^ (6 : ℕ) * r ^ (6 : ℕ)) + 50192421591434650884 * (s ^ (7 : ℕ)
        * r ^ (5 : ℕ)) + 32084998420613111904 * (s ^ (8 : ℕ) * r ^ (4 : ℕ)) +
        14481176117711931224 * (s ^ (9 : ℕ) * r ^ (3 : ℕ)) + 4380229475604400383 * (s ^ (10 : ℕ)
        * r ^ (2 : ℕ)) + 797161395448364998 * (s ^ (11 : ℕ) * r ^ (1 : ℕ)) + 65997362342046360 *
        (s ^ (12 : ℕ) * r ^ (0 : ℕ))) := by
    rw [hr]
    ring
  have hup := nonneg_of_eq eu
    (mul_nonneg (by norm_num) (add_nonneg (add_nonneg (add_nonneg (add_nonneg (add_nonneg
      (add_nonneg (add_nonneg (add_nonneg (add_nonneg (add_nonneg (add_nonneg (add_nonneg
      (mul_nonneg (by norm_num) (mul_nonneg (pow_nonneg hs0 0) (pow_nonneg hr0 12))) (mul_nonneg
      (by norm_num) (mul_nonneg (pow_nonneg hs0 1) (pow_nonneg hr0 11)))) (mul_nonneg (by
      norm_num) (mul_nonneg (pow_nonneg hs0 2) (pow_nonneg hr0 10)))) (mul_nonneg (by norm_num)
      (mul_nonneg (pow_nonneg hs0 3) (pow_nonneg hr0 9)))) (mul_nonneg (by norm_num) (mul_nonneg
      (pow_nonneg hs0 4) (pow_nonneg hr0 8)))) (mul_nonneg (by norm_num) (mul_nonneg (pow_nonneg
      hs0 5) (pow_nonneg hr0 7)))) (mul_nonneg (by norm_num) (mul_nonneg (pow_nonneg hs0 6)
      (pow_nonneg hr0 6)))) (mul_nonneg (by norm_num) (mul_nonneg (pow_nonneg hs0 7) (pow_nonneg
      hr0 5)))) (mul_nonneg (by norm_num) (mul_nonneg (pow_nonneg hs0 8) (pow_nonneg hr0 4))))
      (mul_nonneg (by norm_num) (mul_nonneg (pow_nonneg hs0 9) (pow_nonneg hr0 3)))) (mul_nonneg
      (by norm_num) (mul_nonneg (pow_nonneg hs0 10) (pow_nonneg hr0 2)))) (mul_nonneg (by
      norm_num) (mul_nonneg (pow_nonneg hs0 11) (pow_nonneg hr0 1)))) (mul_nonneg (by norm_num)
      (mul_nonneg (pow_nonneg hs0 12) (pow_nonneg hr0 0)))))
  clear eu
  have ed : (56 + 30 * s ^ (1 : ℕ) + (-2) * s ^ (2 : ℕ))
      - (23 / 50) * ((1 - 0.69314718030000 * s ^ (1 : ℕ) + 0.24022650712550 * s ^ (2 : ℕ) - 0.05550410860237
          * s ^ (3 : ℕ) + 0.00961812912096 * s ^ (4 : ℕ) - 0.00133335581214 * s ^ (5 : ℕ) +
          0.00015403530426 * s ^ (6 : ℕ) - 0.00001525273376 * s ^ (7 : ℕ) + 0.00000148674227 * s
          ^ (8 : ℕ))
        * ((2 + s) * (3 + s) * (4 + s) * (5 + s)))
      = (1 / 5000000000000000) * (4000000000000000 * (s ^ (0 : ℕ) * r ^ (17 : ℕ)) +
        55108621762800000 * (s ^ (1 : ℕ) * r ^ (16 : ℕ)) + 343648163500422000 * (s ^ (2 : ℕ) * r
        ^ (15 : ℕ)) + 1272909680663722020 * (s ^ (3 : ℕ) * r ^ (14 : ℕ)) + 3076301851137438624 *
        (s ^ (4 : ℕ) * r ^ (13 : ℕ)) + 4971249939573530821 * (s ^ (5 : ℕ) * r ^ (12 : ℕ)) +
        5173389161321181584 * (s ^ (6 : ℕ) * r ^ (11 : ℕ)) + 2902101102012495551 * (s ^ (7 : ℕ) *
        r ^ (10 : ℕ)) + 212526276531925204 * (s ^ (8 : ℕ) * r ^ (9 : ℕ)) + 179359916976966758 *
        (s ^ (9 : ℕ) * r ^ (8 : ℕ)) + 3014342749749918791 * (s ^ (10 : ℕ) * r ^ (7 : ℕ)) +
        5699566492400776221 * (s ^ (11 : ℕ) * r ^ (6 : ℕ)) + 5767406175954924466 * (s ^ (12 : ℕ)
        * r ^ (5 : ℕ)) + 3752402902776044099 * (s ^ (13 : ℕ) * r ^ (4 : ℕ)) + 1632447040796363979
        * (s ^ (14 : ℕ) * r ^ (3 : ℕ)) + 463698378392433410 * (s ^ (15 : ℕ) * r ^ (2 : ℕ)) +
        78335399587166072 * (s ^ (16 : ℕ) * r ^ (1 : ℕ)) + 5999784020571840 * (s ^ (17 : ℕ) * r ^
        (0 : ℕ))) := by
    rw [hr]
    ring
  have hdn := nonneg_of_eq ed
    (mul_nonneg (by norm_num) (add_nonneg (add_nonneg (add_nonneg (add_nonneg (add_nonneg
      (add_nonneg (add_nonneg (add_nonneg (add_nonneg (add_nonneg (add_nonneg (add_nonneg
      (add_nonneg (add_nonneg (add_nonneg (add_nonneg (add_nonneg (mul_nonneg (by norm_num)
      (mul_nonneg (pow_nonneg hs0 0) (pow_nonneg hr0 17))) (mul_nonneg (by norm_num) (mul_nonneg
      (pow_nonneg hs0 1) (pow_nonneg hr0 16)))) (mul_nonneg (by norm_num) (mul_nonneg (pow_nonneg
      hs0 2) (pow_nonneg hr0 15)))) (mul_nonneg (by norm_num) (mul_nonneg (pow_nonneg hs0 3)
      (pow_nonneg hr0 14)))) (mul_nonneg (by norm_num) (mul_nonneg (pow_nonneg hs0 4) (pow_nonneg
      hr0 13)))) (mul_nonneg (by norm_num) (mul_nonneg (pow_nonneg hs0 5) (pow_nonneg hr0 12))))
      (mul_nonneg (by norm_num) (mul_nonneg (pow_nonneg hs0 6) (pow_nonneg hr0 11)))) (mul_nonneg
      (by norm_num) (mul_nonneg (pow_nonneg hs0 7) (pow_nonneg hr0 10)))) (mul_nonneg (by
      norm_num) (mul_nonneg (pow_nonneg hs0 8) (pow_nonneg hr0 9)))) (mul_nonneg (by norm_num)
      (mul_nonneg (pow_nonneg hs0 9) (pow_nonneg hr0 8)))) (mul_nonneg (by norm_num) (mul_nonneg
      (pow_nonneg hs0 10) (pow_nonneg hr0 7)))) (mul_nonneg (by norm_num) (mul_nonneg (pow_nonneg
      hs0 11) (pow_nonneg hr0 6)))) (mul_nonneg (by norm_num) (mul_nonneg (pow_nonneg hs0 12)
      (pow_nonneg hr0 5)))) (mul_nonneg (by norm_num) (mul_nonneg (pow_nonneg hs0 13) (pow_nonneg
      hr0 4)))) (mul_nonneg (by norm_num) (mul_nonneg (pow_nonneg hs0 14) (pow_nonneg hr0 3))))
      (mul_nonneg (by norm_num) (mul_nonneg (pow_nonneg hs0 15) (pow_nonneg hr0 2)))) (mul_nonneg
      (by norm_num) (mul_nonneg (pow_nonneg hs0 16) (pow_nonneg hr0 1)))) (mul_nonneg (by
      norm_num) (mul_nonneg (pow_nonneg hs0 17) (pow_nonneg hr0 0)))))
  clear ed
  have c1 : -2 * (1 / (2 + s)) * (2 + s) = -2 :=
    term_cancel _ _ (by positivity)
  have c2 : 26 * (1 / (3 + s)) * (3 + s) = 26 :=
    term_cancel _ _ (by positivity)
  have c3 : -48 * (1 / (4 + s)) * (4 + s) = -48 :=
    term_cancel _ _ (by positivity)
  have c4 : 24 * (1 / (5 + s)) * (5 + s) = 24 :=
    term_cancel _ _ (by positivity)
  have hf : (-2 * (1 / (2 + s)) + 26 * (1 / (3 + s)) + -48 * (1 / (4 + s)) + 24 * (1 / (5 + s)))
      * ((2 + s) * (3 + s) * (4 + s) * (5 + s))
      = 56 + 30 * s ^ (1 : ℕ) + (-2) * s ^ (2 : ℕ) := by
    linear_combination (3 + s) * (4 + s) * (5 + s) * c1 + (2 + s) * (4 + s) * (5 + s) * c2 + (2 + s) * (3 + s) *
      (5 + s) * c3 + (2 + s) * (3 + s) * (4 + s) * c4
  have h1 := mul_le_mul_of_nonneg_left (mul_le_mul_of_nonneg_right hlo hD.le)
    (by norm_num : (0 : ℝ) ≤ (27 / 50))
  have h2 := mul_le_mul_of_nonneg_left (mul_le_mul_of_nonneg_right hhi hD.le)
    (by norm_num : (0 : ℝ) ≤ (23 / 50))
  refine abs_sub_le_iff.mpr ⟨sub_le_iff_le_add.mpr ?_, sub_le_comm.mpr ?_⟩
  · apply le_of_mul_le_mul_right _ hD
    rw [hf]
    exact le_trans (sub_nonneg.mp hup) (le_of_le_of_eq h1 (by ring))
  · apply le_of_mul_le_mul_right _ hD
    rw [hf]
    exact le_trans (le_of_eq_of_le (by ring) h2) (sub_nonneg.mp hdn)

theorem stehfest_piece_four_two (s e : ℝ) (hs0 : 0 ≤ s) (hs1 : s ≤ 1)
    (hlo : 1 - 0.69314718080000 * s ^ (1 : ℕ) + 0.24022650677892 * s ^ (2 : ℕ) - 0.05550410872249 *
        s ^ (3 : ℕ) + 0.00961812909320 * s ^ (4 : ℕ) - 0.00133335581696 * s ^ (5 : ℕ) +
        0.00015403530358 * s ^ (6 : ℕ) - 0.00001525273385 * s ^ (7 : ℕ) - 0.00000148674227 * s ^
        (8 : ℕ) ≤ e)
    (hhi : e ≤ 1 - 0.69314718030000 * s ^ (1 : ℕ) + 0.24022650712550 * s ^ (2 : ℕ) - 0.05550410860237 *
        s ^ (3 : ℕ) + 0.00961812912096 * s ^ (4 : ℕ) - 0.00133335581214 * s ^ (5 : ℕ) +
        0.00015403530426 * s ^ (6 : ℕ) - 0.00001525273376 * s ^ (7 : ℕ) + 0.00000148674227 * s ^
        (8 : ℕ)) :
    |(-2 * (1 / (3 + s)) + 26 * (1 / (4 + s)) + -48 * (1 / (5 + s)) + 24 * (1 / (6 + s)))
        - (1 / 4) * e| ≤ (2 / 25) * ((1 / 4) * e) := by
  obtain ⟨r, hr0, hr⟩ : ∃ r : ℝ, 0 ≤ r ∧ r = 1 - s := ⟨1 - s, sub_nonneg.mpr hs1, rfl⟩
  have hD : 0 < (3 + s) * (4 + s) * (5 + s) * (6 + s) := by positivity
  have eu : (27 / 100) * ((1 - 0.69314718080000 * s ^ (1 : ℕ) + 0.24022650677892 * s ^ (2 : ℕ) - 0.05550410872249
          * s ^ (3 : ℕ) + 0.00961812909320 * s ^ (4 : ℕ) - 0.00133335581696 * s ^ (5 : ℕ) +
          0.00015403530358 * s ^ (6 : ℕ) - 0.00001525273385 * s ^ (7 : ℕ) - 0.00000148674227 * s
          ^ (8 : ℕ))
        * ((3 + s) * (4 + s) * (5 + s) * (6 + s)))
      - (84 + 26 * s ^ (1 : ℕ) + (-2) * s ^ (2 : ℕ))
      = (1 / 10000000000000000) * (132000000000000000 * (s ^ (0 : ℕ) * r ^ (12 : ℕ)) +
        1573660940262400000 * (s ^ (1 : ℕ) * r ^ (11 : ℕ)) + 8533018400724790240 * (s ^ (2 : ℕ) *
        r ^ (10 : ℕ)) + 27812599266306256848 * (s ^ (3 : ℕ) * r ^ (9 : ℕ)) + 60645914658562180962
        * (s ^ (4 : ℕ) * r ^ (8 : ℕ)) + 93111396881114365203 * (s ^ (5 : ℕ) * r ^ (7 : ℕ)) +
        103081956265123648443 * (s ^ (6 : ℕ) * r ^ (6 : ℕ)) + 82769415576950746020 * (s ^ (7 : ℕ)
        * r ^ (5 : ℕ)) + 47724347466434494776 * (s ^ (8 : ℕ) * r ^ (4 : ℕ)) +
        19204501625629943172 * (s ^ (9 : ℕ) * r ^ (3 : ℕ)) + 5093052400360045675 * (s ^ (10 : ℕ)
        * r ^ (2 : ℕ)) + 792708750420427822 * (s ^ (11 : ℕ) * r ^ (1 : ℕ)) + 53993845464774840 *
        (s ^ (12 : ℕ) * r ^ (0 : ℕ))) := by
    rw [hr]
    ring
  have hup := nonneg_of_eq eu
    (mul_nonneg (by norm_num) (add_nonneg (add_nonneg (add_nonneg (add_nonneg (add_nonneg
      (add_nonneg (add_nonneg (add_nonneg (add_nonneg (add_nonneg (add_nonneg (add_nonneg
      (mul_nonneg (by norm_num) (mul_nonneg (pow_nonneg hs0 0) (pow_nonneg hr0 12))) (mul_nonneg
      (by norm_num) (mul_nonneg (pow_nonneg hs0 1) (pow_nonneg hr0 11)))) (mul_nonneg (by
      norm_num) (mul_nonneg (pow_nonneg hs0 2) (pow_nonneg hr0 10)))) (mul_nonneg (by norm_num)
      (mul_nonneg (pow_nonneg hs0 3) (pow_nonneg hr0 9)))) (mul_nonneg (by norm_num) (mul_nonneg
      (pow_nonneg hs0 4) (pow_nonneg hr0 8)))) (mul_nonneg (by norm_num) (mul_nonneg (pow_nonneg
      hs0 5) (pow_nonneg hr0 7)))) (mul_nonneg (by norm_num) (mul_nonneg (pow_nonneg hs0 6)
      (pow_nonneg hr0 6)))) (mul_nonneg (by norm_num) (mul_nonneg (pow_nonneg hs0 7) (pow_nonneg
      hr0 5)))) (mul_nonneg (by norm_num) (mul_nonneg (pow_nonneg hs0 8) (pow_nonneg hr0 4))))
      (mul_nonneg (by norm_num) (mul_nonneg (pow_nonneg hs0 9) (pow_nonneg hr0 3)))) (mul_nonneg
      (by norm_num) (mul_nonneg (pow_nonneg hs0 10) (pow_nonneg hr0 2)))) (mul_nonneg (by
      norm_num) (mul_nonneg (pow_nonneg hs0 11) (pow_nonneg hr0 1)))) (mul_nonneg (by norm_num)
      (mul_nonneg (pow_nonneg hs0 12) (pow_nonneg hr0 0)))))
  clear eu
  have ed : (84 + 26 * s ^ (1 : ℕ) + (-2) * s ^ (2 : ℕ))
      - (23 / 100) * ((1 - 0.69314718030000 * s ^ (1 : ℕ) + 0.24022650712550 * s ^ (2 : ℕ) - 0.05550410860237
          * s ^ (3 : ℕ) + 0.00961812912096 * s ^ (4 : ℕ) - 0.00133335581214 * s ^ (5 : ℕ) +
          0.00015403530426 * s ^ (6 : ℕ) - 0.00001525273376 * s ^ (7 : ℕ) + 0.00000148674227 * s
          ^ (8 : ℕ))
        * ((3 + s) * (4 + s) * (5 + s) * (6 + s)))
      = (1 / 10000000000000000) * (12000000000000000 * (s ^ (0 : ℕ) * r ^ (12 : ℕ)) +
        191325865288400000 * (s ^ (1 : ℕ) * r ^ (11 : ℕ)) + 1365206542296466000 * (s ^ (2 : ℕ) *
        r ^ (10 : ℕ)) + 5774452446768614060 * (s ^ (3 : ℕ) * r ^ (9 : ℕ)) + 16160887409341196552
        * (s ^ (4 : ℕ) * r ^ (8 : ℕ)) + 31598439455353454009 * (s ^ (5 : ℕ) * r ^ (7 : ℕ)) +
        44349444279106440407 * (s ^ (6 : ℕ) * r ^ (6 : ℕ)) + 45101608511429558394 * (s ^ (7 : ℕ)
        * r ^ (5 : ℕ)) + 33034812296346473582 * (s ^ (8 : ℕ) * r ^ (4 : ℕ)) +
        17018375108240106173 * (s ^ (9 : ℕ) * r ^ (3 : ℕ)) + 5859969716661240322 * (s ^ (10 : ℕ)
        * r ^ (2 : ℕ)) + 1212118356139192408 * (s ^ (11 : ℕ) * r ^ (1 : ℕ)) + 113999496048000960
        * (s ^ (12 : ℕ) * r ^ (0 : ℕ))) := by
    rw [hr]
    ring
  have hdn := nonneg_of_eq ed
    (mul_nonneg (by norm_num) (add_nonneg (add_nonneg (add_nonneg (add_nonneg (add_nonneg
      (add_nonneg (add_nonneg (add_nonneg (add_nonneg (add_nonneg (add_nonneg (add_nonneg
      (mul_nonneg (by norm_num) (mul_nonneg (pow_nonneg hs0 0) (pow_nonneg hr0 12))) (mul_nonneg
      (by norm_num) (mul_nonneg (pow_nonneg hs0 1) (pow_nonneg hr0 11)))) (mul_nonneg (by
      norm_num) (mul_nonneg (pow_nonneg hs0 2) (pow_nonneg hr0 10)))) (mul_nonneg (by norm_num)
      (mul_nonneg (pow_nonneg hs0 3) (pow_nonneg hr0 9)))) (mul_nonneg (by norm_num) (mul_nonneg
      (pow_nonneg hs0 4) (pow_nonneg hr0 8)))) (mul_nonneg (by norm_num) (mul_nonneg (pow_nonneg
      hs0 5) (pow_nonneg hr0 7)))) (mul_nonneg (by norm_num) (mul_nonneg (pow_nonneg hs0 6)
      (pow_nonneg hr0 6)))) (mul_nonneg (by norm_num) (mul_nonneg (pow_nonneg hs0 7) (pow_nonneg
      hr0 5)))) (mul_nonneg (by norm_num) (mul_nonneg (pow_nonneg hs0 8) (pow_nonneg hr0 4))))
      (mul_nonneg (by norm_num) (mul_nonneg (pow_nonneg hs0 9) (pow_nonneg hr0 3)))) (mul_nonneg
      (by norm_num) (mul_nonneg (pow_nonneg hs0 10) (pow_nonneg hr0 2)))) (mul_nonneg (by
      norm_num) (mul_nonneg (pow_nonneg hs0 11) (pow_nonneg hr0 1)))) (mul_nonneg (by norm_num)
      (mul_nonneg (pow_nonneg hs0 12) (pow_nonneg hr0 0)))))
  clear ed
  have c1 : -2 * (1 / (3 + s)) * (3 + s) = -2 :=
    term_cancel _ _ (by positivity)
  have c2 : 26 * (1 / (4 + s)) * (4 + s) = 26 :=
    term_cancel _ _ (by positivity)
  have c3 : -48 * (1 / (5 + s)) * (5 + s) = -48 :=
    term_cancel _ _ (by positivity)
  have c4 : 24 * (1 / (6 + s)) * (6 + s) = 24 :=
    term_cancel _ _ (by positivity)
  have hf : (-2 * (1 / (3 + s)) + 26 * (1 / (4 + s)) + -48 * (1 / (5 + s)) + 24 * (1 / (6 + s)))
      * ((3 + s) * (4 + s) * (5 + s) * (6 + s))
      = 84 + 26 * s ^ (1 : ℕ) + (-2) * s ^ (2 : ℕ) := by
    linear_combination (4 + s) * (5 + s) * (6 + s) * c1 + (3 + s) * (5 + s) * (6 + s) * c2 + (3 + s) * (4 + s) *
      (6 + s) * c3 + (3 + s) * (4 + s) * (5 + s) * c4
  have h1 := mul_le_mul_of_nonneg_left (mul_le_mul_of_nonneg_right hlo hD.le)
    (by norm_num : (0 : ℝ) ≤ (27 / 100))
  have h2 := mul_le_mul_of_nonneg_left (mul_le_mul_of_nonneg_right hhi hD.le)
    (by norm_num : (0 : ℝ) ≤ (23 / 100))
  refine abs_sub_le_iff.mpr ⟨sub_le_iff_le_add.mpr ?_, sub_le_comm.mpr ?_⟩
  · apply le_of_mul_le_mul_right _ hD
    rw [hf]
    exact le_trans (sub_nonneg.mp hup) (le_of_le_of_eq h1 (by ring))
  · apply le_of_mul_le_mul_right _ hD
    rw [hf]
    exact le_trans (le_of_eq_of_le (by ring) h2) (sub_nonneg.mp hdn)

theorem stehfest_piece_six_zero (s e : ℝ) (hs0 : 0 ≤ s) (hs1 : s ≤ 1)
    (hlo : 1 - 0.69314718080000 * s ^ (1 : ℕ) + 0.24022650677892 * s ^ (2 : ℕ) - 0.05550410872249 *
        s ^ (3 : ℕ) + 0.00961812909320 * s ^ (4 : ℕ) - 0.00133335581696 * s ^ (5 : ℕ) +
        0.00015403530358 * s ^ (6 : ℕ) - 0.00001525273385 * s ^ (7 : ℕ) - 0.00000148674227 * s ^
        (8 : ℕ) ≤ e)
    (hhi : e ≤ 1 - 0.69314718030000 * s ^ (1 : ℕ) + 0.24022650712550 * s ^ (2 : ℕ) - 0.05550410860237 *
        s ^ (3 : ℕ) + 0.00961812912096 * s ^ (4 : ℕ) - 0.00133335581214 * s ^ (5 : ℕ) +
        0.00015403530426 * s ^ (6 : ℕ) - 0.00001525273376 * s ^ (7 : ℕ) + 0.00000148674227 * s ^
        (8 : ℕ)) :
    |(1 * (1 / (1 + s)) + -49 * (1 / (2 + s)) + 366 * (1 / (3 + s)) + -858 * (1 / (4 + s)) + 810
      * (1 / (5 + s)) + -270 * (1 / (6 + s)))
        - 1 * e| ≤ (3 / 100) * (1 * e) := by
  obtain ⟨r, hr0, hr⟩ : ∃ r : ℝ, 0 ≤ r ∧ r = 1 - s := ⟨1 - s, sub_nonneg.mpr hs1, rfl⟩
  have hD : 0 < (1 + s) * (2 + s) * (3 + s) * (4 + s) * (5 + s) * (6 + s) := by positivity
  have eu : (103 / 100) * ((1 - 0.69314718080000 * s ^ (1 : ℕ) + 0.24022650677892 * s ^ (2 : ℕ) - 0.05550410872249
          * s ^ (3 : ℕ) + 0.00961812909320 * s ^ (4 : ℕ) - 0.00133335581696 * s ^ (5 : ℕ) +
          0.00015403530358 * s ^ (6 : ℕ) - 0.00001525273385 * s ^ (7 : ℕ) - 0.00000148674227 * s
          ^ (8 : ℕ))
        * ((1 + s) * (2 + s) * (3 + s) * (4 + s) * (5 + s) * (6 + s)))
      - (720 + 1266 * s ^ (1 : ℕ) + 587 * s ^ (2 : ℕ) + (-78) * s ^ (3 : ℕ) + 1 * s ^ (4 : ℕ))
      = (1 / 10000000000000000) * (216000000000000000 * (s ^ (0 : ℕ) * r ^ (14 : ℕ)) +
        3392820507187200000 * (s ^ (1 : ℕ) * r ^ (13 : ℕ)) + 24495456610314710720 * (s ^ (2 : ℕ)
        * r ^ (12 : ℕ)) + 108638673217178736064 * (s ^ (3 : ℕ) * r ^ (11 : ℕ)) +
        332082143048834845700 * (s ^ (4 : ℕ) * r ^ (10 : ℕ)) + 741282169367042905092 * (s ^ (5 :
        ℕ) * r ^ (9 : ℕ)) + 1245896125958902100931 * (s ^ (6 : ℕ) * r ^ (8 : ℕ)) +
        1599737531427210440851 * (s ^ (7 : ℕ) * r ^ (7 : ℕ)) + 1574220488181978094150 * (s ^ (8 :
        ℕ) * r ^ (6 : ℕ)) + 1179371136471651854344 * (s ^ (9 : ℕ) * r ^ (5 : ℕ)) +
        661098192622588007690 * (s ^ (10 : ℕ) * r ^ (4 : ℕ)) + 268512251403166886789 * (s ^ (11 :
        ℕ) * r ^ (3 : ℕ)) + 74620819431162233476 * (s ^ (12 : ℕ) * r ^ (2 : ℕ)) +
        12690502605182483468 * (s ^ (13 : ℕ) * r ^ (1 : ℕ)) + 995859129527068560 * (s ^ (14 : ℕ)
        * r ^ (0 : ℕ))) := by
    rw [hr]
    ring
  have hup := nonneg_of_eq eu
    (mul_nonneg (by norm_num) (add_nonneg (add_nonneg (add_nonneg (add_nonneg (add_nonneg
      (add_nonneg (add_nonneg (add_nonneg (add_nonneg (add_nonneg (add_nonneg (add_nonneg
      (add_nonneg (add_nonneg (mul_nonneg (by norm_num) (mul_nonneg (pow_nonneg hs0 0)
      (pow_nonneg hr0 14))) (mul_nonneg (by norm_num) (mul_nonneg (pow_nonneg hs0 1) (pow_nonneg
      hr0 13)))) (mul_nonneg (by norm_num) (mul_nonneg (pow_nonneg hs0 2) (pow_nonneg hr0 12))))
      (mul_nonneg (by norm_num) (mul_nonneg (pow_nonneg hs0 3) (pow_nonneg hr0 11)))) (mul_nonneg
      (by norm_num) (mul_nonneg (pow_nonneg hs0 4) (pow_nonneg hr0 10)))) (mul_nonneg (by
      norm_num) (mul_nonneg (pow_nonneg hs0 5) (pow_nonneg hr0 9)))) (mul_nonneg (by norm_num)
      (mul_nonneg (pow_nonneg hs0 6) (pow_nonneg hr0 8)))) (mul_nonneg (by norm_num) (mul_nonneg
      (pow_nonneg hs0 7) (pow_nonneg hr0 7)))) (mul_nonneg (by norm_num) (mul_nonneg (pow_nonneg
      hs0 8) (pow_nonneg hr0 6)))) (mul_nonneg (by norm_num) (mul_nonneg (pow_nonneg hs0 9)
      (pow_nonneg hr0 5)))) (mul_nonneg (by norm_num) (mul_nonneg (pow_nonneg hs0 10) (pow_nonneg
      hr0 4)))) (mul_nonneg (by norm_num) (mul_nonneg (pow_nonneg hs0 11) (pow_nonneg hr0 3))))
      (mul_nonneg (by norm_num) (mul_nonneg (pow_nonneg hs0 12) (pow_nonneg hr0 2)))) (mul_nonneg
      (by norm_num) (mul_nonneg (pow_nonneg hs0 13) (pow_nonneg hr0 1)))) (mul_nonneg (by
      norm_num) (mul_nonneg (pow_nonneg hs0 14) (pow_nonneg hr0 0)))))
  clear eu
  have ed : (720 + 1266 * s ^ (1 : ℕ) + 587 * s ^ (2 : ℕ) + (-78) * s ^ (3 : ℕ) + 1 * s ^ (4 : ℕ))
      - (97 / 100) * ((1 - 0.69314718030000 * s ^ (1 : ℕ) + 0.24022650712550 * s ^ (2 : ℕ) - 0.05550410860237
          * s ^ (3 : ℕ) + 0.00961812912096 * s ^ (4 : ℕ) - 0.00133335581214 * s ^ (5 : ℕ) +
          0.00015403530426 * s ^ (6 : ℕ) - 0.00001525273376 * s ^ (7 : ℕ) + 0.00000148674227 * s
          ^ (8 : ℕ))
        * ((1 + s) * (2 + s) * (3 + s) * (4 + s) * (5 + s) * (6 + s)))
      = (1 / 10000000000000000) * (216000000000000000 * (s ^ (0 : ℕ) * r ^ (14 : ℕ)) +
        3414139907215200000 * (s ^ (1 : ℕ) * r ^ (13 : ℕ)) + 25027579640710348000 * (s ^ (2 : ℕ)
        * r ^ (12 : ℕ)) + 111938724803924362680 * (s ^ (3 : ℕ) * r ^ (11 : ℕ)) +
        340086329408027143036 * (s ^ (4 : ℕ) * r ^ (10 : ℕ)) + 741602223013068518238 * (s ^ (5 :
        ℕ) * r ^ (9 : ℕ)) + 1197112567502966134971 * (s ^ (6 : ℕ) * r ^ (8 : ℕ)) +
        1454293759988970330349 * (s ^ (7 : ℕ) * r ^ (7 : ℕ)) + 1337585318921384101796 * (s ^ (8 :
        ℕ) * r ^ (6 : ℕ)) + 928107759733471267176 * (s ^ (9 : ℕ) * r ^ (5 : ℕ)) +
        478933112173954797333 * (s ^ (10 : ℕ) * r ^ (4 : ℕ)) + 178514117899988143412 * (s ^ (11 :
        ℕ) * r ^ (3 : ℕ)) + 45510288745594160812 * (s ^ (12 : ℕ) * r ^ (2 : ℕ)) +
        7116458308243592752 * (s ^ (13 : ℕ) * r ^ (1 : ℕ)) + 515987247823328640 * (s ^ (14 : ℕ) *
        r ^ (0 : ℕ))) := by
    rw [hr]
    ring
  have hdn := nonneg_of_eq ed
    (mul_nonneg (by norm_num) (add_nonneg (add_nonneg (add_nonneg (add_nonneg (add_nonneg
      (add_nonneg (add_nonneg (add_nonneg (add_nonneg (add_nonneg (add_nonneg (add_nonneg
      (add_nonneg (add_nonneg (mul_nonneg (by norm_num) (mul_nonneg (pow_nonneg hs0 0)
      (pow_nonneg hr0 14))) (mul_nonneg (by norm_num) (mul_nonneg (pow_nonneg hs0 1) (pow_nonneg
      hr0 13)))) (mul_nonneg (by norm_num) (mul_nonneg (pow_nonneg hs0 2) (pow_nonneg hr0 12))))
      (mul_nonneg (by norm_num) (mul_nonneg (pow_nonneg hs0 3) (pow_nonneg hr0 11)))) (mul_nonneg
      (by norm_num) (mul_nonneg (pow_nonneg hs0 4) (pow_nonneg hr0 10)))) (mul_nonneg (by
      norm_num) (mul_nonneg (pow_nonneg hs0 5) (pow_nonneg hr0 9)))) (mul_nonneg (by norm_num)
      (mul_nonneg (pow_nonneg hs0 6) (pow_nonneg hr0 8)))) (mul_nonneg (by norm_num) (mul_nonneg
      (pow_nonneg hs0 7) (pow_nonneg hr0 7)))) (mul_nonneg (by norm_num) (mul_nonneg (pow_nonneg
      hs0 8) (pow_nonneg hr0 6)))) (mul_nonneg (by norm_num) (mul_nonneg (pow_nonneg hs0 9)
      (pow_nonneg hr0 5)))) (mul_nonneg (by norm_num) (mul_nonneg (pow_nonneg hs0 10) (pow_nonneg
      hr0 4)))) (mul_nonneg (by norm_num) (mul_nonneg (pow_nonneg hs0 11) (pow_nonneg hr0 3))))
      (mul_nonneg (by norm_num) (mul_nonneg (pow_nonneg hs0 12) (pow_nonneg hr0 2)))) (mul_nonneg
      (by norm_num) (mul_nonneg (pow_nonneg hs0 13) (pow_nonneg hr0 1)))) (mul_nonneg (by
      norm_num) (mul_nonneg (pow_nonneg hs0 14) (pow_nonneg hr0 0)))))
  clear ed
  have c1 : 1 * (1 / (1 + s)) * (1 + s) = 1 :=
    term_cancel _ _ (by positivity)
  have c2 : -49 * (1 / (2 + s)) * (2 + s) = -49 :=
    term_cancel _ _ (by positivity)
  have c3 : 366 * (1 / (3 + s)) * (3 + s) = 366 :=
    term_cancel _ _ (by positivity)
  have c4 : -858 * (1 / (4 + s)) * (4 + s) = -858 :=
    term_cancel _ _ (by positivity)
  have c5 : 810 * (1 / (5 + s)) * (5 + s) = 810 :=
    term_cancel _ _ (by positivity)
  have c6 : -270 * (1 / (6 + s)) * (6 + s) = -270 :=
    term_cancel _ _ (by positivity)
  have hf : (1 * (1 / (1 + s)) + -49 * (1 / (2 + s)) + 366 * (1 / (3 + s)) + -858 * (1 / (4 + s)) + 810
      * (1 / (5 + s)) + -270 * (1 / (6 + s)))
      * ((1 + s) * (2 + s) * (3 + s) * (4 + s) * (5 + s) * (6 + s))
      = 720 + 1266 * s ^ (1 : ℕ) + 587 * s ^ (2 : ℕ) + (-78) * s ^ (3 : ℕ) + 1 * s ^ (4 : ℕ) := by
    linear_combination (2 + s) * (3 + s) * (4 + s) * (5 + s) * (6 + s) * c1 + (1 + s) * (3 + s) * (4 + s) * (5 +
      s) * (6 + s) * c2 + (1 + s) * (2 + s) * (4 + s) * (5 + s) * (6 + s) * c3 + (1 + s) * (2 +
      s) * (3 + s) * (5 + s) * (6 + s) * c4 + (1 + s) * (2 + s) * (3 + s) * (4 + s) * (6 + s) *
      c5 + (1 + s) * (2 + s) * (3 + s) * (4 + s) * (5 + s) * c6
  have h1 := mul_le_mul_of_nonneg_left (mul_le_mul_of_nonneg_right hlo hD.le)
    (by norm_num : (0 : ℝ) ≤ (103 / 100))
  have h2 := mul_le_mul_of_nonneg_left (mul_le_mul_of_nonneg_right hhi hD.le)
    (by norm_num : (0 : ℝ) ≤ (97 / 100))
  refine abs_sub_le_iff.mpr ⟨sub_le_iff_le_add.mpr ?_, sub_le_comm.mpr ?_⟩
  · apply le_of_mul_le_mul_right _ hD
    rw [hf]
    exact le_trans (sub_nonneg.mp hup) (le_of_le_of_eq h1 (by ring))
  · apply le_of_mul_le_mul_right _ hD
    rw [hf]
    exact le_trans (le_of_eq_of_le (by ring) h2) (sub_nonneg.mp hdn)

theorem stehfest_piece_six_one (s e : ℝ) (hs0 : 0 ≤ s) (hs1 : s ≤ 1)
    (hlo : 1 - 0.69314718080000 * s ^ (1 : ℕ) + 0.24022650677892 * s ^ (2 : ℕ) - 0.05550410872249 *
        s ^ (3 : ℕ) + 0.00961812909320 * s ^ (4 : ℕ) - 0.00133335581696 * s ^ (5 : ℕ) +
        0.00015403530358 * s ^ (6 : ℕ) - 0.00001525273385 * s ^ (7 : ℕ) - 0.00000148674227 * s ^
        (8 : ℕ) ≤ e)
    (hhi : e ≤ 1 - 0.69314718030000 * s ^ (1 : ℕ) + 0.24022650712550 * s ^ (2 : ℕ) - 0.05550410860237 *
        s ^ (3 : ℕ) + 0.00961812912096 * s ^ (4 : ℕ) - 0.00133335581214 * s ^ (5 : ℕ) +
        0.00015403530426 * s ^ (6 : ℕ) - 0.00001525273376 * s ^ (7 : ℕ) + 0.00000148674227 * s ^
        (8 : ℕ)) :
    |(1 * (1 / (2 + s)) + -49 * (1 / (3 + s)) + 366 * (1 / (4 + s)) + -858 * (1 / (5 + s)) + 810
      * (1 / (6 + s)) + -270 * (1 / (7 + s)))
        - (1 / 2) * e| ≤ (3 / 100) * ((1 / 2) * e) := by
  obtain ⟨r, hr0, hr⟩ : ∃ r : ℝ, 0 ≤ r ∧ r = 1 - s := ⟨1 - s, sub_nonneg.mpr hs1, rfl⟩
  have hD : 0 < (2 + s) * (3 + s) * (4 + s) * (5 + s) * (6 + s) * (7 + s) := by positivity
  have eu : (103 / 200) * ((1 - 0.69314718080000 * s ^ (1 : ℕ) + 0.24022650677892 * s ^ (2 : ℕ) - 0.05550410872249
          * s ^ (3 : ℕ) + 0.00961812909320 * s ^ (4 : ℕ) - 0.00133335581696 * s ^ (5 : ℕ) +
          0.00015403530358 * s ^ (6 : ℕ) - 0.00001525273385 * s ^ (7 : ℕ) - 0.00000148674227 * s
          ^ (8 : ℕ))
        * ((2 + s) * (3 + s) * (4 + s) * (5 + s) * (6 + s) * (7 + s)))
      - (2496 + 2210 * s ^ (1 : ℕ) + 359 * s ^ (2 : ℕ) + (-74) * s ^ (3 : ℕ) + 1 * s ^ (4 : ℕ))
      = (1 / 20000000000000000) * (1992000000000000000 * (s ^ (0 : ℕ) * r ^ (14 : ℕ)) +
        30393743550310400000 * (s ^ (1 : ℕ) * r ^ (13 : ℕ)) + 214393273229079775040 * (s ^ (2 :
        ℕ) * r ^ (12 : ℕ)) + 926267818944609288128 * (s ^ (3 : ℕ) * r ^ (11 : ℕ)) +
        2737278749190055232156 * (s ^ (4 : ℕ) * r ^ (10 : ℕ)) + 5851134831579868636932 * (s ^ (5
        : ℕ) * r ^ (9 : ℕ)) + 9326960573488920673389 * (s ^ (6 : ℕ) * r ^ (8 : ℕ)) +
        11260250580683848546627 * (s ^ (7 : ℕ) * r ^ (7 : ℕ)) + 10343682507323833092604 * (s ^ (8
        : ℕ) * r ^ (6 : ℕ)) + 7192856846109721548400 * (s ^ (9 : ℕ) * r ^ (5 : ℕ)) +
        3726272747911887791782 * (s ^ (10 : ℕ) * r ^ (4 : ℕ)) + 1394125804979096685479 * (s ^ (11
        : ℕ) * r ^ (3 : ℕ)) + 355962137285277357686 * (s ^ (12 : ℕ) * r ^ (2 : ℕ)) +
        55495799115020536712 * (s ^ (13 : ℕ) * r ^ (1 : ℕ)) + 3983436518108274240 * (s ^ (14 : ℕ)
        * r ^ (0 : ℕ))) := by
    rw [hr]
    ring
  have hup := nonneg_of_eq eu
    (mul_nonneg (by norm_num) (add_nonneg (add_nonneg (add_nonneg (add_nonneg (add_nonneg
      (add_nonneg (add_nonneg (add_nonneg (add_nonneg (add_nonneg (add_nonneg (add_nonneg
      (add_nonneg (add_nonneg (mul_nonneg (by norm_num) (mul_nonneg (pow_nonneg hs0 0)
      (pow_nonneg hr0 14))) (mul_nonneg (by norm_num) (mul_nonneg (pow_nonneg hs0 1) (pow_nonneg
      hr0 13)))) (mul_nonneg (by norm_num) (mul_nonneg (pow_nonneg hs0 2) (pow_nonneg hr0 12))))
      (mul_nonneg (by norm_num) (mul_nonneg (pow_nonneg hs0 3) (pow_nonneg hr0 11)))) (mul_nonneg
      (by norm_num) (mul_nonneg (pow_nonneg hs0 4) (pow_nonneg hr0 10)))) (mul_nonneg (by
      norm_num) (mul_nonneg (pow_nonneg hs0 5) (pow_nonneg hr0 9)))) (mul_nonneg (by norm_num)
      (mul_nonneg (pow_nonneg hs0 6) (pow_nonneg hr0 8)))) (mul_nonneg (by norm_num) (mul_nonneg
      (pow_nonneg hs0 7) (pow_nonneg hr0 7)))) (mul_nonneg (by norm_num) (mul_nonneg (pow_nonneg
      hs0 8) (pow_nonneg hr0 6)))) (mul_nonneg (by norm_num) (mul_nonneg (pow_nonneg hs0 9)
      (pow_nonneg hr0 5)))) (mul_nonneg (by norm_num) (mul_nonneg (pow_nonneg hs0 10) (pow_nonneg
      hr0 4)))) (mul_nonneg (by norm_num) (mul_nonneg (pow_nonneg hs0 11) (pow_nonneg hr0 3))))
      (mul_nonneg (by norm_num) (mul_nonneg (pow_nonneg hs0 12) (pow_nonneg hr0 2)))) (mul_nonneg
      (by norm_num) (mul_nonneg (pow_nonneg hs0 13) (pow_nonneg hr0 1)))) (mul_nonneg (by
      norm_num) (mul_nonneg (pow_nonneg hs0 14) (pow_nonneg hr0 0)))))
  clear eu
  have ed : (2496 + 2210 * s ^ (1 : ℕ) + 359 * s ^ (2 : ℕ) + (-74) * s ^ (3 : ℕ) + 1 * s ^ (4 : ℕ))
      - (97 / 200) * ((1 - 0.69314718030000 * s ^ (1 : ℕ) + 0.24022650712550 * s ^ (2 : ℕ) - 0.05550410860237
          * s ^ (3 : ℕ) + 0.00961812912096 * s ^ (4 : ℕ) - 0.00133335581214 * s ^ (5 : ℕ) +
          0.00015403530426 * s ^ (6 : ℕ) - 0.00001525273376 * s ^ (7 : ℕ) + 0.00000148674227 * s
          ^ (8 : ℕ))
        * ((2 + s) * (3 + s) * (4 + s) * (5 + s) * (6 + s) * (7 + s)))
      = (1 / 20000000000000000) * (1032000000000000000 * (s ^ (0 : ℕ) * r ^ (14 : ℕ)) +
        14662979350506400000 * (s ^ (1 : ℕ) * r ^ (13 : ℕ)) + 96610218041681236000 * (s ^ (2 : ℕ)
        * r ^ (12 : ℕ)) + 391951274669790850760 * (s ^ (3 : ℕ) * r ^ (11 : ℕ)) +
        1096081554948003201172 * (s ^ (4 : ℕ) * r ^ (10 : ℕ)) + 2239683086459690369610 * (s ^ (5
        : ℕ) * r ^ (9 : ℕ)) + 3455539583705930351481 * (s ^ (6 : ℕ) * r ^ (8 : ℕ)) +
        4097037692534660689249 * (s ^ (7 : ℕ) * r ^ (7 : ℕ)) + 3756631927292129976866 * (s ^ (8 :
        ℕ) * r ^ (6 : ℕ)) + 2653313014921111730868 * (s ^ (9 : ℕ) * r ^ (5 : ℕ)) +
        1421437833243230257003 * (s ^ (10 : ℕ) * r ^ (4 : ℕ)) + 559888056205094868542 * (s ^ (11
        : ℕ) * r ^ (3 : ℕ)) + 153138852008874535896 * (s ^ (12 : ℕ) * r ^ (2 : ℕ)) +
        25999814104709363968 * (s ^ (13 : ℕ) * r ^ (1 : ℕ)) + 2063948991293314560 * (s ^ (14 : ℕ)
        * r ^ (0 : ℕ))) := by
    rw [hr]
    ring
  have hdn := nonneg_of_eq ed
    (mul_nonneg (by norm_num) (add_nonneg (add_nonneg (add_nonneg (add_nonneg (add_nonneg
      (add_nonneg (add_nonneg (add_nonneg (add_nonneg (add_nonneg (add_nonneg (add_nonneg
      (add_nonneg (add_nonneg (mul_nonneg (by norm_num) (mul_nonneg (pow_nonneg hs0 0)
      (pow_nonneg hr0 14))) (mul_nonneg (by norm_num) (mul_nonneg (pow_nonneg hs0 1) (pow_nonneg
      hr0 13)))) (mul_nonneg (by norm_num) (mul_nonneg (pow_nonneg hs0 2) (pow_nonneg hr0 12))))
      (mul_nonneg (by norm_num) (mul_nonneg (pow_nonneg hs0 3) (pow_nonneg hr0 11)))) (mul_nonneg
      (by norm_num) (mul_nonneg (pow_nonneg hs0 4) (pow_nonneg hr0 10)))) (mul_nonneg (by
      norm_num) (mul_nonneg (pow_nonneg hs0 5) (pow_nonneg hr0 9)))) (mul_nonneg (by norm_num)
      (mul_nonneg (pow_nonneg hs0 6) (pow_nonneg hr0 8)))) (mul_nonneg (by norm_num) (mul_nonneg
      (pow_nonneg hs0 7) (pow_nonneg hr0 7)))) (mul_nonneg (by norm_num) (mul_nonneg (pow_nonneg
      hs0 8) (pow_nonneg hr0 6)))) (mul_nonneg (by norm_num) (mul_nonneg (pow_nonneg hs0 9)
      (pow_nonneg hr0 5)))) (mul_nonneg (by norm_num) (mul_nonneg (pow_nonneg hs0 10) (pow_nonneg
      hr0 4)))) (mul_nonneg (by norm_num) (mul_nonneg (pow_nonneg hs0 11) (pow_nonneg hr0 3))))
      (mul_nonneg (by norm_num) (mul_nonneg (pow_nonneg hs0 12) (pow_nonneg hr0 2)))) (mul_nonneg
      (by norm_num) (mul_nonneg (pow_nonneg hs0 13) (pow_nonneg hr0 1)))) (mul_nonneg (by
      norm_num) (mul_nonneg (pow_nonneg hs0 14) (pow_nonneg hr0 0)))))
  clear ed
  have c1 : 1 * (1 / (2 + s)) * (2 + s) = 1 :=
    term_cancel _ _ (by positivity)
  have c2 : -49 * (1 / (3 + s)) * (3 + s) = -49 :=
    term_cancel _ _ (by positivity)
  have c3 : 366 * (1 / (4 + s)) * (4 + s) = 366 :=
    term_cancel _ _ (by positivity)
  have c4 : -858 * (1 / (5 + s)) * (5 + s) = -858 :=
    term_cancel _ _ (by positivity)
  have c5 : 810 * (1 / (6 + s)) * (6 + s) = 810 :=
    term_cancel _ _ (by positivity)
  have c6 : -270 * (1 / (7 + s)) * (7 + s) = -270 :=
    term_cancel _ _ (by positivity)
  have hf : (1 * (1 / (2 + s)) + -49 * (1 / (3 + s)) + 366 * (1 / (4 + s)) + -858 * (1 / (5 + s)) + 810
      * (1 / (6 + s)) + -270 * (1 / (7 + s)))
      * ((2 + s) * (3 + s) * (4 + s) * (5 + s) * (6 + s) * (7 + s))
      = 2496 + 2210 * s ^ (1 : ℕ) + 359 * s ^ (2 : ℕ) + (-74) * s ^ (3 : ℕ) + 1 * s ^ (4 : ℕ) := by
    linear_combination (3 + s) * (4 + s) * (5 + s) * (6 + s) * (7 + s) * c1 + (2 + s) * (4 + s) * (5 + s) * (6 +
      s) * (7 + s) * c2 + (2 + s) * (3 + s) * (5 + s) * (6 + s) * (7 + s) * c3 + (2 + s) * (3 +
      s) * (4 + s) * (6 + s) * (7 + s) * c4 + (2 + s) * (3 + s) * (4 + s) * (5 + s) * (7 + s) *
      c5 + (2 + s) * (3 + s) * (4 + s) * (5 + s) * (6 + s) * c6
  have h1 := mul_le_mul_of_nonneg_left (mul_le_mul_of_nonneg_right hlo hD.le)
    (by norm_num : (0 : ℝ) ≤ (103 / 200))
  have h2 := mul_le_mul_of_nonneg_left (mul_le_mul_of_nonneg_right hhi hD.le)
    (by norm_num : (0 : ℝ) ≤ (97 / 200))
  refine abs_sub_le_iff.mpr ⟨sub_le_iff_le_add.mpr ?_, sub_le_comm.mpr ?_⟩
  · apply le_of_mul_le_mul_right _ hD
    rw [hf]
    exact le_trans (sub_nonneg.mp hup) (le_of_le_of_eq h1 (by ring))
  · apply le_of_mul_le_mul_right _ hD
    rw [hf]
    exact le_trans (le_of_eq_of_le (by ring) h2) (sub_nonneg.mp hdn)

theorem stehfest_piece_six_two (s e : ℝ) (hs0 : 0 ≤ s) (hs1 : s ≤ 1)
    (hlo : 1 - 0.69314718080000 * s ^ (1 : ℕ) + 0.24022650677892 * s ^ (2 : ℕ) - 0.05550410872249 *
        s ^ (3 : ℕ) + 0.00961812909320 * s ^ (4 : ℕ) - 0.00133335581696 * s ^ (5 : ℕ) +
        0.00015403530358 * s ^ (6 : ℕ) - 0.00001525273385 * s ^ (7 : ℕ) - 0.00000148674227 * s ^
        (8 : ℕ) ≤ e)
    (hhi : e ≤ 1 - 0.69314718030000 * s ^ (1 : ℕ) + 0.24022650712550 * s ^ (2 : ℕ) - 0.05550410860237 *
        s ^ (3 : ℕ) + 0.00961812912096 * s ^ (4 : ℕ) - 0.00133335581214 * s ^ (5 : ℕ) +
        0.00015403530426 * s ^ (6 : ℕ) - 0.00001525273376 * s ^ (7 : ℕ) + 0.00000148674227 * s ^
        (8 : ℕ)) :
    |(1 * (1 / (3 + s)) + -49 * (1 / (4 + s)) + 366 * (1 / (5 + s)) + -858 * (1 / (6 + s)) + 810
      * (1 / (7 + s)) + -270 * (1 / (8 + s)))
        - (1 / 4) * e| ≤ (3 / 100) * ((1 / 4) * e) := by
  obtain ⟨r, hr0, hr⟩ : ∃ r : ℝ, 0 ≤ r ∧ r = 1 - s := ⟨1 - s, sub_nonneg.mpr hs1, rfl⟩
  have hD : 0 < (3 + s) * (4 + s) * (5 + s) * (6 + s) * (7 + s) * (8 + s) := by positivity
  have eu : (103 / 400) * ((1 - 0.69314718080000 * s ^ (1 : ℕ) + 0.24022650677892 * s ^ (2 : ℕ) - 0.05550410872249
          * s ^ (3 : ℕ) + 0.00961812909320 * s ^ (4 : ℕ) - 0.00133335581696 * s ^ (5 : ℕ) +
          0.00015403530358 * s ^ (6 : ℕ) - 0.00001525273385 * s ^ (7 : ℕ) - 0.00000148674227 * s
          ^ (8 : ℕ))
        * ((3 + s) * (4 + s) * (5 + s) * (6 + s) * (7 + s) * (8 + s)))
      - (4992 + 2710 * s ^ (1 : ℕ) + 143 * s ^ (2 : ℕ) + (-70) * s ^ (3 : ℕ) + 1 * s ^ (4 : ℕ))
      = (1 / 40000000000000000) * (7968000000000000000 * (s ^ (0 : ℕ) * r ^ (14 : ℕ)) +
        112106974201241600000 * (s ^ (1 : ℕ) * r ^ (13 : ℕ)) + 726364477590853500160 * (s ^ (2 :
        ℕ) * r ^ (12 : ℕ)) + 2869924288923015889952 * (s ^ (3 : ℕ) * r ^ (11 : ℕ)) +
        7715933748626438890272 * (s ^ (4 : ℕ) * r ^ (10 : ℕ)) + 14909263074735064757022 * (s ^ (5
        : ℕ) * r ^ (9 : ℕ)) + 21307194423962494424217 * (s ^ (6 : ℕ) * r ^ (8 : ℕ)) +
        22812393267491795580433 * (s ^ (7 : ℕ) * r ^ (7 : ℕ)) + 18309227741134957459588 * (s ^ (8
        : ℕ) * r ^ (6 : ℕ)) + 10892057055693698920936 * (s ^ (9 : ℕ) * r ^ (5 : ℕ)) +
        4678201215600749753524 * (s ^ (10 : ℕ) * r ^ (4 : ℕ)) + 1380298762118757174649 * (s ^ (11
        : ℕ) * r ^ (3 : ℕ)) + 254146528368908753426 * (s ^ (12 : ℕ) * r ^ (2 : ℕ)) +
        23423021690467126296 * (s ^ (13 : ℕ) * r ^ (1 : ℕ)) + 430309554324822720 * (s ^ (14 : ℕ)
        * r ^ (0 : ℕ))) := by
    rw [hr]
    ring
  have hup := nonneg_of_eq eu
    (mul_nonneg (by norm_num) (add_nonneg (add_nonneg (add_nonneg (add_nonneg (add_nonneg
      (add_nonneg (add_nonneg (add_nonneg (add_nonneg (add_nonneg (add_nonneg (add_nonneg
      (add_nonneg (add_nonneg (mul_nonneg (by norm_num) (mul_nonneg (pow_nonneg hs0 0)
      (pow_nonneg hr0 14))) (mul_nonneg (by norm_num) (mul_nonneg (pow_nonneg hs0 1) (pow_nonneg
      hr0 13)))) (mul_nonneg (by norm_num) (mul_nonneg (pow_nonneg hs0 2) (pow_nonneg hr0 12))))
      (mul_nonneg (by norm_num) (mul_nonneg (pow_nonneg hs0 3) (pow_nonneg hr0 11)))) (mul_nonneg
      (by norm_num) (mul_nonneg (pow_nonneg hs0 4) (pow_nonneg hr0 10)))) (mul_nonneg (by
      norm_num) (mul_nonneg (pow_nonneg hs0 5) (pow_nonneg hr0 9)))) (mul_nonneg (by norm_num)
      (mul_nonneg (pow_nonneg hs0 6) (pow_nonneg hr0 8)))) (mul_nonneg (by norm_num) (mul_nonneg
      (pow_nonneg hs0 7) (pow_nonneg hr0 7)))) (mul_nonneg (by norm_num) (mul_nonneg (pow_nonneg
      hs0 8) (pow_nonneg hr0 6)))) (mul_nonneg (by norm_num) (mul_nonneg (pow_nonneg hs0 9)
      (pow_nonneg hr0 5)))) (mul_nonneg (by norm_num) (mul_nonneg (pow_nonneg hs0 10) (pow_nonneg
      hr0 4)))) (mul_nonneg (by norm_num) (mul_nonneg (pow_nonneg hs0 11) (pow_nonneg hr0 3))))
      (mul_nonneg (by norm_num) (mul_nonneg (pow_nonneg hs0 12) (pow_nonneg hr0 2)))) (mul_nonneg
      (by norm_num) (mul_nonneg (pow_nonneg hs0 13) (pow_nonneg hr0 1)))) (mul_nonneg (by
      norm_num) (mul_nonneg (pow_nonneg hs0 14) (pow_nonneg hr0 0)))))
  clear eu
  have ed : (4992 + 2710 * s ^ (1 : ℕ) + 143 * s ^ (2 : ℕ) + (-70) * s ^ (3 : ℕ) + 1 * s ^ (4 : ℕ))
      - (97 / 400) * ((1 - 0.69314718030000 * s ^ (1 : ℕ) + 0.24022650712550 * s ^ (2 : ℕ) - 0.05550410860237
          * s ^ (3 : ℕ) + 0.00961812912096 * s ^ (4 : ℕ) - 0.00133335581214 * s ^ (5 : ℕ) +
          0.00015403530426 * s ^ (6 : ℕ) - 0.00001525273376 * s ^ (7 : ℕ) + 0.00000148674227 * s
          ^ (8 : ℕ))
        * ((3 + s) * (4 + s) * (5 + s) * (6 + s) * (7 + s) * (8 + s)))
      = (1 / 40000000000000000) * (4128000000000000000 * (s ^ (0 : ℕ) * r ^ (14 : ℕ)) +
        63583917402025600000 * (s ^ (1 : ℕ) * r ^ (13 : ℕ)) + 456868403140965344000 * (s ^ (2 :
        ℕ) * r ^ (12 : ℕ)) + 2027618475155280949040 * (s ^ (3 : ℕ) * r ^ (11 : ℕ)) +
        6203179243073150209548 * (s ^ (4 : ℕ) * r ^ (10 : ℕ)) + 13825460478495050569392 * (s ^ (5
        : ℕ) * r ^ (9 : ℕ)) + 23129401506149752215081 * (s ^ (6 : ℕ) * r ^ (8 : ℕ)) +
        29483116637590701016039 * (s ^ (7 : ℕ) * r ^ (7 : ℕ)) + 28756562369188441485026 * (s ^ (8
        : ℕ) * r ^ (6 : ℕ)) + 21345352178716369591830 * (s ^ (9 : ℕ) * r ^ (5 : ℕ)) +
        11864291632043369429173 * (s ^ (10 : ℕ) * r ^ (4 : ℕ)) + 4786715026349861486922 * (s ^
        (11 : ℕ) * r ^ (3 : ℕ)) + 1324799121433632821640 * (s ^ (12 : ℕ) * r ^ (2 : ℕ)) +
        225095408308323634944 * (s ^ (13 : ℕ) * r ^ (1 : ℕ)) + 17711846973879943680 * (s ^ (14 :
        ℕ) * r ^ (0 : ℕ))) := by
    rw [hr]
    ring
  have hdn := nonneg_of_eq ed
    (mul_nonneg (by norm_num) (add_nonneg (add_nonneg (add_nonneg (add_nonneg (add_nonneg
      (add_nonneg (add_nonneg (add_nonneg (add_nonneg (add_nonneg (add_nonneg (add_nonneg
      (add_nonneg (add_nonneg (mul_nonneg (by norm_num) (mul_nonneg (pow_nonneg hs0 0)
      (pow_nonneg hr0 14))) (mul_nonneg (by norm_num) (mul_nonneg (pow_nonneg hs0 1) (pow_nonneg
      hr0 13)))) (mul_nonneg (by norm_num) (mul_nonneg (pow_nonneg hs0 2) (pow_nonneg hr0 12))))
      (mul_nonneg (by norm_num) (mul_nonneg (pow_nonneg hs0 3) (pow_nonneg hr0 11)))) (mul_nonneg
      (by norm_num) (mul_nonneg (pow_nonneg hs0 4) (pow_nonneg hr0 10)))) (mul_nonneg (by
      norm_num) (mul_nonneg (pow_nonneg hs0 5) (pow_nonneg hr0 9)))) (mul_nonneg (by norm_num)
      (mul_nonneg (pow_nonneg hs0 6) (pow_nonneg hr0 8)))) (mul_nonneg (by norm_num) (mul_nonneg
      (pow_nonneg hs0 7) (pow_nonneg hr0 7)))) (mul_nonneg (by norm_num) (mul_nonneg (pow_nonneg
      hs0 8) (pow_nonneg hr0 6)))) (mul_nonneg (by norm_num) (mul_nonneg (pow_nonneg hs0 9)
      (pow_nonneg hr0 5)))) (mul_nonneg (by norm_num) (mul_nonneg (pow_nonneg hs0 10) (pow_nonneg
      hr0 4)))) (mul_nonneg (by norm_num) (mul_nonneg (pow_nonneg hs0 11) (pow_nonneg hr0 3))))
      (mul_nonneg (by norm_num) (mul_nonneg (pow_nonneg hs0 12) (pow_nonneg hr0 2)))) (mul_nonneg
      (by norm_num) (mul_nonneg (pow_nonneg hs0 13) (pow_nonneg hr0 1)))) (mul_nonneg (by
      norm_num) (mul_nonneg (pow_nonneg hs0 14) (pow_nonneg hr0 0)))))
  clear ed
  have c1 : 1 * (1 / (3 + s)) * (3 + s) = 1 :=
    term_cancel _ _ (by positivity)
  have c2 : -49 * (1 / (4 + s)) * (4 + s) = -49 :=
    term_cancel _ _ (by positivity)
  have c3 : 366 * (1 / (5 + s)) * (5 + s) = 366 :=
    term_cancel _ _ (by positivity)
  have c4 : -858 * (1 / (6 + s)) * (6 + s) = -858 :=
    term_cancel _ _ (by positivity)
  have c5 : 810 * (1 / (7 + s)) * (7 + s) = 810 :=
    term_cancel _ _ (by positivity)
  have c6 : -270 * (1 / (8 + s)) * (8 + s) = -270 :=
    term_cancel _ _ (by positivity)
  have hf : (1 * (1 / (3 + s)) + -49 * (1 / (4 + s)) + 366 * (1 / (5 + s)) + -858 * (1 / (6 + s)) + 810
      * (1 / (7 + s)) + -270 * (1 / (8 + s)))
      * ((3 + s) * (4 + s) * (5 + s) * (6 + s) * (7 + s) * (8 + s))
      = 4992 + 2710 * s ^ (1 : ℕ) + 143 * s ^ (2 : ℕ) + (-70) * s ^ (3 : ℕ) + 1 * s ^ (4 : ℕ) := by
    linear_combination (4 + s) * (5 + s) * (6 + s) * (7 + s) * (8 + s) * c1 + (3 + s) * (5 + s) * (6 + s) * (7 +
      s) * (8 + s) * c2 + (3 + s) * (4 + s) * (6 + s) * (7 + s) * (8 + s) * c3 + (3 + s) * (4 +
      s) * (5 + s) * (7 + s) * (8 + s) * c4 + (3 + s) * (4 + s) * (5 + s) * (6 + s) * (8 + s) *
      c5 + (3 + s) * (4 + s) * (5 + s) * (6 + s) * (7 + s) * c6
  have h1 := mul_le_mul_of_nonneg_left (mul_le_mul_of_nonneg_right hlo hD.le)
    (by norm_num : (0 : ℝ) ≤ (103 / 400))
  have h2 := mul_le_mul_of_nonneg_left (mul_le_mul_of_nonneg_right hhi hD.le)
    (by norm_num : (0 : ℝ) ≤ (97 / 400))
  refine abs_sub_le_iff.mpr ⟨sub_le_iff_le_add.mpr ?_, sub_le_comm.mpr ?_⟩
  · apply le_of_mul_le_mul_right _ hD
    rw [hf]
    exact le_trans (sub_nonneg.mp hup) (le_of_le_of_eq h1 (by ring))
  · apply le_of_mul_le_mul_right _ hD
    rw [hf]
    exact le_trans (le_of_eq_of_le (by ring) h2) (sub_nonneg.mp hdn)

theorem stehfest_piece_eight_zero (s e : ℝ) (hs0 : 0 ≤ s) (hs1 : s ≤ 1)
    (hlo : 1 - 0.69314718080000 * s ^ (1 : ℕ) + 0.24022650677892 * s ^ (2 : ℕ) - 0.05550410872249 *
        s ^ (3 : ℕ) + 0.00961812909320 * s ^ (4 : ℕ) - 0.00133335581696 * s ^ (5 : ℕ) +
        0.00015403530358 * s ^ (6 : ℕ) - 0.00001525273385 * s ^ (7 : ℕ) - 0.00000148674227 * s ^
        (8 : ℕ) ≤ e)
    (hhi : e ≤ 1 - 0.69314718030000 * s ^ (1 : ℕ) + 0.24022650712550 * s ^ (2 : ℕ) - 0.05550410860237 *
        s ^ (3 : ℕ) + 0.00961812912096 * s ^ (4 : ℕ) - 0.00133335581214 * s ^ (5 : ℕ) +
        0.00015403530426 * s ^ (6 : ℕ) - 0.00001525273376 * s ^ (7 : ℕ) + 0.00000148674227 * s ^
        (8 : ℕ)) :
    |((-1 / 3) * (1 / (1 + s)) + (145 / 3) * (1 / (2 + s)) + -906 * (1 / (3 + s)) + (16394 / 3) *
      (1 / (4 + s)) + (-43130 / 3) * (1 / (5 + s)) + 18730 * (1 / (6 + s)) + (-35840 / 3) * (1 /
      (7 + s)) + (8960 / 3) * (1 / (8 + s)))
        - 1 * e| ≤ (11 / 1000) * (1 * e) := by
  obtain ⟨r, hr0, hr⟩ : ∃ r : ℝ, 0 ≤ r ∧ r = 1 - s := ⟨1 - s, sub_nonneg.mpr hs1, rfl⟩
  have hD : 0 < (1 + s) * (2 + s) * (3 + s) * (4 + s) * (5 + s) * (6 + s) * (7 + s) * (8 + s) := by positivity
  have eu : (1011 / 1000) * ((1 - 0.69314718080000 * s ^ (1 : ℕ) + 0.24022650677892 * s ^ (2 : ℕ) - 0.05550410872249
          * s ^ (3 : ℕ) + 0.00961812909320 * s ^ (4 : ℕ) - 0.00133335581696 * s ^ (5 : ℕ) +
          0.00015403530358 * s ^ (6 : ℕ) - 0.00001525273385 * s ^ (7 : ℕ) - 0.00000148674227 * s
          ^ (8 : ℕ))
        * ((1 + s) * (2 + s) * (3 + s) * (4 + s) * (5 + s) * (6 + s) * (7 + s) * (8 + s)))
      - (40320 + 81632 * s ^ (1 : ℕ) + (155642 / 3) * s ^ (2 : ℕ) + 9747 * s ^ (3 : ℕ) + (-7249
          / 3) * s ^ (4 : ℕ) + 85 * s ^ (5 : ℕ) + (-1 / 3) * s ^ (6 : ℕ))
      = (1 / 300000000000000000) * (133056000000000000000 * (s ^ (0 : ℕ) * r ^ (16 : ℕ)) +
        2399587509754675200000 * (s ^ (1 : ℕ) * r ^ (15 : ℕ)) + 20189632177987162539520 * (s ^ (2
        : ℕ) * r ^ (14 : ℕ)) + 105164872784976890166464 * (s ^ (3 : ℕ) * r ^ (13 : ℕ)) +
        379805115150396899649248 * (s ^ (4 : ℕ) * r ^ (12 : ℕ)) + 1009427039012154078260260 * (s
        ^ (5 : ℕ) * r ^ (11 : ℕ)) + 2044357691193792096687420 * (s ^ (6 : ℕ) * r ^ (10 : ℕ)) +
        3221201987667783102521787 * (s ^ (7 : ℕ) * r ^ (9 : ℕ)) + 3993291399098179004368299 * (s
        ^ (8 : ℕ) * r ^ (8 : ℕ)) + 3909421778191164616035246 * (s ^ (9 : ℕ) * r ^ (7 : ℕ)) +
        3012889926955738113056808 * (s ^ (10 : ℕ) * r ^ (6 : ℕ)) + 1808527086785881864094002 * (s
        ^ (11 : ℕ) * r ^ (5 : ℕ)) + 828714244088656097940629 * (s ^ (12 : ℕ) * r ^ (4 : ℕ)) +
        280132171712736100935548 * (s ^ (13 : ℕ) * r ^ (3 : ℕ)) + 65849696645866441047148 * (s ^
        (14 : ℕ) * r ^ (2 : ℕ)) + 9612290979330010441776 * (s ^ (15 : ℕ) * r ^ (1 : ℕ)) +
        656053332714593435520 * (s ^ (16 : ℕ) * r ^ (0 : ℕ))) := by
    rw [hr]
    ring
  have hup := nonneg_of_eq eu
    (mul_nonneg (by norm_num) (add_nonneg (add_nonneg (add_nonneg (add_nonneg (add_nonneg
      (add_nonneg (add_nonneg (add_nonneg (add_nonneg (add_nonneg (add_nonneg (add_nonneg
      (add_nonneg (add_nonneg (add_nonneg (add_nonneg (mul_nonneg (by norm_num) (mul_nonneg
      (pow_nonneg hs0 0) (pow_nonneg hr0 16))) (mul_nonneg (by norm_num) (mul_nonneg (pow_nonneg
      hs0 1) (pow_nonneg hr0 15)))) (mul_nonneg (by norm_num) (mul_nonneg (pow_nonneg hs0 2)
      (pow_nonneg hr0 14)))) (mul_nonneg (by norm_num) (mul_nonneg (pow_nonneg hs0 3) (pow_nonneg
      hr0 13)))) (mul_nonneg (by norm_num) (mul_nonneg (pow_nonneg hs0 4) (pow_nonneg hr0 12))))
      (mul_nonneg (by norm_num) (mul_nonneg (pow_nonneg hs0 5) (pow_nonneg hr0 11)))) (mul_nonneg
      (by norm_num) (mul_nonneg (pow_nonneg hs0 6) (pow_nonneg hr0 10)))) (mul_nonneg (by
      norm_num) (mul_nonneg (pow_nonneg hs0 7) (pow_nonneg hr0 9)))) (mul_nonneg (by norm_num)
      (mul_nonneg (pow_nonneg hs0 8) (pow_nonneg hr0 8)))) (mul_nonneg (by norm_num) (mul_nonneg
      (pow_nonneg hs0 9) (pow_nonneg hr0 7)))) (mul_nonneg (by norm_num) (mul_nonneg (pow_nonneg
      hs0 10) (pow_nonneg hr0 6)))) (mul_nonneg (by norm_num) (mul_nonneg (pow_nonneg hs0 11)
      (pow_nonneg hr0 5)))) (mul_nonneg (by norm_num) (mul_nonneg (pow_nonneg hs0 12) (pow_nonneg
      hr0 4)))) (mul_nonneg (by norm_num) (mul_nonneg (pow_nonneg hs0 13) (pow_nonneg hr0 3))))
      (mul_nonneg (by norm_num) (mul_nonneg (pow_nonneg hs0 14) (pow_nonneg hr0 2)))) (mul_nonneg
      (by norm_num) (mul_nonneg (pow_nonneg hs0 15) (pow_nonneg hr0 1)))) (mul_nonneg (by
      norm_num) (mul_nonneg (pow_nonneg hs0 16) (pow_nonneg hr0 0)))))
  clear eu
  have ed : (40320 + 81632 * s ^ (1 : ℕ) + (155642 / 3) * s ^ (2 : ℕ) + 9747 * s ^ (3 : ℕ) + (-7249
          / 3) * s ^ (4 : ℕ) + 85 * s ^ (5 : ℕ) + (-1 / 3) * s ^ (6 : ℕ))
      - (989 / 1000) * ((1 - 0.69314718030000 * s ^ (1 : ℕ) + 0.24022650712550 * s ^ (2 : ℕ) - 0.05550410860237
          * s ^ (3 : ℕ) + 0.00961812912096 * s ^ (4 : ℕ) - 0.00133335581214 * s ^ (5 : ℕ) +
          0.00015403530426 * s ^ (6 : ℕ) - 0.00001525273376 * s ^ (7 : ℕ) + 0.00000148674227 * s
          ^ (8 : ℕ))
        * ((1 + s) * (2 + s) * (3 + s) * (4 + s) * (5 + s) * (6 + s) * (7 + s) * (8 + s)))
      = (1 / 300000000000000000) * (133056000000000000000 * (s ^ (0 : ℕ) * r ^ (16 : ℕ)) +
        2397004101686803200000 * (s ^ (1 : ℕ) * r ^ (15 : ℕ)) + 20168025781042866368000 * (s ^ (2
        : ℕ) * r ^ (14 : ℕ)) + 105285598082443361982880 * (s ^ (3 : ℕ) * r ^ (13 : ℕ)) +
        381619530428985241525336 * (s ^ (4 : ℕ) * r ^ (12 : ℕ)) + 1017746390242166992120460 * (s
        ^ (5 : ℕ) * r ^ (11 : ℕ)) + 2064482558974686133508934 * (s ^ (6 : ℕ) * r ^ (10 : ℕ)) +
        3247408807905735194025867 * (s ^ (7 : ℕ) * r ^ (9 : ℕ)) + 4001725455642921341310621 * (s
        ^ (8 : ℕ) * r ^ (8 : ℕ)) + 3875370353160488019051036 * (s ^ (9 : ℕ) * r ^ (7 : ℕ)) +
        2939666323305136799606832 * (s ^ (10 : ℕ) * r ^ (6 : ℕ)) + 1728585079358532259913885 * (s
        ^ (11 : ℕ) * r ^ (5 : ℕ)) + 772682139819417659418892 * (s ^ (12 : ℕ) * r ^ (4 : ℕ)) +
        253931730155020069201900 * (s ^ (13 : ℕ) * r ^ (3 : ℕ)) + 57892354586186687121488 * (s ^
        (14 : ℕ) * r ^ (2 : ℕ)) + 8185605448508143294464 * (s ^ (15 : ℕ) * r ^ (1 : ℕ)) +
        541123915762997498880 * (s ^ (16 : ℕ) * r ^ (0 : ℕ))) := by
    rw [hr]
    ring
  have hdn := nonneg_of_eq ed
    (mul_nonneg (by norm_num) (add_nonneg (add_nonneg (add_nonneg (add_nonneg (add_nonneg
      (add_nonneg (add_nonneg (add_nonneg (add_nonneg (add_nonneg (add_nonneg (add_nonneg
      (add_nonneg (add_nonneg (add_nonneg (add_nonneg (mul_nonneg (by norm_num) (mul_nonneg
      (pow_nonneg hs0 0) (pow_nonneg hr0 16))) (mul_nonneg (by norm_num) (mul_nonneg (pow_nonneg
      hs0 1) (pow_nonneg hr0 15)))) (mul_nonneg (by norm_num) (mul_nonneg (pow_nonneg hs0 2)
      (pow_nonneg hr0 14)))) (mul_nonneg (by norm_num) (mul_nonneg (pow_nonneg hs0 3) (pow_nonneg
      hr0 13)))) (mul_nonneg (by norm_num) (mul_nonneg (pow_nonneg hs0 4) (pow_nonneg hr0 12))))
      (mul_nonneg (by norm_num) (mul_nonneg (pow_nonneg hs0 5) (pow_nonneg hr0 11)))) (mul_nonneg
      (by norm_num) (mul_nonneg (pow_nonneg hs0 6) (pow_nonneg hr0 10)))) (mul_nonneg (by
      norm_num) (mul_nonneg (pow_nonneg hs0 7) (pow_nonneg hr0 9)))) (mul_nonneg (by norm_num)
      (mul_nonneg (pow_nonneg hs0 8) (pow_nonneg hr0 8)))) (mul_nonneg (by norm_num) (mul_nonneg
      (pow_nonneg hs0 9) (pow_nonneg hr0 7)))) (mul_nonneg (by norm_num) (mul_nonneg (pow_nonneg
      hs0 10) (pow_nonneg hr0 6)))) (mul_nonneg (by norm_num) (mul_nonneg (pow_nonneg hs0 11)
      (pow_nonneg hr0 5)))) (mul_nonneg (by norm_num) (mul_nonneg (pow_nonneg hs0 12) (pow_nonneg
      hr0 4)))) (mul_nonneg (by norm_num) (mul_nonneg (pow_nonneg hs0 13) (pow_nonneg hr0 3))))
      (mul_nonneg (by norm_num) (mul_nonneg (pow_nonneg hs0 14) (pow_nonneg hr0 2)))) (mul_nonneg
      (by norm_num) (mul_nonneg (pow_nonneg hs0 15) (pow_nonneg hr0 1)))) (mul_nonneg (by
      norm_num) (mul_nonneg (pow_nonneg hs0 16) (pow_nonneg hr0 0)))))
  clear ed
  have c1 : (-1 / 3) * (1 / (1 + s)) * (1 + s) = (-1 / 3) :=
    term_cancel _ _ (by positivity)
  have c2 : (145 / 3) * (1 / (2 + s)) * (2 + s) = (145 / 3) :=
    term_cancel _ _ (by positivity)
  have c3 : -906 * (1 / (3 + s)) * (3 + s) = -906 :=
    term_cancel _ _ (by positivity)
  have c4 : (16394 / 3) * (1 / (4 + s)) * (4 + s) = (16394 / 3) :=
    term_cancel _ _ (by positivity)
  have c5 : (-43130 / 3) * (1 / (5 + s)) * (5 + s) = (-43130 / 3) :=
    term_cancel _ _ (by positivity)
  have c6 : 18730 * (1 / (6 + s)) * (6 + s) = 18730 :=
    term_cancel _ _ (by positivity)
  have c7 : (-35840 / 3) * (1 / (7 + s)) * (7 + s) = (-35840 / 3) :=
    term_cancel _ _ (by positivity)
  have c8 : (8960 / 3) * (1 / (8 + s)) * (8 + s) = (8960 / 3) :=
    term_cancel _ _ (by positivity)
  have hf : ((-1 / 3) * (1 / (1 + s)) + (145 / 3) * (1 / (2 + s)) + -906 * (1 / (3 + s)) + (16394 / 3) *
      (1 / (4 + s)) + (-43130 / 3) * (1 / (5 + s)) + 18730 * (1 / (6 + s)) + (-35840 / 3) * (1 /
      (7 + s)) + (8960 / 3) * (1 / (8 + s)))
      * ((1 + s) * (2 + s) * (3 + s) * (4 + s) * (5 + s) * (6 + s) * (7 + s) * (8 + s))
      = 40320 + 81632 * s ^ (1 : ℕ) + (155642 / 3) * s ^ (2 : ℕ) + 9747 * s ^ (3 : ℕ) + (-7249 /
        3) * s ^ (4 : ℕ) + 85 * s ^ (5 : ℕ) + (-1 / 3) * s ^ (6 : ℕ) := by
    linear_combination (2 + s) * (3 + s) * (4 + s) * (5 + s) * (6 + s) * (7 + s) * (8 + s) * c1 + (1 + s) * (3 +
      s) * (4 + s) * (5 + s) * (6 + s) * (7 + s) * (8 + s) * c2 + (1 + s) * (2 + s) * (4 + s) *
      (5 + s) * (6 + s) * (7 + s) * (8 + s) * c3 + (1 + s) * (2 + s) * (3 + s) * (5 + s) * (6 +
      s) * (7 + s) * (8 + s) * c4 + (1 + s) * (2 + s) * (3 + s) * (4 + s) * (6 + s) * (7 + s) *
      (8 + s) * c5 + (1 + s) * (2 + s) * (3 + s) * (4 + s) * (5 + s) * (7 + s) * (8 + s) * c6 +
      (1 + s) * (2 + s) * (3 + s) * (4 + s) * (5 + s) * (6 + s) * (8 + s) * c7 + (1 + s) * (2 +
      s) * (3 + s) * (4 + s) * (5 + s) * (6 + s) * (7 + s) * c8
  have h1 := mul_le_mul_of_nonneg_left (mul_le_mul_of_nonneg_right hlo hD.le)
    (by norm_num : (0 : ℝ) ≤ (1011 / 1000))
  have h2 := mul_le_mul_of_nonneg_left (mul_le_mul_of_nonneg_right hhi hD.le)
    (by norm_num : (0 : ℝ) ≤ (989 / 1000))
  refine abs_sub_le_iff.mpr ⟨sub_le_iff_le_add.mpr ?_, sub_le_comm.mpr ?_⟩
  · apply le_of_mul_le_mul_right _ hD
    rw [hf]
    exact le_trans (sub_nonneg.mp hup) (le_of_le_of_eq h1 (by ring))
  · apply le_of_mul_le_mul_right _ hD
    rw [hf]
    exact le_trans (le_of_eq_of_le (by ring) h2) (sub_nonneg.mp hdn)

theorem stehfest_piece_eight_one (s e : ℝ) (hs0 : 0 ≤ s) (hs1 : s ≤ 1)
    (hlo : 1 - 0.69314718080000 * s ^ (1 : ℕ) + 0.24022650677892 * s ^ (2 : ℕ) - 0.05550410872249 *
        s ^ (3 : ℕ) + 0.00961812909320 * s ^ (4 : ℕ) - 0.00133335581696 * s ^ (5 : ℕ) +
        0.00015403530358 * s ^ (6 : ℕ) - 0.00001525273385 * s ^ (7 : ℕ) - 0.00000148674227 * s ^
        (8 : ℕ) ≤ e)
    (hhi : e ≤ 1 - 0.69314718030000 * s ^ (1 : ℕ) + 0.24022650712550 * s ^ (2 : ℕ) - 0.05550410860237 *
        s ^ (3 : ℕ) + 0.00961812912096 * s ^ (4 : ℕ) - 0.00133335581214 * s ^ (5 : ℕ) +
        0.00015403530426 * s ^ (6 : ℕ) - 0.00001525273376 * s ^ (7 : ℕ) + 0.00000148674227 * s ^
        (8 : ℕ)) :
    |((-1 / 3) * (1 / (2 + s)) + (145 / 3) * (1 / (3 + s)) + -906 * (1 / (4 + s)) + (16394 / 3) *
      (1 / (5 + s)) + (-43130 / 3) * (1 / (6 + s)) + 18730 * (1 / (7 + s)) + (-35840 / 3) * (1 /
      (8 + s)) + (8960 / 3) * (1 / (9 + s)))
        - (1 / 2) * e| ≤ (11 / 1000) * ((1 / 2) * e) := by
  obtain ⟨r, hr0, hr⟩ : ∃ r : ℝ, 0 ≤ r ∧ r = 1 - s := ⟨1 - s, sub_nonneg.mpr hs1, rfl⟩
  have hD : 0 < (2 + s) * (3 + s) * (4 + s) * (5 + s) * (6 + s) * (7 + s) * (8 + s) * (9 + s) := by positivity
  have eu : (1011 / 2000) * ((1 - 0.69314718080000 * s ^ (1 : ℕ) + 0.24022650677892 * s ^ (2 : ℕ) - 0.05550410872249
          * s ^ (3 : ℕ) + 0.00961812909320 * s ^ (4 : ℕ) - 0.00133335581696 * s ^ (5 : ℕ) +
          0.00015403530358 * s ^ (6 : ℕ) - 0.00001525273385 * s ^ (7 : ℕ) - 0.00000148674227 * s
          ^ (8 : ℕ))
        * ((2 + s) * (3 + s) * (4 + s) * (5 + s) * (6 + s) * (7 + s) * (8 + s) * (9 + s)))
      - (181248 + 205392 * s ^ (1 : ℕ) + (202406 / 3) * s ^ (2 : ℕ) + 925 * s ^ (3 : ℕ) + (-5989
          / 3) * s ^ (4 : ℕ) + 83 * s ^ (5 : ℕ) + (-1 / 3) * s ^ (6 : ℕ))
      = (1 / 600000000000000000) * (1312704000000000000000 * (s ^ (0 : ℕ) * r ^ (16 : ℕ)) +
        22778239587792076800000 * (s ^ (1 : ℕ) * r ^ (15 : ℕ)) + 184958685523847061255680 * (s ^
        (2 : ℕ) * r ^ (14 : ℕ)) + 932616705796969514382016 * (s ^ (3 : ℕ) * r ^ (13 : ℕ)) +
        3267367752609401969743840 * (s ^ (4 : ℕ) * r ^ (12 : ℕ)) + 8430804497394551761347140 * (s
        ^ (5 : ℕ) * r ^ (11 : ℕ)) + 16568270216076566130095100 * (s ^ (6 : ℕ) * r ^ (10 : ℕ)) +
        25287946568794836629380083 * (s ^ (7 : ℕ) * r ^ (9 : ℕ)) + 30285302130971768805772395 *
        (s ^ (8 : ℕ) * r ^ (8 : ℕ)) + 28545845532758733976455414 * (s ^ (9 : ℕ) * r ^ (7 : ℕ)) +
        21099389458995821224952904 * (s ^ (10 : ℕ) * r ^ (6 : ℕ)) + 12097334432638675457508290 *
        (s ^ (11 : ℕ) * r ^ (5 : ℕ)) + 5272719799379372607389101 * (s ^ (12 : ℕ) * r ^ (4 : ℕ)) +
        1688326287542440673048020 * (s ^ (13 : ℕ) * r ^ (3 : ℕ)) + 374404811855277632683772 * (s
        ^ (14 : ℕ) * r ^ (2 : ℕ)) + 51353561562079239079920 * (s ^ (15 : ℕ) * r ^ (1 : ℕ)) +
        3280266663572967177600 * (s ^ (16 : ℕ) * r ^ (0 : ℕ))) := by
    rw [hr]
    ring
  have hup := nonneg_of_eq eu
    (mul_nonneg (by norm_num) (add_nonneg (add_nonneg (add_nonneg (add_nonneg (add_nonneg
      (add_nonneg (add_nonneg (add_nonneg (add_nonneg (add_nonneg (add_nonneg (add_nonneg
      (add_nonneg (add_nonneg (add_nonneg (add_nonneg (mul_nonneg (by norm_num) (mul_nonneg
      (pow_nonneg hs0 0) (pow_nonneg hr0 16))) (mul_nonneg (by norm_num) (mul_nonneg (pow_nonneg
      hs0 1) (pow_nonneg hr0 15)))) (mul_nonneg (by norm_num) (mul_nonneg (pow_nonneg hs0 2)
      (pow_nonneg hr0 14)))) (mul_nonneg (by norm_num) (mul_nonneg (pow_nonneg hs0 3) (pow_nonneg
      hr0 13)))) (mul_nonneg (by norm_num) (mul_nonneg (pow_nonneg hs0 4) (pow_nonneg hr0 12))))
      (mul_nonneg (by norm_num) (mul_nonneg (pow_nonneg hs0 5) (pow_nonneg hr0 11)))) (mul_nonneg
      (by norm_num) (mul_nonneg (pow_nonneg hs0 6) (pow_nonneg hr0 10)))) (mul_nonneg (by
      norm_num) (mul_nonneg (pow_nonneg hs0 7) (pow_nonneg hr0 9)))) (mul_nonneg (by norm_num)
      (mul_nonneg (pow_nonneg hs0 8) (pow_nonneg hr0 8)))) (mul_nonneg (by norm_num) (mul_nonneg
      (pow_nonneg hs0 9) (pow_nonneg hr0 7)))) (mul_nonneg (by norm_num) (mul_nonneg (pow_nonneg
      hs0 10) (pow_nonneg hr0 6)))) (mul_nonneg (by norm_num) (mul_nonneg (pow_nonneg hs0 11)
      (pow_nonneg hr0 5)))) (mul_nonneg (by norm_num) (mul_nonneg (pow_nonneg hs0 12) (pow_nonneg
      hr0 4)))) (mul_nonneg (by norm_num) (mul_nonneg (pow_nonneg hs0 13) (pow_nonneg hr0 3))))
      (mul_nonneg (by norm_num) (mul_nonneg (pow_nonneg hs0 14) (pow_nonneg hr0 2)))) (mul_nonneg
      (by norm_num) (mul_nonneg (pow_nonneg hs0 15) (pow_nonneg hr0 1)))) (mul_nonneg (by
      norm_num) (mul_nonneg (pow_nonneg hs0 16) (pow_nonneg hr0 0)))))
  clear eu
  have ed : (181248 + 205392 * s ^ (1 : ℕ) + (202406 / 3) * s ^ (2 : ℕ) + 925 * s ^ (3 : ℕ) + (-5989
          / 3) * s ^ (4 : ℕ) + 83 * s ^ (5 : ℕ) + (-1 / 3) * s ^ (6 : ℕ))
      - (989 / 2000) * ((1 - 0.69314718030000 * s ^ (1 : ℕ) + 0.24022650712550 * s ^ (2 : ℕ) - 0.05550410860237
          * s ^ (3 : ℕ) + 0.00961812912096 * s ^ (4 : ℕ) - 0.00133335581214 * s ^ (5 : ℕ) +
          0.00015403530426 * s ^ (6 : ℕ) - 0.00001525273376 * s ^ (7 : ℕ) + 0.00000148674227 * s
          ^ (8 : ℕ))
        * ((2 + s) * (3 + s) * (4 + s) * (5 + s) * (6 + s) * (7 + s) * (8 + s) * (9 + s)))
      = (1 / 600000000000000000) * (1082304000000000000000 * (s ^ (0 : ℕ) * r ^ (16 : ℕ)) +
        18262188915181228800000 * (s ^ (1 : ℕ) * r ^ (15 : ℕ)) + 144145295215891371712000 * (s ^
        (2 : ℕ) * r ^ (14 : ℕ)) + 706806150120636178101920 * (s ^ (3 : ℕ) * r ^ (13 : ℕ)) +
        2411113054444028437352984 * (s ^ (4 : ℕ) * r ^ (12 : ℕ)) + 6071041207581298469631532 * (s
        ^ (5 : ℕ) * r ^ (11 : ℕ)) + 11679334918031248183521942 * (s ^ (6 : ℕ) * r ^ (10 : ℕ)) +
        17522742824835981714278259 * (s ^ (7 : ℕ) * r ^ (9 : ℕ)) + 20734578730171680583497741 *
        (s ^ (8 : ℕ) * r ^ (8 : ℕ)) + 19427690474530244417570052 * (s ^ (9 : ℕ) * r ^ (7 : ℕ)) +
        14374466092290622551831744 * (s ^ (10 : ℕ) * r ^ (6 : ℕ)) + 8314526462696913231629797 *
        (s ^ (11 : ℕ) * r ^ (5 : ℕ)) + 3687247526566255070649284 * (s ^ (12 : ℕ) * r ^ (4 : ℕ)) +
        1212278016456847075707452 * (s ^ (13 : ℕ) * r ^ (3 : ℕ)) + 278704059912186724697488 * (s
        ^ (14 : ℕ) * r ^ (2 : ℕ)) + 40030275074066711470080 * (s ^ (15 : ℕ) * r ^ (1 : ℕ)) +
        2705619578814987494400 * (s ^ (16 : ℕ) * r ^ (0 : ℕ))) := by
    rw [hr]
    ring
  have hdn := nonneg_of_eq ed
    (mul_nonneg (by norm_num) (add_nonneg (add_nonneg (add_nonneg (add_nonneg (add_nonneg
      (add_nonneg (add_nonneg (add_nonneg (add_nonneg (add_nonneg (add_nonneg (add_nonneg
      (add_nonneg (add_nonneg (add_nonneg (add_nonneg (mul_nonneg (by norm_num) (mul_nonneg
      (pow_nonneg hs0 0) (pow_nonneg hr0 16))) (mul_nonneg (by norm_num) (mul_nonneg (pow_nonneg
      hs0 1) (pow_nonneg hr0 15)))) (mul_nonneg (by norm_num) (mul_nonneg (pow_nonneg hs0 2)
      (pow_nonneg hr0 14)))) (mul_nonneg (by norm_num) (mul_nonneg (pow_nonneg hs0 3) (pow_nonneg
      hr0 13)))) (mul_nonneg (by norm_num) (mul_nonneg (pow_nonneg hs0 4) (pow_nonneg hr0 12))))
      (mul_nonneg (by norm_num) (mul_nonneg (pow_nonneg hs0 5) (pow_nonneg hr0 11)))) (mul_nonneg
      (by norm_num) (mul_nonneg (pow_nonneg hs0 6) (pow_nonneg hr0 10)))) (mul_nonneg (by
      norm_num) (mul_nonneg (pow_nonneg hs0 7) (pow_nonneg hr0 9)))) (mul_nonneg (by norm_num)
      (mul_nonneg (pow_nonneg hs0 8) (pow_nonneg hr0 8)))) (mul_nonneg (by norm_num) (mul_nonneg
      (pow_nonneg hs0 9) (pow_nonneg hr0 7)))) (mul_nonneg (by norm_num) (mul_nonneg (pow_nonneg
      hs0 10) (pow_nonneg hr0 6)))) (mul_nonneg (by norm_num) (mul_nonneg (pow_nonneg hs0 11)
      (pow_nonneg hr0 5)))) (mul_nonneg (by norm_num) (mul_nonneg (pow_nonneg hs0 12) (pow_nonneg
      hr0 4)))) (mul_nonneg (by norm_num) (mul_nonneg (pow_nonneg hs0 13) (pow_nonneg hr0 3))))
      (mul_nonneg (by norm_num) (mul_nonneg (pow_nonneg hs0 14) (pow_nonneg hr0 2)))) (mul_nonneg
      (by norm_num) (mul_nonneg (pow_nonneg hs0 15) (pow_nonneg hr0 1)))) (mul_nonneg (by
      norm_num) (mul_nonneg (pow_nonneg hs0 16) (pow_nonneg hr0 0)))))
  clear ed
  have c1 : (-1 / 3) * (1 / (2 + s)) * (2 + s) = (-1 / 3) :=
    term_cancel _ _ (by positivity)
  have c2 : (145 / 3) * (1 / (3 + s)) * (3 + s) = (145 / 3) :=
    term_cancel _ _ (by positivity)
  have c3 : -906 * (1 / (4 + s)) * (4 + s) = -906 :=
    term_cancel _ _ (by positivity)
  have c4 : (16394 / 3) * (1 / (5 + s)) * (5 + s) = (16394 / 3) :=
    term_cancel _ _ (by positivity)
  have c5 : (-43130 / 3) * (1 / (6 + s)) * (6 + s) = (-43130 / 3) :=
    term_cancel _ _ (by positivity)
  have c6 : 18730 * (1 / (7 + s)) * (7 + s) = 18730 :=
    term_cancel _ _ (by positivity)
  have c7 : (-35840 / 3) * (1 / (8 + s)) * (8 + s) = (-35840 / 3) :=
    term_cancel _ _ (by positivity)
  have c8 : (8960 / 3) * (1 / (9 + s)) * (9 + s) = (8960 / 3) :=
    term_cancel _ _ (by positivity)
  have hf : ((-1 / 3) * (1 / (2 + s)) + (145 / 3) * (1 / (3 + s)) + -906 * (1 / (4 + s)) + (16394 / 3) *
      (1 / (5 + s)) + (-43130 / 3) * (1 / (6 + s)) + 18730 * (1 / (7 + s)) + (-35840 / 3) * (1 /
      (8 + s)) + (8960 / 3) * (1 / (9 + s)))
      * ((2 + s) * (3 + s) * (4 + s) * (5 + s) * (6 + s) * (7 + s) * (8 + s) * (9 + s))
      = 181248 + 205392 * s ^ (1 : ℕ) + (202406 / 3) * s ^ (2 : ℕ) + 925 * s ^ (3 : ℕ) + (-5989 /
        3) * s ^ (4 : ℕ) + 83 * s ^ (5 : ℕ) + (-1 / 3) * s ^ (6 : ℕ) := by
    linear_combination (3 + s) * (4 + s) * (5 + s) * (6 + s) * (7 + s) * (8 + s) * (9 + s) * c1 + (2 + s) * (4 +
      s) * (5 + s) * (6 + s) * (7 + s) * (8 + s) * (9 + s) * c2 + (2 + s) * (3 + s) * (5 + s) *
      (6 + s) * (7 + s) * (8 + s) * (9 + s) * c3 + (2 + s) * (3 + s) * (4 + s) * (6 + s) * (7 +
      s) * (8 + s) * (9 + s) * c4 + (2 + s) * (3 + s) * (4 + s) * (5 + s) * (7 + s) * (8 + s) *
      (9 + s) * c5 + (2 + s) * (3 + s) * (4 + s) * (5 + s) * (6 + s) * (8 + s) * (9 + s) * c6 +
      (2 + s) * (3 + s) * (4 + s) * (5 + s) * (6 + s) * (7 + s) * (9 + s) * c7 + (2 + s) * (3 +
      s) * (4 + s) * (5 + s) * (6 + s) * (7 + s) * (8 + s) * c8
  have h1 := mul_le_mul_of_nonneg_left (mul_le_mul_of_nonneg_right hlo hD.le)
    (by norm_num : (0 : ℝ) ≤ (1011 / 2000))
  have h2 := mul_le_mul_of_nonneg_left (mul_le_mul_of_nonneg_right hhi hD.le)
    (by norm_num : (0 : ℝ) ≤ (989 / 2000))
  refine abs_sub_le_iff.mpr ⟨sub_le_iff_le_add.mpr ?_, sub_le_comm.mpr ?_⟩
  · apply le_of_mul_le_mul_right _ hD
    rw [hf]
    exact le_trans (sub_nonneg.mp hup) (le_of_le_of_eq h1 (by ring))
  · apply le_of_mul_le_mul_right _ hD
    rw [hf]
    exact le_trans (le_of_eq_of_le (by ring) h2) (sub_nonneg.mp hdn)

theorem stehfest_piece_eight_two (s e : ℝ) (hs0 : 0 ≤ s) (hs1 : s ≤ 1)
    (hlo : 1 - 0.69314718080000 * s ^ (1 : ℕ) + 0.24022650677892 * s ^ (2 : ℕ) - 0.05550410872249 *
        s ^ (3 : ℕ) + 0.00961812909320 * s ^ (4 : ℕ) - 0.00133335581696 * s ^ (5 : ℕ) +
        0.00015403530358 * s ^ (6 : ℕ) - 0.00001525273385 * s ^ (7 : ℕ) - 0.00000148674227 * s ^
        (8 : ℕ) ≤ e)
    (hhi : e ≤ 1 - 0.69314718030000 * s ^ (1 : ℕ) + 0.24022650712550 * s ^ (2 : ℕ) - 0.05550410860237 *
        s ^ (3 : ℕ) + 0.00961812912096 * s ^ (4 : ℕ) - 0.00133335581214 * s ^ (5 : ℕ) +
        0.00015403530426 * s ^ (6 : ℕ) - 0.00001525273376 * s ^ (7 : ℕ) + 0.00000148674227 * s ^
        (8 : ℕ)) :
    |((-1 / 3) * (1 / (3 + s)) + (145 / 3) * (1 / (4 + s)) + -906 * (1 / (5 + s)) + (16394 / 3) *
      (1 / (6 + s)) + (-43130 / 3) * (1 / (7 + s)) + 18730 * (1 / (8 + s)) + (-35840 / 3) * (1 /
      (9 + s)) + (8960 / 3) * (1 / (10 + s)))
        - (1 / 4) * e| ≤ (11 / 1000) * ((1 / 4) * e) := by
  obtain ⟨r, hr0, hr⟩ : ∃ r : ℝ, 0 ≤ r ∧ r = 1 - s := ⟨1 - s, sub_nonneg.mpr hs1, rfl⟩
  have hD : 0 < (3 + s) * (4 + s) * (5 + s) * (6 + s) * (7 + s) * (8 + s) * (9 + s) * (10 + s) := by positivity
  have eu : (1011 / 4000) * ((1 - 0.69314718080000 * s ^ (1 : ℕ) + 0.24022650677892 * s ^ (2 : ℕ) - 0.05550410872249
          * s ^ (3 : ℕ) + 0.00961812909320 * s ^ (4 : ℕ) - 0.00133335581696 * s ^ (5 : ℕ) +
          0.00015403530358 * s ^ (6 : ℕ) - 0.00001525273385 * s ^ (7 : ℕ) - 0.00000148674227 * s
          ^ (8 : ℕ))
        * ((3 + s) * (4 + s) * (5 + s) * (6 + s) * (7 + s) * (8 + s) * (9 + s) * (10 + s)))
      - (453120 + 335532 * s ^ (1 : ℕ) + (177272 / 3) * s ^ (2 : ℕ) + (-6237) * s ^ (3 : ℕ) +
          (-4759 / 3) * s ^ (4 : ℕ) + 81 * s ^ (5 : ℕ) + (-1 / 3) * s ^ (6 : ℕ))
      = (1 / 1200000000000000000) * (6563520000000000000000 * (s ^ (0 : ℕ) * r ^ (16 : ℕ)) +
        107305789938960384000000 * (s ^ (1 : ℕ) * r ^ (15 : ℕ)) + 817550660443651152678400 * (s ^
        (2 : ℕ) * r ^ (14 : ℕ)) + 3850809908700529679798720 * (s ^ (3 : ℕ) * r ^ (13 : ℕ)) +
        12541526481879547658122208 * (s ^ (4 : ℕ) * r ^ (12 : ℕ)) + 29920853603505148153143508 *
        (s ^ (5 : ℕ) * r ^ (11 : ℕ)) + 54030715310795143108169508 * (s ^ (6 : ℕ) * r ^ (10 : ℕ))
        + 75224551266202582200169203 * (s ^ (7 : ℕ) * r ^ (9 : ℕ)) + 81451982083926572190198627 *
        (s ^ (8 : ℕ) * r ^ (8 : ℕ)) + 68643104658248540028727302 * (s ^ (9 : ℕ) * r ^ (7 : ℕ)) +
        44712200137779332952178344 * (s ^ (10 : ℕ) * r ^ (6 : ℕ)) + 22154644781001394596514906 *
        (s ^ (11 : ℕ) * r ^ (5 : ℕ)) + 8117134304907486158468741 * (s ^ (12 : ℕ) * r ^ (4 : ℕ)) +
        2095181476937523468177044 * (s ^ (13 : ℕ) * r ^ (3 : ℕ)) + 349289125353526662917404 * (s
        ^ (14 : ℕ) * r ^ (2 : ℕ)) + 31401784984133180784240 * (s ^ (15 : ℕ) * r ^ (1 : ℕ)) +
        891644433100879651200 * (s ^ (16 : ℕ) * r ^ (0 : ℕ))) := by
    rw [hr]
    ring
  have hup := nonneg_of_eq eu
    (mul_nonneg (by norm_num) (add_nonneg (add_nonneg (add_nonneg (add_nonneg (add_nonneg
      (add_nonneg (add_nonneg (add_nonneg (add_nonneg (add_nonneg (add_nonneg (add_nonneg
      (add_nonneg (add_nonneg (add_nonneg (add_nonneg (mul_nonneg (by norm_num) (mul_nonneg
      (pow_nonneg hs0 0) (pow_nonneg hr0 16))) (mul_nonneg (by norm_num) (mul_nonneg (pow_nonneg
      hs0 1) (pow_nonneg hr0 15)))) (mul_nonneg (by norm_num) (mul_nonneg (pow_nonneg hs0 2)
      (pow_nonneg hr0 14)))) (mul_nonneg (by norm_num) (mul_nonneg (pow_nonneg hs0 3) (pow_nonneg
      hr0 13)))) (mul_nonneg (by norm_num) (mul_nonneg (pow_nonneg hs0 4) (pow_nonneg hr0 12))))
      (mul_nonneg (by norm_num) (mul_nonneg (pow_nonneg hs0 5) (pow_nonneg hr0 11)))) (mul_nonneg
      (by norm_num) (mul_nonneg (pow_nonneg hs0 6) (pow_nonneg hr0 10)))) (mul_nonneg (by
      norm_num) (mul_nonneg (pow_nonneg hs0 7) (pow_nonneg hr0 9)))) (mul_nonneg (by norm_num)
      (mul_nonneg (pow_nonneg hs0 8) (pow_nonneg hr0 8)))) (mul_nonneg (by norm_num) (mul_nonneg
      (pow_nonneg hs0 9) (pow_nonneg hr0 7)))) (mul_nonneg (by norm_num) (mul_nonneg (pow_nonneg
      hs0 10) (pow_nonneg hr0 6)))) (mul_nonneg (by norm_num) (mul_nonneg (pow_nonneg hs0 11)
      (pow_nonneg hr0 5)))) (mul_nonneg (by norm_num) (mul_nonneg (pow_nonneg hs0 12) (pow_nonneg
      hr0 4)))) (mul_nonneg (by norm_num) (mul_nonneg (pow_nonneg hs0 13) (pow_nonneg hr0 3))))
      (mul_nonneg (by norm_num) (mul_nonneg (pow_nonneg hs0 14) (pow_nonneg hr0 2)))) (mul_nonneg
      (by norm_num) (mul_nonneg (pow_nonneg hs0 15) (pow_nonneg hr0 1)))) (mul_nonneg (by
      norm_num) (mul_nonneg (pow_nonneg hs0 16) (pow_nonneg hr0 0)))))
  clear eu
  have ed : (453120 + 335532 * s ^ (1 : ℕ) + (177272 / 3) * s ^ (2 : ℕ) + (-6237) * s ^ (3 : ℕ) +
          (-4759 / 3) * s ^ (4 : ℕ) + 81 * s ^ (5 : ℕ) + (-1 / 3) * s ^ (6 : ℕ))
      - (989 / 4000) * ((1 - 0.69314718030000 * s ^ (1 : ℕ) + 0.24022650712550 * s ^ (2 : ℕ) - 0.05550410860237
          * s ^ (3 : ℕ) + 0.00961812912096 * s ^ (4 : ℕ) - 0.00133335581214 * s ^ (5 : ℕ) +
          0.00015403530426 * s ^ (6 : ℕ) - 0.00001525273376 * s ^ (7 : ℕ) + 0.00000148674227 * s
          ^ (8 : ℕ))
        * ((3 + s) * (4 + s) * (5 + s) * (6 + s) * (7 + s) * (8 + s) * (9 + s) * (10 + s)))
      = (1 / 1200000000000000000) * (5411520000000000000000 * (s ^ (0 : ℕ) * r ^ (16 : ℕ)) +
        93106336575906144000000 * (s ^ (1 : ℕ) * r ^ (15 : ℕ)) + 753073410249094400960000 * (s ^
        (2 : ℕ) * r ^ (14 : ℕ)) + 3800440158916941833485600 * (s ^ (3 : ℕ) * r ^ (13 : ℕ)) +
        13390828159508228416097080 * (s ^ (4 : ℕ) * r ^ (12 : ℕ)) + 34921487398086306129453452 *
        (s ^ (5 : ℕ) * r ^ (11 : ℕ)) + 69703950234723923306402958 * (s ^ (6 : ℕ) * r ^ (10 : ℕ))
        + 108588725621265888621157539 * (s ^ (7 : ℕ) * r ^ (9 : ℕ)) + 133386298555557469414282821
        * (s ^ (8 : ℕ) * r ^ (8 : ℕ)) + 129576499155259261175663604 * (s ^ (9 : ℕ) * r ^ (7 : ℕ))
        + 99182119938480565292298600 * (s ^ (10 : ℕ) * r ^ (6 : ℕ)) + 59169385113362142254775677
        * (s ^ (11 : ℕ) * r ^ (5 : ℕ)) + 26961892407621084745046788 * (s ^ (12 : ℕ) * r ^ (4 :
        ℕ)) + 9069120266967011149538140 * (s ^ (13 : ℕ) * r ^ (3 : ℕ)) +
        2123126289623075815571216 * (s ^ (14 : ℕ) * r ^ (2 : ℕ)) + 308993070452746819829760 * (s
        ^ (15 : ℕ) * r ^ (1 : ℕ)) + 21056605122321620812800 * (s ^ (16 : ℕ) * r ^ (0 : ℕ))) := by
    rw [hr]
    ring
  have hdn := nonneg_of_eq ed
    (mul_nonneg (by norm_num) (add_nonneg (add_nonneg (add_nonneg (add_nonneg (add_nonneg
      (add_nonneg (add_nonneg (add_nonneg (add_nonneg (add_nonneg (add_nonneg (add_nonneg
      (add_nonneg (add_nonneg (add_nonneg (add_nonneg (mul_nonneg (by norm_num) (mul_nonneg
      (pow_nonneg hs0 0) (pow_nonneg hr0 16))) (mul_nonneg (by norm_num) (mul_nonneg (pow_nonneg
      hs0 1) (pow_nonneg hr0 15)))) (mul_nonneg (by norm_num) (mul_nonneg (pow_nonneg hs0 2)
      (pow_nonneg hr0 14)))) (mul_nonneg (by norm_num) (mul_nonneg (pow_nonneg hs0 3) (pow_nonneg
      hr0 13)))) (mul_nonneg (by norm_num) (mul_nonneg (pow_nonneg hs0 4) (pow_nonneg hr0 12))))
      (mul_nonneg (by norm_num) (mul_nonneg (pow_nonneg hs0 5) (pow_nonneg hr0 11)))) (mul_nonneg
      (by norm_num) (mul_nonneg (pow_nonneg hs0 6) (pow_nonneg hr0 10)))) (mul_nonneg (by
      norm_num) (mul_nonneg (pow_nonneg hs0 7) (pow_nonneg hr0 9)))) (mul_nonneg (by norm_num)
      (mul_nonneg (pow_nonneg hs0 8) (pow_nonneg hr0 8)))) (mul_nonneg (by norm_num) (mul_nonneg
      (pow_nonneg hs0 9) (pow_nonneg hr0 7)))) (mul_nonneg (by norm_num) (mul_nonneg (pow_nonneg
      hs0 10) (pow_nonneg hr0 6)))) (mul_nonneg (by norm_num) (mul_nonneg (pow_nonneg hs0 11)
      (pow_nonneg hr0 5)))) (mul_nonneg (by norm_num) (mul_nonneg (pow_nonneg hs0 12) (pow_nonneg
      hr0 4)))) (mul_nonneg (by norm_num) (mul_nonneg (pow_nonneg hs0 13) (pow_nonneg hr0 3))))
      (mul_nonneg (by norm_num) (mul_nonneg (pow_nonneg hs0 14) (pow_nonneg hr0 2)))) (mul_nonneg
      (by norm_num) (mul_nonneg (pow_nonneg hs0 15) (pow_nonneg hr0 1)))) (mul_nonneg (by
      norm_num) (mul_nonneg (pow_nonneg hs0 16) (pow_nonneg hr0 0)))))
  clear ed
  have c1 : (-1 / 3) * (1 / (3 + s)) * (3 + s) = (-1 / 3) :=
    term_cancel _ _ (by positivity)
  have c2 : (145 / 3) * (1 / (4 + s)) * (4 + s) = (145 / 3) :=
    term_cancel _ _ (by positivity)
  have c3 : -906 * (1 / (5 + s)) * (5 + s) = -906 :=
    term_cancel _ _ (by positivity)
  have c4 : (16394 / 3) * (1 / (6 + s)) * (6 + s) = (16394 / 3) :=
    term_cancel _ _ (by positivity)
  have c5 : (-43130 / 3) * (1 / (7 + s)) * (7 + s) = (-43130 / 3) :=
    term_cancel _ _ (by positivity)
  have c6 : 18730 * (1 / (8 + s)) * (8 + s) = 18730 :=
    term_cancel _ _ (by positivity)
  have c7 : (-35840 / 3) * (1 / (9 + s)) * (9 + s) = (-35840 / 3) :=
    term_cancel _ _ (by positivity)
  have c8 : (8960 / 3) * (1 / (10 + s)) * (10 + s) = (8960 / 3) :=
    term_cancel _ _ (by positivity)
  have hf : ((-1 / 3) * (1 / (3 + s)) + (145 / 3) * (1 / (4 + s)) + -906 * (1 / (5 + s)) + (16394 / 3) *
      (1 / (6 + s)) + (-43130 / 3) * (1 / (7 + s)) + 18730 * (1 / (8 + s)) + (-35840 / 3) * (1 /
      (9 + s)) + (8960 / 3) * (1 / (10 + s)))
      * ((3 + s) * (4 + s) * (5 + s) * (6 + s) * (7 + s) * (8 + s) * (9 + s) * (10 + s))
      = 453120 + 335532 * s ^ (1 : ℕ) + (177272 / 3) * s ^ (2 : ℕ) + (-6237) * s ^ (3 : ℕ) +
        (-4759 / 3) * s ^ (4 : ℕ) + 81 * s ^ (5 : ℕ) + (-1 / 3) * s ^ (6 : ℕ) := by
    linear_combination (4 + s) * (5 + s) * (6 + s) * (7 + s) * (8 + s) * (9 + s) * (10 + s) * c1 + (3 + s) * (5 +
      s) * (6 + s) * (7 + s) * (8 + s) * (9 + s) * (10 + s) * c2 + (3 + s) * (4 + s) * (6 + s) *
      (7 + s) * (8 + s) * (9 + s) * (10 + s) * c3 + (3 + s) * (4 + s) * (5 + s) * (7 + s) * (8 +
      s) * (9 + s) * (10 + s) * c4 + (3 + s) * (4 + s) * (5 + s) * (6 + s) * (8 + s) * (9 + s) *
      (10 + s) * c5 + (3 + s) * (4 + s) * (5 + s) * (6 + s) * (7 + s) * (9 + s) * (10 + s) * c6 +
      (3 + s) * (4 + s) * (5 + s) * (6 + s) * (7 + s) * (8 + s) * (10 + s) * c7 + (3 + s) * (4 +
      s) * (5 + s) * (6 + s) * (7 + s) * (8 + s) * (9 + s) * c8
  have h1 := mul_le_mul_of_nonneg_left (mul_le_mul_of_nonneg_right hlo hD.le)
    (by norm_num : (0 : ℝ) ≤ (1011 / 4000))
  have h2 := mul_le_mul_of_nonneg_left (mul_le_mul_of_nonneg_right hhi hD.le)
    (by norm_num : (0 : ℝ) ≤ (989 / 4000))
  refine abs_sub_le_iff.mpr ⟨sub_le_iff_le_add.mpr ?_, sub_le_comm.mpr ?_⟩
  · apply le_of_mul_le_mul_right _ hD
    rw [hf]
    exact le_trans (sub_nonneg.mp hup) (le_of_le_of_eq h1 (by ring))
  · apply le_of_mul_le_mul_right _ hD
    rw [hf]
    exact le_trans (le_of_eq_of_le (by ring) h2) (sub_nonneg.mp hdn)

theorem stehfest_piece_ten_zero (s e : ℝ) (hs0 : 0 ≤ s) (hs1 : s ≤ 1)
    (hlo : 1 - 0.69314718080000 * s ^ (1 : ℕ) + 0.24022650677892 * s ^ (2 : ℕ) - 0.05550410872249 *
        s ^ (3 : ℕ) + 0.00961812909320 * s ^ (4 : ℕ) - 0.00133335581696 * s ^ (5 : ℕ) +
        0.00015403530358 * s ^ (6 : ℕ) - 0.00001525273385 * s ^ (7 : ℕ) - 0.00000148674227 * s ^
        (8 : ℕ) ≤ e)
    (hhi : e ≤ 1 - 0.69314718030000 * s ^ (1 : ℕ) + 0.24022650712550 * s ^ (2 : ℕ) - 0.05550410860237 *
        s ^ (3 : ℕ) + 0.00961812912096 * s ^ (4 : ℕ) - 0.00133335581214 * s ^ (5 : ℕ) +
        0.00015403530426 * s ^ (6 : ℕ) - 0.00001525273376 * s ^ (7 : ℕ) + 0.00000148674227 * s ^
        (8 : ℕ)) :
    |((1 / 12) * (1 / (1 + s)) + (-385 / 12) * (1 / (2 + s)) + 1279 * (1 / (3 + s)) + (-46871 /
      3) * (1 / (4 + s)) + (505465 / 6) * (1 / (5 + s)) + (-473915 / 2) * (1 / (6 + s)) +
      (1127735 / 3) * (1 / (7 + s)) + (-1020215 / 3) * (1 / (8 + s)) + (328125 / 2) * (1 / (9 +
      s)) + (-65625 / 2) * (1 / (10 + s)))
        - 1 * e| ≤ (3 / 1000) * (1 * e) := by
  obtain ⟨r, hr0, hr⟩ : ∃ r : ℝ, 0 ≤ r ∧ r = 1 - s := ⟨1 - s, sub_nonneg.mpr hs1, rfl⟩
  have hD : 0 < (1 + s) * (2 + s) * (3 + s) * (4 + s) * (5 + s) * (6 + s) * (7 + s) * (8 + s) * (9 + s) * (10 + s) := by positivity
  have eu : (1003 / 1000) * ((1 - 0.69314718080000 * s ^ (1 : ℕ) + 0.24022650677892 * s ^ (2 : ℕ) - 0.05550410872249
          * s ^ (3 : ℕ) + 0.00961812909320 * s ^ (4 : ℕ) - 0.00133335581696 * s ^ (5 : ℕ) +
          0.00015403530358 * s ^ (6 : ℕ) - 0.00001525273385 * s ^ (7 : ℕ) - 0.00000148674227 * s
          ^ (8 : ℕ))
        * ((1 + s) * (2 + s) * (3 + s) * (4 + s) * (5 + s) * (6 + s) * (7 + s) * (8 + s) * (9 + s) * (10 + s)))
      - (3628800 + 8113260 * s ^ (1 : ℕ) + 6257793 * s ^ (2 : ℕ) + (5766049 / 3) * s ^ (3 : ℕ) +
          (1227889 / 12) * s ^ (4 : ℕ) + (-216290 / 3) * s ^ (5 : ℕ) + (26657 / 6) * s ^ (6 : ℕ)
          + (-179 / 3) * s ^ (7 : ℕ) + (1 / 12) * s ^ (8 : ℕ))
      = (1 / 300000000000000000) * (3265920000000000000000 * (s ^ (0 : ℕ) * r ^ (18 : ℕ)) +
        66114825853169664000000 * (s ^ (1 : ℕ) * r ^ (17 : ℕ)) + 629990096608709266406400 * (s ^
        (2 : ℕ) * r ^ (16 : ℕ)) + 3754718935886054274523520 * (s ^ (3 : ℕ) * r ^ (15 : ℕ)) +
        15684716024146077270898688 * (s ^ (4 : ℕ) * r ^ (14 : ℕ)) + 48768680494280335228398216 *
        (s ^ (5 : ℕ) * r ^ (13 : ℕ)) + 116986188223878160301471860 * (s ^ (6 : ℕ) * r ^ (12 : ℕ))
        + 221417168129069298953130730 * (s ^ (7 : ℕ) * r ^ (11 : ℕ)) +
        335293590933214841410376379 * (s ^ (8 : ℕ) * r ^ (10 : ℕ)) + 409404027844116888551562603
        * (s ^ (9 : ℕ) * r ^ (9 : ℕ)) + 404168892798979676443500972 * (s ^ (10 : ℕ) * r ^ (8 :
        ℕ)) + 321926160371787545114474736 * (s ^ (11 : ℕ) * r ^ (7 : ℕ)) +
        205401755284803397034845424 * (s ^ (12 : ℕ) * r ^ (6 : ℕ)) + 103575286366774010957071103
        * (s ^ (13 : ℕ) * r ^ (5 : ℕ)) + 40373698918096714596981426 * (s ^ (14 : ℕ) * r ^ (4 :
        ℕ)) + 11738921293269335403052156 * (s ^ (15 : ℕ) * r ^ (3 : ℕ)) +
        2397236506215551814345592 * (s ^ (16 : ℕ) * r ^ (2 : ℕ)) + 306762411473110542028320 * (s
        ^ (17 : ℕ) * r ^ (1 : ℕ)) + 18505966566173188665600 * (s ^ (18 : ℕ) * r ^ (0 : ℕ))) := by
    rw [hr]
    ring
  have hup := nonneg_of_eq eu
    (mul_nonneg (by norm_num) (add_nonneg (add_nonneg (add_nonneg (add_nonneg (add_nonneg
      (add_nonneg (add_nonneg (add_nonneg (add_nonneg (add_nonneg (add_nonneg (add_nonneg
      (add_nonneg (add_nonneg (add_nonneg (add_nonneg (add_nonneg (add_nonneg (mul_nonneg (by
      norm_num) (mul_nonneg (pow_nonneg hs0 0) (pow_nonneg hr0 18))) (mul_nonneg (by norm_num)
      (mul_nonneg (pow_nonneg hs0 1) (pow_nonneg hr0 17)))) (mul_nonneg (by norm_num) (mul_nonneg
      (pow_nonneg hs0 2) (pow_nonneg hr0 16)))) (mul_nonneg (by norm_num) (mul_nonneg (pow_nonneg
      hs0 3) (pow_nonneg hr0 15)))) (mul_nonneg (by norm_num) (mul_nonneg (pow_nonneg hs0 4)
      (pow_nonneg hr0 14)))) (mul_nonneg (by norm_num) (mul_nonneg (pow_nonneg hs0 5) (pow_nonneg
      hr0 13)))) (mul_nonneg (by norm_num) (mul_nonneg (pow_nonneg hs0 6) (pow_nonneg hr0 12))))
      (mul_nonneg (by norm_num) (mul_nonneg (pow_nonneg hs0 7) (pow_nonneg hr0 11)))) (mul_nonneg
      (by norm_num) (mul_nonneg (pow_nonneg hs0 8) (pow_nonneg hr0 10)))) (mul_nonneg (by
      norm_num) (mul_nonneg (pow_nonneg hs0 9) (pow_nonneg hr0 9)))) (mul_nonneg (by norm_num)
      (mul_nonneg (pow_nonneg hs0 10) (pow_nonneg hr0 8)))) (mul_nonneg (by norm_num) (mul_nonneg
      (pow_nonneg hs0 11) (pow_nonneg hr0 7)))) (mul_nonneg (by norm_num) (mul_nonneg (pow_nonneg
      hs0 12) (pow_nonneg hr0 6)))) (mul_nonneg (by norm_num) (mul_nonneg (pow_nonneg hs0 13)
      (pow_nonneg hr0 5)))) (mul_nonneg (by norm_num) (mul_nonneg (pow_nonneg hs0 14) (pow_nonneg
      hr0 4)))) (mul_nonneg (by norm_num) (mul_nonneg (pow_nonneg hs0 15) (pow_nonneg hr0 3))))
      (mul_nonneg (by norm_num) (mul_nonneg (pow_nonneg hs0 16) (pow_nonneg hr0 2)))) (mul_nonneg
      (by norm_num) (mul_nonneg (pow_nonneg hs0 17) (pow_nonneg hr0 1)))) (mul_nonneg (by
      norm_num) (mul_nonneg (pow_nonneg hs0 18) (pow_nonneg hr0 0)))))
  clear eu
  have ed : (3628800 + 8113260 * s ^ (1 : ℕ) + 6257793 * s ^ (2 : ℕ) + (5766049 / 3) * s ^ (3 : ℕ) +
          (1227889 / 12) * s ^ (4 : ℕ) + (-216290 / 3) * s ^ (5 : ℕ) + (26657 / 6) * s ^ (6 : ℕ)
          + (-179 / 3) * s ^ (7 : ℕ) + (1 / 12) * s ^ (8 : ℕ))
      - (997 / 1000) * ((1 - 0.69314718030000 * s ^ (1 : ℕ) + 0.24022650712550 * s ^ (2 : ℕ) - 0.05550410860237
          * s ^ (3 : ℕ) + 0.00961812912096 * s ^ (4 : ℕ) - 0.00133335581214 * s ^ (5 : ℕ) +
          0.00015403530426 * s ^ (6 : ℕ) - 0.00001525273376 * s ^ (7 : ℕ) + 0.00000148674227 * s
          ^ (8 : ℕ))
        * ((1 + s) * (2 + s) * (3 + s) * (4 + s) * (5 + s) * (6 + s) * (7 + s) * (8 + s) * (9 + s) * (10 + s)))
      = (1 / 300000000000000000) * (3265920000000000000000 * (s ^ (0 : ℕ) * r ^ (18 : ℕ)) +
        66062319122706624000000 * (s ^ (1 : ℕ) * r ^ (17 : ℕ)) + 628914422588415788160000 * (s ^
        (2 : ℕ) * r ^ (16 : ℕ)) + 3745101363908880074497600 * (s ^ (3 : ℕ) * r ^ (15 : ℕ)) +
        15637248274495275251907280 * (s ^ (4 : ℕ) * r ^ (14 : ℕ)) + 48627317005948601199173472 *
        (s ^ (5 : ℕ) * r ^ (13 : ℕ)) + 116730127080067801754818880 * (s ^ (6 : ℕ) * r ^ (12 : ℕ))
        + 221170978106971411458407408 * (s ^ (7 : ℕ) * r ^ (11 : ℕ)) +
        335282057863968392232599499 * (s ^ (8 : ℕ) * r ^ (10 : ℕ)) + 409646853261815057187378597
        * (s ^ (9 : ℕ) * r ^ (9 : ℕ)) + 404291484103113663270009642 * (s ^ (10 : ℕ) * r ^ (8 :
        ℕ)) + 321498439654156599781389594 * (s ^ (11 : ℕ) * r ^ (7 : ℕ)) +
        204449275055274595911256795 * (s ^ (12 : ℕ) * r ^ (6 : ℕ)) + 102556992720426800440777234
        * (s ^ (13 : ℕ) * r ^ (5 : ℕ)) + 39688422063989396292968220 * (s ^ (14 : ℕ) * r ^ (4 :
        ℕ)) + 11434101682769346786804056 * (s ^ (15 : ℕ) * r ^ (3 : ℕ)) +
        2309609660393194030575968 * (s ^ (16 : ℕ) * r ^ (2 : ℕ)) + 291941774516697743047680 * (s
        ^ (17 : ℕ) * r ^ (1 : ℕ)) + 17383445744922078566400 * (s ^ (18 : ℕ) * r ^ (0 : ℕ))) := by
    rw [hr]
    ring
  have hdn := nonneg_of_eq ed
    (mul_nonneg (by norm_num) (add_nonneg (add_nonneg (add_nonneg (add_nonneg (add_nonneg
      (add_nonneg (add_nonneg (add_nonneg (add_nonneg (add_nonneg (add_nonneg (add_nonneg
      (add_nonneg (add_nonneg (add_nonneg (add_nonneg (add_nonneg (add_nonneg (mul_nonneg (by
      norm_num) (mul_nonneg (pow_nonneg hs0 0) (pow_nonneg hr0 18))) (mul_nonneg (by norm_num)
      (mul_nonneg (pow_nonneg hs0 1) (pow_nonneg hr0 17)))) (mul_nonneg (by norm_num) (mul_nonneg
      (pow_nonneg hs0 2) (pow_nonneg hr0 16)))) (mul_nonneg (by norm_num) (mul_nonneg (pow_nonneg
      hs0 3) (pow_nonneg hr0 15)))) (mul_nonneg (by norm_num) (mul_nonneg (pow_nonneg hs0 4)
      (pow_nonneg hr0 14)))) (mul_nonneg (by norm_num) (mul_nonneg (pow_nonneg hs0 5) (pow_nonneg
      hr0 13)))) (mul_nonneg (by norm_num) (mul_nonneg (pow_nonneg hs0 6) (pow_nonneg hr0 12))))
      (mul_nonneg (by norm_num) (mul_nonneg (pow_nonneg hs0 7) (pow_nonneg hr0 11)))) (mul_nonneg
      (by norm_num) (mul_nonneg (pow_nonneg hs0 8) (pow_nonneg hr0 10)))) (mul_nonneg (by
      norm_num) (mul_nonneg (pow_nonneg hs0 9) (pow_nonneg hr0 9)))) (mul_nonneg (by norm_num)
      (mul_nonneg (pow_nonneg hs0 10) (pow_nonneg hr0 8)))) (mul_nonneg (by norm_num) (mul_nonneg
      (pow_nonneg hs0 11) (pow_nonneg hr0 7)))) (mul_nonneg (by norm_num) (mul_nonneg (pow_nonneg
      hs0 12) (pow_nonneg hr0 6)))) (mul_nonneg (by norm_num) (mul_nonneg (pow_nonneg hs0 13)
      (pow_nonneg hr0 5)))) (mul_nonneg (by norm_num) (mul_nonneg (pow_nonneg hs0 14) (pow_nonneg
      hr0 4)))) (mul_nonneg (by norm_num) (mul_nonneg (pow_nonneg hs0 15) (pow_nonneg hr0 3))))
      (mul_nonneg (by norm_num) (mul_nonneg (pow_nonneg hs0 16) (pow_nonneg hr0 2)))) (mul_nonneg
      (by norm_num) (mul_nonneg (pow_nonneg hs0 17) (pow_nonneg hr0 1)))) (mul_nonneg (by
      norm_num) (mul_nonneg (pow_nonneg hs0 18) (pow_nonneg hr0 0)))))
  clear ed
  have c1 : (1 / 12) * (1 / (1 + s)) * (1 + s) = (1 / 12) :=
    term_cancel _ _ (by positivity)
  have c2 : (-385 / 12) * (1 / (2 + s)) * (2 + s) = (-385 / 12) :=
    term_cancel _ _ (by positivity)
  have c3 : 1279 * (1 / (3 + s)) * (3 + s) = 1279 :=
    term_cancel _ _ (by positivity)
  have c4 : (-46871 / 3) * (1 / (4 + s)) * (4 + s) = (-46871 / 3) :=
    term_cancel _ _ (by positivity)
  have c5 : (505465 / 6) * (1 / (5 + s)) * (5 + s) = (505465 / 6) :=
    term_cancel _ _ (by positivity)
  have c6 : (-473915 / 2) * (1 / (6 + s)) * (6 + s) = (-473915 / 2) :=
    term_cancel _ _ (by positivity)
  have c7 : (1127735 / 3) * (1 / (7 + s)) * (7 + s) = (1127735 / 3) :=
    term_cancel _ _ (by positivity)
  have c8 : (-1020215 / 3) * (1 / (8 + s)) * (8 + s) = (-1020215 / 3) :=
    term_cancel _ _ (by positivity)
  have c9 : (328125 / 2) * (1 / (9 + s)) * (9 + s) = (328125 / 2) :=
    term_cancel _ _ (by positivity)
  have c10 : (-65625 / 2) * (1 / (10 + s)) * (10 + s) = (-65625 / 2) :=
    term_cancel _ _ (by positivity)
  have hf : ((1 / 12) * (1 / (1 + s)) + (-385 / 12) * (1 / (2 + s)) + 1279 * (1 / (3 + s)) + (-46871 /
      3) * (1 / (4 + s)) + (505465 / 6) * (1 / (5 + s)) + (-473915 / 2) * (1 / (6 + s)) +
      (1127735 / 3) * (1 / (7 + s)) + (-1020215 / 3) * (1 / (8 + s)) + (328125 / 2) * (1 / (9 +
      s)) + (-65625 / 2) * (1 / (10 + s)))
      * ((1 + s) * (2 + s) * (3 + s) * (4 + s) * (5 + s) * (6 + s) * (7 + s) * (8 + s) * (9 + s) * (10 + s))
      = 3628800 + 8113260 * s ^ (1 : ℕ) + 6257793 * s ^ (2 : ℕ) + (5766049 / 3) * s ^ (3 : ℕ) +
        (1227889 / 12) * s ^ (4 : ℕ) + (-216290 / 3) * s ^ (5 : ℕ) + (26657 / 6) * s ^ (6 : ℕ) +
        (-179 / 3) * s ^ (7 : ℕ) + (1 / 12) * s ^ (8 : ℕ) := by
    linear_combination (2 + s) * (3 + s) * (4 + s) * (5 + s) * (6 + s) * (7 + s) * (8 + s) * (9 + s) * (10 + s) *
      c1 + (1 + s) * (3 + s) * (4 + s) * (5 + s) * (6 + s) * (7 + s) * (8 + s) * (9 + s) * (10 +
      s) * c2 + (1 + s) * (2 + s) * (4 + s) * (5 + s) * (6 + s) * (7 + s) * (8 + s) * (9 + s) *
      (10 + s) * c3 + (1 + s) * (2 + s) * (3 + s) * (5 + s) * (6 + s) * (7 + s) * (8 + s) * (9 +
      s) * (10 + s) * c4 + (1 + s) * (2 + s) * (3 + s) * (4 + s) * (6 + s) * (7 + s) * (8 + s) *
      (9 + s) * (10 + s) * c5 + (1 + s) * (2 + s) * (3 + s) * (4 + s) * (5 + s) * (7 + s) * (8 +
      s) * (9 + s) * (10 + s) * c6 + (1 + s) * (2 + s) * (3 + s) * (4 + s) * (5 + s) * (6 + s) *
      (8 + s) * (9 + s) * (10 + s) * c7 + (1 + s) * (2 + s) * (3 + s) * (4 + s) * (5 + s) * (6 +
      s) * (7 + s) * (9 + s) * (10 + s) * c8 + (1 + s) * (2 + s) * (3 + s) * (4 + s) * (5 + s) *
      (6 + s) * (7 + s) * (8 + s) * (10 + s) * c9 + (1 + s) * (2 + s) * (3 + s) * (4 + s) * (5 +
      s) * (6 + s) * (7 + s) * (8 + s) * (9 + s) * c10
  have h1 := mul_le_mul_of_nonneg_left (mul_le_mul_of_nonneg_right hlo hD.le)
    (by norm_num : (0 : ℝ) ≤ (1003 / 1000))
  have h2 := mul_le_mul_of_nonneg_left (mul_le_mul_of_nonneg_right hhi hD.le)
    (by norm_num : (0 : ℝ) ≤ (997 / 1000))
  refine abs_sub_le_iff.mpr ⟨sub_le_iff_le_add.mpr ?_, sub_le_comm.mpr ?_⟩
  · apply le_of_mul_le_mul_right _ hD
    rw [hf]
    exact le_trans (sub_nonneg.mp hup) (le_of_le_of_eq h1 (by ring))
  · apply le_of_mul_le_mul_right _ hD
    rw [hf]
    exact le_trans (le_of_eq_of_le (by ring) h2) (sub_nonneg.mp hdn)

theorem stehfest_piece_ten_one (s e : ℝ) (hs0 : 0 ≤ s) (hs1 : s ≤ 1)
    (hlo : 1 - 0.69314718080000 * s ^ (1 : ℕ) + 0.24022650677892 * s ^ (2 : ℕ) - 0.05550410872249 *
        s ^ (3 : ℕ) + 0.00961812909320 * s ^ (4 : ℕ) - 0.00133335581696 * s ^ (5 : ℕ) +
        0.00015403530358 * s ^ (6 : ℕ) - 0.00001525273385 * s ^ (7 : ℕ) - 0.00000148674227 * s ^
        (8 : ℕ) ≤ e)
    (hhi : e ≤ 1 - 0.69314718030000 * s ^ (1 : ℕ) + 0.24022650712550 * s ^ (2 : ℕ) - 0.05550410860237 *
        s ^ (3 : ℕ) + 0.00961812912096 * s ^ (4 : ℕ) - 0.00133335581214 * s ^ (5 : ℕ) +
        0.00015403530426 * s ^ (6 : ℕ) - 0.00001525273376 * s ^ (7 : ℕ) + 0.00000148674227 * s ^
        (8 : ℕ)) :
    |((1 / 12) * (1 / (2 + s)) + (-385 / 12) * (1 / (3 + s)) + 1279 * (1 / (4 + s)) + (-46871 /
      3) * (1 / (5 + s)) + (505465 / 6) * (1 / (6 + s)) + (-473915 / 2) * (1 / (7 + s)) +
      (1127735 / 3) * (1 / (8 + s)) + (-1020215 / 3) * (1 / (9 + s)) + (328125 / 2) * (1 / (10 +
      s)) + (-65625 / 2) * (1 / (11 + s)))
        - (1 / 2) * e| ≤ (3 / 1000) * ((1 / 2) * e) := by
  obtain ⟨r, hr0, hr⟩ : ∃ r : ℝ, 0 ≤ r ∧ r = 1 - s := ⟨1 - s, sub_nonneg.mpr hs1, rfl⟩
  have hD : 0 < (2 + s) * (3 + s) * (4 + s) * (5 + s) * (6 + s) * (7 + s) * (8 + s) * (9 + s) * (10 + s) * (11 + s) := by positivity
  have eu : (1003 / 2000) * ((1 - 0.69314718080000 * s ^ (1 : ℕ) + 0.24022650677892 * s ^ (2 : ℕ) - 0.05550410872249
          * s ^ (3 : ℕ) + 0.00961812909320 * s ^ (4 : ℕ) - 0.00133335581696 * s ^ (5 : ℕ) +
          0.00015403530358 * s ^ (6 : ℕ) - 0.00001525273385 * s ^ (7 : ℕ) - 0.00000148674227 * s
          ^ (8 : ℕ))
        * ((2 + s) * (3 + s) * (4 + s) * (5 + s) * (6 + s) * (7 + s) * (8 + s) * (9 + s) * (10 + s) * (11 + s)))
      - (19956480 + 26469948 * s ^ (1 : ℕ) + (35946635 / 3) * s ^ (2 : ℕ) + 1697119 * s ^ (3 :
          ℕ) + (-774397 / 4) * s ^ (4 : ℕ) + (-46688) * s ^ (5 : ℕ) + (8055 / 2) * s ^ (6 : ℕ) +
          (-59) * s ^ (7 : ℕ) + (1 / 12) * s ^ (8 : ℕ))
      = (1 / 600000000000000000) * (37077120000000000000000 * (s ^ (0 : ℕ) * r ^ (18 : ℕ)) +
        720729084384866304000000 * (s ^ (1 : ℕ) * r ^ (17 : ℕ)) + 6609943504164105290470400 * (s
        ^ (2 : ℕ) * r ^ (16 : ℕ)) + 37999172145722897635694720 * (s ^ (3 : ℕ) * r ^ (15 : ℕ)) +
        153425664929793706002778368 * (s ^ (4 : ℕ) * r ^ (14 : ℕ)) + 461950260317249202757607896
        * (s ^ (5 : ℕ) * r ^ (13 : ℕ)) + 1074715945184525380541753260 * (s ^ (6 : ℕ) * r ^ (12 :
        ℕ)) + 1974976027837249451018593830 * (s ^ (7 : ℕ) * r ^ (11 : ℕ)) +
        2905572674289695940914521269 * (s ^ (8 : ℕ) * r ^ (10 : ℕ)) +
        3446960775604471989162662643 * (s ^ (9 : ℕ) * r ^ (9 : ℕ)) + 3304444835859235125171936642
        * (s ^ (10 : ℕ) * r ^ (8 : ℕ)) + 2553150350458948863237360476 * (s ^ (11 : ℕ) * r ^ (7 :
        ℕ)) + 1577679521901390182282275544 * (s ^ (12 : ℕ) * r ^ (6 : ℕ)) +
        768911122099374520381376133 * (s ^ (13 : ℕ) * r ^ (5 : ℕ)) + 288976550026602951288896656
        * (s ^ (14 : ℕ) * r ^ (4 : ℕ)) + 80784842889917362019557516 * (s ^ (15 : ℕ) * r ^ (3 :
        ℕ)) + 15813311207768370755312352 * (s ^ (16 : ℕ) * r ^ (2 : ℕ)) +
        1933279385254096223833920 * (s ^ (17 : ℕ) * r ^ (1 : ℕ)) + 111035799397039131993600 * (s
        ^ (18 : ℕ) * r ^ (0 : ℕ))) := by
    rw [hr]
    ring
  have hup := nonneg_of_eq eu
    (mul_nonneg (by norm_num) (add_nonneg (add_nonneg (add_nonneg (add_nonneg (add_nonneg
      (add_nonneg (add_nonneg (add_nonneg (add_nonneg (add_nonneg (add_nonneg (add_nonneg
      (add_nonneg (add_nonneg (add_nonneg (add_nonneg (add_nonneg (add_nonneg (mul_nonneg (by
      norm_num) (mul_nonneg (pow_nonneg hs0 0) (pow_nonneg hr0 18))) (mul_nonneg (by norm_num)
      (mul_nonneg (pow_nonneg hs0 1) (pow_nonneg hr0 17)))) (mul_nonneg (by norm_num) (mul_nonneg
      (pow_nonneg hs0 2) (pow_nonneg hr0 16)))) (mul_nonneg (by norm_num) (mul_nonneg (pow_nonneg
      hs0 3) (pow_nonneg hr0 15)))) (mul_nonneg (by norm_num) (mul_nonneg (pow_nonneg hs0 4)
      (pow_nonneg hr0 14)))) (mul_nonneg (by norm_num) (mul_nonneg (pow_nonneg hs0 5) (pow_nonneg
      hr0 13)))) (mul_nonneg (by norm_num) (mul_nonneg (pow_nonneg hs0 6) (pow_nonneg hr0 12))))
      (mul_nonneg (by norm_num) (mul_nonneg (pow_nonneg hs0 7) (pow_nonneg hr0 11)))) (mul_nonneg
      (by norm_num) (mul_nonneg (pow_nonneg hs0 8) (pow_nonneg hr0 10)))) (mul_nonneg (by
      norm_num) (mul_nonneg (pow_nonneg hs0 9) (pow_nonneg hr0 9)))) (mul_nonneg (by norm_num)
      (mul_nonneg (pow_nonneg hs0 10) (pow_nonneg hr0 8)))) (mul_nonneg (by norm_num) (mul_nonneg
      (pow_nonneg hs0 11) (pow_nonneg hr0 7)))) (mul_nonneg (by norm_num) (mul_nonneg (pow_nonneg
      hs0 12) (pow_nonneg hr0 6)))) (mul_nonneg (by norm_num) (mul_nonneg (pow_nonneg hs0 13)
      (pow_nonneg hr0 5)))) (mul_nonneg (by norm_num) (mul_nonneg (pow_nonneg hs0 14) (pow_nonneg
      hr0 4)))) (mul_nonneg (by norm_num) (mul_nonneg (pow_nonneg hs0 15) (pow_nonneg hr0 3))))
      (mul_nonneg (by norm_num) (mul_nonneg (pow_nonneg hs0 16) (pow_nonneg hr0 2)))) (mul_nonneg
      (by norm_num) (mul_nonneg (pow_nonneg hs0 17) (pow_nonneg hr0 1)))) (mul_nonneg (by
      norm_num) (mul_nonneg (pow_nonneg hs0 18) (pow_nonneg hr0 0)))))
  clear eu
  have ed : (19956480 + 26469948 * s ^ (1 : ℕ) + (35946635 / 3) * s ^ (2 : ℕ) + 1697119 * s ^ (3 :
          ℕ) + (-774397 / 4) * s ^ (4 : ℕ) + (-46688) * s ^ (5 : ℕ) + (8055 / 2) * s ^ (6 : ℕ) +
          (-59) * s ^ (7 : ℕ) + (1 / 12) * s ^ (8 : ℕ))
      - (997 / 2000) * ((1 - 0.69314718030000 * s ^ (1 : ℕ) + 0.24022650712550 * s ^ (2 : ℕ) - 0.05550410860237
          * s ^ (3 : ℕ) + 0.00961812912096 * s ^ (4 : ℕ) - 0.00133335581214 * s ^ (5 : ℕ) +
          0.00015403530426 * s ^ (6 : ℕ) - 0.00001525273376 * s ^ (7 : ℕ) + 0.00000148674227 * s
          ^ (8 : ℕ))
        * ((2 + s) * (3 + s) * (4 + s) * (5 + s) * (6 + s) * (7 + s) * (8 + s) * (9 + s) * (10 + s) * (11 + s)))
      = (1 / 600000000000000000) * (34773120000000000000000 * (s ^ (0 : ℕ) * r ^ (18 : ℕ)) +
        667901110349772864000000 * (s ^ (1 : ℕ) * r ^ (17 : ℕ)) + 6046871557245507429760000 * (s
        ^ (2 : ℕ) * r ^ (16 : ℕ)) + 34292075259567655417873600 * (s ^ (3 : ℕ) * r ^ (15 : ℕ)) +
        136531291142219277829204080 * (s ^ (4 : ℕ) * r ^ (14 : ℕ)) + 405355371624939360555387392
        * (s ^ (5 : ℕ) * r ^ (13 : ℕ)) + 930304229277250312582314560 * (s ^ (6 : ℕ) * r ^ (12 :
        ℕ)) + 1688049015482998521935678928 * (s ^ (7 : ℕ) * r ^ (11 : ℕ)) +
        2455767130671312208188125529 * (s ^ (8 : ℕ) * r ^ (10 : ℕ)) +
        2886827092204961919476107497 * (s ^ (9 : ℕ) * r ^ (9 : ℕ)) + 2749654147716107143266434232
        * (s ^ (10 : ℕ) * r ^ (8 : ℕ)) + 2117846805500872270302532774 * (s ^ (11 : ℕ) * r ^ (7 :
        ℕ)) + 1309782700231155211795434325 * (s ^ (12 : ℕ) * r ^ (6 : ℕ)) +
        641831867675679532192762464 * (s ^ (13 : ℕ) * r ^ (5 : ℕ)) + 243808150272645900126452300
        * (s ^ (14 : ℕ) * r ^ (4 : ℕ)) + 69294461033043769917558656 * (s ^ (15 : ℕ) * r ^ (3 :
        ℕ)) + 13879664491469755942867008 * (s ^ (16 : ℕ) * r ^ (2 : ℕ)) +
        1748669261462491654702080 * (s ^ (17 : ℕ) * r ^ (1 : ℕ)) + 104300674469532471398400 * (s
        ^ (18 : ℕ) * r ^ (0 : ℕ))) := by
    rw [hr]
    ring
  have hdn := nonneg_of_eq ed
    (mul_nonneg (by norm_num) (add_nonneg (add_nonneg (add_nonneg (add_nonneg (add_nonneg
      (add_nonneg (add_nonneg (add_nonneg (add_nonneg (add_nonneg (add_nonneg (add_nonneg
      (add_nonneg (add_nonneg (add_nonneg (add_nonneg (add_nonneg (add_nonneg (mul_nonneg (by
      norm_num) (mul_nonneg (pow_nonneg hs0 0) (pow_nonneg hr0 18))) (mul_nonneg (by norm_num)
      (mul_nonneg (pow_nonneg hs0 1) (pow_nonneg hr0 17)))) (mul_nonneg (by norm_num) (mul_nonneg
      (pow_nonneg hs0 2) (pow_nonneg hr0 16)))) (mul_nonneg (by norm_num) (mul_nonneg (pow_nonneg
      hs0 3) (pow_nonneg hr0 15)))) (mul_nonneg (by norm_num) (mul_nonneg (pow_nonneg hs0 4)
      (pow_nonneg hr0 14)))) (mul_nonneg (by norm_num) (mul_nonneg (pow_nonneg hs0 5) (pow_nonneg
      hr0 13)))) (mul_nonneg (by norm_num) (mul_nonneg (pow_nonneg hs0 6) (pow_nonneg hr0 12))))
      (mul_nonneg (by norm_num) (mul_nonneg (pow_nonneg hs0 7) (pow_nonneg hr0 11)))) (mul_nonneg
      (by norm_num) (mul_nonneg (pow_nonneg hs0 8) (pow_nonneg hr0 10)))) (mul_nonneg (by
      norm_num) (mul_nonneg (pow_nonneg hs0 9) (pow_nonneg hr0 9)))) (mul_nonneg (by norm_num)
      (mul_nonneg (pow_nonneg hs0 10) (pow_nonneg hr0 8)))) (mul_nonneg (by norm_num) (mul_nonneg
      (pow_nonneg hs0 11) (pow_nonneg hr0 7)))) (mul_nonneg (by norm_num) (mul_nonneg (pow_nonneg
      hs0 12) (pow_nonneg hr0 6)))) (mul_nonneg (by norm_num) (mul_nonneg (pow_nonneg hs0 13)
      (pow_nonneg hr0 5)))) (mul_nonneg (by norm_num) (mul_nonneg (pow_nonneg hs0 14) (pow_nonneg
      hr0 4)))) (mul_nonneg (by norm_num) (mul_nonneg (pow_nonneg hs0 15) (pow_nonneg hr0 3))))
      (mul_nonneg (by norm_num) (mul_nonneg (pow_nonneg hs0 16) (pow_nonneg hr0 2)))) (mul_nonneg
      (by norm_num) (mul_nonneg (pow_nonneg hs0 17) (pow_nonneg hr0 1)))) (mul_nonneg (by
      norm_num) (mul_nonneg (pow_nonneg hs0 18) (pow_nonneg hr0 0)))))
  clear ed
  have c1 : (1 / 12) * (1 / (2 + s)) * (2 + s) = (1 / 12) :=
    term_cancel _ _ (by positivity)
  have c2 : (-385 / 12) * (1 / (3 + s)) * (3 + s) = (-385 / 12) :=
    term_cancel _ _ (by positivity)
  have c3 : 1279 * (1 / (4 + s)) * (4 + s) = 1279 :=
    term_cancel _ _ (by positivity)
  have c4 : (-46871 / 3) * (1 / (5 + s)) * (5 + s) = (-46871 / 3) :=
    term_cancel _ _ (by positivity)
  have c5 : (505465 / 6) * (1 / (6 + s)) * (6 + s) = (505465 / 6) :=
    term_cancel _ _ (by positivity)
  have c6 : (-473915 / 2) * (1 / (7 + s)) * (7 + s) = (-473915 / 2) :=
    term_cancel _ _ (by positivity)
  have c7 : (1127735 / 3) * (1 / (8 + s)) * (8 + s) = (1127735 / 3) :=
    term_cancel _ _ (by positivity)
  have c8 : (-1020215 / 3) * (1 / (9 + s)) * (9 + s) = (-1020215 / 3) :=
    term_cancel _ _ (by positivity)
  have c9 : (328125 / 2) * (1 / (10 + s)) * (10 + s) = (328125 / 2) :=
    term_cancel _ _ (by positivity)
  have c10 : (-65625 / 2) * (1 / (11 + s)) * (11 + s) = (-65625 / 2) :=
    term_cancel _ _ (by positivity)
  have hf : ((1 / 12) * (1 / (2 + s)) + (-385 / 12) * (1 / (3 + s)) + 1279 * (1 / (4 + s)) + (-46871 /
      3) * (1 / (5 + s)) + (505465 / 6) * (1 / (6 + s)) + (-473915 / 2) * (1 / (7 + s)) +
      (1127735 / 3) * (1 / (8 + s)) + (-1020215 / 3) * (1 / (9 + s)) + (328125 / 2) * (1 / (10 +
      s)) + (-65625 / 2) * (1 / (11 + s)))
      * ((2 + s) * (3 + s) * (4 + s) * (5 + s) * (6 + s) * (7 + s) * (8 + s) * (9 + s) * (10 + s) * (11 + s))
      = 19956480 + 26469948 * s ^ (1 : ℕ) + (35946635 / 3) * s ^ (2 : ℕ) + 1697119 * s ^ (3 : ℕ)
        + (-774397 / 4) * s ^ (4 : ℕ) + (-46688) * s ^ (5 : ℕ) + (8055 / 2) * s ^ (6 : ℕ) + (-59)
        * s ^ (7 : ℕ) + (1 / 12) * s ^ (8 : ℕ) := by
    linear_combination (3 + s) * (4 + s) * (5 + s) * (6 + s) * (7 + s) * (8 + s) * (9 + s) * (10 + s) * (11 + s) *
      c1 + (2 + s) * (4 + s) * (5 + s) * (6 + s) * (7 + s) * (8 + s) * (9 + s) * (10 + s) * (11 +
      s) * c2 + (2 + s) * (3 + s) * (5 + s) * (6 + s) * (7 + s) * (8 + s) * (9 + s) * (10 + s) *
      (11 + s) * c3 + (2 + s) * (3 + s) * (4 + s) * (6 + s) * (7 + s) * (8 + s) * (9 + s) * (10 +
      s) * (11 + s) * c4 + (2 + s) * (3 + s) * (4 + s) * (5 + s) * (7 + s) * (8 + s) * (9 + s) *
      (10 + s) * (11 + s) * c5 + (2 + s) * (3 + s) * (4 + s) * (5 + s) * (6 + s) * (8 + s) * (9 +
      s) * (10 + s) * (11 + s) * c6 + (2 + s) * (3 + s) * (4 + s) * (5 + s) * (6 + s) * (7 + s) *
      (9 + s) * (10 + s) * (11 + s) * c7 + (2 + s) * (3 + s) * (4 + s) * (5 + s) * (6 + s) * (7 +
      s) * (8 + s) * (10 + s) * (11 + s) * c8 + (2 + s) * (3 + s) * (4 + s) * (5 + s) * (6 + s) *
      (7 + s) * (8 + s) * (9 + s) * (11 + s) * c9 + (2 + s) * (3 + s) * (4 + s) * (5 + s) * (6 +
      s) * (7 + s) * (8 + s) * (9 + s) * (10 + s) * c10
  have h1 := mul_le_mul_of_nonneg_left (mul_le_mul_of_nonneg_right hlo hD.le)
    (by norm_num : (0 : ℝ) ≤ (1003 / 2000))
  have h2 := mul_le_mul_of_nonneg_left (mul_le_mul_of_nonneg_right hhi hD.le)
    (by norm_num : (0 : ℝ) ≤ (997 / 2000))
  refine abs_sub_le_iff.mpr ⟨sub_le_iff_le_add.mpr ?_, sub_le_comm.mpr ?_⟩
  · apply le_of_mul_le_mul_right _ hD
    rw [hf]
    exact le_trans (sub_nonneg.mp hup) (le_of_le_of_eq h1 (by ring))
  · apply le_of_mul_le_mul_right _ hD
    rw [hf]
    exact le_trans (le_of_eq_of_le (by ring) h2) (sub_nonneg.mp hdn)

theorem stehfest_piece_ten_two (s e : ℝ) (hs0 : 0 ≤ s) (hs1 : s ≤ 1)
    (hlo : 1 - 0.69314718080000 * s ^ (1 : ℕ) + 0.24022650677892 * s ^ (2 : ℕ) - 0.05550410872249 *
        s ^ (3 : ℕ) + 0.00961812909320 * s ^ (4 : ℕ) - 0.00133335581696 * s ^ (5 : ℕ) +
        0.00015403530358 * s ^ (6 : ℕ) - 0.00001525273385 * s ^ (7 : ℕ) - 0.00000148674227 * s ^
        (8 : ℕ) ≤ e)
    (hhi : e ≤ 1 - 0.69314718030000 * s ^ (1 : ℕ) + 0.24022650712550 * s ^ (2 : ℕ) - 0.05550410860237 *
        s ^ (3 : ℕ) + 0.00961812912096 * s ^ (4 : ℕ) - 0.00133335581214 * s ^ (5 : ℕ) +
        0.00015403530426 * s ^ (6 : ℕ) - 0.00001525273376 * s ^ (7 : ℕ) + 0.00000148674227 * s ^
        (8 : ℕ)) :
    |((1 / 12) * (1 / (3 + s)) + (-385 / 12) * (1 / (4 + s)) + 1279 * (1 / (5 + s)) + (-46871 /
      3) * (1 / (6 + s)) + (505465 / 6) * (1 / (7 + s)) + (-473915 / 2) * (1 / (8 + s)) +
      (1127735 / 3) * (1 / (9 + s)) + (-1020215 / 3) * (1 / (10 + s)) + (328125 / 2) * (1 / (11 +
      s)) + (-65625 / 2) * (1 / (12 + s)))
        - (1 / 4) * e| ≤ (3 / 1000) * ((1 / 4) * e) := by
  obtain ⟨r, hr0, hr⟩ : ∃ r : ℝ, 0 ≤ r ∧ r = 1 - s := ⟨1 - s, sub_nonneg.mpr hs1, rfl⟩
  have hD : 0 < (3 + s) * (4 + s) * (5 + s) * (6 + s) * (7 + s) * (8 + s) * (9 + s) * (10 + s) * (11 + s) * (12 + s) := by positivity
  have eu : (1003 / 4000) * ((1 - 0.69314718080000 * s ^ (1 : ℕ) + 0.24022650677892 * s ^ (2 : ℕ) - 0.05550410872249
          * s ^ (3 : ℕ) + 0.00961812909320 * s ^ (4 : ℕ) - 0.00133335581696 * s ^ (5 : ℕ) +
          0.00015403530358 * s ^ (6 : ℕ) - 0.00001525273385 * s ^ (7 : ℕ) - 0.00000148674227 * s
          ^ (8 : ℕ))
        * ((3 + s) * (4 + s) * (5 + s) * (6 + s) * (7 + s) * (8 + s) * (9 + s) * (10 + s) * (11 + s) * (12 + s)))
      - (59869440 + 54541644 * s ^ (1 : ℕ) + 15504269 * s ^ (2 : ℕ) + (1602995 / 3) * s ^ (3 :
          ℕ) + (-4424231 / 12) * s ^ (4 : ℕ) + (-71272 / 3) * s ^ (5 : ℕ) + (21701 / 6) * s ^ (6
          : ℕ) + (-175 / 3) * s ^ (7 : ℕ) + (1 / 12) * s ^ (8 : ℕ))
      = (1 / 1200000000000000000) * (222462720000000000000000 * (s ^ (0 : ℕ) * r ^ (18 : ℕ)) +
        4138801706309197824000000 * (s ^ (1 : ℕ) * r ^ (17 : ℕ)) + 36211194714022465982822400 *
        (s ^ (2 : ℕ) * r ^ (16 : ℕ)) + 197888998480370371227992320 * (s ^ (3 : ℕ) * r ^ (15 : ℕ))
        + 756597412505405513806697408 * (s ^ (4 : ℕ) * r ^ (14 : ℕ)) +
        2148006262464046034853660656 * (s ^ (5 : ℕ) * r ^ (13 : ℕ)) +
        4689948427623203048894479900 * (s ^ (6 : ℕ) * r ^ (12 : ℕ)) +
        8046210218063107106291239320 * (s ^ (7 : ℕ) * r ^ (11 : ℕ)) +
        10985804050285636417671128529 * (s ^ (8 : ℕ) * r ^ (10 : ℕ)) +
        12012172549731400924413671313 * (s ^ (9 : ℕ) * r ^ (9 : ℕ)) +
        10527989843287377293968420062 * (s ^ (10 : ℕ) * r ^ (8 : ℕ)) +
        7364149275957655552089120936 * (s ^ (11 : ℕ) * r ^ (7 : ℕ)) +
        4069665279155025376602814954 * (s ^ (12 : ℕ) * r ^ (6 : ℕ)) +
        1746153183797745242218825403 * (s ^ (13 : ℕ) * r ^ (5 : ℕ)) + 565701781058934226884086696
        * (s ^ (14 : ℕ) * r ^ (4 : ℕ)) + 132333626199022015169043316 * (s ^ (15 : ℕ) * r ^ (3 :
        ℕ)) + 20722968632540054905432992 * (s ^ (16 : ℕ) * r ^ (2 : ℕ)) +
        1879242713208904894384320 * (s ^ (17 : ℕ) * r ^ (1 : ℕ)) + 68739130720502905305600 * (s ^
        (18 : ℕ) * r ^ (0 : ℕ))) := by
    rw [hr]
    ring
  have hup := nonneg_of_eq eu
    (mul_nonneg (by norm_num) (add_nonneg (add_nonneg (add_nonneg (add_nonneg (add_nonneg
      (add_nonneg (add_nonneg (add_nonneg (add_nonneg (add_nonneg (add_nonneg (add_nonneg
      (add_nonneg (add_nonneg (add_nonneg (add_nonneg (add_nonneg (add_nonneg (mul_nonneg (by
      norm_num) (mul_nonneg (pow_nonneg hs0 0) (pow_nonneg hr0 18))) (mul_nonneg (by norm_num)
      (mul_nonneg (pow_nonneg hs0 1) (pow_nonneg hr0 17)))) (mul_nonneg (by norm_num) (mul_nonneg
      (pow_nonneg hs0 2) (pow_nonneg hr0 16)))) (mul_nonneg (by norm_num) (mul_nonneg (pow_nonneg
      hs0 3) (pow_nonneg hr0 15)))) (mul_nonneg (by norm_num) (mul_nonneg (pow_nonneg hs0 4)
      (pow_nonneg hr0 14)))) (mul_nonneg (by norm_num) (mul_nonneg (pow_nonneg hs0 5) (pow_nonneg
      hr0 13)))) (mul_nonneg (by norm_num) (mul_nonneg (pow_nonneg hs0 6) (pow_nonneg hr0 12))))
      (mul_nonneg (by norm_num) (mul_nonneg (pow_nonneg hs0 7) (pow_nonneg hr0 11)))) (mul_nonneg
      (by norm_num) (mul_nonneg (pow_nonneg hs0 8) (pow_nonneg hr0 10)))) (mul_nonneg (by
      norm_num) (mul_nonneg (pow_nonneg hs0 9) (pow_nonneg hr0 9)))) (mul_nonneg (by norm_num)
      (mul_nonneg (pow_nonneg hs0 10) (pow_nonneg hr0 8)))) (mul_nonneg (by norm_num) (mul_nonneg
      (pow_nonneg hs0 11) (pow_nonneg hr0 7)))) (mul_nonneg (by norm_num) (mul_nonneg (pow_nonneg
      hs0 12) (pow_nonneg hr0 6)))) (mul_nonneg (by norm_num) (mul_nonneg (pow_nonneg hs0 13)
      (pow_nonneg hr0 5)))) (mul_nonneg (by norm_num) (mul_nonneg (pow_nonneg hs0 14) (pow_nonneg
      hr0 4)))) (mul_nonneg (by norm_num) (mul_nonneg (pow_nonneg hs0 15) (pow_nonneg hr0 3))))
      (mul_nonneg (by norm_num) (mul_nonneg (pow_nonneg hs0 16) (pow_nonneg hr0 2)))) (mul_nonneg
      (by norm_num) (mul_nonneg (pow_nonneg hs0 17) (pow_nonneg hr0 1)))) (mul_nonneg (by
      norm_num) (mul_nonneg (pow_nonneg hs0 18) (pow_nonneg hr0 0)))))
  clear eu
  have ed : (59869440 + 54541644 * s ^ (1 : ℕ) + 15504269 * s ^ (2 : ℕ) + (1602995 / 3) * s ^ (3 :
          ℕ) + (-4424231 / 12) * s ^ (4 : ℕ) + (-71272 / 3) * s ^ (5 : ℕ) + (21701 / 6) * s ^ (6
          : ℕ) + (-175 / 3) * s ^ (7 : ℕ) + (1 / 12) * s ^ (8 : ℕ))
      - (997 / 4000) * ((1 - 0.69314718030000 * s ^ (1 : ℕ) + 0.24022650712550 * s ^ (2 : ℕ) - 0.05550410860237
          * s ^ (3 : ℕ) + 0.00961812912096 * s ^ (4 : ℕ) - 0.00133335581214 * s ^ (5 : ℕ) +
          0.00015403530426 * s ^ (6 : ℕ) - 0.00001525273376 * s ^ (7 : ℕ) + 0.00000148674227 * s
          ^ (8 : ℕ))
        * ((3 + s) * (4 + s) * (5 + s) * (6 + s) * (7 + s) * (8 + s) * (9 + s) * (10 + s) * (11 + s) * (12 + s)))
      = (1 / 1200000000000000000) * (208638720000000000000000 * (s ^ (0 : ℕ) * r ^ (18 : ℕ)) +
        4013353862098637184000000 * (s ^ (1 : ℕ) * r ^ (17 : ℕ)) + 36527558567598612418560000 *
        (s ^ (2 : ℕ) * r ^ (16 : ℕ)) + 209019653928103812172841600 * (s ^ (3 : ℕ) * r ^ (15 : ℕ))
        + 842674453448349708932140480 * (s ^ (4 : ℕ) * r ^ (14 : ℕ)) +
        2541639944726536905823940152 * (s ^ (5 : ℕ) * r ^ (13 : ℕ)) +
        5943189915985802360367995180 * (s ^ (6 : ℕ) * r ^ (12 : ℕ)) +
        11014863660446414622847125438 * (s ^ (7 : ℕ) * r ^ (11 : ℕ)) +
        16400286743297741707439978049 * (s ^ (8 : ℕ) * r ^ (10 : ℕ)) +
        19760127198996688308919493847 * (s ^ (9 : ℕ) * r ^ (9 : ℕ)) +
        19307775575833862872814063352 * (s ^ (10 : ℕ) * r ^ (8 : ℕ)) +
        15259828924359135743825924124 * (s ^ (11 : ℕ) * r ^ (7 : ℕ)) +
        9680622266903897412000182795 * (s ^ (12 : ℕ) * r ^ (6 : ℕ)) +
        4861377879625739951826623704 * (s ^ (13 : ℕ) * r ^ (5 : ℕ)) +
        1889539259139182432271734260 * (s ^ (14 : ℕ) * r ^ (4 : ℕ)) + 548381188986687321919690496
        * (s ^ (15 : ℕ) * r ^ (3 : ℕ)) + 111878138283572057241797568 * (s ^ (16 : ℕ) * r ^ (2 :
        ℕ)) + 14315130837970277694151680 * (s ^ (17 : ℕ) * r ^ (1 : ℕ)) +
        864385589367974042726400 * (s ^ (18 : ℕ) * r ^ (0 : ℕ))) := by
    rw [hr]
    ring
  have hdn := nonneg_of_eq ed
    (mul_nonneg (by norm_num) (add_nonneg (add_nonneg (add_nonneg (add_nonneg (add_nonneg
      (add_nonneg (add_nonneg (add_nonneg (add_nonneg (add_nonneg (add_nonneg (add_nonneg
      (add_nonneg (add_nonneg (add_nonneg (add_nonneg (add_nonneg (add_nonneg (mul_nonneg (by
      norm_num) (mul_nonneg (pow_nonneg hs0 0) (pow_nonneg hr0 18))) (mul_nonneg (by norm_num)
      (mul_nonneg (pow_nonneg hs0 1) (pow_nonneg hr0 17)))) (mul_nonneg (by norm_num) (mul_nonneg
      (pow_nonneg hs0 2) (pow_nonneg hr0 16)))) (mul_nonneg (by norm_num) (mul_nonneg (pow_nonneg
      hs0 3) (pow_nonneg hr0 15)))) (mul_nonneg (by norm_num) (mul_nonneg (pow_nonneg hs0 4)
      (pow_nonneg hr0 14)))) (mul_nonneg (by norm_num) (mul_nonneg (pow_nonneg hs0 5) (pow_nonneg
      hr0 13)))) (mul_nonneg (by norm_num) (mul_nonneg (pow_nonneg hs0 6) (pow_nonneg hr0 12))))
      (mul_nonneg (by norm_num) (mul_nonneg (pow_nonneg hs0 7) (pow_nonneg hr0 11)))) (mul_nonneg
      (by norm_num) (mul_nonneg (pow_nonneg hs0 8) (pow_nonneg hr0 10)))) (mul_nonneg (by
      norm_num) (mul_nonneg (pow_nonneg hs0 9) (pow_nonneg hr0 9)))) (mul_nonneg (by norm_num)
      (mul_nonneg (pow_nonneg hs0 10) (pow_nonneg hr0 8)))) (mul_nonneg (by norm_num) (mul_nonneg
      (pow_nonneg hs0 11) (pow_nonneg hr0 7)))) (mul_nonneg (by norm_num) (mul_nonneg (pow_nonneg
      hs0 12) (pow_nonneg hr0 6)))) (mul_nonneg (by norm_num) (mul_nonneg (pow_nonneg hs0 13)
      (pow_nonneg hr0 5)))) (mul_nonneg (by norm_num) (mul_nonneg (pow_nonneg hs0 14) (pow_nonneg
      hr0 4)))) (mul_nonneg (by norm_num) (mul_nonneg (pow_nonneg hs0 15) (pow_nonneg hr0 3))))
      (mul_nonneg (by norm_num) (mul_nonneg (pow_nonneg hs0 16) (pow_nonneg hr0 2)))) (mul_nonneg
      (by norm_num) (mul_nonneg (pow_nonneg hs0 17) (pow_nonneg hr0 1)))) (mul_nonneg (by
      norm_num) (mul_nonneg (pow_nonneg hs0 18) (pow_nonneg hr0 0)))))
  clear ed
  have c1 : (1 / 12) * (1 / (3 + s)) * (3 + s) = (1 / 12) :=
    term_cancel _ _ (by positivity)
  have c2 : (-385 / 12) * (1 / (4 + s)) * (4 + s) = (-385 / 12) :=
    term_cancel _ _ (by positivity)
  have c3 : 1279 * (1 / (5 + s)) * (5 + s) = 1279 :=
    term_cancel _ _ (by positivity)
  have c4 : (-46871 / 3) * (1 / (6 + s)) * (6 + s) = (-46871 / 3) :=
    term_cancel _ _ (by positivity)
  have c5 : (505465 / 6) * (1 / (7 + s)) * (7 + s) = (505465 / 6) :=
    term_cancel _ _ (by positivity)
  have c6 : (-473915 / 2) * (1 / (8 + s)) * (8 + s) = (-473915 / 2) :=
    term_cancel _ _ (by positivity)
  have c7 : (1127735 / 3) * (1 / (9 + s)) * (9 + s) = (1127735 / 3) :=
    term_cancel _ _ (by positivity)
  have c8 : (-1020215 / 3) * (1 / (10 + s)) * (10 + s) = (-1020215 / 3) :=
    term_cancel _ _ (by positivity)
  have c9 : (328125 / 2) * (1 / (11 + s)) * (11 + s) = (328125 / 2) :=
    term_cancel _ _ (by positivity)
  have c10 : (-65625 / 2) * (1 / (12 + s)) * (12 + s) = (-65625 / 2) :=
    term_cancel _ _ (by positivity)
  have hf : ((1 / 12) * (1 / (3 + s)) + (-385 / 12) * (1 / (4 + s)) + 1279 * (1 / (5 + s)) + (-46871 /
      3) * (1 / (6 + s)) + (505465 / 6) * (1 / (7 + s)) + (-473915 / 2) * (1 / (8 + s)) +
      (1127735 / 3) * (1 / (9 + s)) + (-1020215 / 3) * (1 / (10 + s)) + (328125 / 2) * (1 / (11 +
      s)) + (-65625 / 2) * (1 / (12 + s)))
      * ((3 + s) * (4 + s) * (5 + s) * (6 + s) * (7 + s) * (8 + s) * (9 + s) * (10 + s) * (11 + s) * (12 + s))
      = 59869440 + 54541644 * s ^ (1 : ℕ) + 15504269 * s ^ (2 : ℕ) + (1602995 / 3) * s ^ (3 : ℕ)
        + (-4424231 / 12) * s ^ (4 : ℕ) + (-71272 / 3) * s ^ (5 : ℕ) + (21701 / 6) * s ^ (6 : ℕ)
        + (-175 / 3) * s ^ (7 : ℕ) + (1 / 12) * s ^ (8 : ℕ) := by
    linear_combination (4 + s) * (5 + s) * (6 + s) * (7 + s) * (8 + s) * (9 + s) * (10 + s) * (11 + s) * (12 + s)
      * c1 + (3 + s) * (5 + s) * (6 + s) * (7 + s) * (8 + s) * (9 + s) * (10 + s) * (11 + s) *
      (12 + s) * c2 + (3 + s) * (4 + s) * (6 + s) * (7 + s) * (8 + s) * (9 + s) * (10 + s) * (11
      + s) * (12 + s) * c3 + (3 + s) * (4 + s) * (5 + s) * (7 + s) * (8 + s) * (9 + s) * (10 + s)
      * (11 + s) * (12 + s) * c4 + (3 + s) * (4 + s) * (5 + s) * (6 + s) * (8 + s) * (9 + s) *
      (10 + s) * (11 + s) * (12 + s) * c5 + (3 + s) * (4 + s) * (5 + s) * (6 + s) * (7 + s) * (9
      + s) * (10 + s) * (11 + s) * (12 + s) * c6 + (3 + s) * (4 + s) * (5 + s) * (6 + s) * (7 +
      s) * (8 + s) * (10 + s) * (11 + s) * (12 + s) * c7 + (3 + s) * (4 + s) * (5 + s) * (6 + s)
      * (7 + s) * (8 + s) * (9 + s) * (11 + s) * (12 + s) * c8 + (3 + s) * (4 + s) * (5 + s) * (6
      + s) * (7 + s) * (8 + s) * (9 + s) * (10 + s) * (12 + s) * c9 + (3 + s) * (4 + s) * (5 + s)
      * (6 + s) * (7 + s) * (8 + s) * (9 + s) * (10 + s) * (11 + s) * c10
  have h1 := mul_le_mul_of_nonneg_left (mul_le_mul_of_nonneg_right hlo hD.le)
    (by norm_num : (0 : ℝ) ≤ (1003 / 4000))
  have h2 := mul_le_mul_of_nonneg_left (mul_le_mul_of_nonneg_right hhi hD.le)
    (by norm_num : (0 : ℝ) ≤ (997 / 4000))
  refine abs_sub_le_iff.mpr ⟨sub_le_iff_le_add.mpr ?_, sub_le_comm.mpr ?_⟩
  · apply le_of_mul_le_mul_right _ hD
    rw [hf]
    exact le_trans (sub_nonneg.mp hup) (le_of_le_of_eq h1 (by ring))
  · apply le_of_mul_le_mul_right _ hD
    rw [hf]
    exact le_trans (le_of_eq_of_le (by ring) h2) (sub_nonneg.mp hdn)

theorem stehfest_range_four (x : ℝ) (hx0 : 0 ≤ x) (hx3 : x ≤ 3 * Real.log 2) :
    |(-2 * (Real.log 2 / (1 * Real.log 2 + x)) + 26 * (Real.log 2 / (2 * Real.log 2 + x)) + -48 *
      (Real.log 2 / (3 * Real.log 2 + x)) + 24 * (Real.log 2 / (4 * Real.log 2 + x)))
        - Real.exp (-x)| ≤ 0.08 * Real.exp (-x) := by
  have hL : 0 < Real.log 2 := Real.log_pos (by norm_num)
  have et : (0.08 : ℝ) = (2 / 25) := by norm_num
  rw [et]
  rcases range_split x hx0 hx3 with ⟨s, hs0, hs1, hx⟩ | ⟨s, hs0, hs1, hx⟩ | ⟨s, hs0, hs1, hx⟩
  · subst hx
    obtain ⟨hlo, hhi⟩ := exp_two_pow_bounds s hs0 hs1
    rw [kernel_shift _ hL 1 0 1 s (by norm_num) (by positivity), kernel_shift _ hL 2 0 2 s (by
      norm_num) (by positivity), kernel_shift _ hL 3 0 3 s (by norm_num) (by positivity),
      kernel_shift _ hL 4 0 4 s (by norm_num) (by positivity),
      exp_shift_zero s]
    exact stehfest_piece_four_zero s _ hs0 hs1 hlo hhi
  · subst hx
    obtain ⟨hlo, hhi⟩ := exp_two_pow_bounds s hs0 hs1
    rw [kernel_shift _ hL 1 1 2 s (by norm_num) (by positivity), kernel_shift _ hL 2 1 3 s (by
      norm_num) (by positivity), kernel_shift _ hL 3 1 4 s (by norm_num) (by positivity),
      kernel_shift _ hL 4 1 5 s (by norm_num) (by positivity),
      exp_shift_one s]
    exact stehfest_piece_four_one s _ hs0 hs1 hlo hhi
  · subst hx
    obtain ⟨hlo, hhi⟩ := exp_two_pow_bounds s hs0 hs1
    rw [kernel_shift _ hL 1 2 3 s (by norm_num) (by positivity), kernel_shift _ hL 2 2 4 s (by
      norm_num) (by positivity), kernel_shift _ hL 3 2 5 s (by norm_num) (by positivity),
      kernel_shift _ hL 4 2 6 s (by norm_num) (by positivity),
      exp_shift_two s]
    exact stehfest_piece_four_two s _ hs0 hs1 hlo hhi

theorem stehfest_range_six (x : ℝ) (hx0 : 0 ≤ x) (hx3 : x ≤ 3 * Real.log 2) :
    |(1 * (Real.log 2 / (1 * Real.log 2 + x)) + -49 * (Real.log 2 / (2 * Real.log 2 + x)) + 366 *
      (Real.log 2 / (3 * Real.log 2 + x)) + -858 * (Real.log 2 / (4 * Real.log 2 + x)) + 810 *
      (Real.log 2 / (5 * Real.log 2 + x)) + -270 * (Real.log 2 / (6 * Real.log 2 + x)))
        - Real.exp (-x)| ≤ 0.03 * Real.exp (-x) := by
  have hL : 0 < Real.log 2 := Real.log_pos (by norm_num)
  have et : (0.03 : ℝ) = (3 / 100) := by norm_num
  rw [et]
  rcases range_split x hx0 hx3 with ⟨s, hs0, hs1, hx⟩ | ⟨s, hs0, hs1, hx⟩ | ⟨s, hs0, hs1, hx⟩
  · subst hx
    obtain ⟨hlo, hhi⟩ := exp_two_pow_bounds s hs0 hs1
    rw [kernel_shift _ hL 1 0 1 s (by norm_num) (by positivity), kernel_shift _ hL 2 0 2 s (by
      norm_num) (by positivity), kernel_shift _ hL 3 0 3 s (by norm_num) (by positivity),
      kernel_shift _ hL 4 0 4 s (by norm_num) (by positivity), kernel_shift _ hL 5 0 5 s (by
      norm_num) (by positivity), kernel_shift _ hL 6 0 6 s (by norm_num) (by positivity),
      exp_shift_zero s]
    exact stehfest_piece_six_zero s _ hs0 hs1 hlo hhi
  · subst hx
    obtain ⟨hlo, hhi⟩ := exp_two_pow_bounds s hs0 hs1
    rw [kernel_shift _ hL 1 1 2 s (by norm_num) (by positivity), kernel_shift _ hL 2 1 3 s (by
      norm_num) (by positivity), kernel_shift _ hL 3 1 4 s (by norm_num) (by positivity),
      kernel_shift _ hL 4 1 5 s (by norm_num) (by positivity), kernel_shift _ hL 5 1 6 s (by
      norm_num) (by positivity), kernel_shift _ hL 6 1 7 s (by norm_num) (by positivity),
      exp_shift_one s]
    exact stehfest_piece_six_one s _ hs0 hs1 hlo hhi
  · subst hx
    obtain ⟨hlo, hhi⟩ := exp_two_pow_bounds s hs0 hs1
    rw [kernel_shift _ hL 1 2 3 s (by norm_num) (by positivity), kernel_shift _ hL 2 2 4 s (by
      norm_num) (by positivity), kernel_shift _ hL 3 2 5 s (by norm_num) (by positivity),
      kernel_shift _ hL 4 2 6 s (by norm_num) (by positivity), kernel_shift _ hL 5 2 7 s (by
      norm_num) (by positivity), kernel_shift _ hL 6 2 8 s (by norm_num) (by positivity),
      exp_shift_two s]
    exact stehfest_piece_six_two s _ hs0 hs1 hlo hhi

theorem stehfest_range_eight (x : ℝ) (hx0 : 0 ≤ x) (hx3 : x ≤ 3 * Real.log 2) :
    |((-1 / 3) * (Real.log 2 / (1 * Real.log 2 + x)) + (145 / 3) * (Real.log 2 / (2 * Real.log 2
      + x)) + -906 * (Real.log 2 / (3 * Real.log 2 + x)) + (16394 / 3) * (Real.log 2 / (4 *
      Real.log 2 + x)) + (-43130 / 3) * (Real.log 2 / (5 * Real.log 2 + x)) + 18730 * (Real.log 2
      / (6 * Real.log 2 + x)) + (-35840 / 3) * (Real.log 2 / (7 * Real.log 2 + x)) + (8960 / 3) *
      (Real.log 2 / (8 * Real.log 2 + x)))
        - Real.exp (-x)| ≤ 0.011 * Real.exp (-x) := by
  have hL : 0 < Real.log 2 := Real.log_pos (by norm_num)
  have et : (0.011 : ℝ) = (11 / 1000) := by norm_num
  rw [et]
  rcases range_split x hx0 hx3 with ⟨s, hs0, hs1, hx⟩ | ⟨s, hs0, hs1, hx⟩ | ⟨s, hs0, hs1, hx⟩
  · subst hx
    obtain ⟨hlo, hhi⟩ := exp_two_pow_bounds s hs0 hs1
    rw [kernel_shift _ hL 1 0 1 s (by norm_num) (by positivity), kernel_shift _ hL 2 0 2 s (by
      norm_num) (by positivity), kernel_shift _ hL 3 0 3 s (by norm_num) (by positivity),
      kernel_shift _ hL 4 0 4 s (by norm_num) (by positivity), kernel_shift _ hL 5 0 5 s (by
      norm_num) (by positivity), kernel_shift _ hL 6 0 6 s (by norm_num) (by positivity),
      kernel_shift _ hL 7 0 7 s (by norm_num) (by positivity), kernel_shift _ hL 8 0 8 s (by
      norm_num) (by positivity),
      exp_shift_zero s]
    exact stehfest_piece_eight_zero s _ hs0 hs1 hlo hhi
  · subst hx
    obtain ⟨hlo, hhi⟩ := exp_two_pow_bounds s hs0 hs1
    rw [kernel_shift _ hL 1 1 2 s (by norm_num) (by positivity), kernel_shift _ hL 2 1 3 s (by
      norm_num) (by positivity), kernel_shift _ hL 3 1 4 s (by norm_num) (by positivity),
      kernel_shift _ hL 4 1 5 s (by norm_num) (by positivity), kernel_shift _ hL 5 1 6 s (by
      norm_num) (by positivity), kernel_shift _ hL 6 1 7 s (by norm_num) (by positivity),
      kernel_shift _ hL 7 1 8 s (by norm_num) (by positivity), kernel_shift _ hL 8 1 9 s (by
      norm_num) (by positivity),
      exp_shift_one s]
    exact stehfest_piece_eight_one s _ hs0 hs1 hlo hhi
  · subst hx
    obtain ⟨hlo, hhi⟩ := exp_two_pow_bounds s hs0 hs1
    rw [kernel_shift _ hL 1 2 3 s (by norm_num) (by positivity), kernel_shift _ hL 2 2 4 s (by
      norm_num) (by positivity), kernel_shift _ hL 3 2 5 s (by norm_num) (by positivity),
      kernel_shift _ hL 4 2 6 s (by norm_num) (by positivity), kernel_shift _ hL 5 2 7 s (by
      norm_num) (by positivity), kernel_shift _ hL 6 2 8 s (by norm_num) (by positivity),
      kernel_shift _ hL 7 2 9 s (by norm_num) (by positivity), kernel_shift _ hL 8 2 10 s (by
      norm_num) (by positivity),
      exp_shift_two s]
    exact stehfest_piece_eight_two s _ hs0 hs1 hlo hhi

theorem stehfest_range_ten (x : ℝ) (hx0 : 0 ≤ x) (hx3 : x ≤ 3 * Real.log 2) :
    |((1 / 12) * (Real.log 2 / (1 * Real.log 2 + x)) + (-385 / 12) * (Real.log 2 / (2 * Real.log
      2 + x)) + 1279 * (Real.log 2 / (3 * Real.log 2 + x)) + (-46871 / 3) * (Real.log 2 / (4 *
      Real.log 2 + x)) + (505465 / 6) * (Real.log 2 / (5 * Real.log 2 + x)) + (-473915 / 2) *
      (Real.log 2 / (6 * Real.log 2 + x)) + (1127735 / 3) * (Real.log 2 / (7 * Real.log 2 + x)) +
      (-1020215 / 3) * (Real.log 2 / (8 * Real.log 2 + x)) + (328125 / 2) * (Real.log 2 / (9 *
      Real.log 2 + x)) + (-65625 / 2) * (Real.log 2 / (10 * Real.log 2 + x)))
        - Real.exp (-x)| ≤ 0.003 * Real.exp (-x) := by
  have hL : 0 < Real.log 2 := Real.log_pos (by norm_num)
  have et : (0.003 : ℝ) = (3 / 1000) := by norm_num
  rw [et]
  rcases range_split x hx0 hx3 with ⟨s, hs0, hs1, hx⟩ | ⟨s, hs0, hs1, hx⟩ | ⟨s, hs0, hs1, hx⟩
  · subst hx
    obtain ⟨hlo, hhi⟩ := exp_two_pow_bounds s hs0 hs1
    rw [kernel_shift _ hL 1 0 1 s (by norm_num) (by positivity), kernel_shift _ hL 2 0 2 s (by
      norm_num) (by positivity), kernel_shift _ hL 3 0 3 s (by norm_num) (by positivity),
      kernel_shift _ hL 4 0 4 s (by norm_num) (by positivity), kernel_shift _ hL 5 0 5 s (by
      norm_num) (by positivity), kernel_shift _ hL 6 0 6 s (by norm_num) (by positivity),
      kernel_shift _ hL 7 0 7 s (by norm_num) (by positivity), kernel_shift _ hL 8 0 8 s (by
      norm_num) (by positivity), kernel_shift _ hL 9 0 9 s (by norm_num) (by positivity),
      kernel_shift _ hL 10 0 10 s (by norm_num) (by positivity),
      exp_shift_zero s]
    exact stehfest_piece_ten_zero s _ hs0 hs1 hlo hhi
  · subst hx
    obtain ⟨hlo, hhi⟩ := exp_two_pow_bounds s hs0 hs1
    rw [kernel_shift _ hL 1 1 2 s (by norm_num) (by positivity), kernel_shift _ hL 2 1 3 s (by
      norm_num) (by positivity), kernel_shift _ hL 3 1 4 s (by norm_num) (by positivity),
      kernel_shift _ hL 4 1 5 s (by norm_num) (by positivity), kernel_shift _ hL 5 1 6 s (by
      norm_num) (by positivity), kernel_shift _ hL 6 1 7 s (by norm_num) (by positivity),
      kernel_shift _ hL 7 1 8 s (by norm_num) (by positivity), kernel_shift _ hL 8 1 9 s (by
      norm_num) (by positivity), kernel_shift _ hL 9 1 10 s (by norm_num) (by positivity),
      kernel_shift _ hL 10 1 11 s (by norm_num) (by positivity),
      exp_shift_one s]
    exact stehfest_piece_ten_one s _ hs0 hs1 hlo hhi
  · subst hx
    obtain ⟨hlo, hhi⟩ := exp_two_pow_bounds s hs0 hs1
    rw [kernel_shift _ hL 1 2 3 s (by norm_num) (by positivity), kernel_shift _ hL 2 2 4 s (by
      norm_num) (by positivity), kernel_shift _ hL 3 2 5 s (by norm_num) (by positivity),
      kernel_shift _ hL 4 2 6 s (by norm_num) (by positivity), kernel_shift _ hL 5 2 7 s (by
      norm_num) (by positivity), kernel_shift _ hL 6 2 8 s (by norm_num) (by positivity),
      kernel_shift _ hL 7 2 9 s (by norm_num) (by positivity), kernel_shift _ hL 8 2 10 s (by
      norm_num) (by positivity), kernel_shift _ hL 9 2 11 s (by norm_num) (by positivity),
      kernel_shift _ hL 10 2 12 s (by norm_num) (by positivity),
      exp_shift_two s]
    exact stehfest_piece_ten_two s _ hs0 hs1 hlo hhi

end Range

/-! ## Skin effect with wellbore storage -/

section SkinStorage

variable {α : Type} [LinearOrderedField α]

end SkinStorage

/-! ## Evaluation with a solver that returns the right-hand side -/

section Evaluation

variable {α : Type} [LinearOrderedField α]

theorem flaplace_pre_rhs_solver [FloorRing α] (E : MathEnv α)
    (hE : ∀ (n : ℕ) (A : Matrix (Fin n) (Fin n) α) (b : Fin n → α),
      E.fullPivLuSolve n A b = b)
    (z : α) (p : Params α) (type : ModelType) (hkm : value p "km" 0 ≠ 0)
    (hfs : value p "lambda1" 0 + z * value p "omega2" 0 ≠ 0)
    (hden : value p "kf" 0 / value p "km" 0 * z * 2 * value p "LfD" 0 ≠ 0) :
    flaplace_pre E z p type = some 1 := by
  unfold flaplace_pre
  simp only [fdiv, if_neg hkm, if_neg hfs, Option.some_bind]
  rw [PWD_composite_eq_solve E z _ _ _ _ _ _ _ _ type hden, hE, systemRhs_last]

end Evaluation

/-! ## Claims -/

section Claims

variable {α : Type} [LinearOrderedField α]

/-- C1 (as stated, refuted): at `m = 2`, `N = 4` the code returns `26` (the terms `k = 1`
and `k = 2`), while the formula with lower limit `⌈(m+1)/2⌉ = 2` has the term `k = 2` only
and gives `24`. -/
theorem C1_counterexample :
    stefestCoefficient (fun b e : ℝ => b ^ e) 2 4 = 26
      ∧ (stehfestSpec 2 4 : ℝ) = 24
      ∧ stefestCoefficient (fun b e : ℝ => b ^ e) 2 4 ≠ (stehfestSpec 2 4 : ℝ) := by
  have h1 : stefestCoefficient (fun b e : ℝ => b ^ e) 2 4 = 26 := by
    have := stefestCoefficient_eq_sum (fun b e : ℝ => b ^ e)
      (fun b n => Real.rpow_natCast b n) 2 4 (by decide) (by decide)
    simp only [Nat.cast_ofNat] at this
    rw [this]
    have hI : Finset.Icc ((2 + 1) / 2) (min 2 (4 / 2)) = {1, 2} := by decide
    rw [hI]
    simp [stehfestTerm, Nat.factorial]
    norm_num
  have h2 : (stehfestSpec 2 4 : ℝ) = 24 := by
    have hc : Nat.ceil ((((2 : ℕ) : ℚ) + 1) / 2) = 2 := by
      rw [Nat.ceil_eq_iff (by decide)]
      norm_num
    unfold stehfestSpec
    rw [hc]
    have hI : Finset.Icc 2 (min 2 (4 / 2)) = {2} := by decide
    rw [hI]
    simp [stehfestTerm, Nat.factorial]
    norm_num
  refine ⟨h1, h2, ?_⟩
  rw [h1, h2]
  norm_num

/-- C1 (amended): for every even `N` and every `m ≥ 1` (in particular for `N ≥ 2` and
`1 ≤ m ≤ N`), `stefestCoefficient(m, N)` equals `(-1)^(m+N/2)` times the sum over `k` from
`⌊(m+1)/2⌋` to `min(m, N/2)` of `k^(N/2)·(2k)! / [(N/2−k)!·k!·(k−1)!·(m−k)!·(2k−m)!]`, in
exact arithmetic (`pow` agreeing with the power function at whole exponents). -/
theorem C1_stefestCoefficient_formula (pow : α → α → α)
    (hpow : ∀ (b : α) (n : ℕ), pow b (n : α) = b ^ n)
    (m N : ℕ) (hev : Even N) (hm1 : 1 ≤ m) :
    stefestCoefficient pow (m : Int) (N : Int)
      = (-1) ^ (m + N / 2)
          * ∑ k in Finset.Icc ((m + 1) / 2) (min m (N / 2)), (stehfestTerm m N k : α) :=
  stefestCoefficient_eq_sum pow hpow m N hev hm1

/-- Witness of C1 at `m = 3`, `N = 4` over the reals with the real power function. -/
theorem C1_witness :
    (∀ (b : ℝ) (n : ℕ), (fun b e : ℝ => b ^ e) b (n : ℝ) = b ^ n)
      ∧ Even 4 ∧ 1 ≤ 3
      ∧ stefestCoefficient (fun b e : ℝ => b ^ e) ((3 : ℕ) : Int) ((4 : ℕ) : Int)
          = (-1) ^ (3 + 4 / 2)
              * ∑ k in Finset.Icc ((3 + 1) / 2) (min 3 (4 / 2)), (stehfestTerm 3 4 k : ℝ) :=
  ⟨fun b n => Real.rpow_natCast b n, by decide, by decide,
    C1_stefestCoefficient_formula (fun b e : ℝ => b ^ e) (fun b n => Real.rpow_natCast b n)
      3 4 (by decide) (by decide)⟩

/-- C2: in `calculatePDandDeriv`, for every input time `t_k`: if `t_k ≤ 1e-12` the output
pressure is exactly `0` and the Laplace-space function is not evaluated for that point;
otherwise, with the stress-sensitivity coefficient negligible (`|gamaD| ≤ 1e-9`), the output
pressure is `(ln2/t_k) · Σ_{m=1..N} stefestCoefficient(m,N) · g(m·ln2/t_k)`, where `g` is the
supplied function with every NaN or infinite value replaced by `0` and `N` is the selected
term count. -/
theorem C2_inversion_point [FloorRing α] (pow : α → α → α) (log : α → α)
    (bourdet : List α → List α → α → List α) (tD : List α) (params : Params α)
    (laplaceFunc : α → Params α → Option α) (highPrecision : Bool)
    (k : ℕ) (hk : k < tD.length) :
    (tD[k] ≤ 1e-12 →
        (calculatePDandDeriv pow log bourdet tD params laplaceFunc highPrecision).1[k]? = some 0
        ∧ (laplaceCalls pow log tD params laplaceFunc highPrecision)[k]? = some [])
    ∧ (1e-12 < tD[k] → |value params "gamaD" 0| ≤ 1e-9 →
        (calculatePDandDeriv pow log bourdet tD params laplaceFunc highPrecision).1[k]?
          = some (log 2 / tD[k] * ∑ m in Finset.Icc 1 (stehfestN params highPrecision),
              stefestCoefficient pow m (stehfestN params highPrecision)
                * ((laplaceFunc ((m : α) * log 2 / tD[k]) params).getD 0))) := by
  constructor
  · intro ht
    simp [calculatePDandDeriv, laplaceCalls, List.getElem?_eq_getElem hk, inversionPoint, ht]
  · intro ht hg
    simp only [calculatePDandDeriv, List.getElem?_map, List.getElem?_eq_getElem hk,
      Option.map_some', inversionPoint, if_neg (not_le.mpr ht), stehfestSum_eq,
      pressureSensitivity_negligible log _ _ hg]
    congr 1
    ring

/-- Witness of C2 over the reals: the time grid `[0, 1]`, no parameters, the Laplace function
`1/z`; the point `t = 0` takes the first branch, the point `t = 1` the second. -/
theorem C2_witness :
    ((0 : ℕ) < ([0, 1] : List ℝ).length ∧ ([0, 1] : List ℝ)[0] ≤ 1e-12
      ∧ (calculatePDandDeriv (fun b e : ℝ => b ^ e) Real.log (fun _ p _ => p) [0, 1] []
            (fun z _ => some (1 / z)) true).1[0]? = some 0
      ∧ (laplaceCalls (fun b e : ℝ => b ^ e) Real.log [0, 1] []
            (fun z _ => some (1 / z)) true)[0]? = some [])
    ∧ ((1 : ℕ) < ([0, 1] : List ℝ).length ∧ (1e-12 : ℝ) < ([0, 1] : List ℝ)[1]
      ∧ |value ([] : Params ℝ) "gamaD" 0| ≤ 1e-9
      ∧ (calculatePDandDeriv (fun b e : ℝ => b ^ e) Real.log (fun _ p _ => p) [0, 1] []
            (fun z _ => some (1 / z)) true).1[1]?
          = some (Real.log 2 / ([0, 1] : List ℝ)[1]
              * ∑ m in Finset.Icc 1 (stehfestN ([] : Params ℝ) true),
                  stefestCoefficient (fun b e : ℝ => b ^ e) m (stehfestN ([] : Params ℝ) true)
                    * (((fun (z : ℝ) (_ : Params ℝ) => some (1 / z))
                        ((m : ℝ) * Real.log 2 / ([0, 1] : List ℝ)[1]) []).getD 0))) := by
  have h0 : (0 : ℕ) < ([0, 1] : List ℝ).length := by decide
  have h1 : (1 : ℕ) < ([0, 1] : List ℝ).length := by decide
  have t0 : ([0, 1] : List ℝ)[0] ≤ 1e-12 := by norm_num
  have t1 : (1e-12 : ℝ) < ([0, 1] : List ℝ)[1] := by norm_num
  have g : |value ([] : Params ℝ) "gamaD" 0| ≤ 1e-9 := by norm_num [value]
  exact ⟨⟨h0, t0,
      (C2_inversion_point (fun b e : ℝ => b ^ e) Real.log (fun _ p _ => p) [0, 1] []
        (fun z _ => some (1 / z)) true 0 h0).1 t0⟩,
    ⟨h1, t1, g,
      (C2_inversion_point (fun b e : ℝ => b ^ e) Real.log (fun _ p _ => p) [0, 1] []
        (fun z _ => some (1 / z)) true 1 h1).2 t1 g⟩⟩

/-- C3 (as stated, refuted): in high-precision mode with no `N` supplied the term count used
by `calculatePDandDeriv` is `4`, not `8`. -/
theorem C3_counterexample :
    stehfestN ([] : Params ℚ) true = 4 ∧ stehfestN ([] : Params ℚ) true ≠ 8 := by
  have h : stehfestN ([] : Params ℚ) true = 4 := by
    have e : value ([] : Params ℚ) "N" 4 = ((4 : Int) : ℚ) := by simp [value]
    unfold stehfestN
    rw [e, toInt_intCast]
    decide
  rw [h]
  exact ⟨rfl, by decide⟩

/-- C3 (amended): the term count `N` of `calculatePDandDeriv` is always even; in low-precision
mode it is `4` whatever is supplied; in high-precision mode it is the supplied value of `N`
(truncated to an `int`) when that is even and `4` when it is odd, and it is `4` when no `N` is
supplied; the value `8` of high-precision mode is the one the model widget puts under `N`
before calling (`4` in low-precision mode). -/
theorem C3_term_count [FloorRing α] (params : Params α) (highPrecision : Bool) :
    Even (stehfestN params highPrecision)
    ∧ (highPrecision = false → stehfestN params highPrecision = 4)
    ∧ (highPrecision = true → ∀ v : α, params.lookup "N" = some v →
        stehfestN params highPrecision = if Even (toInt v) then toInt v else 4)
    ∧ (highPrecision = true → ∀ n : Int, params.lookup "N" = some (n : α) →
        stehfestN params highPrecision = if Even n then n else 4)
    ∧ (highPrecision = true → params.lookup "N" = none → stehfestN params highPrecision = 4)
    ∧ stehfestN (setN params highPrecision) highPrecision = if highPrecision then 8 else 4 := by
  have hv : highPrecision = true → ∀ v : α, params.lookup "N" = some v →
      stehfestN params highPrecision = if Even (toInt v) then toInt v else 4 := by
    intro hp v hl
    subst hp
    unfold stehfestN value
    simp only [hl, Option.getD_some, if_true, ← tmod_two_eq_zero_iff]
    split_ifs <;> simp_all
  have h4 : toInt ((4 : α)) = 4 := by
    have := toInt_intCast (α := α) 4
    simpa using this
  have h8 : toInt ((8 : α)) = 8 := by
    have := toInt_intCast (α := α) 8
    simpa using this
  refine ⟨stehfestN_even params highPrecision, ?_, hv, ?_, ?_, ?_⟩
  · intro hp
    subst hp
    simp [stehfestN]
  · intro hp n hl
    rw [hv hp _ hl, toInt_intCast]
  · intro hp hl
    subst hp
    unfold stehfestN value
    simp only [hl, Option.getD_none, h4, if_true]
    decide
  · cases highPrecision
    · simp [stehfestN]
    · unfold stehfestN setN
      simp only [if_true, value_cons_self, h8]
      decide

/-- Witness of C3 over the rationals: `N = 6` supplied in high-precision mode, nothing
supplied in high-precision mode, and anything supplied in low-precision mode. -/
theorem C3_witness :
    (false = false ∧ stehfestN ([("N", 6)] : Params ℚ) false = 4)
    ∧ (true = true ∧ ([("N", 6)] : Params ℚ).lookup "N" = some (6 : ℚ)
        ∧ stehfestN ([("N", 6)] : Params ℚ) true
            = if Even (toInt (6 : ℚ)) then toInt (6 : ℚ) else 4)
    ∧ (([("N", 6)] : Params ℚ).lookup "N" = some (((6 : Int)) : ℚ)
        ∧ stehfestN ([("N", 6)] : Params ℚ) true = if Even (6 : Int) then 6 else 4)
    ∧ (([] : Params ℚ).lookup "N" = none ∧ stehfestN ([] : Params ℚ) true = 4) := by
  have l6 : ([("N", 6)] : Params ℚ).lookup "N" = some (6 : ℚ) := by
    simp [List.lookup]
  have l6i : ([("N", 6)] : Params ℚ).lookup "N" = some (((6 : Int)) : ℚ) := by
    simp [List.lookup]
  have l0 : ([] : Params ℚ).lookup "N" = none := rfl
  exact ⟨⟨rfl, (C3_term_count ([("N", 6)] : Params ℚ) false).2.1 rfl⟩,
    ⟨rfl, l6, (C3_term_count ([("N", 6)] : Params ℚ) true).2.2.1 rfl 6 l6⟩,
    ⟨l6i, (C3_term_count ([("N", 6)] : Params ℚ) true).2.2.2.1 rfl 6 l6i⟩,
    ⟨l0, (C3_term_count ([] : Params ℚ) true).2.2.2.2.1 rfl l0⟩⟩

/-- C4 (as stated, refuted): with `gamaD = 1` and the Laplace function `(1 - 1e-13)/z`
(`N = 4`, `t = 1`) the raw inverted pressure is `p = 1 - 1e-13`; the coefficient exceeds the
threshold and the logarithm argument `1 - gamaD·p = 1e-13` is positive, yet the output is the
raw `p` and not `-(1/gamaD)·ln(1 - gamaD·p)`. -/
theorem C4_counterexample :
    (stehfestSum (fun b e : ℝ => b ^ e) (fun z _ => some ((1 - 1e-13) / z)) [("gamaD", 1)]
        (stehfestN ([("gamaD", 1)] : Params ℝ) false) (Real.log 2) 1).1 * Real.log 2 / 1
      = (1 - 1e-13 : ℝ)
    ∧ (calculatePDandDeriv (fun b e : ℝ => b ^ e) Real.log (fun _ p _ => p) [1]
        [("gamaD", 1)] (fun z _ => some ((1 - 1e-13) / z)) false).1[0]? = some (1 - 1e-13 : ℝ)
    ∧ |value ([("gamaD", 1)] : Params ℝ) "gamaD" 0| > (1e-9 : ℝ)
    ∧ (0 : ℝ) < 1 - 1 * (1 - 1e-13)
    ∧ (1 - 1e-13 : ℝ) ≠ -(1 / 1) * Real.log (1 - 1 * (1 - 1e-13)) := by
  have hN : stehfestN ([("gamaD", 1)] : Params ℝ) false = 4 := by simp [stehfestN]
  have hL : Real.log 2 ≠ 0 := ne_of_gt (Real.log_pos (by norm_num))
  have hraw : (stehfestSum (fun b e : ℝ => b ^ e) (fun z _ => some ((1 - 1e-13) / z))
      [("gamaD", 1)] (stehfestN ([("gamaD", 1)] : Params ℝ) false) (Real.log 2) 1).1
        * Real.log 2 / 1 = (1 - 1e-13 : ℝ) := by
    rw [hN, stehfestSum_eq]
    simp only [Option.getD_some]
    exact stehfest_four_inverse (fun b e : ℝ => b ^ e) (fun b n => Real.rpow_natCast b n)
      (1 - 1e-13) (Real.log 2) 1 hL one_ne_zero
  have hg : value ([("gamaD", 1)] : Params ℝ) "gamaD" 0 = 1 := value_cons_self _ _ _ _
  refine ⟨hraw, ?_, ?_, by norm_num, ?_⟩
  · have ht : ¬ ((1 : ℝ) ≤ 1e-12) := by norm_num
    simp only [calculatePDandDeriv, List.map_cons, List.map_nil, List.getElem?_cons_zero,
      inversionPoint, if_neg ht, hraw, hg, pressureSensitivity]
    norm_num
  · rw [hg]; norm_num
  · have h := Real.log_lt_sub_one_of_pos (x := 1 - 1 * (1 - 1e-13)) (by norm_num) (by norm_num)
    intro heq
    generalize Real.log (1 - 1 * (1 - 1e-13)) = y at h heq
    norm_num at h heq
    linarith

/-- C4 (amended): for every time `t_k > 1e-12` with raw inverted pressure `p`, the output
pressure of `calculatePDandDeriv` is `-(1/gamaD)·ln(1 - gamaD·p)` if `|gamaD| > 1e-9` and the
logarithm argument `1 - gamaD·p` exceeds `1e-12`, and the raw value `p` unchanged in every
other case. -/
theorem C4_pressure_sensitivity [FloorRing α] (pow : α → α → α) (log : α → α)
    (bourdet : List α → List α → α → List α) (tD : List α) (params : Params α)
    (laplaceFunc : α → Params α → Option α) (highPrecision : Bool)
    (k : ℕ) (hk : k < tD.length) (ht : 1e-12 < tD[k]) (gamaD p : α)
    (hgamaD : gamaD = value params "gamaD" 0)
    (hp : p = (stehfestSum pow laplaceFunc params (stehfestN params highPrecision) (log 2)
      tD[k]).1 * log 2 / tD[k]) :
    (calculatePDandDeriv pow log bourdet tD params laplaceFunc highPrecision).1[k]?
      = some (if |gamaD| > 1e-9 ∧ 1 - gamaD * p > 1e-12
          then -(1 / gamaD) * log (1 - gamaD * p) else p) := by
  simp only [calculatePDandDeriv, List.getElem?_map, List.getElem?_eq_getElem hk,
    Option.map_some', inversionPoint, if_neg (not_le.mpr ht), ← hgamaD, ← hp,
    pressureSensitivity]
  congr 1
  by_cases h1 : |gamaD| > 1e-9
  · by_cases h2 : 1 - gamaD * p > 1e-12
    · rw [if_pos h1, if_pos h2, if_pos ⟨h1, h2⟩]
      ring
    · rw [if_pos h1, if_neg h2, if_neg (fun h => h2 h.2)]
  · rw [if_neg h1, if_neg (fun h => h1 h.1)]

/-- Witness of C4 over the reals: `gamaD = 1/2`, the Laplace function `1/z`, `t = 1`. -/
theorem C4_witness :
    (0 : ℕ) < ([1] : List ℝ).length ∧ (1e-12 : ℝ) < ([1] : List ℝ)[0]
    ∧ (calculatePDandDeriv (fun b e : ℝ => b ^ e) Real.log (fun _ p _ => p) [1]
        [("gamaD", 1 / 2)] (fun z _ => some (1 / z)) false).1[0]?
      = some (if |(1 / 2 : ℝ)| > 1e-9
            ∧ (1 : ℝ) - (1 / 2 : ℝ) * ((stehfestSum (fun b e : ℝ => b ^ e) (fun z _ => some (1 / z))
                [("gamaD", 1 / 2)] (stehfestN ([("gamaD", 1 / 2)] : Params ℝ) false)
                (Real.log 2) ([1] : List ℝ)[0]).1 * Real.log 2 / ([1] : List ℝ)[0]) > 1e-12
          then -((1 : ℝ) / (1 / 2 : ℝ)) * Real.log ((1 : ℝ) - (1 / 2 : ℝ)
              * ((stehfestSum (fun b e : ℝ => b ^ e) (fun z _ => some (1 / z))
                [("gamaD", 1 / 2)] (stehfestN ([("gamaD", 1 / 2)] : Params ℝ) false)
                (Real.log 2) ([1] : List ℝ)[0]).1 * Real.log 2 / ([1] : List ℝ)[0]))
          else (stehfestSum (fun b e : ℝ => b ^ e) (fun z _ => some (1 / z))
                [("gamaD", 1 / 2)] (stehfestN ([("gamaD", 1 / 2)] : Params ℝ) false)
                (Real.log 2) ([1] : List ℝ)[0]).1 * Real.log 2 / ([1] : List ℝ)[0]) :=
  ⟨by decide, by norm_num,
    C4_pressure_sensitivity (fun b e : ℝ => b ^ e) Real.log (fun _ p _ => p) [1]
      [("gamaD", 1 / 2)] (fun z _ => some (1 / z)) false 0 (by decide) (by norm_num)
      (1 / 2) _ (value_cons_self _ _ _ _).symm rfl⟩

/-- C5: for the variable-storage variants (Model_1, Model_3, Model_5) and every `z` (in
particular `z > 0`), when `cD > 1e-12` or `|S| > 1e-12`, `flaplace_composite` returns
`(z·pf + S) / (z + cD·z²·(z·pf + S))`, where `pf` is the value returned by `PWD_composite`
for the same `z` and parameters (the quotient is non-finite when its divisor is zero, and so
is the result when `pf` is). -/
theorem C5_duhamel [FloorRing α] (E : MathEnv α) (z : α) (p : Params α) (type : ModelType)
    (htype : type = ModelType.Model_1 ∨ type = ModelType.Model_3 ∨ type = ModelType.Model_5)
    (hth : value p "cD" 0 > 1e-12 ∨ |value p "S" 0| > 1e-12) :
    flaplace_composite E z p type
      = (flaplace_pre E z p type).bind (fun pf =>
          fdiv (z * pf + value p "S" 0)
            (z + value p "cD" 0 * z ^ 2 * (z * pf + value p "S" 0))) := by
  unfold flaplace_composite
  congr 1
  funext pf
  exact storageSkin_applied z p type pf htype hth

/-- Witness of C5 over the reals: Model_1 at `z = 1` with `cD = 0.01`, `S = 1`, `kf = 1e-3`,
`km = 1e-4`, `LfD = 0.1`, `omega2 = 0.08`, `lambda1 = 0.001`, with a solver that returns the
right-hand side, so that the pressure before the correction is `pf = 1`: the value returned
is `(1*1 + 1) / (1 + 0.01*1^2*(1*1 + 1))`. -/
theorem C5_witness :
    ∃ E : MathEnv ℝ, E.sqrt = Real.sqrt ∧ E.exp = Real.exp
      ∧ (ModelType.Model_1 = ModelType.Model_1 ∨ ModelType.Model_1 = ModelType.Model_3
          ∨ ModelType.Model_1 = ModelType.Model_5)
      ∧ (value ([("cD", 0.01), ("S", 1), ("kf", 1e-3), ("km", 1e-4), ("LfD", 0.1),
            ("omega2", 0.08), ("lambda1", 0.001)] : Params ℝ) "cD" 0 > 1e-12
          ∨ |value ([("cD", 0.01), ("S", 1), ("kf", 1e-3), ("km", 1e-4), ("LfD", 0.1),
            ("omega2", 0.08), ("lambda1", 0.001)] : Params ℝ) "S" 0| > 1e-12)
      ∧ flaplace_pre E 1 [("cD", 0.01), ("S", 1), ("kf", 1e-3), ("km", 1e-4), ("LfD", 0.1),
            ("omega2", 0.08), ("lambda1", 0.001)] ModelType.Model_1 = some 1
      ∧ flaplace_composite E 1 [("cD", 0.01), ("S", 1), ("kf", 1e-3), ("km", 1e-4),
            ("LfD", 0.1), ("omega2", 0.08), ("lambda1", 0.001)] ModelType.Model_1
          = some ((1 * 1 + 1) / (1 + 0.01 * 1 ^ 2 * (1 * 1 + 1))) := by
  have hth : value ([("cD", 0.01), ("S", 1), ("kf", 1e-3), ("km", 1e-4), ("LfD", 0.1),
        ("omega2", 0.08), ("lambda1", 0.001)] : Params ℝ) "cD" 0 > 1e-12
      ∨ |value ([("cD", 0.01), ("S", 1), ("kf", 1e-3), ("km", 1e-4), ("LfD", 0.1),
        ("omega2", 0.08), ("lambda1", 0.001)] : Params ℝ) "S" 0| > 1e-12 := by
    left
    rw [value_cons_self]
    norm_num
  have hpre : flaplace_pre (⟨fun b e => b ^ e, Real.log, Real.exp, Real.sqrt, fun _ _ => 0,
      fun _ _ => 0, fun _ _ b => b, fun _ p _ => p⟩ : MathEnv ℝ) 1
      [("cD", 0.01), ("S", 1), ("kf", 1e-3), ("km", 1e-4), ("LfD", 0.1), ("omega2", 0.08),
        ("lambda1", 0.001)] ModelType.Model_1 = some 1 := by
    apply flaplace_pre_rhs_solver _ (fun _ _ _ => rfl)
    · simp [value_cons]
      norm_num
    · simp [value_cons]
      norm_num
    · simp [value_cons]
      norm_num
  have key := C5_duhamel (⟨fun b e => b ^ e, Real.log, Real.exp, Real.sqrt, fun _ _ => 0,
      fun _ _ => 0, fun _ _ b => b, fun _ p _ => p⟩ : MathEnv ℝ) 1
    [("cD", 0.01), ("S", 1), ("kf", 1e-3), ("km", 1e-4), ("LfD", 0.1), ("omega2", 0.08),
      ("lambda1", 0.001)] ModelType.Model_1 (Or.inl rfl) hth
  refine ⟨_, rfl, rfl, Or.inl rfl, hth, hpre, ?_⟩
  rw [key, hpre, Option.some_bind]
  have eS : value ([("cD", 0.01), ("S", 1), ("kf", 1e-3), ("km", 1e-4), ("LfD", 0.1),
      ("omega2", 0.08), ("lambda1", 0.001)] : Params ℝ) "S" 0 = 1 := by
    simp [value_cons]
  have eC : value ([("cD", 0.01), ("S", 1), ("kf", 1e-3), ("km", 1e-4), ("LfD", 0.1),
      ("omega2", 0.08), ("lambda1", 0.001)] : Params ℝ) "cD" 0 = 0.01 := by
    simp [value_cons]
  rw [eS, eC]
  unfold fdiv
  rw [if_neg (by norm_num)]

/-- C6: for every model variant, every `z` (in particular `z > 0`) and every parameter set
with `cD = 0` and `S = 0`, `flaplace_composite` returns exactly the pre-correction Laplace
pressure computed by `PWD_composite`. -/
theorem C6_storage_skin_identity [FloorRing α] (E : MathEnv α) (z : α) (p : Params α)
    (type : ModelType) (hcD : value p "cD" 0 = 0) (hS : value p "S" 0 = 0) :
    flaplace_composite E z p type = flaplace_pre E z p type := by
  unfold flaplace_composite
  have h : storageSkin z p type = some := by
    funext pf
    apply storageSkin_skipped
    rw [hcD, hS]
    norm_num
  rw [h]
  cases flaplace_pre E z p type <;> rfl

/-- Witness of C6 over the reals: Model_3 at `z = 1` with `cD = 0`, `S = 0`, `kf = 1e-3`,
`km = 1e-4`, `LfD = 0.1`, `omega2 = 0.08`, `lambda1 = 0.001`, with a solver that returns the
right-hand side: the pressure before the correction is `1` and it is returned unchanged. -/
theorem C6_witness :
    ∃ E : MathEnv ℝ, E.sqrt = Real.sqrt ∧ E.exp = Real.exp
      ∧ value ([("cD", 0), ("S", 0), ("kf", 1e-3), ("km", 1e-4), ("LfD", 0.1),
          ("omega2", 0.08), ("lambda1", 0.001)] : Params ℝ) "cD" 0 = 0
      ∧ value ([("cD", 0), ("S", 0), ("kf", 1e-3), ("km", 1e-4), ("LfD", 0.1),
          ("omega2", 0.08), ("lambda1", 0.001)] : Params ℝ) "S" 0 = 0
      ∧ flaplace_pre E 1 [("cD", 0), ("S", 0), ("kf", 1e-3), ("km", 1e-4), ("LfD", 0.1),
          ("omega2", 0.08), ("lambda1", 0.001)] ModelType.Model_3 = some 1
      ∧ flaplace_composite E 1 [("cD", 0), ("S", 0), ("kf", 1e-3), ("km", 1e-4), ("LfD", 0.1),
          ("omega2", 0.08), ("lambda1", 0.001)] ModelType.Model_3 = some 1 := by
  have h1 : value ([("cD", 0), ("S", 0), ("kf", 1e-3), ("km", 1e-4), ("LfD", 0.1),
      ("omega2", 0.08), ("lambda1", 0.001)] : Params ℝ) "cD" 0 = 0 := value_cons_self _ _ _ _
  have h2 : value ([("cD", 0), ("S", 0), ("kf", 1e-3), ("km", 1e-4), ("LfD", 0.1),
      ("omega2", 0.08), ("lambda1", 0.001)] : Params ℝ) "S" 0 = 0 := by
    simp [value_cons]
  have hpre : flaplace_pre (⟨fun b e => b ^ e, Real.log, Real.exp, Real.sqrt, fun _ _ => 0,
      fun _ _ => 0, fun _ _ b => b, fun _ p _ => p⟩ : MathEnv ℝ) 1
      [("cD", 0), ("S", 0), ("kf", 1e-3), ("km", 1e-4), ("LfD", 0.1), ("omega2", 0.08),
        ("lambda1", 0.001)] ModelType.Model_3 = some 1 := by
    apply flaplace_pre_rhs_solver _ (fun _ _ _ => rfl)
    · simp [value_cons]
      norm_num
    · simp [value_cons]
      norm_num
    · simp [value_cons]
      norm_num
  have key := C6_storage_skin_identity (⟨fun b e => b ^ e, Real.log, Real.exp, Real.sqrt,
      fun _ _ => 0, fun _ _ => 0, fun _ _ b => b, fun _ p _ => p⟩ : MathEnv ℝ) 1
    [("cD", 0), ("S", 0), ("kf", 1e-3), ("km", 1e-4), ("LfD", 0.1), ("omega2", 0.08),
      ("lambda1", 0.001)] ModelType.Model_3 h1 h2
  exact ⟨_, rfl, rfl, h1, h2, hpre, key.trans hpre⟩

/-- C7 (amended): applying the Stehfest inversion of `calculatePDandDeriv` (`gamaD = 0`) to
`F(s) = 1/(s+a)`, `a > 0`, in exact arithmetic, reproduces `e^(-a·t)` within a relative
tolerance of 8% for `N = 4`, 3% for `N = 6`, 1.1% for `N = 8` and 0.3% for `N = 10`, at every
time `t` with `1e-12 < t` and `a·t ≤ 3·ln 2` (about `2.08`).  The worst error over this range
does not grow as `N` increases: the error of `N = 4` exceeds 3% at `a·t = 2·ln 2`, and those
of `N = 6` and `N = 8` exceed 1.1% and 0.3% at `a·t = 3·ln 2`.  At `a·t = 1` the error
strictly decreases as `N` increases from 4 to 10 (at `a·t = 2` it does not). -/
theorem C7_known_transform (pow : ℝ → ℝ → ℝ)
    (hpow : ∀ (b : ℝ) (n : ℕ), pow b (n : ℝ) = b ^ n)
    (bourdet : List ℝ → List ℝ → ℝ → List ℝ) (a t : ℝ) (ha : 0 < a) (ht : 1e-12 < t)
    (hat : a * t ≤ 3 * Real.log 2) :
    ∃ p4 p6 p8 p10 : ℝ,
      (calculatePDandDeriv pow Real.log bourdet [t] [("N", 4)]
          (fun z _ => some (1 / (z + a))) true).1[0]? = some p4
      ∧ (calculatePDandDeriv pow Real.log bourdet [t] [("N", 6)]
          (fun z _ => some (1 / (z + a))) true).1[0]? = some p6
      ∧ (calculatePDandDeriv pow Real.log bourdet [t] [("N", 8)]
          (fun z _ => some (1 / (z + a))) true).1[0]? = some p8
      ∧ (calculatePDandDeriv pow Real.log bourdet [t] [("N", 10)]
          (fun z _ => some (1 / (z + a))) true).1[0]? = some p10
      ∧ |p4 - Real.exp (-(a * t))| ≤ 0.08 * Real.exp (-(a * t))
      ∧ |p6 - Real.exp (-(a * t))| ≤ 0.03 * Real.exp (-(a * t))
      ∧ |p8 - Real.exp (-(a * t))| ≤ 0.011 * Real.exp (-(a * t))
      ∧ |p10 - Real.exp (-(a * t))| ≤ 0.003 * Real.exp (-(a * t))
      ∧ (a * t = 2 * Real.log 2 → 0.03 * Real.exp (-(a * t)) < |p4 - Real.exp (-(a * t))|)
      ∧ (a * t = 3 * Real.log 2 →
          0.011 * Real.exp (-(a * t)) < |p6 - Real.exp (-(a * t))|
          ∧ 0.003 * Real.exp (-(a * t)) < |p8 - Real.exp (-(a * t))|)
      ∧ (a * t = 1 →
          |p10 - Real.exp (-(a * t))| < |p8 - Real.exp (-(a * t))|
          ∧ |p8 - Real.exp (-(a * t))| < |p6 - Real.exp (-(a * t))|
          ∧ |p6 - Real.exp (-(a * t))| < |p4 - Real.exp (-(a * t))|) := by
  have ht0 : (0 : ℝ) < t := lt_trans (by norm_num) ht
  have hx0 : 0 ≤ a * t := (mul_pos ha ht0).le
  have hL : 0 < Real.log 2 := Real.log_pos (by norm_num)
  have e4 := known_transform_value pow bourdet 4 (by decide) a t (a * t) ha ht rfl
  have e6 := known_transform_value pow bourdet 6 (by decide) a t (a * t) ha ht rfl
  have e8 := known_transform_value pow bourdet 8 (by decide) a t (a * t) ha ht rfl
  have e10 := known_transform_value pow bourdet 10 (by decide) a t (a * t) ha ht rfl
  rw [Int.cast_ofNat, exp_sum_four pow hpow] at e4
  rw [Int.cast_ofNat, exp_sum_six pow hpow] at e6
  rw [Int.cast_ofNat, exp_sum_eight pow hpow] at e8
  rw [Int.cast_ofNat, exp_sum_ten pow hpow] at e10
  refine ⟨_, _, _, _, e4, e6, e8, e10, stehfest_range_four _ hx0 hat,
    stehfest_range_six _ hx0 hat, stehfest_range_eight _ hx0 hat,
    stehfest_range_ten _ hx0 hat, ?_, ?_, ?_⟩
  · intro h
    have hx : a * t = (2 + 0) * Real.log 2 := by rw [h]; ring
    rw [hx, kernel_shift _ hL 1 2 3 0 (by norm_num) (by norm_num), kernel_shift _ hL 2 2 4 0 (by
      norm_num) (by norm_num), kernel_shift _ hL 3 2 5 0 (by norm_num) (by norm_num),
      kernel_shift _ hL 4 2 6 0 (by norm_num) (by norm_num),
      exp_shift_two 0, zero_mul, neg_zero, Real.exp_zero]
    norm_num [abs_of_neg]
  · intro h
    have hx : a * t = (2 + 1) * Real.log 2 := by rw [h]; ring
    have e1 : Real.exp (-(1 * Real.log 2)) = 1 / 2 := by
      rw [one_mul, Real.exp_neg, Real.exp_log (by norm_num)]
      norm_num
    rw [hx, kernel_shift _ hL 1 2 3 1 (by norm_num) (by norm_num), kernel_shift _ hL 2 2 4 1 (by
      norm_num) (by norm_num), kernel_shift _ hL 3 2 5 1 (by norm_num) (by norm_num),
      kernel_shift _ hL 4 2 6 1 (by norm_num) (by norm_num), kernel_shift _ hL 5 2 7 1 (by
      norm_num) (by norm_num), kernel_shift _ hL 6 2 8 1 (by norm_num) (by norm_num),
      kernel_shift _ hL 7 2 9 1 (by norm_num) (by norm_num), kernel_shift _ hL 8 2 10 1 (by
      norm_num) (by norm_num),
      exp_shift_two 1, e1]
    constructor
    · norm_num [abs_of_pos]
    · norm_num [abs_of_pos]
  · intro h
    rw [h]
    obtain ⟨l4, u4⟩ := stehfest_exp_four_at_one (Real.log 2) Real.log_two_gt_d9
      Real.log_two_lt_d9
    obtain ⟨l6, u6⟩ := stehfest_exp_six_at_one (Real.log 2) Real.log_two_gt_d9
      Real.log_two_lt_d9
    obtain ⟨l8, u8⟩ := stehfest_exp_eight_at_one (Real.log 2) Real.log_two_gt_d9
      Real.log_two_lt_d9
    obtain ⟨l10, u10⟩ := stehfest_exp_ten_at_one (Real.log 2) Real.log_two_gt_d9
      Real.log_two_lt_d9
    obtain ⟨el, eu⟩ := exp_neg_one_bounds
    revert l4 u4 l6 u6 l8 u8 l10 u10
    generalize Real.exp (-1) = e at *
    generalize (-2 * (Real.log 2 / (1 * Real.log 2 + 1)) + 26 * (Real.log 2 / (2 * Real.log 2 + 1)) + -48 *
      (Real.log 2 / (3 * Real.log 2 + 1)) + 24 * (Real.log 2 / (4 * Real.log 2 + 1))) = q4
    generalize (1 * (Real.log 2 / (1 * Real.log 2 + 1)) + -49 * (Real.log 2 / (2 * Real.log 2 + 1)) + 366 *
      (Real.log 2 / (3 * Real.log 2 + 1)) + -858 * (Real.log 2 / (4 * Real.log 2 + 1)) + 810 *
      (Real.log 2 / (5 * Real.log 2 + 1)) + -270 * (Real.log 2 / (6 * Real.log 2 + 1))) = q6
    generalize ((-1 / 3) * (Real.log 2 / (1 * Real.log 2 + 1)) + (145 / 3) * (Real.log 2 / (2 * Real.log 2
      + 1)) + -906 * (Real.log 2 / (3 * Real.log 2 + 1)) + (16394 / 3) * (Real.log 2 / (4 *
      Real.log 2 + 1)) + (-43130 / 3) * (Real.log 2 / (5 * Real.log 2 + 1)) + 18730 * (Real.log 2
      / (6 * Real.log 2 + 1)) + (-35840 / 3) * (Real.log 2 / (7 * Real.log 2 + 1)) + (8960 / 3) *
      (Real.log 2 / (8 * Real.log 2 + 1))) = q8
    generalize ((1 / 12) * (Real.log 2 / (1 * Real.log 2 + 1)) + (-385 / 12) * (Real.log 2 / (2 * Real.log
      2 + 1)) + 1279 * (Real.log 2 / (3 * Real.log 2 + 1)) + (-46871 / 3) * (Real.log 2 / (4 *
      Real.log 2 + 1)) + (505465 / 6) * (Real.log 2 / (5 * Real.log 2 + 1)) + (-473915 / 2) *
      (Real.log 2 / (6 * Real.log 2 + 1)) + (1127735 / 3) * (Real.log 2 / (7 * Real.log 2 + 1)) +
      (-1020215 / 3) * (Real.log 2 / (8 * Real.log 2 + 1)) + (328125 / 2) * (Real.log 2 / (9 *
      Real.log 2 + 1)) + (-65625 / 2) * (Real.log 2 / (10 * Real.log 2 + 1))) = q10
    intro l4 u4 l6 u6 l8 u8 l10 u10
    have a4 : |q4 - e| = e - q4 := by rw [abs_of_nonpos (by linarith)]; ring
    have a6 : |q6 - e| = e - q6 := by rw [abs_of_nonpos (by linarith)]; ring
    have a8 : |q8 - e| = e - q8 := by rw [abs_of_nonpos (by linarith)]; ring
    have a10 : |q10 - e| = e - q10 := by rw [abs_of_nonpos (by linarith)]; ring
    rw [a4, a6, a8, a10]
    refine ⟨?_, ?_, ?_⟩ <;> linarith

/-- C7 (as stated, refuted): for `a = 1` at `t = 2` the error of the inversion of `1/(s+a)`
grows when `N` increases from 4 to 6 (relative errors 1.3% and 2.2%). -/
theorem C7_counterexample :
    ∃ p4 p6 : ℝ,
      (calculatePDandDeriv (fun b e : ℝ => b ^ e) Real.log (fun _ p _ => p) [2] [("N", 4)]
          (fun z _ => some (1 / (z + 1))) true).1[0]? = some p4
      ∧ (calculatePDandDeriv (fun b e : ℝ => b ^ e) Real.log (fun _ p _ => p) [2] [("N", 6)]
          (fun z _ => some (1 / (z + 1))) true).1[0]? = some p6
      ∧ |p4 - Real.exp (-(1 * 2))| < |p6 - Real.exp (-(1 * 2))| := by
  have hpow : ∀ (b : ℝ) (n : ℕ), (fun b e : ℝ => b ^ e) b (n : ℝ) = b ^ n :=
    fun b n => Real.rpow_natCast b n
  have e4 := known_transform_value (fun b e : ℝ => b ^ e) (fun _ p _ => p) 4 (by decide)
    1 2 2 (by norm_num) (by norm_num) (by norm_num)
  have e6 := known_transform_value (fun b e : ℝ => b ^ e) (fun _ p _ => p) 6 (by decide)
    1 2 2 (by norm_num) (by norm_num) (by norm_num)
  rw [Int.cast_ofNat, exp_sum_four _ hpow] at e4
  rw [Int.cast_ofNat, exp_sum_six _ hpow] at e6
  refine ⟨_, _, e4, e6, ?_⟩
  obtain ⟨l4, u4⟩ := stehfest_exp_four_at_two (Real.log 2) Real.log_two_gt_d9
    Real.log_two_lt_d9
  obtain ⟨l6, u6⟩ := stehfest_exp_six_at_two (Real.log 2) Real.log_two_gt_d9
    Real.log_two_lt_d9
  obtain ⟨el, eu⟩ := exp_neg_two_bounds
  have e2 : (-(1 * 2) : ℝ) = -2 := by norm_num
  rw [e2]
  revert l4 u4 l6 u6
  generalize Real.exp (-2) = e at *
  generalize (-2 * (Real.log 2 / (1 * Real.log 2 + 2)) + 26 * (Real.log 2 / (2 * Real.log 2 + 2))
    + -48 * (Real.log 2 / (3 * Real.log 2 + 2)) + 24 * (Real.log 2 / (4 * Real.log 2 + 2))) = q4
  generalize (1 * (Real.log 2 / (1 * Real.log 2 + 2)) + -49 * (Real.log 2 / (2 * Real.log 2 + 2))
    + 366 * (Real.log 2 / (3 * Real.log 2 + 2)) + -858 * (Real.log 2 / (4 * Real.log 2 + 2))
    + 810 * (Real.log 2 / (5 * Real.log 2 + 2)) + -270 * (Real.log 2 / (6 * Real.log 2 + 2))) = q6
  intro l4 u4 l6 u6
  rw [abs_of_nonneg (by linarith), abs_of_nonneg (by linarith)]
  linarith

/-- Witness of C7: `a = 1` at `t = 1`, the real power function. -/
theorem C7_witness :
    (∀ (b : ℝ) (n : ℕ), (fun b e : ℝ => b ^ e) b (n : ℝ) = b ^ n)
    ∧ (0 : ℝ) < 1 ∧ (1e-12 : ℝ) < 1 ∧ (1 : ℝ) * 1 ≤ 3 * Real.log 2
    ∧ ∃ p4 p6 p8 p10 : ℝ,
      (calculatePDandDeriv (fun b e : ℝ => b ^ e) Real.log (fun _ p _ => p) [1] [("N", 4)]
          (fun z _ => some (1 / (z + 1))) true).1[0]? = some p4
      ∧ (calculatePDandDeriv (fun b e : ℝ => b ^ e) Real.log (fun _ p _ => p) [1] [("N", 6)]
          (fun z _ => some (1 / (z + 1))) true).1[0]? = some p6
      ∧ (calculatePDandDeriv (fun b e : ℝ => b ^ e) Real.log (fun _ p _ => p) [1] [("N", 8)]
          (fun z _ => some (1 / (z + 1))) true).1[0]? = some p8
      ∧ (calculatePDandDeriv (fun b e : ℝ => b ^ e) Real.log (fun _ p _ => p) [1] [("N", 10)]
          (fun z _ => some (1 / (z + 1))) true).1[0]? = some p10
      ∧ |p4 - Real.exp (-(1 * 1))| ≤ 0.08 * Real.exp (-(1 * 1))
      ∧ |p6 - Real.exp (-(1 * 1))| ≤ 0.03 * Real.exp (-(1 * 1))
      ∧ |p8 - Real.exp (-(1 * 1))| ≤ 0.011 * Real.exp (-(1 * 1))
      ∧ |p10 - Real.exp (-(1 * 1))| ≤ 0.003 * Real.exp (-(1 * 1))
      ∧ ((1 : ℝ) * 1 = 2 * Real.log 2 → 0.03 * Real.exp (-(1 * 1)) < |p4 - Real.exp (-(1 * 1))|)
      ∧ ((1 : ℝ) * 1 = 3 * Real.log 2 →
          0.011 * Real.exp (-(1 * 1)) < |p6 - Real.exp (-(1 * 1))|
          ∧ 0.003 * Real.exp (-(1 * 1)) < |p8 - Real.exp (-(1 * 1))|)
      ∧ ((1 : ℝ) * 1 = 1 →
          |p10 - Real.exp (-(1 * 1))| < |p8 - Real.exp (-(1 * 1))|
          ∧ |p8 - Real.exp (-(1 * 1))| < |p6 - Real.exp (-(1 * 1))|
          ∧ |p6 - Real.exp (-(1 * 1))| < |p4 - Real.exp (-(1 * 1))|) := by
  have h3 : (1 : ℝ) * 1 ≤ 3 * Real.log 2 := by
    have := Real.log_two_gt_d9
    linarith
  exact ⟨fun b n => Real.rpow_natCast b n, by norm_num, by norm_num, h3,
    C7_known_transform (fun b e : ℝ => b ^ e) (fun b n => Real.rpow_natCast b n)
      (fun _ p _ => p) 1 1 (by norm_num) (by norm_num) h3⟩

/-- C9: for fixed inner parameters (with `fs2 > 0`) and every `z > 0`, as the outer radius
`reD` grows without bound the closed-boundary (Model_3/Model_4) and constant-pressure
(Model_5/Model_6) solutions of `PWD_composite` converge to the infinite-boundary solution
(Model_1/Model_2) for the same inputs: from `reD = 1e200 / sqrt(z·fs2)` on they are equal to
it, because the scaled `I` function at the outer radius is then `1/sqrt(2π·x) ≤ 1e-100` and the
guard drops the boundary terms. -/
theorem C9_boundary_degeneracy (E : MathEnv α)
    (hpos : ∀ x : α, 0 < x → 0 < E.sqrt x)
    (hsqrt : ∀ x : α, 1e200 ≤ x → 1e100 ≤ E.sqrt x)
    (z fs1 fs2 M12 LfD rmD : α) (nf : Int) (xwD : List α) (hz : 0 < z) (hfs2 : 0 < fs2) :
    ∃ R : α, ∀ reD : α, R ≤ reD → ∀ type inf : ModelType,
      (inf = ModelType.Model_1 ∨ inf = ModelType.Model_2) →
      PWD_composite E z fs1 fs2 M12 LfD rmD reD nf xwD type
        = PWD_composite E z fs1 fs2 M12 LfD rmD reD nf xwD inf := by
  have hg : 0 < E.sqrt (z * fs2) := hpos _ (mul_pos hz hfs2)
  refine ⟨1e200 / E.sqrt (z * fs2), ?_⟩
  intro reD hR type inf hinf
  have hx : (1e200 : α) ≤ E.sqrt (z * fs2) * reD := by
    rw [div_le_iff₀ hg] at hR
    rw [mul_comm]
    exact hR
  unfold PWD_composite
  simp only []
  rw [outerBoundaryTerms_large E hsqrt _ _ _ type hx,
    outerBoundaryTerms_infinite E _ _ _ inf hinf]

/-- Witness of C9 over the reals with the real square root: `z = 1`, `fs2 = 0.8`, four
fractures. -/
theorem C9_witness :
    ∃ E : MathEnv ℝ, E.sqrt = Real.sqrt
      ∧ (∀ x : ℝ, 0 < x → 0 < E.sqrt x) ∧ (∀ x : ℝ, 1e200 ≤ x → 1e100 ≤ E.sqrt x)
      ∧ (0 : ℝ) < 1 ∧ (0 : ℝ) < 0.8
      ∧ ∃ R : ℝ, ∀ reD : ℝ, R ≤ reD → ∀ type inf : ModelType,
        (inf = ModelType.Model_1 ∨ inf = ModelType.Model_2) →
        PWD_composite E 1 0.41 0.8 10 0.1 4 reD 4 [-0.9, -0.3, 0.3, 0.9] type
          = PWD_composite E 1 0.41 0.8 10 0.1 4 reD 4 [-0.9, -0.3, 0.3, 0.9] inf := by
  have h1 : ∀ x : ℝ, 0 < x → 0 < Real.sqrt x := fun x hx => Real.sqrt_pos.mpr hx
  have h2 : ∀ x : ℝ, 1e200 ≤ x → 1e100 ≤ Real.sqrt x := by
    intro x hx
    apply Real.le_sqrt_of_sq_le
    refine le_trans ?_ hx
    norm_num
  exact ⟨⟨fun b e => b ^ e, Real.log, Real.exp, Real.sqrt, fun _ _ => 0, fun _ _ => 0,
      fun _ _ b => b, fun _ p _ => p⟩, rfl, h1, h2, by norm_num, by norm_num,
    C9_boundary_degeneracy _ h1 h2 1 0.41 0.8 10 0.1 4 4 [-0.9, -0.3, 0.3, 0.9]
      (by norm_num) (by norm_num)⟩

/-- C10: `calculateTheoreticalCurve` converts each real time `t` to the dimensionless time
`tD = 14.4·kf·t / (phi·mu·Ct·L²)` before inversion, and returns the time grid together with
the dimensionless pressure and derivative each multiplied by the single factor
`1.842e-3·q·mu·B / (kf·h)`, for every time point and every parameter set (whose two divisors
are non-zero), the derivative collaborator returning one value per input point. -/
theorem C10_unit_conversion [FloorRing α] (E : MathEnv α)
    (hpow : ∀ (b : α) (n : ℕ), E.pow b (n : α) = b ^ n)
    (type : ModelType) (params : Params α) (providedTime : List α) (highPrecision : Bool)
    (phi mu B Ct q h kf L : α)
    (hphi : phi = value params "phi" 0.05) (hmu : mu = value params "mu" 0.5)
    (hB : B = value params "B" 1.05) (hCt : Ct = value params "Ct" 5e-4)
    (hq : q = value params "q" 5.0) (hh : h = value params "h" 20.0)
    (hkf : kf = value params "kf" 1e-3) (hL : L = value params "L" 1000.0)
    (tPoints tD : List α)
    (htPoints : tPoints = if providedTime.isEmpty
      then generateLogTimeSteps E.pow 100 (-3.0) 3.0 else providedTime)
    (htD : tD = tPoints.map (fun t => 14.4 * kf * t / (phi * mu * Ct * L ^ 2)))
    (hden1 : phi * mu * Ct * L ^ 2 ≠ 0) (hden2 : kf * h ≠ 0)
    (hlen : 2 < tD.length →
      (E.calculateBourdetDerivative tD
        (calculatePDandDeriv E.pow E.log E.calculateBourdetDerivative tD params
          (fun z p => flaplace_composite E z p type) highPrecision).1 0.1).length
        = tD.length) :
    calculateTheoreticalCurve E type params providedTime highPrecision
      = (tPoints,
          (calculatePDandDeriv E.pow E.log E.calculateBourdetDerivative tD params
            (fun z p => flaplace_composite E z p type) highPrecision).1.map
              (fun pd => some (1.842e-3 * q * mu * B / (kf * h) * pd)),
          (calculatePDandDeriv E.pow E.log E.calculateBourdetDerivative tD params
            (fun z p => flaplace_composite E z p type) highPrecision).2.map
              (fun dv => some (1.842e-3 * q * mu * B / (kf * h) * dv))) :=
  calculateTheoreticalCurve_eq E hpow type params providedTime highPrecision phi mu B Ct q h kf L
    hphi hmu hB hCt hq hh hkf hL tPoints tD htPoints htD hden1 hden2 hlen

/-- Witness of C10 over the reals: Model_1, no parameter supplied (all defaults), the time
grid `[1, 10, 100]`, a derivative collaborator that returns one value per point. -/
theorem C10_witness :
    ∃ E : MathEnv ℝ, E.pow = (fun b e => b ^ e)
      ∧ (0.05 * 0.5 * 5e-4 * 1000.0 ^ 2 : ℝ) ≠ 0 ∧ (1e-3 * 20.0 : ℝ) ≠ 0
      ∧ calculateTheoreticalCurve E ModelType.Model_1 [] [1, 10, 100] false
        = ([1, 10, 100],
            (calculatePDandDeriv E.pow E.log E.calculateBourdetDerivative
              (([1, 10, 100] : List ℝ).map
                (fun t => 14.4 * 1e-3 * t / (0.05 * 0.5 * 5e-4 * 1000.0 ^ 2))) []
              (fun z p => flaplace_composite E z p ModelType.Model_1) false).1.map
                (fun pd => some (1.842e-3 * 5.0 * 0.5 * 1.05 / (1e-3 * 20.0) * pd)),
            (calculatePDandDeriv E.pow E.log E.calculateBourdetDerivative
              (([1, 10, 100] : List ℝ).map
                (fun t => 14.4 * 1e-3 * t / (0.05 * 0.5 * 5e-4 * 1000.0 ^ 2))) []
              (fun z p => flaplace_composite E z p ModelType.Model_1) false).2.map
                (fun dv => some (1.842e-3 * 5.0 * 0.5 * 1.05 / (1e-3 * 20.0) * dv))) := by
  have h1 : (0.05 * 0.5 * 5e-4 * 1000.0 ^ 2 : ℝ) ≠ 0 := by norm_num
  have h2 : (1e-3 * 20.0 : ℝ) ≠ 0 := by norm_num
  exact ⟨⟨fun b e => b ^ e, Real.log, Real.exp, Real.sqrt, fun _ _ => 0, fun _ _ => 0,
      fun _ _ b => b, fun _ p _ => p⟩, rfl, h1, h2,
    C10_unit_conversion _ (fun b n => Real.rpow_natCast b n) ModelType.Model_1 []
      [1, 10, 100] false 0.05 0.5 1.05 5e-4 5.0 20.0 1e-3 1000.0 rfl rfl rfl rfl rfl rfl rfl rfl
      [1, 10, 100] _ rfl rfl h1 h2
      (fun _ => by rw [calculatePDandDeriv_fst_length])⟩

/-- C11 (amended): for every model variant, every parameter set and every non-empty supplied
time grid, `calculateTheoreticalCurve` returns three sequences of equal length: the time
sequence is the supplied grid unchanged, and the pressure and the derivative sequence have
exactly as many entries as it.  For a grid of at most 2 points the derivative sequence is
all zeros when `kf·h ≠ 0`; when `kf·h = 0` the conversion factor is not finite and no entry
of the pressure or of the derivative sequence is a finite number.  When the derivative
collaborator returns one value per input point and the two divisors of the unit conversion
are non-zero, every entry of the two sequences is a finite number. -/
theorem C11_equal_lengths [FloorRing α] (E : MathEnv α) (type : ModelType)
    (params : Params α) (providedTime : List α) (highPrecision : Bool)
    (hne : providedTime ≠ []) :
    (calculateTheoreticalCurve E type params providedTime highPrecision).1 = providedTime
    ∧ (calculateTheoreticalCurve E type params providedTime highPrecision).2.1.length
        = providedTime.length
    ∧ (calculateTheoreticalCurve E type params providedTime highPrecision).2.2.length
        = providedTime.length
    ∧ (providedTime.length ≤ 2 → value params "kf" 1e-3 * value params "h" 20.0 ≠ 0 →
        (calculateTheoreticalCurve E type params providedTime highPrecision).2.2
          = List.replicate providedTime.length (some 0))
    ∧ (value params "kf" 1e-3 * value params "h" 20.0 = 0 →
        (calculateTheoreticalCurve E type params providedTime highPrecision).2.1
            = List.replicate providedTime.length none
        ∧ (calculateTheoreticalCurve E type params providedTime highPrecision).2.2
            = List.replicate providedTime.length none)
    ∧ ((∀ (t p : List α) (w : α), p.length = t.length →
          (E.calculateBourdetDerivative t p w).length = t.length) →
        value params "phi" 0.05 * value params "mu" 0.5 * value params "Ct" 5e-4
          * E.pow (value params "L" 1000.0) 2 ≠ 0 →
        value params "kf" 1e-3 * value params "h" 20.0 ≠ 0 →
        ∃ finalP finalDP : List α,
          calculateTheoreticalCurve E type params providedTime highPrecision
            = (providedTime, finalP.map some, finalDP.map some)) :=
  curve_shape E type params providedTime highPrecision hne

/-- C11 (as stated, refuted): with `kf = 0` (the other parameters at their defaults) and the
two-point grid `[1, 2]`, the conversion factor `1.842e-3·q·mu·B / (kf·h)` is a division of
`4.83525e-3` by zero, and the derivative entries, its products with the zeros of
`calculatePDandDeriv`, are not finite numbers: the derivative sequence is not all zeros.
This holds for every variant and every choice of the external functions. -/
theorem C11_counterexample :
    ([1, 2] : List ℝ).length ≤ 2
    ∧ ∀ (E : MathEnv ℝ) (type : ModelType) (highPrecision : Bool),
      (calculateTheoreticalCurve E type [("kf", 0)] [1, 2] highPrecision).1 = [1, 2]
      ∧ (calculateTheoreticalCurve E type [("kf", 0)] [1, 2] highPrecision).2.2 = [none, none]
      ∧ (calculateTheoreticalCurve E type [("kf", 0)] [1, 2] highPrecision).2.2
          ≠ [some 0, some 0] := by
  refine ⟨by simp, ?_⟩
  intro E type highPrecision
  have hk : value ([("kf", 0)] : Params ℝ) "kf" 1e-3 * value ([("kf", 0)] : Params ℝ) "h" 20.0
      = 0 := by
    rw [value_cons_self, zero_mul]
  have h := (curve_factor E type [("kf", 0)] [1, 2] highPrecision hk).2
  have h1 : (calculateTheoreticalCurve E type [("kf", 0)] [1, 2] highPrecision).1 = [1, 2] :=
    rfl
  rw [h1] at h
  refine ⟨h1, h, ?_⟩
  rw [h]
  simp

/-- Witness of C11 over the reals, Model_3 with high precision: the grid `[1, 2, 3]` with
`kf = 0` (three sequences of length 3, no finite entry), and the grid `[1, 10]` with the
default parameters (the derivative sequence is `[0, 0]`). -/
theorem C11_witness :
    ([1, 2, 3] : List ℝ) ≠ [] ∧ ([1, 10] : List ℝ) ≠ []
      ∧ ∃ E : MathEnv ℝ, E.pow = (fun b e => b ^ e)
        ∧ (calculateTheoreticalCurve E ModelType.Model_3 [("kf", 0)] [1, 2, 3] true).1
            = [1, 2, 3]
        ∧ (calculateTheoreticalCurve E ModelType.Model_3 [("kf", 0)] [1, 2, 3] true).2.1.length
            = 3
        ∧ (calculateTheoreticalCurve E ModelType.Model_3 [("kf", 0)] [1, 2, 3] true).2.2.length
            = 3
        ∧ (calculateTheoreticalCurve E ModelType.Model_3 [] [1, 10] true).1 = [1, 10]
        ∧ (calculateTheoreticalCurve E ModelType.Model_3 [] [1, 10] true).2.1.length = 2
        ∧ (calculateTheoreticalCurve E ModelType.Model_3 [] [1, 10] true).2.2
            = [some 0, some 0] := by
  have hne : ([1, 2, 3] : List ℝ) ≠ [] := by simp
  have hne2 : ([1, 10] : List ℝ) ≠ [] := by simp
  have k1 := C11_equal_lengths (⟨fun b e => b ^ e, Real.log, Real.exp, Real.sqrt,
      fun _ _ => 0, fun _ _ => 0, fun _ _ b => b, fun _ p _ => p⟩ : MathEnv ℝ)
    ModelType.Model_3 [("kf", 0)] [1, 2, 3] true hne
  have k2 := C11_equal_lengths (⟨fun b e => b ^ e, Real.log, Real.exp, Real.sqrt,
      fun _ _ => 0, fun _ _ => 0, fun _ _ b => b, fun _ p _ => p⟩ : MathEnv ℝ)
    ModelType.Model_3 [] [1, 10] true hne2
  exact ⟨hne, hne2, _, rfl, k1.1, k1.2.1, k1.2.2.1, k2.1, k2.2.1,
    k2.2.2.2.1 (by simp) (by simp [value_nil]; norm_num)⟩

/-- C12: when no time grid is supplied, `calculateTheoreticalCurve` uses
`generateLogTimeSteps(100, -3, 3)`: the time sequence it returns is that grid, and the whole
result is the one computed for that grid supplied by the caller.  The grid has exactly 100
points `t_i = 10^(-3 + 6*i/99)`, strictly increasing, starting at `10^-3` and ending at
`10^3`, and the returned pressure and derivative sequences have 100 entries; in general
`generateLogTimeSteps(n, a, b)` with `n ≥ 2` and `a < b` returns `n` strictly increasing
points `10^(a + i*(b-a)/(n-1))` from `10^a` to `10^b`, and it returns an empty grid for
`n < 2`.  The power `10^x` of the maths library is strictly increasing in `x`. -/
theorem C12_log_time_steps [FloorRing α] (E : MathEnv α) (hmono : StrictMono (E.pow 10))
    (type : ModelType) (params : Params α) (highPrecision : Bool) (n : Int) (a b : α) :
    (calculateTheoreticalCurve E type params [] highPrecision).1
        = generateLogTimeSteps E.pow 100 (-3.0) 3.0
    ∧ (calculateTheoreticalCurve E type params [] highPrecision).2.1.length = 100
    ∧ (calculateTheoreticalCurve E type params [] highPrecision).2.2.length = 100
    ∧ calculateTheoreticalCurve E type params [] highPrecision
        = calculateTheoreticalCurve E type params (generateLogTimeSteps E.pow 100 (-3.0) 3.0)
            highPrecision
    ∧ (generateLogTimeSteps E.pow 100 (-3.0) 3.0).length = 100
    ∧ (∀ i : ℕ, i < 100 → (generateLogTimeSteps E.pow 100 (-3.0) 3.0)[i]?
        = some (E.pow 10 (-3 + 6 * (i : α) / 99)))
    ∧ List.Pairwise (fun s t => s < t) (generateLogTimeSteps E.pow 100 (-3.0) 3.0)
    ∧ (generateLogTimeSteps E.pow 100 (-3.0) 3.0).head? = some (E.pow 10 (-3))
    ∧ (generateLogTimeSteps E.pow 100 (-3.0) 3.0).getLast? = some (E.pow 10 3)
    ∧ (2 ≤ n → a < b →
        (generateLogTimeSteps E.pow n a b).length = n.toNat
        ∧ (∀ i : ℕ, i < n.toNat → (generateLogTimeSteps E.pow n a b)[i]?
            = some (E.pow 10 (a + (i : α) * ((b - a) / ((n : α) - 1)))))
        ∧ List.Pairwise (fun s t => s < t) (generateLogTimeSteps E.pow n a b)
        ∧ (generateLogTimeSteps E.pow n a b).head? = some (E.pow 10 a)
        ∧ (generateLogTimeSteps E.pow n a b).getLast? = some (E.pow 10 b))
    ∧ (n < 2 → generateLogTimeSteps E.pow n a b = []) := by
  obtain ⟨h1, h2, h3, h4, h5⟩ := logGrid_props E.pow hmono 100 (-3.0) 3.0 (by decide)
    (by norm_num)
  have e3 : (-3.0 : α) = -3 := by norm_num
  have e3' : (3.0 : α) = 3 := by norm_num
  have hfst : (calculateTheoreticalCurve E type params [] highPrecision).1
      = generateLogTimeSteps E.pow 100 (-3.0) 3.0 := by
    rw [calculateTheoreticalCurve_fst]
    rfl
  have hL := calculateTheoreticalCurve_lengths E type params [] highPrecision
  rw [hfst, h1] at hL
  refine ⟨hfst, hL.1, hL.2, default_grid_used E type params highPrecision, h1, ?_, h3, ?_, ?_,
    ?_, ?_⟩
  · intro i hi
    rw [h2 i hi, e3, e3']
    have e100 : ((100 : Int) : α) = 100 := by norm_num
    rw [e100]
    have e : (-3 + (i : α) * ((3 - -3) / (100 - 1)) : α) = -3 + 6 * (i : α) / 99 := by ring
    rw [e]
  · rw [h4, e3]
  · rw [h5, e3']
  · intro hn hab
    exact logGrid_props E.pow hmono n a b hn hab
  · intro hn
    exact logGrid_small E.pow n a b hn

/-- Witness of C12 over the reals, with the real power function: the curve of Model_1 with
the default parameters and no grid supplied (its time sequence is the default grid, of 100
strictly increasing points, and its pressure sequence has 100 entries), the grid of
`generateLogTimeSteps(5, 0, 2)` and the empty grid of `generateLogTimeSteps(1, 0, 2)`. -/
theorem C12_witness :
    ∃ E : MathEnv ℝ, E.pow = (fun b e => b ^ e) ∧ StrictMono (E.pow 10)
      ∧ (calculateTheoreticalCurve E ModelType.Model_1 [] [] true).1
          = generateLogTimeSteps E.pow 100 (-3.0) 3.0
      ∧ (calculateTheoreticalCurve E ModelType.Model_1 [] [] true).1.length = 100
      ∧ (calculateTheoreticalCurve E ModelType.Model_1 [] [] true).1.head?
          = some (E.pow 10 (-3))
      ∧ (calculateTheoreticalCurve E ModelType.Model_1 [] [] true).1.getLast?
          = some (E.pow 10 3)
      ∧ List.Pairwise (fun s t => s < t)
          (calculateTheoreticalCurve E ModelType.Model_1 [] [] true).1
      ∧ (calculateTheoreticalCurve E ModelType.Model_1 [] [] true).2.1.length = 100
      ∧ (calculateTheoreticalCurve E ModelType.Model_1 [] [] true).2.2.length = 100
      ∧ ((2 : Int) ≤ 5 ∧ (0 : ℝ) < 2
        ∧ (generateLogTimeSteps E.pow 5 0 2).length = (5 : Int).toNat
        ∧ (generateLogTimeSteps E.pow 5 0 2).head? = some (E.pow 10 0)
        ∧ (generateLogTimeSteps E.pow 5 0 2).getLast? = some (E.pow 10 2))
      ∧ ((1 : Int) < 2 ∧ generateLogTimeSteps E.pow 1 0 2 = []) := by
  have hm : StrictMono ((⟨fun b e => b ^ e, Real.log, Real.exp, Real.sqrt, fun _ _ => 0,
      fun _ _ => 0, fun _ _ b => b, fun _ p _ => p⟩ : MathEnv ℝ).pow 10) :=
    fun x y h => Real.rpow_lt_rpow_of_exponent_lt (by norm_num) h
  have key := C12_log_time_steps _ hm ModelType.Model_1 [] true
  obtain ⟨k1, k2, k3, _, k5, _, k7, k8, k9, _, _⟩ := key 5 0 2
  refine ⟨_, rfl, hm, k1, ?_, ?_, ?_, ?_, k2, k3, ?_, ?_⟩
  · rw [k1]; exact k5
  · rw [k1]; exact k8
  · rw [k1]; exact k9
  · rw [k1]; exact k7
  · have h := (key 5 0 2).2.2.2.2.2.2.2.2.2.1 (by decide) (by norm_num)
    exact ⟨by decide, by norm_num, h.1, h.2.2.2.1, h.2.2.2.2⟩
  · exact ⟨by decide, (key 1 0 2).2.2.2.2.2.2.2.2.2.2 (by decide)⟩

/-- C13: fracture placement in `flaplace_composite`.  The positions handed to `PWD_composite`
are those of the fracture count; for a count `nf ≥ 2` exactly `nf` positions are produced,
`x_i = -0.9 + i*1.8/(nf-1)` for `i = 0..nf-1`, so consecutive positions are `1.8/(nf-1)`
apart, the first is `-0.9` and the last is `0.9`; for `nf = 1` the single fracture is at `0`;
the fracture count is the supplied value truncated to an integer, and `1` when that is below
`1`. -/
theorem C13_fracture_placement [FloorRing α] (E : MathEnv α) (z : α) (p : Params α)
    (type : ModelType) (nf : Int) :
    flaplace_pre E z p type
        = (fdiv (value p "kf" 0) (value p "km" 0)).bind (fun M12 =>
            (fdiv (value p "lambda1" 0 * value p "omega2" 0)
              (value p "lambda1" 0 + z * value p "omega2" 0)).bind (fun q =>
              PWD_composite E z (value p "omega1" 0 + q) (M12 * value p "omega2" 0) M12
                (value p "LfD" 0) (value p "rmD" 0) (value p "reD" 0.0) (fractureCount p)
                (fracturePositions (fractureCount p)) type))
    ∧ (2 ≤ nf →
        (fracturePositions nf : List α).length = nf.toNat
        ∧ (∀ i : ℕ, i < nf.toNat →
            (fracturePositions nf : List α)[i]? = some (-0.9 + (i : α) * 1.8 / ((nf : α) - 1)))
        ∧ (∀ i : ℕ, i + 1 < nf.toNat → ∃ x y : α,
            (fracturePositions nf : List α)[i]? = some x
            ∧ (fracturePositions nf : List α)[i + 1]? = some y
            ∧ y - x = 1.8 / ((nf : α) - 1))
        ∧ (fracturePositions nf : List α).head? = some (-0.9)
        ∧ (fracturePositions nf : List α).getLast? = some 0.9)
    ∧ (fracturePositions 1 : List α) = [0]
    ∧ 1 ≤ fractureCount p
    ∧ (value p "nf" 4 < 1 → fractureCount p = 1)
    ∧ (toInt (value p "nf" 4) < 1 → fractureCount p = 1)
    ∧ (1 ≤ toInt (value p "nf" 4) → fractureCount p = toInt (value p "nf" 4)) := by
  refine ⟨rfl, fun hn => fracturePositions_props nf hn, ?_, fractureCount_props p⟩
  unfold fracturePositions
  rw [if_pos rfl]
  norm_num

/-- C14: outer-boundary coupling terms of `PWD_composite`, with `g2 = sqrt(z*fs2)`.  The
result is computed from the pair of terms; for Model_1 and Model_2 both terms are `0` and the
result does not depend on `reD`; for Model_3 and Model_4 the terms are
`(K1(g2*reD)/Is_1(g2*reD)) * Is_v(g2*rmD) * exp(g2*rmD - g2*reD)` for `v = 0` and `v = 1`
when `Is_1(g2*reD)` exceeds `1e-100` and `0` otherwise; for Model_5 and Model_6 they are
`-(K0(g2*reD)/Is_0(g2*reD)) * Is_v(g2*rmD) * exp(g2*rmD - g2*reD)` when `Is_0(g2*reD)`
exceeds `1e-100` and `0` otherwise.  `Is_v` is `scaled_besseli`: `e^(-|x|) * I_v(|x|)` for
`|x| ≤ 600` and the large-argument form `1/sqrt(2*pi*|x|)` beyond. -/
theorem C14_outer_boundary_terms (E : MathEnv α) (z fs1 fs2 M12 LfD rmD reD reD2 : α)
    (nf : Int) (xwD : List α) (type : ModelType) :
    PWD_composite E z fs1 fs2 M12 LfD rmD reD nf xwD type
      = PWD_solve E z M12 LfD (E.sqrt (z * fs1)) (E.sqrt (z * fs2)) (E.sqrt (z * fs2) * rmD)
          (E.sqrt (z * fs1) * rmD) nf xwD
          (outerBoundaryTerms E (E.sqrt (z * fs2)) (E.sqrt (z * fs2) * rmD) reD type)
    ∧ (type = ModelType.Model_1 ∨ type = ModelType.Model_2 →
        outerBoundaryTerms E (E.sqrt (z * fs2)) (E.sqrt (z * fs2) * rmD) reD type = (0, 0)
        ∧ PWD_composite E z fs1 fs2 M12 LfD rmD reD nf xwD type
            = PWD_composite E z fs1 fs2 M12 LfD rmD reD2 nf xwD type)
    ∧ (type = ModelType.Model_3 ∨ type = ModelType.Model_4 →
        outerBoundaryTerms E (E.sqrt (z * fs2)) (E.sqrt (z * fs2) * rmD) reD type
          = if scaled_besseli E 1 (E.sqrt (z * fs2) * reD) > 1e-100 then
              (E.cyl_bessel_k 1 (E.sqrt (z * fs2) * reD)
                  / scaled_besseli E 1 (E.sqrt (z * fs2) * reD)
                  * scaled_besseli E 0 (E.sqrt (z * fs2) * rmD)
                  * E.exp (E.sqrt (z * fs2) * rmD - E.sqrt (z * fs2) * reD),
                E.cyl_bessel_k 1 (E.sqrt (z * fs2) * reD)
                  / scaled_besseli E 1 (E.sqrt (z * fs2) * reD)
                  * scaled_besseli E 1 (E.sqrt (z * fs2) * rmD)
                  * E.exp (E.sqrt (z * fs2) * rmD - E.sqrt (z * fs2) * reD))
            else (0, 0))
    ∧ (type = ModelType.Model_5 ∨ type = ModelType.Model_6 →
        outerBoundaryTerms E (E.sqrt (z * fs2)) (E.sqrt (z * fs2) * rmD) reD type
          = if scaled_besseli E 0 (E.sqrt (z * fs2) * reD) > 1e-100 then
              (-(E.cyl_bessel_k 0 (E.sqrt (z * fs2) * reD)
                  / scaled_besseli E 0 (E.sqrt (z * fs2) * reD))
                  * scaled_besseli E 0 (E.sqrt (z * fs2) * rmD)
                  * E.exp (E.sqrt (z * fs2) * rmD - E.sqrt (z * fs2) * reD),
                -(E.cyl_bessel_k 0 (E.sqrt (z * fs2) * reD)
                  / scaled_besseli E 0 (E.sqrt (z * fs2) * reD))
                  * scaled_besseli E 1 (E.sqrt (z * fs2) * rmD)
                  * E.exp (E.sqrt (z * fs2) * rmD - E.sqrt (z * fs2) * reD))
            else (0, 0))
    ∧ (∀ (v : Int) (x : α), scaled_besseli E v x
        = if |x| > 600 then 1 / E.sqrt (2 * M_PI * |x|)
          else E.cyl_bessel_i v |x| * E.exp (-|x|)) := by
  have e0 : ((0.0 : α), (0.0 : α)) = (0, 0) := by norm_num
  refine ⟨rfl, ?_, ?_, ?_, scaled_besseli_eq E⟩
  · intro h
    constructor
    · rw [outerBoundaryTerms_infinite E _ _ _ type h, e0]
    · rw [PWD_composite_terms, PWD_composite_terms, outerBoundaryTerms_infinite E _ _ reD type h,
        outerBoundaryTerms_infinite E _ _ reD2 type h]
  · intro h
    exact outerBoundaryTerms_closed E _ _ _ type h
  · intro h
    exact outerBoundaryTerms_constP E _ _ _ type h

/-- C15: for every `z > 0` and fracture count `F` for which the `(F+1)×(F+1)` system that
`PWD_composite` assembles is non-singular (its entries being finite), the solution `x` of the
system, which is unique, satisfies: `z` times the sum of the fluxes `x_0..x_(F-1)` is `1`
(final row; the sum is `1/z`, the transform of the unit rate), every fracture row `i`
satisfies `sum_j A(i,j)*x_j = x_F` with the same unknown `x_F` (final column), and the value
`PWD_composite` returns is `x_F`.  The solver returns a solution of every non-singular
system. -/
theorem C15_linear_system (E : MathEnv α)
    (hsolve : ∀ (n : ℕ) (A : Matrix (Fin n) (Fin n) α) (b : Fin n → α), A.det ≠ 0 →
      A.mulVec (E.fullPivLuSolve n A b) = b)
    (z fs1 fs2 M12 LfD rmD reD : α) (nf : Int) (xwD : List α) (type : ModelType)
    (hz : 0 < z) (hden : M12 * z * 2 * LfD ≠ 0)
    (hdet : (PWD_matrix E z fs1 fs2 M12 LfD rmD reD nf xwD type).det ≠ 0) :
    ∃ x : Fin (nf.toNat + 1) → α,
      (PWD_matrix E z fs1 fs2 M12 LfD rmD reD nf xwD type).mulVec x = systemRhs nf.toNat
      ∧ (∀ y : Fin (nf.toNat + 1) → α,
          (PWD_matrix E z fs1 fs2 M12 LfD rmD reD nf xwD type).mulVec y = systemRhs nf.toNat
            → y = x)
      ∧ z * ∑ j : Fin nf.toNat, x j.castSucc = 1
      ∧ ∑ j : Fin nf.toNat, x j.castSucc = 1 / z
      ∧ (∀ i : Fin nf.toNat,
          ∑ j : Fin nf.toNat,
            PWD_matrix E z fs1 fs2 M12 LfD rmD reD nf xwD type i.castSucc j.castSucc
              * x j.castSucc = x (Fin.last nf.toNat))
      ∧ PWD_composite E z fs1 fs2 M12 LfD rmD reD nf xwD type
          = some (x (Fin.last nf.toNat)) :=
  system_solution E hsolve z fs1 fs2 M12 LfD rmD reD nf xwD type hz hden hdet

/-- Witness of C15 over the reals: one fracture at the origin, `z = 2`, Model_3, the solver
being the multiplication by the inverse matrix; the system is `[[A00, -1], [2, 0]]`, of
determinant `2`. -/
theorem C15_witness :
    ∃ E : MathEnv ℝ,
      (∀ (n : ℕ) (A : Matrix (Fin n) (Fin n) ℝ) (b : Fin n → ℝ), A.det ≠ 0 →
        A.mulVec (E.fullPivLuSolve n A b) = b)
      ∧ (0 : ℝ) < 2 ∧ (1 * 2 * 2 * 1 : ℝ) ≠ 0
      ∧ (PWD_matrix E 2 1 1 1 1 5 20 1 [0] ModelType.Model_3).det ≠ 0
      ∧ ∃ x : Fin 2 → ℝ,
          2 * ∑ j : Fin 1, x j.castSucc = 1
          ∧ PWD_composite E 2 1 1 1 1 5 20 1 [0] ModelType.Model_3 = some (x (Fin.last 1)) := by
  have hs : ∀ (n : ℕ) (A : Matrix (Fin n) (Fin n) ℝ) (b : Fin n → ℝ), A.det ≠ 0 →
      A.mulVec ((⟨fun b e => b ^ e, Real.log, Real.exp, Real.sqrt, fun _ _ => 0, fun _ _ => 0,
        fun _ A b => A⁻¹.mulVec b, fun t _ _ => t⟩ : MathEnv ℝ).fullPivLuSolve n A b) = b := by
    intro n A b hA
    show A.mulVec (A⁻¹.mulVec b) = b
    rw [Matrix.mulVec_mulVec, Matrix.mul_nonsing_inv _ (isUnit_iff_ne_zero.mpr hA),
      Matrix.one_mulVec]
  have hd : (PWD_matrix (⟨fun b e => b ^ e, Real.log, Real.exp, Real.sqrt, fun _ _ => 0,
      fun _ _ => 0, fun _ A b => A⁻¹.mulVec b, fun t _ _ => t⟩ : MathEnv ℝ)
      2 1 1 1 1 5 20 1 [0] ModelType.Model_3).det ≠ 0 := by
    have e : (PWD_matrix (⟨fun b e => b ^ e, Real.log, Real.exp, Real.sqrt, fun _ _ => 0,
      fun _ _ => 0, fun _ A b => A⁻¹.mulVec b, fun t _ _ => t⟩ : MathEnv ℝ)
      2 1 1 1 1 5 20 1 [0] ModelType.Model_3).det = 2 := by
      exact PWD_matrix_det_one _ 2 1 1 1 1 5 20 [0] ModelType.Model_3
    rw [e]
    norm_num
  obtain ⟨x, _, _, h3, _, _, h6⟩ := C15_linear_system _ hs 2 1 1 1 1 5 20 1 [0]
    ModelType.Model_3 (by norm_num) (by norm_num) hd
  exact ⟨_, hs, by norm_num, by norm_num, hd, x, h3, h6⟩

/-- C16: `adaptiveGauss(f, a, b, eps, depth, maxDepth)` with `c = (a+b)/2`,
`v1 = gauss15(f,a,b)` and `v2 = gauss15(f,a,c) + gauss15(f,c,b)`: if
`|v1 - v2| < 1e-10*|v2| + eps` or `depth >= maxDepth` it returns `v2`; otherwise it returns
`adaptiveGauss(f,a,c,eps/2,depth+1,maxDepth) + adaptiveGauss(f,c,b,eps/2,depth+1,maxDepth)`. -/
theorem C16_adaptiveGauss_step (f : α → α) (a b eps : α) (depth maxDepth : Int) (c v1 v2 : α)
    (hc : c = (a + b) / 2) (hv1 : v1 = gauss15 f a b)
    (hv2 : v2 = gauss15 f a c + gauss15 f c b) :
    (depth ≥ maxDepth ∨ |v1 - v2| < 1e-10 * |v2| + eps →
      adaptiveGauss f a b eps depth maxDepth = v2)
    ∧ (¬ (depth ≥ maxDepth ∨ |v1 - v2| < 1e-10 * |v2| + eps) →
      adaptiveGauss f a b eps depth maxDepth
        = adaptiveGauss f a c (eps / 2) (depth + 1) maxDepth
          + adaptiveGauss f c b (eps / 2) (depth + 1) maxDepth) := by
  subst hc hv1 hv2
  constructor
  · intro h
    rw [adaptiveGauss_eq, if_pos h]
  · intro h
    rw [adaptiveGauss_eq, if_neg h]

/-- Witness of C16 over the rationals: the integrand `x ↦ x` on `[0, 1]` with `eps = 1e-5`
at depth 0 of 10. -/
theorem C16_witness :
    ((0 : Int) ≥ 10
        ∨ |gauss15 (fun x : ℚ => x) 0 1
            - (gauss15 (fun x : ℚ => x) 0 ((0 + 1) / 2)
              + gauss15 (fun x : ℚ => x) ((0 + 1) / 2) 1)|
          < 1e-10 * |gauss15 (fun x : ℚ => x) 0 ((0 + 1) / 2)
              + gauss15 (fun x : ℚ => x) ((0 + 1) / 2) 1| + 1e-5 →
      adaptiveGauss (fun x : ℚ => x) 0 1 1e-5 0 10
        = gauss15 (fun x : ℚ => x) 0 ((0 + 1) / 2) + gauss15 (fun x : ℚ => x) ((0 + 1) / 2) 1)
    ∧ (¬ ((0 : Int) ≥ 10
        ∨ |gauss15 (fun x : ℚ => x) 0 1
            - (gauss15 (fun x : ℚ => x) 0 ((0 + 1) / 2)
              + gauss15 (fun x : ℚ => x) ((0 + 1) / 2) 1)|
          < 1e-10 * |gauss15 (fun x : ℚ => x) 0 ((0 + 1) / 2)
              + gauss15 (fun x : ℚ => x) ((0 + 1) / 2) 1| + 1e-5) →
      adaptiveGauss (fun x : ℚ => x) 0 1 1e-5 0 10
        = adaptiveGauss (fun x : ℚ => x) 0 ((0 + 1) / 2) (1e-5 / 2) (0 + 1) 10
          + adaptiveGauss (fun x : ℚ => x) ((0 + 1) / 2) 1 (1e-5 / 2) (0 + 1) 10) :=
  C16_adaptiveGauss_step (fun x : ℚ => x) 0 1 1e-5 0 10 _ _ _ rfl rfl rfl

/-- C17: `adaptiveGauss` is total, and started at depth 0 it makes no call at a depth above
`maxDepth` (for `maxDepth < 0` it makes no recursive call at all): every call of its call
tree has a depth between 0 and `maxDepth` and an interval of width `(b-a)/2^depth`, at most
`2^maxDepth` calls are accepted and fewer than `2^(maxDepth+1)` calls are made, and the value
returned is the sum of the estimates `v2` of the accepted sub-intervals; with the cap 10 the
interval is split into at most `2^10 = 1024` accepted sub-intervals. -/
theorem C17_adaptiveGauss_depth (f : α → α) (a b eps : α) (maxDepth : Int) :
    (0 ≤ maxDepth → ∀ call ∈ adaptiveGaussCalls f a b eps 0 maxDepth,
      0 ≤ call.2.2.1 ∧ call.2.2.1 ≤ maxDepth)
    ∧ (maxDepth < 0 → adaptiveGaussCalls f a b eps 0 maxDepth = [(a, b, 0, true)])
    ∧ (∀ call ∈ adaptiveGaussCalls f a b eps 0 maxDepth,
        call.2.1 - call.1 = (b - a) / 2 ^ call.2.2.1.toNat)
    ∧ ((adaptiveGaussCalls f a b eps 0 maxDepth).filter (fun call => call.2.2.2)).length
        ≤ 2 ^ maxDepth.toNat
    ∧ (adaptiveGaussCalls f a b eps 0 maxDepth).length < 2 ^ (maxDepth.toNat + 1)
    ∧ adaptiveGauss f a b eps 0 maxDepth
        = (((adaptiveGaussCalls f a b eps 0 maxDepth).filter (fun call => call.2.2.2)).map
            (fun call => gauss15 f call.1 ((call.1 + call.2.1) / 2)
              + gauss15 f ((call.1 + call.2.1) / 2) call.2.1)).sum
    ∧ ((adaptiveGaussCalls f a b eps 0 10).filter (fun call => call.2.2.2)).length ≤ 1024 := by
  obtain ⟨h1, h2, h3, h4⟩ := adaptiveGaussCalls_props f maxDepth (maxDepth - 0).toNat a b eps 0
    (le_refl _)
  obtain ⟨_, k2, _, _⟩ := adaptiveGaussCalls_props f 10 ((10 : Int) - 0).toNat a b eps 0
    (le_refl _)
  rw [sub_zero] at h2 h3
  refine ⟨?_, ?_, ?_, h2, by omega, h4, ?_⟩
  · intro hm call hc
    obtain ⟨c1, c2, _⟩ := h1 call hc
    rw [max_eq_right hm] at c2
    exact ⟨c1, c2⟩
  · intro hm
    rw [adaptiveGaussCalls_eq, if_pos (Or.inl (by omega))]
  · intro call hc
    obtain ⟨_, _, c3⟩ := h1 call hc
    rw [sub_zero] at c3
    exact c3
  · exact k2

/-- C18: fit-parameter visibility is a function of the model variant only.  After
`resetParams(type)` and after `switchModel(type)`, a parameter named `reD` is visible exactly
when the type is Model_3, Model_4, Model_5 or Model_6, and one named `cD` or `S` exactly when
it is Model_1, Model_3 or Model_5 (`resetParams` creates the thirteen parameters, these three
among them); `switchModel` keeps the number and order of the parameters, changes no name,
display name, value, bound or fit flag, and changes the visibility of no other parameter. -/
theorem C18_visibility (mpL : α) (type : ModelType) (m_params : List (FitParameter α)) :
    (∀ p ∈ resetParams mpL type,
      (p.name = "reD" → (p.isVisible = true ↔
        (type = ModelType.Model_3 ∨ type = ModelType.Model_4 ∨ type = ModelType.Model_5
          ∨ type = ModelType.Model_6)))
      ∧ (p.name = "cD" ∨ p.name = "S" → (p.isVisible = true ↔
        (type = ModelType.Model_1 ∨ type = ModelType.Model_3 ∨ type = ModelType.Model_5))))
    ∧ (resetParams mpL type).map (fun p => p.name)
        = ["kf", "km", "L", "Lf", "nf", "omega1", "omega2", "lambda1", "rmD", "reD", "cD", "S",
            "gamaD"]
    ∧ (∀ p ∈ switchModel type m_params,
      (p.name = "reD" → (p.isVisible = true ↔
        (type = ModelType.Model_3 ∨ type = ModelType.Model_4 ∨ type = ModelType.Model_5
          ∨ type = ModelType.Model_6)))
      ∧ (p.name = "cD" ∨ p.name = "S" → (p.isVisible = true ↔
        (type = ModelType.Model_1 ∨ type = ModelType.Model_3 ∨ type = ModelType.Model_5))))
    ∧ List.Forall₂ (fun p q => q.name = p.name ∧ q.displayName = p.displayName
        ∧ q.value = p.value ∧ q.min = p.min ∧ q.max = p.max ∧ q.isFit = p.isFit
        ∧ (p.name ≠ "reD" → p.name ≠ "cD" → p.name ≠ "S" → q.isVisible = p.isVisible))
      m_params (switchModel type m_params) :=
  ⟨(resetParams_visibility mpL type).1, (resetParams_visibility mpL type).2,
    switchModel_visibility type m_params, switchModel_frame type m_params⟩

/-- C19: in `updateParamsFromTable`, the rows of the table referring to distinct parameters
(as `refreshTable` builds them), for every row that refers to a parameter `p`: a field
(value, lower bound, upper bound) whose cell text is not a valid number keeps the value it
had in `p`, a field whose text parses takes the parsed number; the fit flag takes the check
state of the row and the name, display name and visibility are unchanged.  The number of
parameters is unchanged and a parameter no row refers to is unchanged. -/
theorem C19_table_update {β : Type} (toDouble : String → Option β) (rows : List TableRow)
    (m_params : List (FitParameter β))
    (hnd : (rows.map (fun r => r.paramIndex)).Nodup)
    (r : TableRow) (p : FitParameter β) (hr : r ∈ rows) (h0 : 0 ≤ r.paramIndex)
    (hp : m_params[r.paramIndex.toNat]? = some p) :
    ∃ q : FitParameter β,
      (updateParamsFromTable toDouble rows m_params)[r.paramIndex.toNat]? = some q
      ∧ (toDouble r.valueText = none → q.value = p.value)
      ∧ (∀ v, toDouble r.valueText = some v → q.value = v)
      ∧ (toDouble r.minText = none → q.min = p.min)
      ∧ (∀ v, toDouble r.minText = some v → q.min = v)
      ∧ (toDouble r.maxText = none → q.max = p.max)
      ∧ (∀ v, toDouble r.maxText = some v → q.max = v)
      ∧ q.isFit = r.checked ∧ q.name = p.name ∧ q.displayName = p.displayName
      ∧ q.isVisible = p.isVisible
      ∧ (updateParamsFromTable toDouble rows m_params).length = m_params.length
      ∧ (∀ (i : ℕ) (p2 : FitParameter β), (∀ r2 ∈ rows, r2.paramIndex ≠ (i : Int)) →
          m_params[i]? = some p2 →
          (updateParamsFromTable toDouble rows m_params)[i]? = some p2) := by
  obtain ⟨t1, t2, t3⟩ := table_update toDouble rows hnd m_params
  obtain ⟨f1, f2, f3, f4, f5, f6, f7⟩ := applyRow_fields toDouble r p
  refine ⟨applyRow toDouble r p, t2 r hr p h0 hp, ?_, ?_, ?_, ?_, ?_, ?_, f4, f5, f6, f7, t1, t3⟩
  · intro h
    rw [f1, h]
    rfl
  · intro v h
    rw [f1, h]
    rfl
  · intro h
    rw [f2, h]
    rfl
  · intro v h
    rw [f2, h]
    rfl
  · intro h
    rw [f3, h]
    rfl
  · intro v h
    rw [f3, h]
    rfl

/-- Witness of C19 over the rationals: one parameter `kf` with value 1 and bounds 0 and 10,
one row for it with the texts `abc`, `0.5` and the empty text: the value stays 1, the lower
bound becomes 1/2, the upper bound stays 10. -/
theorem C19_witness :
    (([⟨true, 0, "abc", "0.5", ""⟩] : List TableRow).map (fun r => r.paramIndex)).Nodup
    ∧ (⟨true, 0, "abc", "0.5", ""⟩ : TableRow) ∈ ([⟨true, 0, "abc", "0.5", ""⟩] : List TableRow)
    ∧ ∃ q : FitParameter ℚ,
        (updateParamsFromTable (fun s => if s = "0.5" then some (1 / 2 : ℚ) else none)
          [⟨true, 0, "abc", "0.5", ""⟩] [⟨"kf", "kf", 1, 0, 10, false, true⟩])[0]? = some q
        ∧ q.value = 1 ∧ q.min = 1 / 2 ∧ q.max = 10 ∧ q.isFit = true := by
  have hnd : (([⟨true, 0, "abc", "0.5", ""⟩] : List TableRow).map
      (fun r => r.paramIndex)).Nodup := by simp
  have hr : (⟨true, 0, "abc", "0.5", ""⟩ : TableRow)
      ∈ ([⟨true, 0, "abc", "0.5", ""⟩] : List TableRow) := List.mem_singleton.mpr rfl
  obtain ⟨q, hq, v1, _, _, m2, x1, _, hfit, _⟩ := C19_table_update
    (fun s => if s = "0.5" then some (1 / 2 : ℚ) else none)
    [⟨true, 0, "abc", "0.5", ""⟩] [⟨"kf", "kf", 1, 0, 10, false, true⟩] hnd
    ⟨true, 0, "abc", "0.5", ""⟩ ⟨"kf", "kf", 1, 0, 10, false, true⟩ hr (le_refl 0) rfl
  exact ⟨hnd, hr, q, hq, v1 (by simp), m2 (1 / 2) (by simp), x1 (by simp), hfit⟩

/-- C20 (as stated, refuted): the text `abc` holds no valid number, and `parseInput` returns
the single value `0.0` for it, which `runCalculation` hands to the solver: a field that held
`5` (value 5 handed to the solver) and is changed to `abc` gives the solver `0`, not the
previous value 5.  This holds for every `toDouble` that rejects `abc` and reads `5` as 5. -/
theorem C20_counterexample :
    ((("abc".toList.map (fun c => if c = '，' then ',' else c)).splitOn ',').filter
        (fun part => !part.isEmpty)) = [['a', 'b', 'c']]
    ∧ ∀ toDouble : String → Option ℚ, toDouble "abc" = none → toDouble "5" = some 5 →
        baseParamValue toDouble "5" = 5
        ∧ parseInput toDouble "abc" = [0]
        ∧ baseParamValue toDouble "abc" = 0
        ∧ baseParamValue toDouble "abc" ≠ baseParamValue toDouble "5" := by
  have eabc : ((("abc".toList.map (fun c => if c = '，' then ',' else c)).splitOn ',').filter
      (fun part => !part.isEmpty)) = [['a', 'b', 'c']] := by decide
  have e5 : ((("5".toList.map (fun c => if c = '，' then ',' else c)).splitOn ',').filter
      (fun part => !part.isEmpty)) = [['5']] := by decide
  have tabc : String.mk (trimmed ['a', 'b', 'c']) = "abc" := by decide
  have t5 : String.mk (trimmed ['5']) = "5" := by decide
  refine ⟨eabc, ?_⟩
  intro toDouble habc h5
  have hbad := parseInput_malformed toDouble "abc" (by
    intro part hp
    rw [eabc, List.mem_singleton] at hp
    rw [hp, tabc, habc])
  have hgood : baseParamValue toDouble "5" = 5 := by
    unfold baseParamValue
    rw [parseInput_eq, e5]
    simp [List.filterMap, t5, h5]
  refine ⟨hgood, hbad.1, hbad.2, ?_⟩
  rw [hgood, hbad.2]
  norm_num

/-- C20 (amended): for every text no part of which is a valid number (the parts being those
between commas, ASCII or full-width, empty parts skipped, each part trimmed), `parseInput`
returns the single value `0.0`, and `0.0` is the value that `runCalculation` hands to the
solver for that parameter; the previous value is not retained.  For every text the result of
`parseInput` is non-empty: the numbers of the parts that parse, in order, or `0.0` alone when
there is none. -/
theorem C20_parse_input (toDouble : String → Option α) (text : String)
    (hbad : ∀ part ∈ ((text.toList.map (fun c => if c = '，' then ',' else c)).splitOn ',').filter
      (fun part => !part.isEmpty), toDouble (String.mk (trimmed part)) = none) :
    parseInput toDouble text = [0]
    ∧ baseParamValue toDouble text = 0
    ∧ ∀ text2 : String,
        parseInput toDouble text2 ≠ []
        ∧ parseInput toDouble text2
          = if ((((text2.toList.map (fun c => if c = '，' then ',' else c)).splitOn ',').filter
                (fun part => !part.isEmpty)).filterMap
                (fun part => toDouble (String.mk (trimmed part)))).isEmpty
            then [0]
            else (((text2.toList.map (fun c => if c = '，' then ',' else c)).splitOn ',').filter
                (fun part => !part.isEmpty)).filterMap
                (fun part => toDouble (String.mk (trimmed part))) :=
  ⟨(parseInput_malformed toDouble text hbad).1, (parseInput_malformed toDouble text hbad).2,
    fun text2 => ⟨parseInput_ne_nil toDouble text2, parseInput_eq toDouble text2⟩⟩

/-- Witness of C20 over the rationals: the text `abc`, with a `toDouble` that reads only the
text `5`. -/
theorem C20_witness :
    (∀ part ∈ (("abc".toList.map (fun c => if c = '，' then ',' else c)).splitOn ',').filter
        (fun part => !part.isEmpty),
      (fun s => if s = "5" then some (5 : ℚ) else none) (String.mk (trimmed part)) = none)
    ∧ parseInput (fun s => if s = "5" then some (5 : ℚ) else none) "abc" = [0]
    ∧ baseParamValue (fun s => if s = "5" then some (5 : ℚ) else none) "abc" = 0 := by
  have hb : ∀ part ∈ (("abc".toList.map (fun c => if c = '，' then ',' else c)).splitOn ',').filter
        (fun part => !part.isEmpty),
      (fun s => if s = "5" then some (5 : ℚ) else none) (String.mk (trimmed part)) = none := by
    intro part hp
    have eabc : ((("abc".toList.map (fun c => if c = '，' then ',' else c)).splitOn ',').filter
        (fun part => !part.isEmpty)) = [['a', 'b', 'c']] := by decide
    have tabc : String.mk (trimmed ['a', 'b', 'c']) = "abc" := by decide
    rw [eabc, List.mem_singleton] at hp
    rw [hp, tabc]
    simp
  have key := C20_parse_input (fun s => if s = "5" then some (5 : ℚ) else none) "abc" hb
  exact ⟨hb, key.1, key.2.1⟩

/-- C21: division safety of the Laplace-space model.  For every `z > 0`, every variant and
every parameter set with `kf > 0`, `km > 0`, `LfD > 0`, `omega2 > 0` and `lambda1 > 0`, every
division that `flaplace_composite` and `PWD_composite` perform before the storage and skin
correction (permeability ratio, fracture spacing, `fs1`, boundary ratios, coupling
coefficient, matrix entries) has a non-zero denominator, so the pressure before the
correction is finite; the denominator of the coupling coefficient has magnitude at least
`1e-100` whatever the arguments; and the division inside `scaled_besseli` has a non-zero
denominator when `sqrt` is positive on positive numbers. -/
theorem C21_division_safety [FloorRing α] (E : MathEnv α) (z : α) (p : Params α)
    (type : ModelType) (hz : 0 < z) (hkf : 0 < value p "kf" 0) (hkm : 0 < value p "km" 0)
    (hLfD : 0 < value p "LfD" 0) (ho2 : 0 < value p "omega2" 0)
    (hl1 : 0 < value p "lambda1" 0) :
    (∀ d ∈ flaplace_divisors E z p type, d ≠ 0)
    ∧ (∀ (M12 gama1 gama2 arg_g2_rm arg_g1_rm : α) (terms : α × α),
        1e-100 ≤ |couplingDenominator E M12 gama1 gama2 arg_g2_rm arg_g1_rm terms|)
    ∧ (flaplace_pre E z p type).isSome = true
    ∧ ((∀ x : α, 0 < x → 0 < E.sqrt x) →
        ∀ x : α, 600 < |x| → E.sqrt (2 * M_PI * |x|) ≠ 0) :=
  ⟨(flaplace_divisors_ne_zero E z p type hz hkf hkm hLfD ho2 hl1).1,
    couplingDenominator_bound E,
    (flaplace_divisors_ne_zero E z p type hz hkf hkm hLfD ho2 hl1).2,
    scaled_besseli_divisor E⟩

/-- Witness of C21 over the reals: Model_3 at `z = 1` with `kf = 1e-3`, `km = 1e-4`,
`LfD = 0.1`, `omega2 = 0.08`, `lambda1 = 0.001` and the other parameters left out. -/
theorem C21_witness :
    ∃ E : MathEnv ℝ, E.sqrt = Real.sqrt ∧ E.exp = Real.exp
      ∧ (0 : ℝ) < 1
      ∧ 0 < value ([("kf", 1e-3), ("km", 1e-4), ("LfD", 0.1), ("omega2", 0.08),
          ("lambda1", 0.001)] : Params ℝ) "kf" 0
      ∧ 0 < value ([("kf", 1e-3), ("km", 1e-4), ("LfD", 0.1), ("omega2", 0.08),
          ("lambda1", 0.001)] : Params ℝ) "km" 0
      ∧ 0 < value ([("kf", 1e-3), ("km", 1e-4), ("LfD", 0.1), ("omega2", 0.08),
          ("lambda1", 0.001)] : Params ℝ) "LfD" 0
      ∧ 0 < value ([("kf", 1e-3), ("km", 1e-4), ("LfD", 0.1), ("omega2", 0.08),
          ("lambda1", 0.001)] : Params ℝ) "omega2" 0
      ∧ 0 < value ([("kf", 1e-3), ("km", 1e-4), ("LfD", 0.1), ("omega2", 0.08),
          ("lambda1", 0.001)] : Params ℝ) "lambda1" 0
      ∧ (∀ d ∈ flaplace_divisors E 1 [("kf", 1e-3), ("km", 1e-4), ("LfD", 0.1),
          ("omega2", 0.08), ("lambda1", 0.001)] ModelType.Model_3, d ≠ 0)
      ∧ (flaplace_pre E 1 [("kf", 1e-3), ("km", 1e-4), ("LfD", 0.1), ("omega2", 0.08),
          ("lambda1", 0.001)] ModelType.Model_3).isSome = true := by
  have h1 : 0 < value ([("kf", 1e-3), ("km", 1e-4), ("LfD", 0.1), ("omega2", 0.08),
      ("lambda1", 0.001)] : Params ℝ) "kf" 0 := by
    rw [value_cons_self]; norm_num
  have h2 : 0 < value ([("kf", 1e-3), ("km", 1e-4), ("LfD", 0.1), ("omega2", 0.08),
      ("lambda1", 0.001)] : Params ℝ) "km" 0 := by
    simp [value_cons]
    norm_num
  have h3 : 0 < value ([("kf", 1e-3), ("km", 1e-4), ("LfD", 0.1), ("omega2", 0.08),
      ("lambda1", 0.001)] : Params ℝ) "LfD" 0 := by
    simp [value_cons]
    norm_num
  have h4 : 0 < value ([("kf", 1e-3), ("km", 1e-4), ("LfD", 0.1), ("omega2", 0.08),
      ("lambda1", 0.001)] : Params ℝ) "omega2" 0 := by
    simp [value_cons]
    norm_num
  have h5 : 0 < value ([("kf", 1e-3), ("km", 1e-4), ("LfD", 0.1), ("omega2", 0.08),
      ("lambda1", 0.001)] : Params ℝ) "lambda1" 0 := by
    simp [value_cons]
    norm_num
  have key := C21_division_safety (⟨fun b e => b ^ e, Real.log, Real.exp, Real.sqrt,
      fun _ _ => 0, fun _ _ => 0, fun _ _ b => b, fun _ p _ => p⟩ : MathEnv ℝ) 1
    [("kf", 1e-3), ("km", 1e-4), ("LfD", 0.1), ("omega2", 0.08), ("lambda1", 0.001)]
    ModelType.Model_3 one_pos h1 h2 h3 h4 h5
  exact ⟨_, rfl, rfl, one_pos, h1, h2, h3, h4, h5, key.1, key.2.2.1⟩

/-- C22: consistency of the scaled form in `PWD_composite`.  With an exponential that turns
sums into products and never vanishes, all Bessel arguments in `[0, 600]` (where
`scaled_besseli(v, x)` is `e^(-x) * I_v(x)`) and no guard firing, the exponential scale
factors cancel: the closed-boundary terms are `(K1(g2*reD)/I1(g2*reD)) * I_v(g2*rmD)`, the
constant-pressure terms `-(K0(g2*reD)/I0(g2*reD)) * I_v(g2*rmD)`, and the quadrature kernel
is `K0(g1*d) + Ac * I0(g1*d)` with
`Ac = Acup / (M12*g1*I1(g1*rmD)*term1 - g2*I0(g1*rmD)*term2)`, the coefficient computed by
the code being `Ac / e^(-g1*rmD)`. -/
theorem C22_scaled_consistency (E : MathEnv α)
    (hadd : ∀ x y : α, E.exp (x + y) = E.exp x * E.exp y) (hne : ∀ x : α, E.exp x ≠ 0)
    (M12 g1 g2 rmD reD : α) (type : ModelType) (terms : α × α) (xwD ywD : List α) (i j : ℕ)
    (a d term1 term2 Acup : α)
    (hterm1 : term1 = terms.1 + E.cyl_bessel_k 0 (g2 * rmD))
    (hterm2 : term2 = terms.2 - E.cyl_bessel_k 1 (g2 * rmD))
    (hAcup : Acup = M12 * g1 * E.cyl_bessel_k 1 (g1 * rmD) * term1
      + g2 * E.cyl_bessel_k 0 (g1 * rmD) * term2)
    (hd : d = E.sqrt (E.pow (xwD.getD i 0 - xwD.getD j 0 - a) 2
      + E.pow (ywD.getD i 0 - ywD.getD j 0) 2))
    (hre : 0 ≤ g2 * reD ∧ g2 * reD ≤ 600) (hrm : 0 ≤ g2 * rmD ∧ g2 * rmD ≤ 600)
    (hg1 : 0 ≤ g1 * rmD ∧ g1 * rmD ≤ 600) (hgd : 1e-10 ≤ g1 * d ∧ g1 * d ≤ 600)
    (hexp : g1 * d - g1 * rmD > -700)
    (hfloor : ¬ |M12 * g1 * scaled_besseli E 1 (g1 * rmD) * term1
      - g2 * scaled_besseli E 0 (g1 * rmD) * term2| < 1e-100) :
    (type = ModelType.Model_3 ∨ type = ModelType.Model_4 →
      scaled_besseli E 1 (g2 * reD) > 1e-100 →
      outerBoundaryTerms E g2 (g2 * rmD) reD type
        = (E.cyl_bessel_k 1 (g2 * reD) / E.cyl_bessel_i 1 (g2 * reD)
              * E.cyl_bessel_i 0 (g2 * rmD),
            E.cyl_bessel_k 1 (g2 * reD) / E.cyl_bessel_i 1 (g2 * reD)
              * E.cyl_bessel_i 1 (g2 * rmD)))
    ∧ (type = ModelType.Model_5 ∨ type = ModelType.Model_6 →
      scaled_besseli E 0 (g2 * reD) > 1e-100 →
      outerBoundaryTerms E g2 (g2 * rmD) reD type
        = (-(E.cyl_bessel_k 0 (g2 * reD) / E.cyl_bessel_i 0 (g2 * reD))
              * E.cyl_bessel_i 0 (g2 * rmD),
            -(E.cyl_bessel_k 0 (g2 * reD) / E.cyl_bessel_i 0 (g2 * reD))
              * E.cyl_bessel_i 1 (g2 * rmD)))
    ∧ couplingPrefactor E M12 g1 g2 (g2 * rmD) (g1 * rmD) terms
        = Acup / (M12 * g1 * E.cyl_bessel_i 1 (g1 * rmD) * term1
            - g2 * E.cyl_bessel_i 0 (g1 * rmD) * term2) / E.exp (-(g1 * rmD))
    ∧ integrand E g1 (g1 * rmD) (couplingPrefactor E M12 g1 g2 (g2 * rmD) (g1 * rmD) terms)
        xwD ywD i j a
      = E.cyl_bessel_k 0 (g1 * d)
        + Acup / (M12 * g1 * E.cyl_bessel_i 1 (g1 * rmD) * term1
            - g2 * E.cyl_bessel_i 0 (g1 * rmD) * term2) * E.cyl_bessel_i 0 (g1 * d) :=
  ⟨fun htype hguard => closed_term_unscaled E hadd hne g2 rmD reD type htype hre hrm hguard,
    fun htype hguard => constP_term_unscaled E hadd hne g2 rmD reD type htype hre hrm hguard,
    kernel_unscaled E hadd hne M12 g1 g2 rmD terms xwD ywD i j a d term1 term2 Acup hterm1
      hterm2 hAcup hd hg1 hgd hexp hfloor⟩

/-- Witness of C22 over the reals, with the real exponential, `K_v = 1` and `I_v = exp` as
stand-ins for the Bessel functions: Model_3, `M12 = 3`, `g1 = g2 = 1`, `rmD = 1`, `reD = 2`,
one fracture at the origin and the kernel at `a = 1` (distance `d = 1`). -/
theorem C22_witness :
    ∃ E : MathEnv ℝ, E.exp = Real.exp
      ∧ (∀ x y : ℝ, E.exp (x + y) = E.exp x * E.exp y) ∧ (∀ x : ℝ, E.exp x ≠ 0)
      ∧ (1 : ℝ) = E.sqrt (E.pow (([0] : List ℝ).getD 0 0 - ([0] : List ℝ).getD 0 0 - 1) 2
          + E.pow (([0] : List ℝ).getD 0 0 - ([0] : List ℝ).getD 0 0) 2)
      ∧ scaled_besseli E 1 (1 * 2) > 1e-100
      ∧ ¬ |3 * 1 * scaled_besseli E 1 (1 * 1) * (0 + E.cyl_bessel_k 0 (1 * 1))
          - 1 * scaled_besseli E 0 (1 * 1) * (0 - E.cyl_bessel_k 1 (1 * 1))| < 1e-100
      ∧ outerBoundaryTerms E 1 (1 * 1) 2 ModelType.Model_3
          = (E.cyl_bessel_k 1 (1 * 2) / E.cyl_bessel_i 1 (1 * 2) * E.cyl_bessel_i 0 (1 * 1),
              E.cyl_bessel_k 1 (1 * 2) / E.cyl_bessel_i 1 (1 * 2) * E.cyl_bessel_i 1 (1 * 1))
      ∧ integrand E 1 (1 * 1) (couplingPrefactor E 3 1 1 (1 * 1) (1 * 1) (0, 0)) [0] [0] 0 0 1
          = E.cyl_bessel_k 0 (1 * 1)
            + (3 * 1 * E.cyl_bessel_k 1 (1 * 1) * (0 + E.cyl_bessel_k 0 (1 * 1))
                + 1 * E.cyl_bessel_k 0 (1 * 1) * (0 - E.cyl_bessel_k 1 (1 * 1)))
              / (3 * 1 * E.cyl_bessel_i 1 (1 * 1) * (0 + E.cyl_bessel_k 0 (1 * 1))
                - 1 * E.cyl_bessel_i 0 (1 * 1) * (0 - E.cyl_bessel_k 1 (1 * 1)))
              * E.cyl_bessel_i 0 (1 * 1) := by
  have hs : ∀ (v : Int) (x : ℝ), 0 ≤ x → x ≤ 600 →
      scaled_besseli (⟨fun b e => b ^ e, Real.log, Real.exp, Real.sqrt, fun _ _ => 1,
        fun _ x => Real.exp x, fun _ _ b => b, fun t _ _ => t⟩ : MathEnv ℝ) v x = 1 := by
    intro v x h0 h1
    rw [scaled_besseli_small _ v x h0 h1]
    show Real.exp x * Real.exp (-x) = 1
    rw [← Real.exp_add, add_neg_cancel, Real.exp_zero]
  have hd : (1 : ℝ) = (⟨fun b e => b ^ e, Real.log, Real.exp, Real.sqrt, fun _ _ => 1,
        fun _ x => Real.exp x, fun _ _ b => b, fun t _ _ => t⟩ : MathEnv ℝ).sqrt
      ((⟨fun b e => b ^ e, Real.log, Real.exp, Real.sqrt, fun _ _ => 1,
        fun _ x => Real.exp x, fun _ _ b => b, fun t _ _ => t⟩ : MathEnv ℝ).pow
          (([0] : List ℝ).getD 0 0 - ([0] : List ℝ).getD 0 0 - 1) 2
        + (⟨fun b e => b ^ e, Real.log, Real.exp, Real.sqrt, fun _ _ => 1,
        fun _ x => Real.exp x, fun _ _ b => b, fun t _ _ => t⟩ : MathEnv ℝ).pow
          (([0] : List ℝ).getD 0 0 - ([0] : List ℝ).getD 0 0) 2) := by
    show (1 : ℝ) = Real.sqrt ((([0] : List ℝ).getD 0 0 - ([0] : List ℝ).getD 0 0 - 1) ^ (2 : ℝ)
      + (([0] : List ℝ).getD 0 0 - ([0] : List ℝ).getD 0 0) ^ (2 : ℝ))
    rw [Real.rpow_two, Real.rpow_two]
    simp
  have hguard : scaled_besseli (⟨fun b e => b ^ e, Real.log, Real.exp, Real.sqrt, fun _ _ => 1,
        fun _ x => Real.exp x, fun _ _ b => b, fun t _ _ => t⟩ : MathEnv ℝ) 1 (1 * 2)
      > 1e-100 := by
    rw [hs 1 _ (by norm_num) (by norm_num)]
    norm_num
  have hfloor : ¬ |3 * 1 * scaled_besseli (⟨fun b e => b ^ e, Real.log, Real.exp, Real.sqrt,
        fun _ _ => 1, fun _ x => Real.exp x, fun _ _ b => b, fun t _ _ => t⟩ : MathEnv ℝ) 1
        (1 * 1) * (0 + (1 : ℝ))
      - 1 * scaled_besseli (⟨fun b e => b ^ e, Real.log, Real.exp, Real.sqrt,
        fun _ _ => 1, fun _ x => Real.exp x, fun _ _ b => b, fun t _ _ => t⟩ : MathEnv ℝ) 0
        (1 * 1) * (0 - (1 : ℝ))| < 1e-100 := by
    rw [hs 1 _ (by norm_num) (by norm_num), hs 0 _ (by norm_num) (by norm_num)]
    norm_num [abs_of_pos]
  have key := C22_scaled_consistency (⟨fun b e => b ^ e, Real.log, Real.exp, Real.sqrt,
      fun _ _ => 1, fun _ x => Real.exp x, fun _ _ b => b, fun t _ _ => t⟩ : MathEnv ℝ)
    Real.exp_add Real.exp_ne_zero 3 1 1 1 2 ModelType.Model_3 (0, 0) [0] [0] 0 0 1 1 _ _ _
    rfl rfl rfl hd (by norm_num) (by norm_num) (by norm_num) (by norm_num) (by norm_num) hfloor
  exact ⟨_, rfl, Real.exp_add, Real.exp_ne_zero, hd, hguard, hfloor,
    key.1 (Or.inl rfl) hguard, key.2.2.2⟩

/-- C23 (as stated, refuted): on the constant `1` over `[0, 1]` the rule `gauss15` returns
`0.999999`, not `1`; the weights `W[0] + 2*(W[1]+...+W[7])` of its table sum to `1.999998`,
not `2`. -/
theorem C23_counterexample :
    gauss15 (fun _ => (1 : ℚ)) 0 1 = 999999 / 1000000
    ∧ gauss15 (fun _ => (1 : ℚ)) 0 1 ≠ 1 * (1 - 0)
    ∧ (gaussW : List ℚ).getD 0 0
        + 2 * ((gaussW : List ℚ).getD 1 0 + (gaussW : List ℚ).getD 2 0
          + (gaussW : List ℚ).getD 3 0 + (gaussW : List ℚ).getD 4 0
          + (gaussW : List ℚ).getD 5 0 + (gaussW : List ℚ).getD 6 0
          + (gaussW : List ℚ).getD 7 0) ≠ 2 := by
  have h : gauss15 (fun _ => (1 : ℚ)) 0 1 = 999999 / 1000000 := by
    rw [gauss15_const]
    norm_num
  refine ⟨h, ?_, ?_⟩
  · rw [h]
    norm_num
  · rw [gaussW_sum]
    norm_num

/-- C23 (amended): with its six-decimal table the rule `gauss15` integrates every constant
up to the factor `0.999999`: `gauss15(x -> c, a, b) = 0.999999*c*(b - a)` for every constant
`c` and interval `[a, b]`; its weights `W[0] + 2*(W[1]+...+W[7])` sum to `1.999998`, and the
error on a constant is `1e-6` times the exact integral in magnitude. -/
theorem C23_gauss15_constants (c a b : α) :
    gauss15 (fun _ => c) a b = 0.999999 * c * (b - a)
    ∧ (gaussW : List α).getD 0 0
        + 2 * ((gaussW : List α).getD 1 0 + (gaussW : List α).getD 2 0
          + (gaussW : List α).getD 3 0 + (gaussW : List α).getD 4 0
          + (gaussW : List α).getD 5 0 + (gaussW : List α).getD 6 0
          + (gaussW : List α).getD 7 0) = 1.999998
    ∧ |gauss15 (fun _ => c) a b - c * (b - a)| = 1e-6 * |c * (b - a)| := by
  refine ⟨gauss15_const c a b, gaussW_sum, ?_⟩
  rw [gauss15_const]
  have e : (0.999999 : α) * c * (b - a) - c * (b - a) = -(1e-6 * (c * (b - a))) := by ring
  rw [e, abs_neg, abs_mul, abs_of_pos (by norm_num : (0 : α) < 1e-6)]

/-- C24: for the constant-storage variants Model_2, Model_4 and Model_6, every `z` and any
two parameter sets that differ only in the values of `cD` and `S`, `flaplace_composite`
returns the same value, and so do the inversion `calculatePDandDeriv` and the curve of
`calculateTheoreticalCurve` computed from it. -/
theorem C24_hidden_storage [FloorRing α] (E : MathEnv α) (z : α) (p1 p2 : Params α)
    (type : ModelType) (tD providedTime : List α) (highPrecision : Bool)
    (htype : type = ModelType.Model_2 ∨ type = ModelType.Model_4 ∨ type = ModelType.Model_6)
    (h : ∀ key, key ≠ "S" → key ≠ "cD" → p1.lookup key = p2.lookup key) :
    flaplace_composite E z p1 type = flaplace_composite E z p2 type
    ∧ calculatePDandDeriv E.pow E.log E.calculateBourdetDerivative tD p1
          (fun z p => flaplace_composite E z p type) highPrecision
        = calculatePDandDeriv E.pow E.log E.calculateBourdetDerivative tD p2
          (fun z p => flaplace_composite E z p type) highPrecision
    ∧ calculateTheoreticalCurve E type p1 providedTime highPrecision
        = calculateTheoreticalCurve E type p2 providedTime highPrecision :=
  ⟨flaplace_composite_hidden E z p1 p2 type htype h,
    curve_hidden E p1 p2 type htype h tD highPrecision,
    theoreticalCurve_hidden E p1 p2 type htype h providedTime highPrecision⟩

/-- Witness of C24 over the reals: Model_4 at `z = 1`, two parameter sets with
`cD = 0.01, S = 0.5` and `cD = 7, S = -2` over the same other parameters (`kf = 1e-3`,
`km = 1e-4`, `LfD = 0.1`, `omega2 = 0.08`, `lambda1 = 0.001`), with a solver that returns
the right-hand side: both parameter sets give the finite value `1`. -/
theorem C24_witness :
    ∃ E : MathEnv ℝ, E.exp = Real.exp ∧ E.sqrt = Real.sqrt
      ∧ (∀ key, key ≠ "S" → key ≠ "cD" →
          ([("cD", 0.01), ("S", 0.5), ("kf", 1e-3), ("km", 1e-4), ("LfD", 0.1),
              ("omega2", 0.08), ("lambda1", 0.001)] : Params ℝ).lookup key
            = ([("cD", 7), ("S", -2), ("kf", 1e-3), ("km", 1e-4), ("LfD", 0.1),
              ("omega2", 0.08), ("lambda1", 0.001)] : Params ℝ).lookup key)
      ∧ flaplace_composite E 1 [("cD", 0.01), ("S", 0.5), ("kf", 1e-3), ("km", 1e-4),
            ("LfD", 0.1), ("omega2", 0.08), ("lambda1", 0.001)] ModelType.Model_4 = some 1
      ∧ flaplace_composite E 1 [("cD", 7), ("S", -2), ("kf", 1e-3), ("km", 1e-4),
            ("LfD", 0.1), ("omega2", 0.08), ("lambda1", 0.001)] ModelType.Model_4 = some 1 := by
  have hl : ∀ key, key ≠ "S" → key ≠ "cD" →
      ([("cD", 0.01), ("S", 0.5), ("kf", 1e-3), ("km", 1e-4), ("LfD", 0.1),
          ("omega2", 0.08), ("lambda1", 0.001)] : Params ℝ).lookup key
        = ([("cD", 7), ("S", -2), ("kf", 1e-3), ("km", 1e-4), ("LfD", 0.1),
          ("omega2", 0.08), ("lambda1", 0.001)] : Params ℝ).lookup key := by
    intro key h1 h2
    rw [lookup_cons_ne _ _ _ _ h2, lookup_cons_ne _ _ _ _ h1, lookup_cons_ne _ _ _ _ h2,
      lookup_cons_ne _ _ _ _ h1]
  have hpre : flaplace_pre (⟨fun b e => b ^ e, Real.log, Real.exp, Real.sqrt, fun _ _ => 0,
      fun _ _ => 0, fun _ _ b => b, fun _ p _ => p⟩ : MathEnv ℝ) 1
      [("cD", 0.01), ("S", 0.5), ("kf", 1e-3), ("km", 1e-4), ("LfD", 0.1), ("omega2", 0.08),
        ("lambda1", 0.001)] ModelType.Model_4 = some 1 := by
    apply flaplace_pre_rhs_solver _ (fun _ _ _ => rfl)
    · simp [value_cons]
      norm_num
    · simp [value_cons]
      norm_num
    · simp [value_cons]
      norm_num
  have h1 : flaplace_composite (⟨fun b e => b ^ e, Real.log, Real.exp, Real.sqrt,
      fun _ _ => 0, fun _ _ => 0, fun _ _ b => b, fun _ p _ => p⟩ : MathEnv ℝ) 1
      [("cD", 0.01), ("S", 0.5), ("kf", 1e-3), ("km", 1e-4), ("LfD", 0.1), ("omega2", 0.08),
        ("lambda1", 0.001)] ModelType.Model_4 = some 1 := by
    unfold flaplace_composite
    rw [hpre, Option.some_bind]
    exact storageSkin_constant _ _ _ _ (Or.inr (Or.inl rfl))
  have key := (C24_hidden_storage (⟨fun b e => b ^ e, Real.log, Real.exp, Real.sqrt,
      fun _ _ => 0, fun _ _ => 0, fun _ _ b => b, fun _ p _ => p⟩ : MathEnv ℝ) 1 _ _
    ModelType.Model_4 [] [] false (Or.inr (Or.inl rfl)) hl).1
  exact ⟨_, rfl, rfl, hl, h1, key.symm.trans h1⟩

/-- C25: for each `N` in `{4, 6, 8, 10}` the sum over `m = 1..N` of
`stefestCoefficient(m, N)/m` is `1`, and the inversion of `calculatePDandDeriv` applied to
the Laplace function `F(z) = c/z`, with `gamaD = 0` and that term count, returns exactly `c`
at every time `t > 1e-12` (and `0` at the other times).  `std::pow` is exact at whole
exponents and `ln 2` is non-zero. -/
theorem C25_constants_reproduced [FloorRing α] (pow : α → α → α)
    (hpow : ∀ (b : α) (n : ℕ), pow b (n : α) = b ^ n) (log : α → α) (hlog : log 2 ≠ 0)
    (bourdet : List α → List α → α → List α) (params : Params α) (highPrecision : Bool)
    (N : Int) (hN : N = 4 ∨ N = 6 ∨ N = 8 ∨ N = 10)
    (hparams : stehfestN params highPrecision = N) (hg : value params "gamaD" 0 = 0)
    (c : α) (tD : List α) :
    ∑ m in Finset.Icc (1 : Int) N, stefestCoefficient pow m N / (m : α) = 1
    ∧ (calculatePDandDeriv pow log bourdet tD params (fun z _ => fdiv c z) highPrecision).1
        = tD.map (fun t => if t ≤ 1e-12 then 0 else c) := by
  refine ⟨stehfest_weights_sum pow hpow N (Or.inr hN), ?_⟩
  simp only [calculatePDandDeriv, hparams, hg]
  apply List.map_congr_left
  intro t _
  split_ifs with ht
  · unfold inversionPoint
    rw [if_pos ht]
  · exact inversion_of_constant pow hpow log hlog params N (Or.inr hN) 0 (by norm_num) c t
      (not_le.mp ht)

/-- Witness of C25 over the reals: `N = 8` supplied in high-precision mode, `c = 3`, at the
times `0`, `1` and `10`, with the real power and logarithm. -/
theorem C25_witness :
    (∀ (b : ℝ) (n : ℕ), (fun x y : ℝ => x ^ y) b (n : ℝ) = b ^ n) ∧ Real.log 2 ≠ 0
    ∧ stehfestN ([("N", 8)] : Params ℝ) true = 8
    ∧ value ([("N", 8)] : Params ℝ) "gamaD" 0 = 0
    ∧ ∑ m in Finset.Icc (1 : Int) 8, stefestCoefficient (fun x y : ℝ => x ^ y) m 8 / (m : ℝ) = 1
    ∧ (calculatePDandDeriv (fun x y : ℝ => x ^ y) Real.log (fun _ p _ => p) [0, 1, 10]
          [("N", 8)] (fun z _ => fdiv 3 z) true).1
        = ([0, 1, 10] : List ℝ).map (fun t => if t ≤ 1e-12 then 0 else 3) := by
  have hp : ∀ (b : ℝ) (n : ℕ), (fun x y : ℝ => x ^ y) b (n : ℝ) = b ^ n :=
    fun b n => Real.rpow_natCast b n
  have hl : Real.log 2 ≠ 0 := (Real.log_pos (by norm_num)).ne'
  have hn : stehfestN ([("N", 8)] : Params ℝ) true = 8 := by
    have := stehfestN_supplied (α := ℝ) 8 (by decide) []
    simpa using this
  have hg : value ([("N", 8)] : Params ℝ) "gamaD" 0 = 0 := by
    simp [value, List.lookup]
  have key := C25_constants_reproduced (fun x y : ℝ => x ^ y) hp Real.log hl (fun _ p _ => p)
    [("N", 8)] true 8 (Or.inr (Or.inr (Or.inl rfl))) hn hg 3 [0, 1, 10]
  exact ⟨hp, hl, hn, hg, key.1, key.2⟩

/-- C26: single-fracture closed form.  For `nf = 1`, every `z > 0` and `M12`, `LfD`
non-zero, the 2x2 system of `PWD_composite` has determinant `z`, so it is non-singular, its
solution has flux `x_0 = 1/z` and pressure `x_1 = A(0,0)/z`, and the returned pressure is
`Q / (2*M12*LfD*z)`, where `Q = adaptiveGauss(kernel, -LfD, LfD, 1e-5, 0, 10)` is the
quadrature of the self-interaction kernel.  The solver returns a solution of every
non-singular system. -/
theorem C26_single_fracture (E : MathEnv α)
    (hsolve : ∀ (n : ℕ) (A : Matrix (Fin n) (Fin n) α) (b : Fin n → α), A.det ≠ 0 →
      A.mulVec (E.fullPivLuSolve n A b) = b)
    (z fs1 fs2 M12 LfD rmD reD : α) (xwD : List α) (type : ModelType)
    (hz : 0 < z) (hM : M12 ≠ 0) (hL : LfD ≠ 0) (Q : α)
    (hQ : Q = adaptiveGauss (integrand E (E.sqrt (z * fs1)) (E.sqrt (z * fs1) * rmD)
            (couplingPrefactor E M12 (E.sqrt (z * fs1)) (E.sqrt (z * fs2))
              (E.sqrt (z * fs2) * rmD) (E.sqrt (z * fs1) * rmD)
              (outerBoundaryTerms E (E.sqrt (z * fs2)) (E.sqrt (z * fs2) * rmD) reD type))
            xwD [0] 0 0) (-LfD) LfD 1e-5 0 10) :
    (PWD_matrix E z fs1 fs2 M12 LfD rmD reD 1 xwD type).det = z
    ∧ (PWD_matrix E z fs1 fs2 M12 LfD rmD reD 1 xwD type).det ≠ 0
    ∧ PWD_composite E z fs1 fs2 M12 LfD rmD reD 1 xwD type = some (Q / (2 * M12 * LfD * z))
    ∧ ∃ x : Fin 2 → α,
        (PWD_matrix E z fs1 fs2 M12 LfD rmD reD 1 xwD type).mulVec x = systemRhs 1
        ∧ x 0 = 1 / z
        ∧ x 1 = PWD_matrix E z fs1 fs2 M12 LfD rmD reD 1 xwD type (0 : Fin 2) (0 : Fin 2) / z
        ∧ PWD_composite E z fs1 fs2 M12 LfD rmD reD 1 xwD type = some (x 1) :=
  single_fracture E hsolve z fs1 fs2 M12 LfD rmD reD xwD type hz hM hL Q hQ

/-- Witness of C26 over the reals: one fracture at the origin, `z = 2`, `M12 = 3`,
`LfD = 1/2`, Model_5, the solver being the multiplication by the inverse matrix. -/
theorem C26_witness :
    ∃ E : MathEnv ℝ,
      (∀ (n : ℕ) (A : Matrix (Fin n) (Fin n) ℝ) (b : Fin n → ℝ), A.det ≠ 0 →
        A.mulVec (E.fullPivLuSolve n A b) = b)
      ∧ (0 : ℝ) < 2 ∧ (3 : ℝ) ≠ 0 ∧ (1 / 2 : ℝ) ≠ 0
      ∧ (PWD_matrix E 2 1 1 3 (1 / 2) 5 20 1 [0] ModelType.Model_5).det = 2
      ∧ PWD_composite E 2 1 1 3 (1 / 2) 5 20 1 [0] ModelType.Model_5
          = some (adaptiveGauss (integrand E (E.sqrt (2 * 1)) (E.sqrt (2 * 1) * 5)
              (couplingPrefactor E 3 (E.sqrt (2 * 1)) (E.sqrt (2 * 1))
                (E.sqrt (2 * 1) * 5) (E.sqrt (2 * 1) * 5)
                (outerBoundaryTerms E (E.sqrt (2 * 1)) (E.sqrt (2 * 1) * 5) 20
                  ModelType.Model_5))
              [0] [0] 0 0) (-(1 / 2)) (1 / 2) 1e-5 0 10 / (2 * 3 * (1 / 2) * 2)) := by
  have hs : ∀ (n : ℕ) (A : Matrix (Fin n) (Fin n) ℝ) (b : Fin n → ℝ), A.det ≠ 0 →
      A.mulVec ((⟨fun b e => b ^ e, Real.log, Real.exp, Real.sqrt, fun _ _ => 0, fun _ _ => 0,
        fun _ A b => A⁻¹.mulVec b, fun t _ _ => t⟩ : MathEnv ℝ).fullPivLuSolve n A b) = b := by
    intro n A b hA
    show A.mulVec (A⁻¹.mulVec b) = b
    rw [Matrix.mulVec_mulVec, Matrix.mul_nonsing_inv _ (isUnit_iff_ne_zero.mpr hA),
      Matrix.one_mulVec]
  have key := C26_single_fracture _ hs 2 1 1 3 (1 / 2) 5 20 [0] ModelType.Model_5
    (by norm_num) (by norm_num) (by norm_num) _ rfl
  exact ⟨_, hs, by norm_num, by norm_num, by norm_num, key.1, key.2.2.1⟩

/-- C27: symmetry of the fracture-interaction block, in exact arithmetic.  For every `z`,
every fracture count and all `i`, `j`, the entries assembled by `PWD_composite` satisfy
`A(i,j) = A(j,i)`: the kernel of the pair `(j, i)` is the mirror image of the kernel of
`(i, j)`, and `gauss15` and `adaptiveGauss` give the same value on a mirrored integrand over
the mirrored interval.  `std::pow(x, 2)` takes the same value at `x` and `-x`. -/
theorem C27_block_symmetry (E : MathEnv α) (hpow : ∀ x : α, E.pow (-x) 2 = E.pow x 2)
    (z fs1 fs2 M12 LfD rmD reD : α) (nf : Int) (xwD : List α) (type : ModelType) :
    (∀ i j : Fin nf.toNat,
      PWD_matrix E z fs1 fs2 M12 LfD rmD reD nf xwD type i.castSucc j.castSucc
        = PWD_matrix E z fs1 fs2 M12 LfD rmD reD nf xwD type j.castSucc i.castSucc)
    ∧ (∀ (gama1 gama2 arg_g2_rm arg_g1_rm : α) (terms : α × α) (i j : ℕ),
        PWD_entries E z M12 LfD gama1 gama2 arg_g2_rm arg_g1_rm nf xwD terms i j
          = PWD_entries E z M12 LfD gama1 gama2 arg_g2_rm arg_g1_rm nf xwD terms j i)
    ∧ (∀ (gama1 arg_g1_rm Ac_prefactor : α) (ywD : List α) (i j : ℕ) (a : α),
        integrand E gama1 arg_g1_rm Ac_prefactor xwD ywD j i a
          = integrand E gama1 arg_g1_rm Ac_prefactor xwD ywD i j (-a))
    ∧ (∀ (f : α → α) (a b : α), gauss15 (fun x => f (-x)) a b = gauss15 f (-b) (-a))
    ∧ (∀ (f : α → α) (a b eps : α) (depth maxDepth : Int),
        adaptiveGauss (fun x => f (-x)) a b eps depth maxDepth
          = adaptiveGauss f (-b) (-a) eps depth maxDepth) := by
  refine ⟨?_, ?_, ?_, gauss15_mirror, ?_⟩
  · intro i j
    have hi : (i.castSucc : Fin (nf.toNat + 1)).val < nf.toNat := i.isLt
    have hj : (j.castSucc : Fin (nf.toNat + 1)).val < nf.toNat := j.isLt
    unfold PWD_matrix systemMatrix
    simp only [if_pos hi, if_pos hj]
    rw [PWD_entries_symm E hpow]
  · intro gama1 gama2 arg_g2_rm arg_g1_rm terms i j
    exact PWD_entries_symm E hpow z M12 LfD gama1 gama2 arg_g2_rm arg_g1_rm nf xwD terms i j
  · intro gama1 arg_g1_rm Ac_prefactor ywD i j a
    exact congrFun (integrand_swap E hpow gama1 arg_g1_rm Ac_prefactor xwD ywD i j) a
  · intro f a b eps depth maxDepth
    exact adaptiveGauss_mirror f maxDepth (maxDepth - depth).toNat a b eps depth (le_refl _)

/-- Witness of C27 over the reals, with the real power function: three fractures at `-0.9`,
`0` and `0.9`, Model_3; the entries `(0, 2)` and `(2, 0)` of the block are equal. -/
theorem C27_witness :
    ∃ E : MathEnv ℝ, E.pow = (fun b e => b ^ e) ∧ (∀ x : ℝ, E.pow (-x) 2 = E.pow x 2)
      ∧ PWD_matrix E 2 1 1 3 (1 / 2) 5 20 3 [-0.9, 0, 0.9] ModelType.Model_3
          (Fin.castSucc (0 : Fin 3)) (Fin.castSucc (2 : Fin 3))
        = PWD_matrix E 2 1 1 3 (1 / 2) 5 20 3 [-0.9, 0, 0.9] ModelType.Model_3
          (Fin.castSucc (2 : Fin 3)) (Fin.castSucc (0 : Fin 3)) := by
  have hp : ∀ x : ℝ, (⟨fun b e => b ^ e, Real.log, Real.exp, Real.sqrt, fun _ _ => 0,
      fun _ _ => 0, fun _ _ b => b, fun t _ _ => t⟩ : MathEnv ℝ).pow (-x) 2
      = (⟨fun b e => b ^ e, Real.log, Real.exp, Real.sqrt, fun _ _ => 0,
      fun _ _ => 0, fun _ _ b => b, fun t _ _ => t⟩ : MathEnv ℝ).pow x 2 := by
    intro x
    show (-x) ^ (2 : ℝ) = x ^ (2 : ℝ)
    rw [Real.rpow_two, Real.rpow_two, neg_sq]
  exact ⟨_, rfl, hp,
    (C27_block_symmetry _ hp 2 1 1 3 (1 / 2) 5 20 3 [-0.9, 0, 0.9] ModelType.Model_3).1
      (0 : Fin 3) (2 : Fin 3)⟩

end Claims

end WT
